import Mathlib

/-!
# Grip lifecycle of `UGripMotionControllerComponent`

A shallow embedding of the grip / drop / tick engine of
`GripMotionControllerComponent.cpp`.

* Object pointers are natural numbers, a null pointer is `none`.
* The scene (the gripped actors and components, the answers of their
  `IVRGripInterface`, their physics flags) is a `World`; the code reads it and
  writes the flags it sets itself.
* The controller is a `State`: the two grip arrays, the physics handle table,
  the grip ID incrementer and the post-teleport flag.
* Helpers that are declared in the header and not in the `.cpp` (`IsServer`,
  `HasGripAuthority`, `HasGripMovementAuthority`, `GetNextGripID`,
  `HandleGripReplication`, ...) are fields of `Env`.
* Interface notifications, broadcasts, RPCs and transform writes are appended
  to `State.Trace`.
-/

namespace VRGrip

/-- Identity of a `UObject`; a null pointer is `none : Option UObject`. -/
abbrev UObject := Nat

/-- Modelled from the spec: INVALID_VRGRIP_ID, the sentinel grip ID ("0/sentinel
means invalid"); the constant is declared in the header. -/
def INVALID_VRGRIP_ID : Nat := 0

inductive EGripCollisionType where
  | InteractiveCollisionWithPhysics
  | InteractiveCollisionWithSweep
  | InteractiveHybridCollisionWithPhysics
  | InteractiveHybridCollisionWithSweep
  | SweepWithPhysics
  | PhysicsOnly
  | ManipulationGrip
  | ManipulationGripWithWristTwist
  | AttachmentGrip
  | CustomGrip
  | EventsOnly
  deriving DecidableEq, Repr

inductive EGripLateUpdateSettings where
  | LateUpdatesAlwaysOn
  | LateUpdatesAlwaysOff
  | NotWhenColliding
  | NotWhenDoubleGripping
  | NotWhenCollidingOrDoubleGripping
  deriving DecidableEq, Repr

inductive EGripMovementReplicationSettings where
  | KeepOriginalMovement
  | ForceServerSideMovement
  | ForceClientSideMovement
  | ClientSide_Authoritive
  | ClientSide_Authoritive_NoRep
  deriving DecidableEq, Repr

inductive EGripTargetType where
  | ActorGrip
  | ComponentGrip
  deriving DecidableEq, Repr

inductive EGripInterfaceTeleportBehavior where
  | TeleportAllComponents
  | DeltaTeleportation
  | OnlyTeleportRootComponent
  | DropOnTeleport
  | DontTeleport
  deriving DecidableEq, Repr

inductive EGSTransformOverrideType where
  | None
  | ModifiesWorldTransform
  | OverridesWorldTransform
  deriving DecidableEq, Repr

/-- The engine net modes, in the order of the engine enum (`NM_Client` is the
largest, so `GetNetMode() < NM_Client` means "not a network client"). -/
inductive ENetMode where
  | NM_Standalone
  | NM_DedicatedServer
  | NM_ListenServer
  | NM_Client
  deriving DecidableEq, Repr

def ENetMode.toNat : ENetMode → Nat
  | .NM_Standalone => 0
  | .NM_DedicatedServer => 1
  | .NM_ListenServer => 2
  | .NM_Client => 3

/-- Kind of a `UObject`, deciding `Cast<AActor>` and `Cast<UPrimitiveComponent>`. -/
inductive EObjectKind where
  | Actor
  | PrimitiveComponent
  | Other
  deriving DecidableEq, Repr

/-- Engine `FVector`, with exact integer coordinates in place of floats. -/
structure FVector where
  X : Int
  Y : Int
  Z : Int
  deriving DecidableEq, Repr

def FVector.add (A B : FVector) : FVector := ⟨A.X + B.X, A.Y + B.Y, A.Z + B.Z⟩

def FVector.sub (A B : FVector) : FVector := ⟨A.X - B.X, A.Y - B.Y, A.Z - B.Z⟩

def FVector.neg (A : FVector) : FVector := ⟨-A.X, -A.Y, -A.Z⟩

def FVector.scale (s : Int) (A : FVector) : FVector := ⟨s * A.X, s * A.Y, s * A.Z⟩

/-- Engine `A ^ B`, the cross product. -/
def FVector.cross (A B : FVector) : FVector :=
  ⟨A.Y * B.Z - A.Z * B.Y, A.Z * B.X - A.X * B.Z, A.X * B.Y - A.Y * B.X⟩

/-- Engine `FQuat`, with exact integer components in place of floats. -/
structure FQuat where
  X : Int
  Y : Int
  Z : Int
  W : Int
  deriving DecidableEq, Repr

def FQuat.Identity : FQuat := ⟨0, 0, 0, 1⟩

/-- Engine `FQuat::operator*`, the quaternion product. -/
def FQuat.mul (A B : FQuat) : FQuat :=
  ⟨A.W * B.X + A.X * B.W + A.Y * B.Z - A.Z * B.Y,
   A.W * B.Y - A.X * B.Z + A.Y * B.W + A.Z * B.X,
   A.W * B.Z + A.X * B.Y - A.Y * B.X + A.Z * B.W,
   A.W * B.W - A.X * B.X - A.Y * B.Y - A.Z * B.Z⟩

/-- Engine `FQuat::Inverse`: the conjugate, which is the inverse of a
normalized quaternion. -/
def FQuat.Inverse (A : FQuat) : FQuat := ⟨-A.X, -A.Y, -A.Z, A.W⟩

/-- Engine `FQuat::RotateVector`: with `Q` the vector part and `T = 2 * (Q ^ V)`,
the result is `V + W * T + Q ^ T`. -/
def FQuat.RotateVector (A : FQuat) (V : FVector) : FVector :=
  let Q : FVector := ⟨A.X, A.Y, A.Z⟩
  let T : FVector := (Q.cross V).scale 2
  (V.add (T.scale A.W)).add (Q.cross T)

/-- The engine transform, carried as a rotation and a translation with exact
integer arithmetic in place of floats (the scale is not carried: it is taken
as one). -/
structure FTransform where
  Rotation : FQuat
  Translation : FVector
  deriving DecidableEq, Repr

def FTransform.Identity : FTransform := ⟨FQuat.Identity, ⟨0, 0, 0⟩⟩

/-- Engine `FTransform(Translation)`: the translation by a vector, without
rotation. -/
def FTransform.ofTranslation (X Y Z : Int) : FTransform := ⟨FQuat.Identity, ⟨X, Y, Z⟩⟩

/-- Composition `A * B` of the engine (`FTransform::Multiply`): first `A`, then
`B`. The rotation is `B.Rotation * A.Rotation`, the translation is the one of
`A` rotated by `B` and moved by the one of `B`. -/
def FTransform.mul (A B : FTransform) : FTransform :=
  ⟨B.Rotation.mul A.Rotation, (B.Rotation.RotateVector A.Translation).add B.Translation⟩

/-- Engine `FTransform::Inverse`. -/
def FTransform.Inverse (A : FTransform) : FTransform :=
  ⟨A.Rotation.Inverse, A.Rotation.Inverse.RotateVector A.Translation.neg⟩

/-- Engine `A.GetRelativeTransform(Other)`: `A` expressed in the space of
`Other`. The rotation is `Other.Rotation.Inverse() * A.Rotation`, the
translation is `A.Translation - Other.Translation` rotated by the inverse
rotation of `Other`. -/
def FTransform.GetRelativeTransform (A Other : FTransform) : FTransform :=
  ⟨Other.Rotation.Inverse.mul A.Rotation,
   Other.Rotation.Inverse.RotateVector (A.Translation.sub Other.Translation)⟩

/-- The centre-of-mass policies `SetUpPhysicsHandle` names. -/
inductive EPhysicsGripCOMType where
  | COM_Default
  | COM_AtPivot
  | COM_SetAndGripAt
  | COM_GripAtControllerLoc
  deriving DecidableEq, Repr

/-- The part of `FBPAdvGripSettings` the grip and drop paths read. -/
structure FBPAdvGripSettings where
  PhysicsGripLocationSettings : EPhysicsGripCOMType
  bSetOwnerOnGrip : Bool
  bUsePhysicsSettings : Bool
  bTurnOffGravityDuringGrip : Bool
  bUseCustomAngularValues : Bool
  AngularStiffness : ℚ
  AngularDamping : ℚ
  deriving DecidableEq, Repr

def FBPAdvGripSettings.Default : FBPAdvGripSettings :=
  { PhysicsGripLocationSettings := .COM_Default, bSetOwnerOnGrip := true, bUsePhysicsSettings := false, bTurnOffGravityDuringGrip := false,
    bUseCustomAngularValues := false, AngularStiffness := 0, AngularDamping := 0 }

/-- The secondary grip styles `ESecondaryGripType` the `.cpp` names; the enum is
declared in the header, its other values are `Other n`. -/
inductive ESecondaryGripType where
  | SG_None
  | SG_FreeWithScaling_Retain
  | SG_SlotOnlyWithScaling_Retain
  | SG_Free_Retain
  | SG_SlotOnly_Retain
  | SG_ScalingOnly
  | Other (n : Nat)
  deriving DecidableEq, Repr

/-- The blend states `EGripLerpState` the `.cpp` names; the enum is declared in
the header, its other values are `Other n`. -/
inductive EGripLerpState where
  | StartLerp
  | EndLerp
  | NotLerping
  | Other (n : Nat)
  deriving DecidableEq, Repr

/-- The part of `FBPSecondaryGripInfo` the `.cpp` reads and writes. -/
structure FBPSecondaryGripInfo where
  bHasSecondaryAttachment : Bool
  SecondaryAttachment : Option UObject
  SecondaryRelativeTransform : FTransform
  bIsSlotGrip : Bool
  SecondaryGripDistance : ℚ
  LerpToRate : ℚ
  GripLerpState : EGripLerpState
  curLerp : ℚ
  deriving DecidableEq, Repr

/-- Modelled from the spec: the default-constructed FBPSecondaryGripInfo (its
constructor is in the header): no attachment, no blend. -/
def FBPSecondaryGripInfo.Default : FBPSecondaryGripInfo :=
  { bHasSecondaryAttachment := false, SecondaryAttachment := none,
    SecondaryRelativeTransform := FTransform.Identity, bIsSlotGrip := false,
    SecondaryGripDistance := 0, LerpToRate := 0, GripLerpState := .NotLerping, curLerp := 0 }

/-- The grip record `FBPActorGripInformation`. -/
structure FBPActorGripInformation where
  GripID : Nat
  GrippedObject : Option UObject
  GripTargetType : EGripTargetType
  GripCollisionType : EGripCollisionType
  GripLateUpdateSetting : EGripLateUpdateSettings
  GripMovementReplicationSetting : EGripMovementReplicationSettings
  bOriginalReplicatesMovement : Bool
  bOriginalGravity : Bool
  Stiffness : ℚ
  Damping : ℚ
  AdvancedGripSettings : FBPAdvGripSettings
  bWasInitiallyRepped : Bool
  bIsSlotGrip : Bool
  GrippedBoneName : Option Nat
  RelativeTransform : FTransform
  bIsPaused : Bool
  bColliding : Bool
  bIsLocked : Bool
  bSkipNextConstraintLengthCheck : Bool
  GripDistance : Int
  LastWorldTransform : FTransform
  SecondaryGripInfo : FBPSecondaryGripInfo
  deriving DecidableEq, Repr

/-- Modelled from the spec: the default-constructed FBPActorGripInformation (its
constructor is in the header): invalid ID, no target, flags clear, identity
transforms. `GripActor` / `GripComponent` start from it and fill it in. -/
def FBPActorGripInformation.Default : FBPActorGripInformation :=
  { GripID := INVALID_VRGRIP_ID, GrippedObject := none,
    GripTargetType := .ActorGrip,
    GripCollisionType := .InteractiveCollisionWithPhysics,
    GripLateUpdateSetting := .LateUpdatesAlwaysOff,
    GripMovementReplicationSetting := .ForceClientSideMovement,
    bOriginalReplicatesMovement := false, bOriginalGravity := false,
    Stiffness := 0, Damping := 0,
    AdvancedGripSettings := FBPAdvGripSettings.Default,
    bWasInitiallyRepped := false, bIsSlotGrip := false, GrippedBoneName := none,
    RelativeTransform := FTransform.Identity,
    bIsPaused := false, bColliding := false, bIsLocked := false,
    bSkipNextConstraintLengthCheck := false, GripDistance := 0,
    LastWorldTransform := FTransform.Identity,
    SecondaryGripInfo := FBPSecondaryGripInfo.Default }

/-- The physics handle record `FBPActorPhysicsHandleInformation`. -/
structure FBPActorPhysicsHandleInformation where
  HandledObject : Option UObject
  GripID : Nat
  bKinActorValid : Bool
  bHandleDataValid : Bool
  bSetCOM : Bool
  LinStiffness : ℚ
  LinDamping : ℚ
  TwistStiffness : ℚ
  TwistDamping : ℚ
  SlerpStiffness : ℚ
  SlerpDamping : ℚ
  LastPhysicsTransform : FTransform
  deriving DecidableEq, Repr

/-- A grip script (`UVRGripScriptBase`) as the tick sees it: the answers of its
queries during one tick. `GetWorldTransform` is `CallCorrect_GetWorldTransform`:
it maps the parent transform, the grip and the transform computed so far to the
validity flag it returns and the transform it writes. -/
structure UVRGripScriptBase where
  IsScriptActive : Bool
  WorldTransformOverrideType : EGSTransformOverrideType
  GetWorldTransform : FTransform → FBPActorGripInformation → FTransform → Bool × FTransform
  Wants_ToForceDrop : Bool
  Wants_DenyAutoDrop : Bool

/-- One scene object as the controller sees it: its class, its relations, the
answers of its `IVRGripInterface` and its physics flags. -/
structure UObjectInfo where
  Kind : EObjectKind
  bPendingKill : Bool
  /-- For an actor: `Cast<UPrimitiveComponent>(GetRootComponent())`. -/
  RootComponent : Option UObject
  /-- For a component: `GetOwner()`. -/
  Owner : Option UObject
  /-- Whether `Mobility == EComponentMobility::Movable`. -/
  bMovable : Bool
  bImplementsGripInterface : Bool
  DenyGripping : Bool
  IsHeld : Bool
  /-- The `HoldingControllers` of `IsHeld`: holding controller (null is `none`) and grip ID. -/
  HoldingControllers : List (Option Nat × Nat)
  AllowsMultipleGrips : Bool
  AdvancedGripSettings : FBPAdvGripSettings
  SimulateOnDrop : Bool
  GripBreakDistance : Int
  TeleportBehavior : EGripInterfaceTeleportBehavior
  /-- The array of `GetGripScripts`; a null entry is `none`. -/
  GripScripts : List (Option UVRGripScriptBase)
  /-- The answer of `SecondaryGripType`. -/
  SecondaryGripType : ESecondaryGripType
  bReplicateMovement : Bool
  bGravityEnabled : Bool
  bSimulatingPhysics : Bool
  /-- Actor flag read by `GetIsReplicated()`. -/
  bReplicates : Bool
  bAttachedToController : Bool
  ComponentTransform : FTransform
  RelativeTransform : FTransform
  /-- Whether `GetBodyInstance(...)` is non-null, valid and has a valid actor handle. -/
  bValidBodyInstance : Bool
  /-- Whether `FPhysicsInterface::CreateActor` returns a valid kinematic actor. -/
  bCreateActorSucceeds : Bool
  /-- Whether `FPhysicsInterface::CreateConstraint` returns a valid constraint. -/
  bCreateConstraintSucceeds : Bool
  /-- Socket name to socket transform in component space (`DoesSocketExist`,
  `GetSocketTransform`). -/
  Sockets : Nat → Option FTransform
  /-- Result of `ComponentSweepMulti` / `CheckComponentWithSweep` towards a transform. -/
  SweepHit : FTransform → Bool
  /-- The `OutHit.bBlockingHit` of a sweeping `SetWorldTransform`. -/
  SweepBlockingHit : FTransform → Bool
  /-- Size of the vector `GetPhysicsJointLength` returns. -/
  JointLength : Int
  /-- Size of `WorldTransform.GetLocation() - root->GetComponentLocation()`. -/
  DistanceTo : FTransform → Int

/-- The scene. -/
structure World where
  Objects : UObject → UObjectInfo
  /-- The `GetGripByID` of ANOTHER controller: controller, grip ID to the
  `bOriginalGravity` and `bOriginalReplicatesMovement` of the record found. -/
  OtherControllerGrip : Nat → Nat → Option (Bool × Bool)
  /-- The `GetComponentTransform()` of this controller. -/
  ControllerTransform : FTransform

/-- What the controller does to the outside: interface notifications,
broadcasts, RPCs it sends and transforms it writes. -/
inductive Event where
  | SetHeld (Target : UObject) (GripID : Nat) (bIsHeld : Bool)
  | OnGrip (Target : UObject) (GripID : Nat)
  | OnGripRelease (Target : UObject) (GripID : Nat)
  | OnGrippedObject (GripID : Nat)
  | OnDroppedObject (GripID : Nat)
  | TickGrip (Target : UObject) (GripID : Nat)
  | OnGripOutOfRange (GripID : Nat) (Distance : Int)
  | SetWorldTransform (Root : UObject) (GrippedObject : Option UObject) (GripID : Nat) (T : FTransform)
  | SetRelativeTransform (Root : UObject) (GrippedObject : Option UObject) (GripID : Nat) (T : FTransform)
  | SetKinematicTarget (GrippedObject : Option UObject) (GripID : Nat) (T : FTransform)
  | Server_NotifyLocalGripAddedOrChanged (Grip : FBPActorGripInformation)
  | Server_NotifyLocalGripRemoved (GripID : Nat)
  | Client_NotifyInvalidLocalGrip (LocallyGrippedObject : Option UObject)
  | OnSecondaryGrip (Target : UObject) (GripID : Nat)
  | OnSecondaryGripRelease (Target : UObject) (GripID : Nat)
  | ScriptOnSecondaryGrip (GripID : Nat)
  | ScriptOnSecondaryGripRelease (GripID : Nat)
  | Server_NotifySecondaryAttachmentChanged (GripID : Nat) (SecondaryGripInfo : FBPSecondaryGripInfo)
  | Server_NotifySecondaryAttachmentChanged_Retain (GripID : Nat)
      (SecondaryGripInfo : FBPSecondaryGripInfo) (RelativeTransform : FTransform)
  deriving DecidableEq, Repr

/-- The controller component. -/
structure State where
  GrippedObjects : List FBPActorGripInformation
  LocallyGrippedObjects : List FBPActorGripInformation
  PhysicsGrips : List FBPActorPhysicsHandleInformation
  GripIDIncrementer : Nat
  bIsPostTeleport : Bool
  bHasAuthority : Bool
  CustomPivotComponent : Option UObject
  Trace : List Event
  deriving DecidableEq, Repr

/-- The state the constructor leaves. -/
def State.Initial : State :=
  { GrippedObjects := [], LocallyGrippedObjects := [], PhysicsGrips := [],
    GripIDIncrementer := INVALID_VRGRIP_ID, bIsPostTeleport := false, bHasAuthority := false,
    CustomPivotComponent := none, Trace := [] }

/-- The side the controller runs on and the helpers declared outside the
`.cpp`, taken as given. -/
structure Env where
  /-- Identity of this controller (`this`). -/
  Self : Nat
  IsServer : Bool
  NetMode : ENetMode
  IsTornOff : Bool
  IsLocallyControlled : Bool
  bAlwaysSendTickGrip : Bool
  bUseWithoutTracking : Bool
  /-- Answer of `HasGripAuthority(Grip)` on this side, by the replication setting
  of the grip ("which side is authoritative" is selected by the replication mode). -/
  GripAuthority : EGripMovementReplicationSettings → Bool
  /-- Answer of `HasGripMovementAuthority(Grip)` on this side, by the replication
  setting of the grip. -/
  GripMovementAuthority : EGripMovementReplicationSettings → Bool
  /-- The `GetNextGripID(bIsLocalGrip)`: from the flag and `GripIDIncrementer` to the
  ID returned and the new `GripIDIncrementer`. Grip IDs are `uint8`; the `.cpp`
  only stores and compares them, the arithmetic on them is in this helper. -/
  GetNextGripID : Bool → Nat → Nat × Nat
  /-- The `HandleGripReplication(Array[Index])`, `true` for the replicated array. -/
  HandleGripReplication : World → State → Bool → Nat → Bool × World × State
  DefaultGripScript : Option UVRGripScriptBase
  /-- The `OnGripOutOfRange` delegate: `none` when no handler is bound; a bound handler
  either leaves the grip (`none`) or drops it with `DropGrip(Grip, bSimulate)`. -/
  OnGripOutOfRange : Option (FBPActorGripInformation → Int → Option Bool)

/-! ## Array helpers (`TArray`) and the comparison operators of the records -/

/-- Modelled from the spec: operator== of two grip records (declared in the
header). Records are "keyed by GripID and the grabbed entity", and the operator
"auto checks if Actor and Component are valid" (comment in `DropGrip`): equal
when the gripped object is non-null and both the object and the ID agree. -/
def FBPActorGripInformation.Equals (a b : FBPActorGripInformation) : Bool :=
  a.GrippedObject.isSome && (a.GrippedObject == b.GrippedObject) && (a.GripID == b.GripID)

/-- Modelled from the spec: operator== of a grip record with an object pointer
(`FindByKey(UObject*)`, `FindByKey(AActor*)`, `FindByKey(UPrimitiveComponent*)`):
the key is non-null and is the gripped object. -/
def FBPActorGripInformation.EqualsObject (a : FBPActorGripInformation) (Key : Option UObject) : Bool :=
  Key.isSome && (a.GrippedObject == Key)

/-- Modelled from the spec: operator== of a grip record with a grip ID
(`FindByKey(uint8)`): the IDs agree. -/
def FBPActorGripInformation.EqualsID (a : FBPActorGripInformation) (Key : Nat) : Bool :=
  a.GripID == Key

/-- Modelled from the spec: operator== of a physics handle record with a grip
record (`PhysicsGrips.FindByKey(GripInfo)`): "keyed by GripID and the grabbed
entity". -/
def FBPActorPhysicsHandleInformation.EqualsGrip (h : FBPActorPhysicsHandleInformation)
    (g : FBPActorGripInformation) : Bool :=
  (h.HandledObject == g.GrippedObject) && (h.GripID == g.GripID)

/-- Write through a pointer to slot `i` of an array: `Array[i] = f(Array[i])`;
nothing is written when the slot is past the end. -/
def ModifyAt {α : Type} (l : List α) (i : Nat) (f : α → α) : List α :=
  match l[i]? with
  | some a => l.set i (f a)
  | none => l

/-- Engine `TArray::Find(Item)`: index of the first equal record. -/
def FindGrip (l : List FBPActorGripInformation) (Grip : FBPActorGripInformation) : Option Nat :=
  l.findIdx? (fun r => r.Equals Grip)

/-- The record `Array[FoundIndex]` after a successful `Array.Find(Item, FoundIndex)`. -/
def FindGripRecord (l : List FBPActorGripInformation) (Grip : FBPActorGripInformation) :
    Option FBPActorGripInformation :=
  l.find? (fun r => r.Equals Grip)

/-- Engine `TArray::FindByKey(Object)`. -/
def FindByObject (l : List FBPActorGripInformation) (Key : Option UObject) :
    Option FBPActorGripInformation :=
  l.find? (fun r => r.EqualsObject Key)

/-- Engine `TArray::FindByKey(GripID)`. -/
def FindByID (l : List FBPActorGripInformation) (Key : Nat) : Option FBPActorGripInformation :=
  l.find? (fun r => r.EqualsID Key)

/-- Engine `Cast<AActor>` of a pointer. -/
def World.CastActor (w : World) (o : Option UObject) : Option UObject :=
  match o with
  | some a => if (w.Objects a).Kind = .Actor then some a else none
  | none => none

/-- Engine `Cast<UPrimitiveComponent>` of a pointer. -/
def World.CastPrimitive (w : World) (o : Option UObject) : Option UObject :=
  match o with
  | some a => if (w.Objects a).Kind = .PrimitiveComponent then some a else none
  | none => none

/-- Modelled from the spec: FBPActorGripInformation::GetGrippedActor (header):
the target when it is a whole actor. -/
def World.GetGrippedActor (w : World) (g : FBPActorGripInformation) : Option UObject :=
  w.CastActor g.GrippedObject

/-- Modelled from the spec: FBPActorGripInformation::GetGrippedComponent
(header): the target when it is a single component. -/
def World.GetGrippedComponent (w : World) (g : FBPActorGripInformation) : Option UObject :=
  w.CastPrimitive g.GrippedObject

/-- The primitive root of an actor: `Cast<UPrimitiveComponent>(pActor->GetRootComponent())`. -/
def World.RootOf (w : World) (pActor : UObject) : Option UObject :=
  (w.Objects pActor).RootComponent

/-- Change the record of one object. -/
def World.Update (w : World) (o : UObject) (f : UObjectInfo → UObjectInfo) : World :=
  { w with Objects := fun x => if x = o then f (w.Objects x) else w.Objects x }

def World.SetEnableGravity (w : World) (root : UObject) (b : Bool) : World :=
  w.Update root (fun i => { i with bGravityEnabled := b })

def World.SetSimulatePhysics (w : World) (root : UObject) (b : Bool) : World :=
  w.Update root (fun i => { i with bSimulatingPhysics := b })

def World.SetReplicateMovement (w : World) (pActor : UObject) (b : Bool) : World :=
  w.Update pActor (fun i => { i with bReplicateMovement := b })

def World.SetAttached (w : World) (root : UObject) (b : Bool) : World :=
  w.Update root (fun i => { i with bAttachedToController := b })

def World.SetComponentTransform (w : World) (root : UObject) (T : FTransform) : World :=
  w.Update root (fun i => { i with ComponentTransform := T })

def State.Emit (st : State) (e : Event) : State :=
  { st with Trace := st.Trace ++ [e] }

/-- Whether the replication setting is one of the two client-authoritative ones. -/
def IsLocalGripSetting (s : EGripMovementReplicationSettings) : Bool :=
  s == .ClientSide_Authoritive || s == .ClientSide_Authoritive_NoRep

def Env.HasGripAuthority (env : Env) (Grip : FBPActorGripInformation) : Bool :=
  env.GripAuthority Grip.GripMovementReplicationSetting

def Env.HasGripMovementAuthority (env : Env) (Grip : FBPActorGripInformation) : Bool :=
  env.GripMovementAuthority Grip.GripMovementReplicationSetting

/-- Modelled from the spec: GetPivotTransform (header): "a custom pivot component
if set, else the controller itself". -/
def GetPivotTransform (w : World) (st : State) : FTransform :=
  match st.CustomPivotComponent with
  | some c => if (w.Objects c).bPendingKill then w.ControllerTransform else (w.Objects c).ComponentTransform
  | none => w.ControllerTransform

/-! ## Physics handle table -/

def GetPhysicsGrip (st : State) (GripInfo : FBPActorGripInformation) :
    Option FBPActorPhysicsHandleInformation :=
  st.PhysicsGrips.find? (fun h => h.EqualsGrip GripInfo)

def GetPhysicsGripIndex (st : State) (GripInfo : FBPActorGripInformation) : Option Nat :=
  st.PhysicsGrips.findIdx? (fun h => h.EqualsGrip GripInfo)

/-- The overload `DestroyPhysicsHandle(FBPActorPhysicsHandleInformation*)`: it
releases the constraint and the kinematic actor of the entry and leaves the
entry in the table. -/
def DestroyPhysicsHandlePtr (h : FBPActorPhysicsHandleInformation) :
    FBPActorPhysicsHandleInformation :=
  { h with bKinActorValid := false, bHandleDataValid := false }

/-- Modelled from the spec: the default-constructed handle record (header): no
kinematic actor, no constraint, drives at zero. -/
def FBPActorPhysicsHandleInformation.New (HandledObject : Option UObject) (GripID : Nat) :
    FBPActorPhysicsHandleInformation :=
  { HandledObject := HandledObject, GripID := GripID, bKinActorValid := false,
    bHandleDataValid := false, bSetCOM := false, LinStiffness := 0, LinDamping := 0,
    TwistStiffness := 0, TwistDamping := 0, SlerpStiffness := 0, SlerpDamping := 0,
    LastPhysicsTransform := FTransform.Identity }

/-- Table insertion `CreatePhysicsGrip`: the index of the entry it returns and the new state. -/
def CreatePhysicsGrip (st : State) (GripInfo : FBPActorGripInformation) : Nat × State :=
  match GetPhysicsGripIndex st GripInfo with
  | some i => (i, { st with PhysicsGrips := ModifyAt st.PhysicsGrips i DestroyPhysicsHandlePtr })
  | none =>
    (st.PhysicsGrips.length,
      { st with PhysicsGrips := st.PhysicsGrips ++
          [FBPActorPhysicsHandleInformation.New GripInfo.GrippedObject GripInfo.GripID] })

/-- The overload `DestroyPhysicsHandle(const FBPActorGripInformation&, bool)`:
releases the first entry for the grip and removes it from the table. The result
is `true` on every path. -/
def DestroyPhysicsHandle (st : State) (Grip : FBPActorGripInformation) : Bool × State :=
  match GetPhysicsGrip st Grip with
  | none => (true, st)
  | some _ =>
    match GetPhysicsGripIndex st Grip with
    | some index => (true, { st with PhysicsGrips := st.PhysicsGrips.eraseIdx index })
    | none => (true, st)

/-- The primitive a grip acts on: the gripped component, else the primitive
root of the gripped actor. -/
def GripRoot (w : World) (Grip : FBPActorGripInformation) : Option UObject :=
  match w.GetGrippedComponent Grip with
  | some root => some root
  | none =>
    match w.GetGrippedActor Grip with
    | some pActor => w.RootOf pActor
    | none => none

def ANGULAR_STIFFNESS_MULTIPLIER : ℚ := 3 / 2

def ANGULAR_DAMPING_MULTIPLIER : ℚ := 7 / 5

def HYBRID_PHYSICS_GRIP_MULTIPLIER : ℚ := 10

def IsManipulationGrip (t : EGripCollisionType) : Bool :=
  t == .ManipulationGrip || t == .ManipulationGripWithWristTwist

def GripAngularStiffness (Grip : FBPActorGripInformation) : ℚ :=
  if Grip.AdvancedGripSettings.bUsePhysicsSettings && Grip.AdvancedGripSettings.bUseCustomAngularValues
  then Grip.AdvancedGripSettings.AngularStiffness
  else Grip.Stiffness * ANGULAR_STIFFNESS_MULTIPLIER

def GripAngularDamping (Grip : FBPActorGripInformation) : ℚ :=
  if Grip.AdvancedGripSettings.bUsePhysicsSettings && Grip.AdvancedGripSettings.bUseCustomAngularValues
  then Grip.AdvancedGripSettings.AngularDamping
  else Grip.Damping * ANGULAR_DAMPING_MULTIPLIER

/-- The drive set-up at the end of `SetUpPhysicsHandle`, run when the constraint
is valid; the drive caches are written only when the constraint was created in
this call (`!bRecreatingConstraint`). -/
def SetUpDrives (NewGrip : FBPActorGripInformation) (bRecreatingConstraint : Bool)
    (h : FBPActorPhysicsHandleInformation) : FBPActorPhysicsHandleInformation :=
  if bRecreatingConstraint then h
  else if IsManipulationGrip NewGrip.GripCollisionType then
    let h1 := { h with LinStiffness := NewGrip.Stiffness, LinDamping := NewGrip.Damping }
    if NewGrip.GripCollisionType = .ManipulationGripWithWristTwist then
      { h1 with TwistStiffness := GripAngularStiffness NewGrip, TwistDamping := GripAngularDamping NewGrip }
    else h1
  else
    let m : ℚ := if NewGrip.GripCollisionType = .InteractiveHybridCollisionWithPhysics
      then HYBRID_PHYSICS_GRIP_MULTIPLIER else 1
    { h with LinStiffness := NewGrip.Stiffness * m, LinDamping := NewGrip.Damping,
             SlerpStiffness := GripAngularStiffness NewGrip * m,
             SlerpDamping := GripAngularDamping NewGrip }

/-- The body of the physics command of `SetUpPhysicsHandle` on the entry. -/
def SetUpHandleEntry (info : UObjectInfo) (NewGrip : FBPActorGripInformation)
    (h : FBPActorPhysicsHandleInformation) : FBPActorPhysicsHandleInformation :=
  let Requested := NewGrip.AdvancedGripSettings.PhysicsGripLocationSettings
  let COMType : EPhysicsGripCOMType :=
    if !NewGrip.AdvancedGripSettings.bUsePhysicsSettings || Requested = .COM_Default then
      (if IsManipulationGrip NewGrip.GripCollisionType then .COM_GripAtControllerLoc
       else .COM_SetAndGripAt)
    else Requested
  let h1 := if COMType = .COM_SetAndGripAt then { h with bSetCOM := true } else h
  let h2 := if h1.bKinActorValid then h1 else { h1 with bKinActorValid := info.bCreateActorSucceeds }
  let bRecreatingConstraint := h2.bHandleDataValid
  let h3 := if h2.bHandleDataValid then h2 else { h2 with bHandleDataValid := info.bCreateConstraintSucceeds }
  if h3.bHandleDataValid then SetUpDrives NewGrip bRecreatingConstraint h3 else h3

def SetUpPhysicsHandle (w : World) (st : State) (NewGrip : FBPActorGripInformation) :
    Bool × World × State :=
  match GripRoot w NewGrip with
  | none => (false, w, st)
  | some root =>
    let Created : Nat × State :=
      match GetPhysicsGripIndex st NewGrip with
      | some i => (i, st)
      | none => CreatePhysicsGrip st NewGrip
    let w1 := w.SetSimulatePhysics root true
    if !(w1.Objects root).bValidBodyInstance then (false, w1, Created.2)
    else
      let Handles := ModifyAt Created.2.PhysicsGrips Created.1 (SetUpHandleEntry (w1.Objects root) NewGrip)
      (true, w1, { Created.2 with PhysicsGrips := Handles })

/-- Retuning of the drives: `SetGripConstraintStiffnessAndDamping(Grip, bUseHybridMultiplier)`. -/
def SetGripConstraintStiffnessAndDamping (st : State) (Grip : FBPActorGripInformation)
    (_bUseHybridMultiplier : Bool) : Bool × State :=
  match GetPhysicsGripIndex st Grip with
  | none => (false, st)
  | some i =>
    let Retune : FBPActorPhysicsHandleInformation → FBPActorPhysicsHandleInformation := fun h =>
      if !h.bHandleDataValid then h
      else if IsManipulationGrip Grip.GripCollisionType then
        let h1 := { h with LinStiffness := Grip.Stiffness, LinDamping := Grip.Damping }
        if Grip.GripCollisionType = .ManipulationGripWithWristTwist then
          { h1 with TwistStiffness := GripAngularStiffness Grip, TwistDamping := GripAngularDamping Grip }
        else h1
      else
        let m : ℚ := if Grip.GripCollisionType = .InteractiveHybridCollisionWithPhysics
          then HYBRID_PHYSICS_GRIP_MULTIPLIER else 1
        { h with LinStiffness := Grip.Stiffness * m, LinDamping := Grip.Damping,
                 TwistStiffness := GripAngularStiffness Grip * m,
                 TwistDamping := GripAngularDamping Grip }
    (true, { st with PhysicsGrips := ModifyAt st.PhysicsGrips i Retune })

/-- Engine-facing `UpdatePhysicsHandleTransform`: moves the kinematic target of the handle of
the grip when the transform changed since the last write. -/
def UpdatePhysicsHandleTransform (st : State) (GrippedActor : FBPActorGripInformation)
    (NewTransform : FTransform) : State :=
  if GrippedActor.GrippedObject.isNone then st
  else
    match GetPhysicsGripIndex st GrippedActor, GetPhysicsGrip st GrippedActor with
    | some i, some h =>
      if !h.bKinActorValid then st
      else if h.LastPhysicsTransform = NewTransform then st
      else
        let Handles := ModifyAt st.PhysicsGrips i (fun x => { x with LastPhysicsTransform := NewTransform })
        State.Emit { st with PhysicsGrips := Handles }
          (.SetKinematicTarget GrippedActor.GrippedObject GrippedActor.GripID NewTransform)
    | _, _ => st

/-! ## Drop -/

/-- The head of `Drop_Implementation`: `bSkipFullDrop`, true when another
controller holds the target or this controller has another grip on it. -/
def DropSkipFullDrop (env : Env) (w : World) (st : State) (NewDrop : FBPActorGripInformation) : Bool :=
  let Holding : List (Option Nat × Nat) :=
    match NewDrop.GrippedObject with
    | some o => if (w.Objects o).bImplementsGripInterface then (w.Objects o).HoldingControllers else []
    | none => []
  let bIsHeld : Bool :=
    match NewDrop.GrippedObject with
    | some o => (w.Objects o).bImplementsGripInterface && (w.Objects o).IsHeld
    | none => false
  if bIsHeld && (!(Holding.any (fun p => p.1 == some env.Self)) || decide (Holding.length > 1)) then true
  else
    st.LocallyGrippedObjects.any
        (fun r => (r.GrippedObject == NewDrop.GrippedObject) && (r.GripID != NewDrop.GripID)) ||
      st.GrippedObjects.any
        (fun r => (r.GrippedObject == NewDrop.GrippedObject) && (r.GripID != NewDrop.GripID))

/-- Whether the grip and drop paths touch the gravity flag of the target. -/
def TouchesGravity (env : Env) (Grip : FBPActorGripInformation) : Bool :=
  (Grip.AdvancedGripSettings.bUsePhysicsSettings && Grip.AdvancedGripSettings.bTurnOffGravityDuringGrip) ||
    ((Grip.GripMovementReplicationSetting == .ForceServerSideMovement) && !env.IsServer)

/-- The `switch (NewDrop.GripTargetType)` of `Drop_Implementation`: what the
drop does to the target and the notifications it sends. -/
def DropTargetEffects (env : Env) (w : World) (st : State) (NewDrop : FBPActorGripInformation)
    (bSimulate bSkipFullDrop : Bool) : World × State :=
  let bHadGripAuthority := env.HasGripAuthority NewDrop
  match NewDrop.GripTargetType with
  | .ActorGrip =>
    match w.GetGrippedActor NewDrop with
    | none => (w, st)
    | some pActor =>
      let w1 : World :=
        match w.RootOf pActor with
        | some root =>
          if bSkipFullDrop then w
          else
            let wa := if (NewDrop.GripCollisionType == .AttachmentGrip) && (bHadGripAuthority || env.IsServer)
              then w.SetAttached root false else w
            let wb := if (NewDrop.GripCollisionType != .EventsOnly) &&
                (env.IsServer || bHadGripAuthority || !NewDrop.bOriginalReplicatesMovement ||
                  !(w.Objects pActor).bReplicates)
              then wa.SetSimulatePhysics root bSimulate else wa
            if (NewDrop.GripCollisionType != .EventsOnly) && TouchesGravity env NewDrop
            then wb.SetEnableGravity root NewDrop.bOriginalGravity else wb
        | none => w
      let w2 := if env.IsServer && !bSkipFullDrop
        then w1.SetReplicateMovement pActor NewDrop.bOriginalReplicatesMovement else w1
      let st1 := if (w.Objects pActor).bImplementsGripInterface
        then (st.Emit (.SetHeld pActor NewDrop.GripID false)).Emit (.OnGripRelease pActor NewDrop.GripID)
        else st
      (w2, st1)
  | .ComponentGrip =>
    match w.GetGrippedComponent NewDrop with
    | none => (w, st)
    | some root =>
      let pActor := (w.Objects root).Owner
      let bOwnerAllows : Bool :=
        match pActor with
        | some a => (w.RootOf a != some root) || !(w.Objects a).bReplicates
        | none => false
      let w1 : World :=
        if bSkipFullDrop then w
        else
          let wa := if (NewDrop.GripCollisionType == .AttachmentGrip) && (bHadGripAuthority || env.IsServer)
            then w.SetAttached root false else w
          let wb := if (NewDrop.GripCollisionType != .EventsOnly) &&
              (env.IsServer || bHadGripAuthority || !NewDrop.bOriginalReplicatesMovement || bOwnerAllows)
            then wa.SetSimulatePhysics root bSimulate else wa
          if (NewDrop.GripCollisionType != .EventsOnly) && TouchesGravity env NewDrop
          then wb.SetEnableGravity root NewDrop.bOriginalGravity else wb
      let w2 : World :=
        match pActor with
        | some a =>
          if env.IsServer && (w.RootOf a == some root) && !bSkipFullDrop
          then w1.SetReplicateMovement a NewDrop.bOriginalReplicatesMovement else w1
        | none => w1
      let st1 := if (w.Objects root).bImplementsGripInterface
        then (st.Emit (.SetHeld root NewDrop.GripID false)).Emit (.OnGripRelease root NewDrop.GripID)
        else st
      (w2, st1)

/-- The tail of `Drop_Implementation`: the record is removed when this side has
grip authority or is not a network client, and paused otherwise; the predicted
array is searched first. -/
def DropRemoveRecord (env : Env) (st : State) (NewDrop : FBPActorGripInformation) : State :=
  match FindGrip st.LocallyGrippedObjects NewDrop with
  | some fIndex =>
    if env.HasGripAuthority NewDrop || decide (env.NetMode.toNat < ENetMode.NM_Client.toNat) then
      { st with LocallyGrippedObjects := st.LocallyGrippedObjects.eraseIdx fIndex }
    else
      { st with LocallyGrippedObjects :=
          ModifyAt st.LocallyGrippedObjects fIndex (fun r => { r with bIsPaused := true }) }
  | none =>
    match FindGrip st.GrippedObjects NewDrop with
    | some fIndex =>
      if env.HasGripAuthority NewDrop || decide (env.NetMode.toNat < ENetMode.NM_Client.toNat) then
        { st with GrippedObjects := st.GrippedObjects.eraseIdx fIndex }
      else
        { st with GrippedObjects :=
            ModifyAt st.GrippedObjects fIndex (fun r => { r with bIsPaused := true }) }
    | none => st

def Drop_Implementation (env : Env) (w : World) (st : State) (NewDrop : FBPActorGripInformation)
    (bSimulate : Bool) : World × State :=
  let bSkipFullDrop := DropSkipFullDrop env w st NewDrop
  let st1 := (DestroyPhysicsHandle st NewDrop).2
  let r2 := DropTargetEffects env w st1 NewDrop bSimulate bSkipFullDrop
  let st3 := DropRemoveRecord env r2.2 NewDrop
  (r2.1, st3.Emit (.OnDroppedObject NewDrop.GripID))

def NotifyDrop_Implementation (env : Env) (w : World) (st : State) (NewDrop : FBPActorGripInformation)
    (bSimulate : Bool) : World × State :=
  if IsLocalGripSetting NewDrop.GripMovementReplicationSetting && env.IsLocallyControlled &&
      (env.NetMode == .NM_Client) then (w, st)
  else Drop_Implementation env w st NewDrop bSimulate

/-- Entry point `DropGrip(Grip, bSimulate, ...)`. The optional release velocities, which the
code writes to the physics body before the drop, are not carried. -/
def DropGrip (env : Env) (w : World) (st : State) (Grip : FBPActorGripInformation)
    (bSimulate : Bool) : Bool × World × State :=
  match FindGripRecord st.LocallyGrippedObjects Grip with
  | some Found =>
    if env.NetMode == .NM_Client then
      let st1 := if !env.IsTornOff then st.Emit (.Server_NotifyLocalGripRemoved Found.GripID) else st
      let r := Drop_Implementation env w st1 Found bSimulate
      (true, r.1, r.2)
    else
      let r := NotifyDrop_Implementation env w st Found bSimulate
      (true, r.1, r.2)
  | none =>
    if !env.IsServer then (false, w, st)
    else
      match FindGripRecord st.GrippedObjects Grip with
      | none => (false, w, st)
      | some Found =>
        let r := NotifyDrop_Implementation env w st Found bSimulate
        (true, r.1, r.2)

/-- The record `DropObject` and `DropObjectByInterface` look up: by object when
one is given, else by ID when it is not the invalid ID; the replicated array is
searched first. -/
def FindGripToDrop (st : State) (ObjectToDrop : Option UObject) (GripIDToDrop : Nat) :
    Option FBPActorGripInformation :=
  if ObjectToDrop.isSome then
    (FindByObject st.GrippedObjects ObjectToDrop).orElse
      (fun _ => FindByObject st.LocallyGrippedObjects ObjectToDrop)
  else if GripIDToDrop != INVALID_VRGRIP_ID then
    (FindByID st.GrippedObjects GripIDToDrop).orElse
      (fun _ => FindByID st.LocallyGrippedObjects GripIDToDrop)
  else none

def DropObject (env : Env) (w : World) (st : State) (ObjectToDrop : Option UObject)
    (GripIDToDrop : Nat) (bSimulate : Bool) : Bool × World × State :=
  match FindGripToDrop st ObjectToDrop GripIDToDrop with
  | some GripInfo => DropGrip env w st GripInfo bSimulate
  | none => (false, w, st)

def DropObjectByInterface (env : Env) (w : World) (st : State) (ObjectToDrop : Option UObject)
    (GripIDToDrop : Nat) : Bool × World × State :=
  match FindGripToDrop st ObjectToDrop GripIDToDrop with
  | none => (false, w, st)
  | some GripInfo =>
    match w.CastPrimitive GripInfo.GrippedObject with
    | some PrimComp =>
      match (w.Objects PrimComp).Owner with
      | none => (false, w, st)
      | some Owner =>
        if (w.Objects PrimComp).bImplementsGripInterface then
          DropGrip env w st GripInfo (w.Objects PrimComp).SimulateOnDrop
        else if (w.Objects Owner).bImplementsGripInterface then
          DropGrip env w st GripInfo (w.Objects Owner).SimulateOnDrop
        else DropGrip env w st GripInfo true
    | none =>
      match w.CastActor GripInfo.GrippedObject with
      | some Actor =>
        match w.RootOf Actor with
        | none => (false, w, st)
        | some root =>
          if (w.Objects root).bImplementsGripInterface then
            DropGrip env w st GripInfo (w.Objects root).SimulateOnDrop
          else if (w.Objects Actor).bImplementsGripInterface then
            DropGrip env w st GripInfo (w.Objects Actor).SimulateOnDrop
          else DropGrip env w st GripInfo true
      | none => (false, w, st)

def DropActor (env : Env) (w : World) (st : State) (ActorToDrop : Option UObject)
    (bSimulate : Bool) : Bool × World × State :=
  if ActorToDrop.isNone then (false, w, st)
  else
    match FindByObject st.LocallyGrippedObjects ActorToDrop with
    | some GripToDrop => DropGrip env w st GripToDrop bSimulate
    | none =>
      if !env.IsServer then (false, w, st)
      else
        match FindByObject st.GrippedObjects ActorToDrop with
        | some GripToDrop => DropGrip env w st GripToDrop bSimulate
        | none => (false, w, st)

def DropComponent (env : Env) (w : World) (st : State) (ComponentToDrop : Option UObject)
    (bSimulate : Bool) : Bool × World × State :=
  match FindByObject st.LocallyGrippedObjects ComponentToDrop with
  | some GripInfo => DropGrip env w st GripInfo bSimulate
  | none =>
    if !env.IsServer then (false, w, st)
    else
      match FindByObject st.GrippedObjects ComponentToDrop with
      | some GripInfo => DropGrip env w st GripInfo bSimulate
      | none => (false, w, st)

/-! ## Grip -/

/-- The second loop of `GetGripWorldTransform`: every active script whose
override type is not `None` is run in order; the loop stops at the first one that
reports an invalid transform or wants to force a drop. The triple is
`(bHasValidTransform, bForceADrop, WorldTransform)`. -/
def RunGripScripts (ParentTransform : FTransform) (Grip : FBPActorGripInformation) :
    List (Option UVRGripScriptBase) → Bool × Bool × FTransform → Bool × Bool × FTransform
  | [], acc => acc
  | none :: rest, acc => RunGripScripts ParentTransform Grip rest acc
  | some Script :: rest, acc =>
    if Script.IsScriptActive && (Script.WorldTransformOverrideType != .None) then
      let r := Script.GetWorldTransform ParentTransform Grip acc.2.2
      if !r.1 || Script.Wants_ToForceDrop then (r.1, Script.Wants_ToForceDrop, r.2)
      else RunGripScripts ParentTransform Grip rest (r.1, Script.Wants_ToForceDrop, r.2)
    else RunGripScripts ParentTransform Grip rest acc

/-- Transform query `GetGripWorldTransform`, from the scripts, the incoming `bForceADrop` and
the incoming `WorldTransform` to `(bHasValidTransform, bForceADrop, WorldTransform)`. -/
def GetGripWorldTransform (env : Env) (GripScripts : List (Option UVRGripScriptBase))
    (ParentTransform : FTransform) (Grip : FBPActorGripInformation)
    (bForceADrop : Bool) (WorldTransform : FTransform) : Bool × Bool × FTransform :=
  let RunDefault : Bool × Bool × FTransform :=
    match env.DefaultGripScript with
    | some d => ((d.GetWorldTransform ParentTransform Grip WorldTransform).1, d.Wants_ToForceDrop,
        (d.GetWorldTransform ParentTransform Grip WorldTransform).2)
    | none => (true, bForceADrop, WorldTransform)
  if GripScripts.length != 0 then
    let bGetDefaultTransform : Bool := !GripScripts.any (fun s =>
      match s with
      | some Script => Script.IsScriptActive && (Script.WorldTransformOverrideType == .OverridesWorldTransform)
      | none => false)
    let acc : Bool × Bool × FTransform :=
      if bGetDefaultTransform then RunDefault else (true, bForceADrop, WorldTransform)
    RunGripScripts ParentTransform Grip GripScripts acc
  else RunDefault

/-- The resolution of the primitive and the owning actor of a grip, as the tick,
the teleport and the notifications do it. -/
def ResolveTarget (w : World) (Grip : FBPActorGripInformation) : Option UObject × Option UObject :=
  match Grip.GripTargetType with
  | .ActorGrip =>
    match w.GetGrippedActor Grip with
    | some actor => (w.RootOf actor, some actor)
    | none => (none, none)
  | .ComponentGrip =>
    match w.GetGrippedComponent Grip with
    | some root => (some root, (w.Objects root).Owner)
    | none => (none, none)

/-- The object whose interface answers for a grip: the primitive when it
implements the interface, else the actor when it does. -/
def InterfaceOf (w : World) (root actor : UObject) : Option UObject :=
  if (w.Objects root).bImplementsGripInterface then some root
  else if (w.Objects actor).bImplementsGripInterface then some actor
  else none

/-- Teleport `TeleportMoveGrip_Impl`. The result is the return value, whether the call
set `Grip.bSkipNextConstraintLengthCheck` on the record it was given by
reference, and the new scene and state. -/
def TeleportMoveGrip_Impl (env : Env) (w : World) (st : State) (Grip : FBPActorGripInformation)
    (bTeleportPhysicsGrips bIsForPostTeleport : Bool) (OptionalTransform : FTransform) :
    Bool × Bool × World × State :=
  if !env.HasGripMovementAuthority Grip then (false, false, w, st)
  else
    match ResolveTarget w Grip with
    | (some PrimComp, some actor) =>
      let TeleportBehavior : EGripInterfaceTeleportBehavior :=
        match InterfaceOf w PrimComp actor with
        | some i => (w.Objects i).TeleportBehavior
        | none => .TeleportAllComponents
      let bNotRoot : Bool :=
        match (w.Objects PrimComp).Owner with
        | some owner => w.RootOf owner != some PrimComp
        | none => false
      if bIsForPostTeleport && (TeleportBehavior == .OnlyTeleportRootComponent) && bNotRoot then
        (false, false, w, st)
      else if bIsForPostTeleport && (TeleportBehavior == .DropOnTeleport) then
        if env.IsServer || IsLocalGripSetting Grip.GripMovementReplicationSetting then
          let r := DropObjectByInterface env w st Grip.GrippedObject INVALID_VRGRIP_ID
          (false, false, r.2.1, r.2.2)
        else (false, false, w, st)
      else if bIsForPostTeleport && (TeleportBehavior == .DontTeleport) then (false, false, w, st)
      else if !bIsForPostTeleport &&
          ((TeleportBehavior == .DontTeleport) || (TeleportBehavior == .DropOnTeleport)) then
        (false, false, w, st)
      else
        let Scripts : List (Option UVRGripScriptBase) :=
          match InterfaceOf w PrimComp actor with
          | some i => (w.Objects i).GripScripts
          | none => []
        let Computed : Bool × Bool × FTransform :=
          if OptionalTransform != FTransform.Identity then (true, false, OptionalTransform)
          else GetGripWorldTransform env Scripts (GetPivotTransform w st) Grip false FTransform.Identity
        if !Computed.1 then (false, false, w, st)
        else
          let WorldTransform : FTransform :=
            if (TeleportBehavior == .DeltaTeleportation) && (Grip.LastWorldTransform != FTransform.Identity)
            then (w.Objects PrimComp).ComponentTransform.mul
              (Computed.2.2.mul Grip.LastWorldTransform.Inverse)
            else Computed.2.2
          match GetPhysicsGrip st Grip with
          | none =>
            (true, false, w.SetComponentTransform PrimComp WorldTransform,
              st.Emit (.SetWorldTransform PrimComp Grip.GrippedObject Grip.GripID WorldTransform))
          | some Handle =>
            if Handle.bKinActorValid && bTeleportPhysicsGrips then
              (true, env.HasGripAuthority Grip, w.SetComponentTransform PrimComp WorldTransform,
                (st.Emit (.SetWorldTransform PrimComp Grip.GrippedObject Grip.GripID WorldTransform)).Emit
                  (.SetKinematicTarget Grip.GrippedObject Grip.GripID Computed.2.2))
            else (true, false, w, st)
    | _ => (false, false, w, st)

/-- The replication switch of `NotifyGrip`: on the server the movement
replication of the owning actor follows the replication setting of the grip. -/
def NotifyGripReplication (env : Env) (w : World) (NewGrip : FBPActorGripInformation)
    (root pActor : Option UObject) : World :=
  let bActorTarget : Bool :=
    match pActor with
    | some a => (NewGrip.GripTargetType == .ActorGrip) || (root.isSome && (w.RootOf a == root))
    | none => false
  match pActor with
  | none => w
  | some a =>
    if (NewGrip.GripCollisionType != .EventsOnly) && env.IsServer && bActorTarget then
      match NewGrip.GripMovementReplicationSetting with
      | .ForceClientSideMovement => w.SetReplicateMovement a false
      | .ClientSide_Authoritive => w.SetReplicateMovement a false
      | .ClientSide_Authoritive_NoRep => w.SetReplicateMovement a false
      | .ForceServerSideMovement => w.SetReplicateMovement a true
      | .KeepOriginalMovement => w
    else w

/-- The `switch (NewGrip.GripCollisionType)` of `NotifyGrip`: the physics grips
get their handle, the others stop simulating and are moved to the hand.
`TeleportMoveGrip` is called there with its default arguments (declared in the
header), taken as `bTeleportPhysicsGrips = false`, `bIsForPostTeleport = false`. -/
def NotifyGripPlacement (env : Env) (w : World) (st : State) (NewGrip : FBPActorGripInformation)
    (root : Option UObject) : World × State :=
  let bHasMovementAuthority := env.HasGripMovementAuthority NewGrip
  let Stopped : World :=
    match root with
    | some r => w.SetSimulatePhysics r false
    | none => w
  let Moved : World × State :=
    if bHasMovementAuthority
    then (TeleportMoveGrip_Impl env Stopped st NewGrip false false FTransform.Identity).2.2
    else (Stopped, st)
  match NewGrip.GripCollisionType with
  | .InteractiveCollisionWithPhysics | .InteractiveHybridCollisionWithPhysics
  | .ManipulationGrip | .ManipulationGripWithWristTwist =>
    if bHasMovementAuthority then (SetUpPhysicsHandle w st NewGrip).2 else (w, st)
  | .EventsOnly | .CustomGrip => (w, st)
  | .AttachmentGrip =>
    match root with
    | some r => if bHasMovementAuthority || env.IsServer then (Moved.1.SetAttached r true, Moved.2) else Moved
    | none => Moved
  | .PhysicsOnly | .SweepWithPhysics | .InteractiveHybridCollisionWithSweep
  | .InteractiveCollisionWithSweep => Moved

/-- Notification `NotifyGrip(NewGrip)` with `bIsReInit = false`, as `GripActor` and
`GripComponent` call it on their local copy of the new record. -/
def NotifyGrip (env : Env) (w : World) (st : State) (NewGrip : FBPActorGripInformation) :
    Bool × World × State :=
  let Target := ResolveTarget w NewGrip
  let Gripped : Option UObject :=
    match NewGrip.GripTargetType with
    | .ActorGrip => w.GetGrippedActor NewGrip
    | .ComponentGrip => w.GetGrippedComponent NewGrip
  match Gripped with
  | none => (false, w, st)
  | some Object =>
    let st1 := if (w.Objects Object).bImplementsGripInterface
      then (st.Emit (.SetHeld Object NewGrip.GripID true)).Emit (.OnGrip Object NewGrip.GripID)
      else st
    let w1 : World :=
      match Target.1 with
      | some r =>
        if (NewGrip.GripCollisionType != .EventsOnly) && TouchesGravity env NewGrip
        then w.SetEnableGravity r false else w
      | none => w
    let w2 := NotifyGripReplication env w1 NewGrip Target.1 Target.2
    let r3 := NotifyGripPlacement env w2 st1 NewGrip Target.1
    (true, r3.1, r3.2.Emit (.OnGrippedObject NewGrip.GripID))

/-- The arguments of `GripActor` and `GripComponent` after the target. -/
structure GripArgs where
  WorldOffset : FTransform
  bWorldOffsetIsRelative : Bool
  /-- The socket to snap to; `NAME_None` is `none`. -/
  OptionalSnapToSocketName : Option Nat
  OptionalBoneToGripName : Option Nat
  GripCollisionType : EGripCollisionType
  GripLateUpdateSetting : EGripLateUpdateSettings
  GripMovementReplicationSetting : EGripMovementReplicationSettings
  GripStiffness : ℚ
  GripDamping : ℚ
  bIsSlotGrip : Bool

/-- Query `GetIsObjectHeld(ObjectToCheck)`: the object is in one of the two arrays. -/
def GetIsObjectHeld (st : State) (ObjectToCheck : Option UObject) : Bool :=
  if ObjectToCheck.isNone then false
  else (FindByObject st.GrippedObjects ObjectToCheck).isSome ||
    (FindByObject st.LocallyGrippedObjects ObjectToCheck).isSome

def GetGripByID (st : State) (IDToLookForGrip : Nat) : Option FBPActorGripInformation :=
  if IDToLookForGrip == INVALID_VRGRIP_ID then none
  else (FindByID st.GrippedObjects IDToLookForGrip).orElse
    (fun _ => FindByID st.LocallyGrippedObjects IDToLookForGrip)

/-- The original gravity and replication flags a multi-grip inherits: those of
the record `HoldingControllers[0]` names, read with `GetGripByID` on the holding
controller (this one or another). `none` when the holder is null or the lookup
fails. -/
def FirstHolderSettings (env : Env) (w : World) (st : State) (Interface : UObject) :
    Option (Bool × Bool) :=
  match (w.Objects Interface).HoldingControllers.head? with
  | some (some Controller, GripID) =>
    if Controller = env.Self then
      (GetGripByID st GripID).map (fun g => (g.bOriginalGravity, g.bOriginalReplicatesMovement))
    else w.OtherControllerGrip Controller GripID
  | _ => none

/-- The `RelativeTransform` a new grip stores, and whether the socket branch
was taken (which forces `bIsSlotGrip`). -/
def ResolveRelativeTransform (w : World) (st : State) (root : UObject) (a : GripArgs) :
    FTransform × Bool :=
  let Socket : Option FTransform :=
    match a.OptionalSnapToSocketName with
    | some n => (w.Objects root).Sockets n
    | none => none
  match Socket with
  | some sockTrans => (sockTrans.Inverse, true)
  | none =>
    if a.bWorldOffsetIsRelative then
      match st.CustomPivotComponent with
      | some c =>
        if !(w.Objects c).bPendingKill && !a.bIsSlotGrip then
          ((a.WorldOffset.mul w.ControllerTransform).GetRelativeTransform
            (w.Objects c).ComponentTransform, false)
        else (a.WorldOffset, false)
      | none => (a.WorldOffset, false)
    else (a.WorldOffset.GetRelativeTransform (GetPivotTransform w st), false)

/-- The record `GripActor` / `GripComponent` build before inserting it. -/
def BuildGrip (w : World) (st : State) (Target root : UObject) (TargetType : EGripTargetType)
    (a : GripArgs) (GripID : Nat) (AdvancedGripSettings : FBPAdvGripSettings)
    (bOriginalReplicatesMovement bOriginalGravity : Bool) (Owner : Option UObject) :
    FBPActorGripInformation :=
  let Rel := ResolveRelativeTransform w st root a
  { FBPActorGripInformation.Default with
    GripID := GripID
    GripCollisionType := a.GripCollisionType
    GrippedObject := some Target
    bOriginalReplicatesMovement := bOriginalReplicatesMovement
    bOriginalGravity := bOriginalGravity
    Stiffness := a.GripStiffness
    Damping := a.GripDamping
    AdvancedGripSettings := AdvancedGripSettings
    GripTargetType := TargetType
    bWasInitiallyRepped := true
    bIsSlotGrip := a.bIsSlotGrip || Rel.2
    GrippedBoneName := a.OptionalBoneToGripName
    GripLateUpdateSetting :=
      if IsManipulationGrip a.GripCollisionType then .LateUpdatesAlwaysOff else a.GripLateUpdateSetting
    GripMovementReplicationSetting :=
      if a.GripMovementReplicationSetting = .KeepOriginalMovement then
        match Owner with
        | some o => if (w.Objects o).bReplicateMovement then .ForceServerSideMovement
                    else .ForceClientSideMovement
        | none => .ForceClientSideMovement
      else a.GripMovementReplicationSetting
    RelativeTransform := Rel.1 }

/-- The insertion at the end of `GripActor` / `GripComponent`: the record goes
to the replicated array or to the local one, a client reports a
`ClientSide_Authoritive` grip to the server, and `NotifyGrip` runs. -/
def InsertGrip (env : Env) (w : World) (st : State) (bIsLocalGrip : Bool)
    (newGrip : FBPActorGripInformation) : Bool × World × State :=
  if !bIsLocalGrip then
    let r := NotifyGrip env w { st with GrippedObjects := st.GrippedObjects ++ [newGrip] } newGrip
    (true, r.2.1, r.2.2)
  else
    let st1 := { st with LocallyGrippedObjects := st.LocallyGrippedObjects ++ [newGrip] }
    let st2 := if (env.NetMode == .NM_Client) && !env.IsTornOff &&
        (newGrip.GripMovementReplicationSetting == .ClientSide_Authoritive)
      then st1.Emit (.Server_NotifyLocalGripAddedOrChanged newGrip) else st1
    let r := NotifyGrip env w st2 newGrip
    (true, r.2.1, r.2.2)

/-- The interface checks of `GripActor` / `GripComponent` on the object whose
interface is consulted: `none` when the grip is refused (the target denies
gripping, or is held and does not allow multiple grips), else the advanced
settings of the interface and the original flags inherited from the first holder. -/
def ConsultInterface (env : Env) (w : World) (st : State) (Interface : UObject) :
    Option (FBPAdvGripSettings × Option (Bool × Bool)) :=
  if (w.Objects Interface).DenyGripping then none
  else if (w.Objects Interface).IsHeld && !(w.Objects Interface).AllowsMultipleGrips then none
  else if (w.Objects Interface).IsHeld then
    some ((w.Objects Interface).AdvancedGripSettings, FirstHolderSettings env w st Interface)
  else some ((w.Objects Interface).AdvancedGripSettings, none)

def GripActor (env : Env) (w : World) (st : State) (ActorToGrip : Option UObject) (a : GripArgs) :
    Bool × World × State :=
  let bIsLocalGrip := IsLocalGripSetting a.GripMovementReplicationSetting
  if !env.IsServer && !bIsLocalGrip then (false, w, st)
  else
    match ActorToGrip with
    | none => (false, w, st)
    | some Actor =>
      if GetIsObjectHeld st ActorToGrip then (false, w, st)
      else
        match w.RootOf Actor with
        | none => (false, w, st)
        | some root =>
          if !(w.Objects root).bMovable &&
              ((a.GripCollisionType != .CustomGrip) && (a.GripCollisionType != .EventsOnly)) then
            (false, w, st)
          else
            let Consulted : Option (FBPAdvGripSettings × Option (Bool × Bool)) :=
              match InterfaceOf w root Actor with
              | some i => ConsultInterface env w st i
              | none => some (FBPAdvGripSettings.Default, none)
            match Consulted with
            | none => (false, w, st)
            | some Settings =>
              let Next := env.GetNextGripID bIsLocalGrip st.GripIDIncrementer
              let Original : Bool × Bool :=
                match Settings.2 with
                | some o => o
                | none => ((w.Objects root).bGravityEnabled, (w.Objects Actor).bReplicateMovement)
              let newActorGrip := BuildGrip w st Actor root .ActorGrip a Next.1 Settings.1
                Original.2 Original.1 (some Actor)
              InsertGrip env w { st with GripIDIncrementer := Next.2 } bIsLocalGrip newActorGrip

def GripComponent (env : Env) (w : World) (st : State) (ComponentToGrip : Option UObject)
    (a : GripArgs) : Bool × World × State :=
  let bIsLocalGrip := IsLocalGripSetting a.GripMovementReplicationSetting
  if !env.IsServer && !bIsLocalGrip then (false, w, st)
  else
    match ComponentToGrip with
    | none => (false, w, st)
    | some Component =>
      if GetIsObjectHeld st ComponentToGrip then (false, w, st)
      else if !(w.Objects Component).bMovable &&
          ((a.GripCollisionType != .CustomGrip) && (a.GripCollisionType != .EventsOnly)) then
        (false, w, st)
      else
        let Consulted : Option (FBPAdvGripSettings × Option (Bool × Bool)) :=
          if (w.Objects Component).bImplementsGripInterface then ConsultInterface env w st Component
          else some (FBPAdvGripSettings.Default, none)
        match Consulted with
        | none => (false, w, st)
        | some Settings =>
          let Next := env.GetNextGripID bIsLocalGrip st.GripIDIncrementer
          let Original : Bool × Bool :=
            match Settings.2 with
            | some o => o
            | none =>
              ((w.Objects Component).bGravityEnabled,
                match (w.Objects Component).Owner with
                | some o => (w.Objects o).bReplicateMovement
                | none => FBPActorGripInformation.Default.bOriginalReplicatesMovement)
          let newComponentGrip := BuildGrip w st Component Component .ComponentGrip a Next.1
            Settings.1 Original.2 Original.1 (w.Objects Component).Owner
          InsertGrip env w { st with GripIDIncrementer := Next.2 } bIsLocalGrip newComponentGrip

/-! ## Per-frame tick -/

/-- The array `HandleGripArray` was given: `GrippedObjects` when
`bReplicatedArray`, `LocallyGrippedObjects` otherwise. -/
def State.GripArray (st : State) (bReplicatedArray : Bool) : List FBPActorGripInformation :=
  if bReplicatedArray then st.GrippedObjects else st.LocallyGrippedObjects

/-- Write through the pointer `Grip = &GrippedObjectsArray[i]`. -/
def State.ModifySlot (st : State) (bReplicatedArray : Bool) (i : Nat)
    (f : FBPActorGripInformation → FBPActorGripInformation) : State :=
  if bReplicatedArray then { st with GrippedObjects := ModifyAt st.GrippedObjects i f }
  else { st with LocallyGrippedObjects := ModifyAt st.LocallyGrippedObjects i f }

/-- The simulate flag the tick passes to `DropGrip`: `SimulateOnDrop` of the
interface, `true` without one. -/
def SimulateOnDropOf (w : World) (root actor : UObject) : Bool :=
  match InterfaceOf w root actor with
  | some i => (w.Objects i).SimulateOnDrop
  | none => true

/-- Measurement `GetPhysicsJointLength`: the size of the joint vector when the grip has a
handle with a valid kinematic actor and a valid constraint. -/
def GetPhysicsJointLength (w : World) (st : State) (GrippedActor : FBPActorGripInformation)
    (rootComp : UObject) : Option Int :=
  if GrippedActor.GrippedObject.isNone then none
  else
    match GetPhysicsGrip st GrippedActor with
    | some h => if h.bKinActorValid && h.bHandleDataValid then some (w.Objects rootComp).JointLength else none
    | none => none

/-- Whether the break-distance check of the tick applies to the grip. -/
def BreakDistanceApplies (w : World) (Grip : FBPActorGripInformation) (root actor : UObject) : Bool :=
  (InterfaceOf w root actor).isSome &&
    ((Grip.GripCollisionType != .AttachmentGrip) && (Grip.GripCollisionType != .PhysicsOnly) &&
      (Grip.GripCollisionType != .SweepWithPhysics)) &&
    ((Grip.GripCollisionType != .InteractiveHybridCollisionWithSweep) ||
      ((Grip.GripCollisionType == .InteractiveHybridCollisionWithSweep) && Grip.bColliding))

/-- The break-distance block of `HandleGripArray` for slot `i`. The first
component says whether the iteration ends here (`continue`). -/
def BreakDistanceCheck (env : Env) (w : World) (st : State) (bReplicatedArray : Bool) (i : Nat)
    (Grip : FBPActorGripInformation) (root actor : UObject) (WorldTransform : FTransform) :
    Bool × World × State :=
  if !BreakDistanceApplies w Grip root actor then (false, w, st)
  else if Grip.bSkipNextConstraintLengthCheck then
    (false, w, st.ModifySlot bReplicatedArray i (fun g => { g with bSkipNextConstraintLengthCheck := false }))
  else
    let BreakDistance : Int :=
      match InterfaceOf w root actor with
      | some f => (w.Objects f).GripBreakDistance
      | none => 0
    let Distance : Int :=
      match GetPhysicsJointLength w st Grip root with
      | some d => d
      | none => (w.Objects root).DistanceTo WorldTransform
    let st1 := st.ModifySlot bReplicatedArray i (fun g => { g with GripDistance := Distance })
    let Cur : FBPActorGripInformation := { Grip with GripDistance := Distance }
    if decide (BreakDistance > 0) && decide (Distance ≥ BreakDistance) then
      let Scripts : List (Option UVRGripScriptBase) :=
        match InterfaceOf w root actor with
        | some f => (w.Objects f).GripScripts
        | none => []
      let bIgnoreDrop : Bool := Scripts.any (fun s =>
        match s with
        | some Script => Script.IsScriptActive && Script.Wants_DenyAutoDrop
        | none => false)
      if bIgnoreDrop then (false, w, st1)
      else
        match env.OnGripOutOfRange with
        | some Handler =>
          let st2 := st1.Emit (.OnGripOutOfRange Cur.GripID Distance)
          let r : World × State :=
            match Handler Cur Distance with
            | some bSimulate => (DropGrip env w st2 Cur bSimulate).2
            | none => (w, st2)
          ((GetGripByID r.2 Cur.GripID).isNone, r.1, r.2)
        | none =>
          if env.HasGripAuthority Cur then
            let r := DropGrip env w st1 Cur (SimulateOnDropOf w root actor)
            (true, r.2.1, r.2.2)
          else (false, w, st1)
    else (false, w, st1)

/-- A `SetWorldTransform` of the tick on the root of a grip. -/
def PlaceRoot (w : World) (st : State) (Grip : FBPActorGripInformation) (root : UObject)
    (T : FTransform) : World × State :=
  (w.SetComponentTransform root T, st.Emit (.SetWorldTransform root Grip.GrippedObject Grip.GripID T))

/-- The `switch (Grip->GripCollisionType)` of `HandleGripArray`: the placement
of the grip in slot `i`. -/
def PlaceGrip (env : Env) (w : World) (st : State) (bReplicatedArray : Bool) (i : Nat)
    (Grip : FBPActorGripInformation) (root : UObject) (WorldTransform ParentTransform : FTransform) :
    World × State :=
  let bHit : Bool := (w.Objects root).SweepHit WorldTransform
  match Grip.GripCollisionType with
  | .InteractiveCollisionWithPhysics =>
    let st1 := UpdatePhysicsHandleTransform st Grip WorldTransform
    if st.bHasAuthority && ((Grip.GripLateUpdateSetting == .NotWhenColliding) ||
        (Grip.GripLateUpdateSetting == .NotWhenCollidingOrDoubleGripping)) then
      (w, st1.ModifySlot bReplicatedArray i (fun g => { g with bColliding := bHit }))
    else (w, st1)
  | .InteractiveCollisionWithSweep =>
    let r := PlaceRoot w st Grip root WorldTransform
    let bBlockingHit : Bool := (w.Objects root).SweepBlockingHit WorldTransform
    (r.1, r.2.ModifySlot bReplicatedArray i
      (fun g => { g with bColliding := bBlockingHit, bIsLocked := bBlockingHit }))
  | .InteractiveHybridCollisionWithPhysics =>
    let st1 := UpdatePhysicsHandleTransform st Grip WorldTransform
    if bHit then
      let st2 := if !Grip.bColliding
        then (SetGripConstraintStiffnessAndDamping st1 Grip false).2 else st1
      (w, st2.ModifySlot bReplicatedArray i (fun g => { g with bColliding := true }))
    else
      let st2 := if Grip.bColliding
        then (SetGripConstraintStiffnessAndDamping st1 Grip true).2 else st1
      (w, st2.ModifySlot bReplicatedArray i (fun g => { g with bColliding := false }))
  | .InteractiveHybridCollisionWithSweep =>
    let GripHandle := GetPhysicsGrip st Grip
    let st1 := st.ModifySlot bReplicatedArray i (fun g => { g with bColliding := bHit })
    let Cur : FBPActorGripInformation := { Grip with bColliding := bHit }
    if !bHit then
      if GripHandle.isSome then
        PlaceRoot (w.SetSimulatePhysics root false) (DestroyPhysicsHandle st1 Cur).2 Cur root WorldTransform
      else PlaceRoot w st1 Cur root WorldTransform
    else if GripHandle.isNone then
      let r := SetUpPhysicsHandle (w.SetSimulatePhysics root true) st1 Cur
      (r.2.1, UpdatePhysicsHandleTransform r.2.2 Cur WorldTransform)
    else (w, UpdatePhysicsHandleTransform st1 Cur WorldTransform)
  | .SweepWithPhysics =>
    let st1 := if env.bUseWithoutTracking || (WorldTransform != (w.Objects root).ComponentTransform)
      then st.ModifySlot bReplicatedArray i (fun g => { g with bColliding := bHit }) else st
    PlaceRoot w st1 Grip root WorldTransform
  | .PhysicsOnly => PlaceRoot w st Grip root WorldTransform
  | .AttachmentGrip =>
    let RelativeTrans := WorldTransform.GetRelativeTransform ParentTransform
    if (w.Objects root).RelativeTransform != RelativeTrans then
      (w.Update root (fun o => { o with RelativeTransform := RelativeTrans }),
        st.Emit (.SetRelativeTransform root Grip.GrippedObject Grip.GripID RelativeTrans))
    else (w, st)
  | .ManipulationGrip => (w, UpdatePhysicsHandleTransform st Grip WorldTransform)
  | .ManipulationGripWithWristTwist => (w, UpdatePhysicsHandleTransform st Grip WorldTransform)
  | .CustomGrip => (w, st)
  | .EventsOnly => (w, st)

/-- The `bAlwaysSendTickGrip` block at the end of an iteration. -/
def SendTickGrip (env : Env) (w : World) (st : State) (Grip : FBPActorGripInformation)
    (root actor : UObject) : State :=
  if env.bAlwaysSendTickGrip then
    let st1 := if (w.Objects root).bImplementsGripInterface
      then st.Emit (.TickGrip root Grip.GripID) else st
    if (w.Objects actor).bImplementsGripInterface then st1.Emit (.TickGrip actor Grip.GripID) else st1
  else st

/-- Self-healing `CleanUpBadGrip(GrippedObjectsArray, GripIndex, bReplicatedArray)`. -/
def CleanUpBadGrip (env : Env) (w : World) (st : State) (bReplicatedArray : Bool) (GripIndex : Nat) :
    World × State :=
  match (st.GripArray bReplicatedArray)[GripIndex]? with
  | none => (w, st)
  | some Grip =>
    let d := DestroyPhysicsHandle st Grip
    let st1 : State :=
      if !d.1 then
        { d.2 with PhysicsGrips := d.2.PhysicsGrips.filter (fun h =>
            !(match h.HandledObject with
              | none => true
              | some o => (h.HandledObject == Grip.GrippedObject) || (w.Objects o).bPendingKill)) }
      else d.2
    if env.HasGripAuthority Grip then (DropGrip env w st1 Grip false).2
    else (w, st1.ModifySlot bReplicatedArray GripIndex (fun g => { g with bIsPaused := true }))

/-- The part of an iteration of `HandleGripArray` that follows the validity
test of the target, for a grip with a live target. The accumulator is the
`WorldTransform` variable of the loop, the scene and the state. -/
def HandleValidGrip (env : Env) (bReplicatedArray : Bool) (i : Nat) (ParentTransform : FTransform)
    (Grip : FBPActorGripInformation) (acc : FTransform × World × State) :
    FTransform × World × State :=
  let w := acc.2.1
  let st := acc.2.2
  if Grip.GripCollisionType == .EventsOnly then acc
  else
    match ResolveTarget w Grip with
    | (some root, some actor) =>
      if Grip.GripCollisionType == .CustomGrip then
        match InterfaceOf w root actor with
        | some f => (acc.1, w, st.Emit (.TickGrip f Grip.GripID))
        | none => acc
      else
        let GripScripts : List (Option UVRGripScriptBase) :=
          match InterfaceOf w root actor with
          | some f => (w.Objects f).GripScripts
          | none => []
        let Computed := GetGripWorldTransform env GripScripts ParentTransform Grip false acc.1
        let WorldTransform := Computed.2.2
        if Computed.2.1 then
          if env.HasGripAuthority Grip then
            let r := DropGrip env w st Grip (SimulateOnDropOf w root actor)
            (WorldTransform, r.2.1, r.2.2)
          else (WorldTransform, w, st)
        else if !Computed.1 then (WorldTransform, w, st)
        else if st.bIsPostTeleport then
          let r := TeleportMoveGrip_Impl env w st Grip true true WorldTransform
          (WorldTransform, r.2.2.1, r.2.2.2.ModifySlot bReplicatedArray i (fun g =>
            { g with bSkipNextConstraintLengthCheck := r.2.1 || g.bSkipNextConstraintLengthCheck,
                     LastWorldTransform := WorldTransform }))
        else
          let st1 := st.ModifySlot bReplicatedArray i (fun g => { g with LastWorldTransform := WorldTransform })
          let Cur : FBPActorGripInformation := { Grip with LastWorldTransform := WorldTransform }
          let c := BreakDistanceCheck env w st1 bReplicatedArray i Cur root actor WorldTransform
          if c.1 then (WorldTransform, c.2.1, c.2.2)
          else
            match (c.2.2.GripArray bReplicatedArray)[i]? with
            | none => (WorldTransform, c.2.1, c.2.2)
            | some Now =>
              let p := PlaceGrip env c.2.1 c.2.2 bReplicatedArray i Now root WorldTransform ParentTransform
              (WorldTransform, p.1, SendTickGrip env p.1 p.2 Now root actor)
    | _ => acc

/-- One iteration of the loop of `HandleGripArray`, for index `i`. -/
def HandleGrip (env : Env) (bReplicatedArray : Bool) (ParentTransform : FTransform) (i : Nat)
    (acc : FTransform × World × State) : FTransform × World × State :=
  match (acc.2.2.GripArray bReplicatedArray)[i]? with
  | none => acc
  | some First =>
    if !env.HasGripMovementAuthority First then acc
    else
      let rep : Bool × World × State :=
        if !First.bWasInitiallyRepped && !env.HasGripAuthority First
        then env.HandleGripReplication acc.2.1 acc.2.2 bReplicatedArray i
        else (true, acc.2.1, acc.2.2)
      if !rep.1 then (acc.1, rep.2.1, rep.2.2)
      else
        match (rep.2.2.GripArray bReplicatedArray)[i]? with
        | none => (acc.1, rep.2.1, rep.2.2)
        | some Grip =>
          if Grip.bIsPaused then (acc.1, rep.2.1, rep.2.2)
          else
            let bLive : Bool :=
              match Grip.GrippedObject with
              | some o => !(rep.2.1.Objects o).bPendingKill
              | none => false
            if (Grip.GripID != INVALID_VRGRIP_ID) && bLive then
              HandleValidGrip env bReplicatedArray i ParentTransform Grip (acc.1, rep.2.1, rep.2.2)
            else
              let r := CleanUpBadGrip env rep.2.1 rep.2.2 bReplicatedArray i
              (acc.1, r.1, r.2)

/-- The loop `for (int i = Num - 1; i >= 0; --i)` of `HandleGripArray`; `n` is
the number of iterations left, the next index is `n - 1`. -/
def HandleGripLoop (env : Env) (bReplicatedArray : Bool) (ParentTransform : FTransform) :
    Nat → FTransform × World × State → FTransform × World × State
  | 0, acc => acc
  | n + 1, acc =>
    HandleGripLoop env bReplicatedArray ParentTransform n
      (HandleGrip env bReplicatedArray ParentTransform n acc)

def HandleGripArray (env : Env) (w : World) (st : State) (bReplicatedArray : Bool)
    (ParentTransform : FTransform) : World × State :=
  (HandleGripLoop env bReplicatedArray ParentTransform (st.GripArray bReplicatedArray).length
    (FTransform.Identity, w, st)).2

/-- The handle clean-up `CleanUpBadPhysicsHandles`: an entry is kept when
`LocallyGrippedObjects.FindByKey(GripID)` finds a record; the result of the
lookup in `GrippedObjects` is not stored. -/
def CleanUpBadPhysicsHandles (st : State) : State :=
  { st with PhysicsGrips := st.PhysicsGrips.filter (fun h =>
      (FindByID st.LocallyGrippedObjects h.GripID).isSome) }

def TickGrip (env : Env) (w : World) (st : State) : World × State :=
  let st1 := if st.PhysicsGrips.length > st.GrippedObjects.length + st.LocallyGrippedObjects.length
    then CleanUpBadPhysicsHandles st else st
  let ParentTransform := GetPivotTransform w st1
  let r1 := HandleGripArray env w st1 true ParentTransform
  let r2 := HandleGripArray env r1.1 r1.2 false ParentTransform
  (r2.1, { r2.2 with bIsPostTeleport := false })

/-! ## Network reconciliation -/

/-- The server side of a client report:
`Server_NotifyLocalGripAddedOrChanged_Implementation(newGrip)`. `RepCopy` is
declared in the header and given as `RepCopy Old New`. -/
def Server_NotifyLocalGripAddedOrChanged_Implementation (env : Env)
    (RepCopy : FBPActorGripInformation → FBPActorGripInformation → FBPActorGripInformation)
    (w : World) (st : State) (newGrip : FBPActorGripInformation) : World × State :=
  if newGrip.GrippedObject.isNone ||
      (newGrip.GripMovementReplicationSetting != .ClientSide_Authoritive) then
    (w, st.Emit (.Client_NotifyInvalidLocalGrip newGrip.GrippedObject))
  else
    match FindGrip st.LocallyGrippedObjects newGrip with
    | none =>
      let NewIndex := st.LocallyGrippedObjects.length
      (env.HandleGripReplication w
        { st with LocallyGrippedObjects := st.LocallyGrippedObjects ++ [newGrip] } false NewIndex).2
    | some IndexFound =>
      (env.HandleGripReplication w
        { st with LocallyGrippedObjects :=
            ModifyAt st.LocallyGrippedObjects IndexFound (fun Old => RepCopy Old newGrip) }
        false IndexFound).2

/-! ## Sample scene and sides

Concrete inputs on which the statements below are evaluated: an actor `1` with
the movable primitive root `2`, a free movable component `3`, and two sides. -/

namespace Sample

def Info : UObjectInfo :=
  { Kind := .Other, bPendingKill := false, RootComponent := none, Owner := none, bMovable := true,
    bImplementsGripInterface := false, DenyGripping := false, IsHeld := false,
    HoldingControllers := [], AllowsMultipleGrips := false,
    AdvancedGripSettings := FBPAdvGripSettings.Default, SimulateOnDrop := true,
    GripBreakDistance := 0, TeleportBehavior := .TeleportAllComponents, GripScripts := [],
    SecondaryGripType := .SG_None,
    bReplicateMovement := false, bGravityEnabled := true, bSimulatingPhysics := false,
    bReplicates := false, bAttachedToController := false,
    ComponentTransform := FTransform.Identity, RelativeTransform := FTransform.Identity,
    bValidBodyInstance := true, bCreateActorSucceeds := true, bCreateConstraintSucceeds := true,
    Sockets := fun _ => none, SweepHit := fun _ => false, SweepBlockingHit := fun _ => false,
    JointLength := 0, DistanceTo := fun _ => 0 }

/-- The scene: actor `1` with primitive root `2`, component `3` without owner;
`f` sets the interface answers of the root `2` and of the component `3`. -/
def Scene (f : UObjectInfo → UObjectInfo) : World :=
  { Objects := fun o =>
      if o = 1 then { Info with Kind := .Actor, RootComponent := some 2 }
      else if o = 2 then f { Info with Kind := .PrimitiveComponent, Owner := some 1 }
      else if o = 3 then f { Info with Kind := .PrimitiveComponent }
      else Info,
    OtherControllerGrip := fun _ _ => none,
    ControllerTransform := FTransform.Identity }

/-- A script that leaves the transform as it is, reports it valid and asks for
nothing. -/
def Script : UVRGripScriptBase :=
  { IsScriptActive := true, WorldTransformOverrideType := .None,
    GetWorldTransform := fun _ _ T => (true, T), Wants_ToForceDrop := false,
    Wants_DenyAutoDrop := false }

/-- An 8-bit ID allocator: the counter counts from 1 up to 127 and then starts
again at 1; the server-authoritative IDs are the counter values, 1 to 127, the
predicted ones are offset by 128, 129 to 255. -/
def NextID (bIsLocalGrip : Bool) (n : Nat) : Nat × Nat :=
  (if bIsLocalGrip then (if n < 127 then n + 1 else 1) + 128 else (if n < 127 then n + 1 else 1),
    if n < 127 then n + 1 else 1)

/-- A listen server whose player controls the hand: it has authority over every
grip and allocates IDs with `NextID`. -/
def Server : Env :=
  { Self := 0, IsServer := true, NetMode := .NM_ListenServer, IsTornOff := false,
    IsLocallyControlled := true, bAlwaysSendTickGrip := false, bUseWithoutTracking := false,
    GripAuthority := fun _ => true, GripMovementAuthority := fun _ => true,
    GetNextGripID := NextID,
    HandleGripReplication := fun w st _ _ => (true, w, st),
    DefaultGripScript := some Script, OnGripOutOfRange := none }

/-- A network client controlling the hand: it has authority over the
client-authoritative grips only. -/
def Client : Env :=
  { Server with IsServer := false, NetMode := .NM_Client,
                GripAuthority := IsLocalGripSetting,
                GripMovementAuthority := fun s => s != .ForceServerSideMovement }

def Args (GripCollisionType : EGripCollisionType)
    (GripMovementReplicationSetting : EGripMovementReplicationSettings) : GripArgs :=
  { WorldOffset := FTransform.Identity, bWorldOffsetIsRelative := false,
    OptionalSnapToSocketName := none, OptionalBoneToGripName := none,
    GripCollisionType := GripCollisionType, GripLateUpdateSetting := .NotWhenCollidingOrDoubleGripping,
    GripMovementReplicationSetting := GripMovementReplicationSetting,
    GripStiffness := 1500, GripDamping := 200, bIsSlotGrip := false }

/-- A record for object `o` with ID `n`, as a grip leaves it. -/
def Grip (o : UObject) (n : Nat) (s : EGripMovementReplicationSettings) : FBPActorGripInformation :=
  { FBPActorGripInformation.Default with
    GripID := n, GrippedObject := some o, GripMovementReplicationSetting := s,
    bWasInitiallyRepped := true }

end Sample


/-! ## Retuning a held grip -/

/-- The writes of `SetGripStiffnessAndDamping` to the record it found. -/
def WriteStiffnessAndDamping (NewStiffness NewDamping : ℚ) (bAlsoSetAngularValues : Bool)
    (OptionalAngularStiffness OptionalAngularDamping : ℚ) (r : FBPActorGripInformation) :
    FBPActorGripInformation :=
  let r1 := { r with Stiffness := NewStiffness, Damping := NewDamping }
  if bAlsoSetAngularValues then
    let Adv := { r1.AdvancedGripSettings with AngularStiffness := OptionalAngularStiffness }
    { r1 with AdvancedGripSettings := { Adv with AngularDamping := OptionalAngularDamping } }
  else r1

/-- Entry point `SetGripStiffnessAndDamping(Grip, Result, NewStiffness, NewDamping, ...)`; the
first component is `Result == OnSucceeded`. The retuning is called with its
default `bUseHybridMultiplier` (declared in the header), which it does not read. -/
def SetGripStiffnessAndDamping (env : Env) (st : State) (Grip : FBPActorGripInformation)
    (NewStiffness NewDamping : ℚ) (bAlsoSetAngularValues : Bool)
    (OptionalAngularStiffness OptionalAngularDamping : ℚ) : Bool × State :=
  let Write := WriteStiffnessAndDamping NewStiffness NewDamping bAlsoSetAngularValues
    OptionalAngularStiffness OptionalAngularDamping
  match FindGrip st.GrippedObjects Grip with
  | some fIndex =>
    let st1 := { st with GrippedObjects := ModifyAt st.GrippedObjects fIndex Write }
    match st1.GrippedObjects[fIndex]? with
    | some Found => (true, (SetGripConstraintStiffnessAndDamping st1 Found false).2)
    | none => (true, st1)
  | none =>
    match FindGrip st.LocallyGrippedObjects Grip with
    | some fIndex =>
      let st1 := { st with LocallyGrippedObjects := ModifyAt st.LocallyGrippedObjects fIndex Write }
      match st1.LocallyGrippedObjects[fIndex]? with
      | some Found =>
        let st2 := if (env.NetMode == .NM_Client) && !env.IsTornOff &&
            (Found.GripMovementReplicationSetting == .ClientSide_Authoritive)
          then st1.Emit (.Server_NotifyLocalGripAddedOrChanged Found) else st1
        (true, (SetGripConstraintStiffnessAndDamping st2 Found false).2)
      | none => (true, st1)
    | none => (false, st)

/-! ## Secondary attachments -/

/-- The lookup both secondary attachment functions make: `FindByKey(GripID)` in
the predicted array, then, on the server only, in the replicated array. The
result names the array (`true` for the replicated one) and the index. -/
def LocateGripByID (env : Env) (st : State) (GripID : Nat) : Option (Bool × Nat) :=
  match st.LocallyGrippedObjects.findIdx? (fun r => r.EqualsID GripID) with
  | some i => some (false, i)
  | none =>
    if !env.IsServer then none
    else
      match st.GrippedObjects.findIdx? (fun r => r.EqualsID GripID) with
      | some i => some (true, i)
      | none => none

/-- Whether `RemoveSecondaryAttachmentFromGrip` retains the position on release
for the style. -/
def ESecondaryGripType.RetainsOnRelease : ESecondaryGripType → Bool
  | .SG_FreeWithScaling_Retain => true
  | .SG_SlotOnlyWithScaling_Retain => true
  | .SG_Free_Retain => true
  | .SG_SlotOnly_Retain => true
  | .SG_ScalingOnly => true
  | _ => false

/-- The script notifications of a secondary grip or release: one event per
non-null script. -/
def EmitPerScript (st : State) (Scripts : List (Option UVRGripScriptBase)) (e : Event) : State :=
  Scripts.foldl (fun s Script => if Script.isSome then s.Emit e else s) st

/-- The primitive the `switch (GripToUse->GripTargetType)` of the secondary
attachment functions selects: the primitive root of the gripped actor for an
actor grip, the gripped component for a component grip. -/
def GripTargetPrimitive (w : World) (Grip : FBPActorGripInformation) : Option UObject :=
  match Grip.GripTargetType with
  | .ActorGrip =>
    match w.GetGrippedActor Grip with
    | some pActor => w.RootOf pActor
    | none => none
  | .ComponentGrip => w.GetGrippedComponent Grip

/-- The writes of `AddSecondaryAttachmentToGrip` to the record it found. -/
def WriteSecondaryAttachment (w : World) (root : UObject) (SecondaryPointComponent : UObject)
    (OriginalTransform : FTransform) (bTransformIsAlreadyRelative : Bool) (LerpToTime : ℚ)
    (bIsSlotGrip : Bool) (r : FBPActorGripInformation) : FBPActorGripInformation :=
  let Relative : FTransform :=
    if bTransformIsAlreadyRelative then OriginalTransform
    else OriginalTransform.GetRelativeTransform (w.Objects root).ComponentTransform
  let Info1 : FBPSecondaryGripInfo :=
    { r.SecondaryGripInfo with SecondaryRelativeTransform := Relative }
  let Info2 : FBPSecondaryGripInfo :=
    { Info1 with SecondaryAttachment := some SecondaryPointComponent }
  let Info3 : FBPSecondaryGripInfo := { Info2 with bHasSecondaryAttachment := true }
  let Info4 : FBPSecondaryGripInfo := { Info3 with SecondaryGripDistance := 0 }
  let Info5 : FBPSecondaryGripInfo := { Info4 with bIsSlotGrip := bIsSlotGrip }
  let Time : ℚ := if Info5.GripLerpState = .EndLerp then 0 else LerpToTime
  let Info6 : FBPSecondaryGripInfo :=
    if Time > 0 then { Info5 with LerpToRate := Time, GripLerpState := .StartLerp, curLerp := Time }
    else Info5
  { r with SecondaryGripInfo := Info6 }

def AddSecondaryAttachmentToGrip (env : Env) (w : World) (st : State)
    (GripToAddAttachment : FBPActorGripInformation) (SecondaryPointComponent : Option UObject)
    (OriginalTransform : FTransform) (bTransformIsAlreadyRelative : Bool) (LerpToTime : ℚ)
    (bIsSlotGrip : Bool) : Bool × State :=
  match SecondaryPointComponent with
  | none => (false, st)
  | some Component =>
    if GripToAddAttachment.GrippedObject.isNone ||
        (GripToAddAttachment.GripID == INVALID_VRGRIP_ID) ||
        (st.GrippedObjects.isEmpty && st.LocallyGrippedObjects.isEmpty) then (false, st)
    else
      match LocateGripByID env st GripToAddAttachment.GripID with
      | none => (false, st)
      | some Slot =>
        match (st.GripArray Slot.1)[Slot.2]? with
        | none => (false, st)
        | some GripToUse =>
          match GripToUse.GrippedObject with
          | none => (false, st)
          | some Object =>
            let bGrippedObjectIsInterfaced := (w.Objects Object).bImplementsGripInterface
            if bGrippedObjectIsInterfaced && ((w.Objects Object).SecondaryGripType == .SG_None) then
              (false, st)
            else
              match GripTargetPrimitive w GripToUse with
              | none => (false, st)
              | some root =>
                let Write := WriteSecondaryAttachment w root Component OriginalTransform
                  bTransformIsAlreadyRelative LerpToTime bIsSlotGrip
                let st1 := st.ModifySlot Slot.1 Slot.2 Write
                let Now := Write GripToUse
                let st2 :=
                  if bGrippedObjectIsInterfaced then
                    EmitPerScript (st1.Emit (.OnSecondaryGrip Object Now.GripID))
                      (w.Objects Object).GripScripts (.ScriptOnSecondaryGrip Now.GripID)
                  else st1
                let st3 :=
                  if (Now.GripMovementReplicationSetting == .ClientSide_Authoritive) &&
                      (env.NetMode == .NM_Client) && !env.IsTornOff
                  then st2.Emit (.Server_NotifySecondaryAttachmentChanged Now.GripID
                    Now.SecondaryGripInfo)
                  else st2
                (true, st3)

/-- The writes of `RemoveSecondaryAttachmentFromGrip` to the record it found,
before the release notifications: the retained pose or the blend back. -/
def WriteSecondaryRelease (w : World) (st : State) (primComp : Option UObject)
    (SecondaryType : ESecondaryGripType) (LerpToTime : ℚ) (r : FBPActorGripInformation) :
    FBPActorGripInformation :=
  let Time : ℚ := if r.SecondaryGripInfo.GripLerpState = .StartLerp then 0 else LerpToTime
  match primComp with
  | some p =>
    if SecondaryType.RetainsOnRelease then
      let r1 := { r with RelativeTransform :=
        (w.Objects p).ComponentTransform.GetRelativeTransform (GetPivotTransform w st) }
      { r1 with SecondaryGripInfo :=
        { r1.SecondaryGripInfo with LerpToRate := 0, GripLerpState := .NotLerping } }
    else if Time > 0 then
      { r with SecondaryGripInfo :=
        { r.SecondaryGripInfo with LerpToRate := Time, GripLerpState := .EndLerp, curLerp := Time } }
    else r
  | none =>
    { r with SecondaryGripInfo :=
      { r.SecondaryGripInfo with LerpToRate := 0, GripLerpState := .NotLerping } }

/-- The end of `RemoveSecondaryAttachmentFromGrip`: the attachment is cleared. -/
def ClearSecondaryAttachment (r : FBPActorGripInformation) : FBPActorGripInformation :=
  { r with SecondaryGripInfo :=
    { r.SecondaryGripInfo with SecondaryAttachment := none, bHasSecondaryAttachment := false } }

def RemoveSecondaryAttachmentFromGrip (env : Env) (w : World) (st : State)
    (GripToRemoveAttachment : FBPActorGripInformation) (LerpToTime : ℚ) : Bool × State :=
  if GripToRemoveAttachment.GrippedObject.isNone ||
      (GripToRemoveAttachment.GripID == INVALID_VRGRIP_ID) ||
      (st.GrippedObjects.isEmpty && st.LocallyGrippedObjects.isEmpty) then (false, st)
  else
    match LocateGripByID env st GripToRemoveAttachment.GripID with
    | none => (false, st)
    | some Slot =>
      match (st.GripArray Slot.1)[Slot.2]? with
      | none => (false, st)
      | some GripToUse =>
        match GripToUse.GrippedObject with
        | none => (false, st)
        | some Object =>
          let bGripObjectHasInterface := (w.Objects Object).bImplementsGripInterface
          let SecondaryType : ESecondaryGripType :=
            if bGripObjectHasInterface then (w.Objects Object).SecondaryGripType else .SG_None
          let Write := WriteSecondaryRelease w st (GripTargetPrimitive w GripToUse) SecondaryType LerpToTime
          let st1 := st.ModifySlot Slot.1 Slot.2 Write
          let Released := Write GripToUse
          let st2 :=
            if bGripObjectHasInterface then
              EmitPerScript (st1.Emit (.OnSecondaryGripRelease Object Released.GripID))
                (w.Objects Object).GripScripts (.ScriptOnSecondaryGripRelease Released.GripID)
            else st1
          let st3 := st2.ModifySlot Slot.1 Slot.2 ClearSecondaryAttachment
          let Now := ClearSecondaryAttachment Released
          let st4 :=
            if (Now.GripMovementReplicationSetting == .ClientSide_Authoritive) &&
                (env.NetMode == .NM_Client) then
              if env.IsTornOff then st3
              else if SecondaryType.RetainsOnRelease then
                st3.Emit (.Server_NotifySecondaryAttachmentChanged_Retain Now.GripID
                  Now.SecondaryGripInfo Now.RelativeTransform)
              else st3.Emit (.Server_NotifySecondaryAttachmentChanged Now.GripID
                Now.SecondaryGripInfo)
            else st3
          (true, st4)

/-! ## The invalid-grip notice -/

/-- Lookup `GetGripByObject`: the replicated array first, then the predicted one. -/
def GetGripByObject (st : State) (ObjectToLookForGrip : Option UObject) :
    Option FBPActorGripInformation :=
  if ObjectToLookForGrip.isNone then none
  else (FindByObject st.GrippedObjects ObjectToLookForGrip).orElse
    (fun _ => FindByObject st.LocallyGrippedObjects ObjectToLookForGrip)

/-- The client side of the invalid-grip notice:
`Client_NotifyInvalidLocalGrip_Implementation(LocallyGrippedObject)`.
`DropObjectByInterface` is called with its default grip ID (declared in the
header), taken as the invalid ID. -/
def Client_NotifyInvalidLocalGrip_Implementation (env : Env) (w : World) (st : State)
    (LocallyGrippedObject : Option UObject) : World × State :=
  match GetGripByObject st LocallyGrippedObject with
  | none => (w, st)
  | some FoundGrip => (DropObjectByInterface env w st FoundGrip.GrippedObject INVALID_VRGRIP_ID).2

/-! ## Teleport entry points and the paused transform -/

/-- Wrapper `TeleportMoveGrip(Grip, bTeleportPhysicsGrips, bIsForPostTeleport)`:
the implementation with the identity as optional transform. -/
def TeleportMoveGrip (env : Env) (w : World) (st : State) (Grip : FBPActorGripInformation)
    (bTeleportPhysicsGrips bIsForPostTeleport : Bool) : Bool × Bool × World × State :=
  TeleportMoveGrip_Impl env w st Grip bTeleportPhysicsGrips bIsForPostTeleport FTransform.Identity

/-- The body shared by `TeleportMoveGrippedActor(GrippedActorToMove, bTeleportPhysicsGrips)`
and `TeleportMoveGrippedComponent(ComponentToMove, bTeleportPhysicsGrips)`: the
record is looked up by object in `LocallyGrippedObjects`; the result of the
lookup in `GrippedObjects` is not stored. `TeleportMoveGrip` is called with its
default `bIsForPostTeleport` (declared in the header), given as
`bIsForPostTeleport`; the flag it sets on the record is written to the slot. -/
def TeleportMoveGrippedObject (env : Env) (w : World) (st : State) (ObjectToMove : Option UObject)
    (bTeleportPhysicsGrips bIsForPostTeleport : Bool) : Bool × World × State :=
  if ObjectToMove.isNone || (st.GrippedObjects.isEmpty && st.LocallyGrippedObjects.isEmpty) then
    (false, w, st)
  else
    match st.LocallyGrippedObjects.findIdx? (fun r => r.EqualsObject ObjectToMove) with
    | some Index =>
      match st.LocallyGrippedObjects[Index]? with
      | some GripInfo =>
        let r := TeleportMoveGrip env w st GripInfo bTeleportPhysicsGrips bIsForPostTeleport
        (r.1, r.2.2.1, if r.2.1 then r.2.2.2.ModifySlot false Index
          (fun g => { g with bSkipNextConstraintLengthCheck := true }) else r.2.2.2)
      | none => (false, w, st)
    | none => (false, w, st)

def TeleportMoveGrippedActor (env : Env) (w : World) (st : State) (GrippedActorToMove : Option UObject)
    (bTeleportPhysicsGrips bIsForPostTeleport : Bool) : Bool × World × State :=
  TeleportMoveGrippedObject env w st GrippedActorToMove bTeleportPhysicsGrips bIsForPostTeleport

def TeleportMoveGrippedComponent (env : Env) (w : World) (st : State) (ComponentToMove : Option UObject)
    (bTeleportPhysicsGrips bIsForPostTeleport : Bool) : Bool × World × State :=
  TeleportMoveGrippedObject env w st ComponentToMove bTeleportPhysicsGrips bIsForPostTeleport

/-- The engine `SetActorTransform` and `SetWorldTransform` of the paused
transform: the root of the gripped actor, or the gripped component, is moved;
`none` when the pointer the code dereferences is null. -/
def PlacePaused (w : World) (st : State) (Grip : FBPActorGripInformation) (T : FTransform) :
    Option (World × State) :=
  if Grip.GripTargetType = .ActorGrip then
    match w.GetGrippedActor Grip with
    | some a =>
      match (w.Objects a).RootComponent with
      | some root => some (PlaceRoot w st Grip root T)
      | none => some (w, st)
    | none => none
  else
    match w.GetGrippedComponent Grip with
    | some c => some (PlaceRoot w st Grip c T)
    | none => none

/-- Entry point `SetPausedTransform(Grip, PausedTransform, bTeleport)`. The
result is `none` when the call reads an array past its end or dereferences a
null pointer. Without teleport the handle is looked up for
`GrippedObjects[fIndex]`, whichever array `fIndex` was found in. -/
def SetPausedTransform (env : Env) (w : World) (st : State) (Grip : FBPActorGripInformation)
    (PausedTransform : FTransform) (bTeleport : Bool) : Option (World × State) :=
  let Located : Option (Bool × Nat) :=
    match FindGrip st.GrippedObjects Grip with
    | some fIndex => some (true, fIndex)
    | none =>
      match FindGrip st.LocallyGrippedObjects Grip with
      | some fIndex => some (false, fIndex)
      | none => none
  match Located with
  | none => some (w, st)
  | some Slot =>
    match (st.GripArray Slot.1)[Slot.2]? with
    | none => some (w, st)
    | some GripInformation =>
      if GripInformation.GrippedObject.isNone then some (w, st)
      else if bTeleport then
        let r := TeleportMoveGrip_Impl env w st GripInformation true true PausedTransform
        some (r.2.2.1, if r.2.1 then r.2.2.2.ModifySlot Slot.1 Slot.2
          (fun g => { g with bSkipNextConstraintLengthCheck := true }) else r.2.2.2)
      else
        match st.GrippedObjects[Slot.2]? with
        | none => none
        | some Indexed =>
          if (GetPhysicsGrip st Indexed).isSome then
            some (w, UpdatePhysicsHandleTransform st GripInformation PausedTransform)
          else PlacePaused w st GripInformation PausedTransform
/-! ## Vocabulary of the statements -/

/-- The fields of the controller other than the handle table and the trace stay
as they are. -/
def SameRecords (st st' : State) : Prop :=
  st'.GrippedObjects = st.GrippedObjects ∧ st'.LocallyGrippedObjects = st.LocallyGrippedObjects ∧
    st'.GripIDIncrementer = st.GripIDIncrementer ∧ st'.bIsPostTeleport = st.bIsPostTeleport ∧
    st'.bHasAuthority = st.bHasAuthority ∧ st'.CustomPivotComponent = st.CustomPivotComponent

/-- The failure reasons of `GripActor` as the spec lists them: the side is not
authorized for the replication mode, the target is null, the target is already
held (by this controller or, as its interface reports, by any) and disallows
multiple grips (a target without the interface cannot allow them), the root of
the target is not movable in a mode other than `CustomGrip` / `EventsOnly`, or
the target denies gripping. -/
def SpecGripActorFails (env : Env) (w : World) (st : State) (ActorToGrip : Option UObject)
    (a : GripArgs) : Bool :=
  (!env.IsServer && !IsLocalGripSetting a.GripMovementReplicationSetting) ||
  ActorToGrip.isNone ||
  (match ActorToGrip with
   | none => false
   | some Actor =>
     match w.RootOf Actor with
     | none => false
     | some root =>
       let Interface := InterfaceOf w root Actor
       let bHeld : Bool := GetIsObjectHeld st ActorToGrip ||
         (match Interface with
          | some i => (w.Objects i).IsHeld
          | none => false)
       let bAllowsMultipleGrips : Bool :=
         match Interface with
         | some i => (w.Objects i).AllowsMultipleGrips
         | none => false
       let bDenies : Bool :=
         match Interface with
         | some i => (w.Objects i).DenyGripping
         | none => false
       (bHeld && !bAllowsMultipleGrips) ||
         (!(w.Objects root).bMovable && (a.GripCollisionType != .CustomGrip) &&
           (a.GripCollisionType != .EventsOnly)) ||
         bDenies)

/-- The failure condition of `DropGrip` as the spec states it: the record is in
neither collection, or it is only in the predicted collection while this side is
not the server. -/
def SpecDropGripFails (env : Env) (st : State) (Grip : FBPActorGripInformation) : Bool :=
  ((FindGripRecord st.LocallyGrippedObjects Grip).isNone &&
      (FindGripRecord st.GrippedObjects Grip).isNone) ||
    ((FindGripRecord st.LocallyGrippedObjects Grip).isSome &&
      (FindGripRecord st.GrippedObjects Grip).isNone && !env.IsServer)

namespace Sample

/-- The sample scene where the root `2` and the component `3` implement the grip
interface, report being held by this controller and allow multiple grips when
`bAllow` is set. -/
def HeldScene (bAllow : Bool) : World :=
  Scene (fun o => { o with bImplementsGripInterface := true, IsHeld := true,
                           HoldingControllers := [(some 0, 1)], AllowsMultipleGrips := bAllow })

/-- The controller holding the actor `1` with grip ID 1 in the replicated array. -/
def Holding : State :=
  { State.Initial with
    GrippedObjects := [Grip 1 1 .ForceServerSideMovement], GripIDIncrementer := 1 }

end Sample

/-- The key of a grip record: the gripped object and the grip ID. -/
def FBPActorGripInformation.Key (g : FBPActorGripInformation) : Option UObject × Nat :=
  (g.GrippedObject, g.GripID)

/-- The key of a handle record: the handled object and the grip ID. -/
def FBPActorPhysicsHandleInformation.Key (h : FBPActorPhysicsHandleInformation) :
    Option UObject × Nat :=
  (h.HandledObject, h.GripID)

/-- The records of both collections, the replicated ones first. -/
def State.Records (st : State) : List FBPActorGripInformation :=
  st.GrippedObjects ++ st.LocallyGrippedObjects

def State.RecordKeys (st : State) : List (Option UObject × Nat) :=
  st.Records.map FBPActorGripInformation.Key

def State.HandleKeys (st : State) : List (Option UObject × Nat) :=
  st.PhysicsGrips.map FBPActorPhysicsHandleInformation.Key

/-- The handle table is sound: no two handles for one grip, every handle has a
record with its key, and every record has been through its first replication
(as the records `GripActor` and `GripComponent` insert are). -/
structure HandleInvariant (st : State) : Prop where
  nodup : st.HandleKeys.Nodup
  covered : st.HandleKeys ⊆ st.RecordKeys
  repped : ∀ r ∈ st.Records, r.bWasInitiallyRepped = true

/-- Only the trace differs between the two states. -/
def TraceOnly (st st' : State) : Prop :=
  st' = { st with Trace := st'.Trace }

/-- The states one controller reaches from its construction through `GripActor`,
`GripComponent`, `DropGrip` and `TickGrip`, each call made on any side and in
any scene. A re-grip is a grip after a drop. -/
inductive Reachable : State → Prop where
  | initial : Reachable State.Initial
  | gripActor (env : Env) (w : World) (st : State) (ActorToGrip : Option UObject) (a : GripArgs) :
      Reachable st → Reachable (GripActor env w st ActorToGrip a).2.2
  | gripComponent (env : Env) (w : World) (st : State) (ComponentToGrip : Option UObject)
      (a : GripArgs) : Reachable st → Reachable (GripComponent env w st ComponentToGrip a).2.2
  | dropGrip (env : Env) (w : World) (st : State) (Grip : FBPActorGripInformation)
      (bSimulate : Bool) : Reachable st → Reachable (DropGrip env w st Grip bSimulate).2.2
  | tickGrip (env : Env) (w : World) (st : State) :
      Reachable st → Reachable (TickGrip env w st).2

/-- The located record is removed when this side has grip authority or is not a
network client, and paused otherwise. -/
def RemoveOrPause (env : Env) (l : List FBPActorGripInformation) (i : Nat)
    (Found : FBPActorGripInformation) : List FBPActorGripInformation :=
  if env.HasGripAuthority Found || (env.NetMode != .NM_Client) then l.eraseIdx i
  else l.set i { Found with bIsPaused := true }


/-- Modelled from the spec: the contract of the ID allocator `GetNextGripID`,
which is declared in the header and missing from the `.cpp`. The ID is a "small
unsigned integer" (`uint8` in the `.cpp`), `0` is kept as the invalid ID, the
allocator is "monotonically increasing" and IDs are "allocated from two
disjoint ranges", one for server-authoritative grips and one for
client-predicted grips. `alloc bIsLocalGrip n` is the ID returned at the counter
value `n`, with the new counter value. In 8 bits the counter cannot go up for
ever: `last` is the last counter value before it wraps around, and the
allocator counts up and increases up to there. -/
structure SpecGetNextGripID (alloc : Bool → Nat → Nat × Nat) (last : Nat) : Prop where
  bounded : ∀ b n, (alloc b n).1 < 2 ^ 8 ∧ (alloc b n).2 < 2 ^ 8
  valid : ∀ b n, (alloc b n).1 ≠ INVALID_VRGRIP_ID
  counter : ∀ b n, n ≤ last → n < (alloc b n).2
  increasing : ∀ b n m, n < m → m ≤ last → (alloc b n).1 < (alloc b m).1
  disjoint : ∀ n m, (alloc false n).1 ≠ (alloc true m).1

/-- The states one controller reaches from its construction through
`GripActor`, `GripComponent` and `DropGrip`, on sides whose `GetNextGripID` is
`alloc`, in any scene, with every grip made before the ID counter has passed
`last`, the last value before it wraps around. -/
inductive GripDropReachable (alloc : Bool → Nat → Nat × Nat) (last : Nat) : State → Prop where
  | initial : GripDropReachable alloc last State.Initial
  | gripActor (env : Env) (w : World) (st : State) (ActorToGrip : Option UObject) (a : GripArgs) :
      env.GetNextGripID = alloc → st.GripIDIncrementer ≤ last → GripDropReachable alloc last st →
      GripDropReachable alloc last (GripActor env w st ActorToGrip a).2.2
  | gripComponent (env : Env) (w : World) (st : State) (ComponentToGrip : Option UObject)
      (a : GripArgs) : env.GetNextGripID = alloc → st.GripIDIncrementer ≤ last →
      GripDropReachable alloc last st →
      GripDropReachable alloc last (GripComponent env w st ComponentToGrip a).2.2
  | dropGrip (env : Env) (w : World) (st : State) (Grip : FBPActorGripInformation)
      (bSimulate : Bool) : env.GetNextGripID = alloc → GripDropReachable alloc last st →
      GripDropReachable alloc last (DropGrip env w st Grip bSimulate).2.2

/-- The IDs of the records are pairwise distinct, and each was returned by the
allocator at an earlier counter value, for the range of its collection. -/
structure IDInvariant (alloc : Bool → Nat → Nat × Nat) (st : State) : Prop where
  nodup : (st.Records.map (fun r => r.GripID)).Nodup
  replicated : ∀ r ∈ st.GrippedObjects,
    ∃ n, n < st.GripIDIncrementer ∧ r.GripID = (alloc false n).1
  predicted : ∀ r ∈ st.LocallyGrippedObjects,
    ∃ n, n < st.GripIDIncrementer ∧ r.GripID = (alloc true n).1

namespace Sample

/-- The sample server with the allocator `NextID`. -/
def SpecServer : Env :=
  { Server with GetNextGripID := NextID }

/-- One round on the sample server: grip the component `3` and drop it again. -/
def GripAndDropRound (p : World × State) : World × State :=
  let r := GripComponent SpecServer p.1 p.2 (some 3) (Args .InteractiveCollisionWithPhysics .ForceServerSideMovement)
  match GetGripByObject r.2.2 (some 3) with
  | some g => (DropGrip SpecServer r.2.1 r.2.2 g false).2
  | none => r.2

/-- The sample server grips the actor `1` and then, holding it, grips and drops
the component `3` a number of times. -/
def GripAndDropRounds : Nat → World × State
  | 0 => (GripActor SpecServer (Scene id) State.Initial (some 1) (Args .InteractiveCollisionWithPhysics .ForceServerSideMovement)).2
  | n + 1 => GripAndDropRound (GripAndDropRounds n)

end Sample

/-- Whether the event places a gripped object: a write of its world or relative
transform, or a new target for its kinematic actor. -/
def Event.IsPlacement : Event → Bool
  | .SetWorldTransform _ _ _ _ => true
  | .SetRelativeTransform _ _ _ _ => true
  | .SetKinematicTarget _ _ _ => true
  | _ => false

/-- The loop of `HandleGripArray` from index `n - 1` down to index `lo`, the
iteration of `lo` included. -/
def HandleGripLoopDownTo (env : Env) (bReplicatedArray : Bool) (ParentTransform : FTransform)
    (lo : Nat) : Nat → FTransform × World × State → FTransform × World × State
  | 0, acc => acc
  | n + 1, acc =>
    if n < lo then acc
    else HandleGripLoopDownTo env bReplicatedArray ParentTransform lo n
      (HandleGrip env bReplicatedArray ParentTransform n acc)

/-- The controller as `TickGrip` hands it to the loops: after the handle
clean-up, when the count asks for it. -/
def TickGripStart (st : State) : State :=
  if st.PhysicsGrips.length > st.GrippedObjects.length + st.LocallyGrippedObjects.length
  then CleanUpBadPhysicsHandles st else st

/-- The `ParentTransform` of a tick. -/
def TickGripParent (w : World) (st : State) : FTransform :=
  GetPivotTransform w (TickGripStart st)

/-- The loop variables of `TickGrip` at the moment the loop over the replicated
array (`bReplicatedArray`) or over the predicted array reaches index `i`: the
iterations of the higher indices of that array are done, and so is the whole
loop over the replicated array when the index is one of the predicted array. -/
def TickGripBefore (env : Env) (w : World) (st : State) (bReplicatedArray : Bool) (i : Nat) :
    FTransform × World × State :=
  if bReplicatedArray then
    HandleGripLoopDownTo env true (TickGripParent w st) (i + 1)
      (TickGripStart st).GrippedObjects.length (FTransform.Identity, w, TickGripStart st)
  else
    let r1 := HandleGripArray env w (TickGripStart st) true (TickGripParent w st)
    HandleGripLoopDownTo env false (TickGripParent w st) (i + 1)
      r1.2.LocallyGrippedObjects.length (FTransform.Identity, r1.1, r1.2)

/-- The distance the break-distance check of the tick measures for a grip whose
world transform is `T`: the length of the physics joint when there is one, else
the distance of the root from `T`. -/
def MeasuredGripDistance (w : World) (st : State) (Grip : FBPActorGripInformation)
    (root : UObject) (T : FTransform) : Int :=
  match GetPhysicsJointLength w st Grip root with
  | some d => d
  | none => (w.Objects root).DistanceTo T

/-- The situation of the break-distance auto-drop, at the moment the loop of the
tick reaches slot `i` of the array of the grip: the loop variables are `acc`,
the slot holds `Grip`, whose target resolves to the primitive `root` of `actor`
and whose interface `f` answers the break distance `D`; the transform query
gives the valid transform `T` without forcing a drop. -/
structure BreakDistanceExceeded (env : Env) (ParentTransform : FTransform)
    (bReplicatedArray : Bool) (i : Nat) (acc : FTransform × World × State)
    (Grip : FBPActorGripInformation) (root actor f : UObject) (D : Int) (T : FTransform) :
    Prop where
  /-- The slot holds the grip. -/
  slot : (acc.2.2.GripArray bReplicatedArray)[i]? = some Grip
  /-- This side moves the grip and has authority over it. -/
  movement : env.HasGripMovementAuthority Grip = true
  authority : env.HasGripAuthority Grip = true
  /-- The grip is live: not paused, a valid ID, a target that is not pending kill. -/
  notPaused : Grip.bIsPaused = false
  validID : Grip.GripID ≠ INVALID_VRGRIP_ID
  live : (match Grip.GrippedObject with
    | some o => !(acc.2.1.Objects o).bPendingKill
    | none => false) = true
  /-- The collision mode is subject to the check. -/
  notEventsOnly : Grip.GripCollisionType ≠ .EventsOnly
  notCustomGrip : Grip.GripCollisionType ≠ .CustomGrip
  applies : BreakDistanceApplies acc.2.1 Grip root actor = true
  /-- The target implements the grip interface, with break distance `D > 0`. -/
  target : ResolveTarget acc.2.1 Grip = (some root, some actor)
  interface : InterfaceOf acc.2.1 root actor = some f
  breakDistance : (acc.2.1.Objects f).GripBreakDistance = D
  positive : 0 < D
  /-- The transform query gives a valid transform and forces no drop; the tick
  does not follow a teleport. -/
  transform : GetGripWorldTransform env (acc.2.1.Objects f).GripScripts ParentTransform Grip
    false acc.1 = (true, false, T)
  notPostTeleport : acc.2.2.bIsPostTeleport = false
  /-- The skip-next-check flag is clear, no active script denies the auto-drop,
  no `OnGripOutOfRange` listener is bound. -/
  skipClear : Grip.bSkipNextConstraintLengthCheck = false
  noDeny : (acc.2.1.Objects f).GripScripts.any (fun s =>
    match s with
    | some Script => Script.IsScriptActive && Script.Wants_DenyAutoDrop
    | none => false) = false
  noListener : env.OnGripOutOfRange = none
  /-- The distance the tick measures exceeds `D`. -/
  distance : D < MeasuredGripDistance acc.2.1 acc.2.2 Grip root T
  /-- A record of the replicated array is dropped on the server only, and the
  server is not a network client. -/
  gate : bReplicatedArray = true → env.IsServer = true
  net : env.IsServer = true → env.NetMode ≠ .NM_Client
  /-- No other record is equal to the grip. -/
  unique : acc.2.2.Records.countP (fun r => r.Equals Grip) ≤ 1

/-- No record key of the second state is new: every key of a record of `st2` is
the key of a record of `st`. -/
def NoNewRecords (st st2 : State) : Prop :=
  st2.RecordKeys ⊆ st.RecordKeys

/-- The second state has the trace of the first, followed by events none of
which is a placement. -/
def NoPlacement (st st2 : State) : Prop :=
  ∃ evs : List Event, st2.Trace = st.Trace ++ evs ∧ ∀ e ∈ evs, e.IsPlacement = false

namespace Sample

/-- The sample scene where the root `2` and the component `3` implement the grip
interface with break distance 50 and sit at distance 60 from every transform. -/
def FarScene : World :=
  Scene (fun o => { o with bImplementsGripInterface := true, GripBreakDistance := 50,
                           DistanceTo := fun _ => 60 })

end Sample

namespace Sample

/-- The controller holding the actor `1` with grip ID 1 in the replicated array,
with the handle of that grip and a stale handle for the grip ID 7. -/
def HoldingWithStale : State :=
  { Holding with
    PhysicsGrips := [FBPActorPhysicsHandleInformation.New (some 1) 1,
      FBPActorPhysicsHandleInformation.New (some 3) 7] }

end Sample

/-- The replication mode a grip stores, as the spec states it: a request of
`KeepOriginalMovement` becomes `ForceServerSideMovement` when the owning actor
is there and replicates its movement, `ForceClientSideMovement` otherwise; any
other request is stored as it is. -/
def SpecStoredReplicationSetting (Requested : EGripMovementReplicationSettings)
    (OwnerReplicatesMovement : Option Bool) : EGripMovementReplicationSettings :=
  if Requested = .KeepOriginalMovement then
    match OwnerReplicatesMovement with
    | some true => .ForceServerSideMovement
    | _ => .ForceClientSideMovement
  else Requested

namespace Sample

end Sample

namespace Sample

end Sample

namespace Sample

/-- A hybrid physics grip of the actor `1` with grip ID 1. -/
def HybridGrip : FBPActorGripInformation :=
  { Grip 1 1 .ForceServerSideMovement with
    GripCollisionType := .InteractiveHybridCollisionWithPhysics, Stiffness := 1500,
    Damping := 200 }

/-- The controller holding the hybrid physics grip, with its handle: kinematic
actor and constraint valid, linear drive at the stiffness of the grip times the
hybrid multiplier. -/
def HybridHolding : State :=
  { State.Initial with
    GrippedObjects := [HybridGrip], GripIDIncrementer := 1,
    PhysicsGrips := [{ FBPActorPhysicsHandleInformation.New (some 1) 1 with
      bKinActorValid := true, bHandleDataValid := true, LinStiffness := 15000,
      LinDamping := 200 }] }

end Sample

namespace Sample

/-- The sample scene where the root `2` and the component `3` implement the grip
interface and declare the secondary grip style `t`. -/
def SecondaryScene (t : ESecondaryGripType) : World :=
  Scene (fun o => { o with bImplementsGripInterface := true, SecondaryGripType := t })

/-- A component grip of the component `3` with grip ID 1, holding the secondary
attachment `4`, in the blend state `s`. -/
def ComponentGrip (s : EGripLerpState) : FBPActorGripInformation :=
  { Grip 3 1 .ForceServerSideMovement with
    GripTargetType := .ComponentGrip,
    SecondaryGripInfo := { FBPSecondaryGripInfo.Default with
      bHasSecondaryAttachment := true, SecondaryAttachment := some 4, GripLerpState := s } }

/-- The controller holding the component grip in the replicated array. -/
def HoldingComponent (s : EGripLerpState) : State :=
  { State.Initial with GrippedObjects := [ComponentGrip s], GripIDIncrementer := 1 }

end Sample

namespace Sample

/-- The client holding the object `o` with grip ID 129 in the predicted array,
as a client-authoritative grip. -/
def HoldingLocally (o : UObject) : State :=
  { State.Initial with
    LocallyGrippedObjects := [Grip o 129 .ClientSide_Authoritive], GripIDIncrementer := 1 }

end Sample

namespace Sample

/-- A physics grip of the actor `1` with grip ID 1 whose stiffness has been
raised to 3000 since its handle was created. -/
def PhysicsGrip : FBPActorGripInformation :=
  { Grip 1 1 .ForceServerSideMovement with
    GripCollisionType := .InteractiveCollisionWithPhysics, Stiffness := 3000, Damping := 200 }

/-- The controller holding the physics grip, with the handle as creation set it
up at the stiffness 1500: linear drive at 1500, angular drive of the SLERP mode
at 2250. -/
def PhysicsHolding : State :=
  { State.Initial with
    GrippedObjects := [PhysicsGrip], GripIDIncrementer := 1,
    PhysicsGrips := [{ FBPActorPhysicsHandleInformation.New (some 1) 1 with
      bKinActorValid := true, bHandleDataValid := true, LinStiffness := 1500,
      LinDamping := 200, SlerpStiffness := 2250, SlerpDamping := 280 }] }

end Sample

namespace Sample

/-- The sample script wanting to force a drop. -/
def DroppingScript : UVRGripScriptBase := { Script with Wants_ToForceDrop := true }

/-- An active script that modifies the world transform (to itself), reports it
valid and asks for nothing. -/
def ModifyingScript : UVRGripScriptBase :=
  { Script with WorldTransformOverrideType := .ModifiesWorldTransform }

/-- The sample server whose default grip script wants to force a drop. -/
def DroppingServer : Env := { Server with DefaultGripScript := some DroppingScript }

end Sample

/-- The grip scripts the tick asks the target for: those of the primitive when
it implements the grip interface, else those of the actor when it does. -/
def TargetScripts (w : World) (root actor : UObject) : List (Option UVRGripScriptBase) :=
  match InterfaceOf w root actor with
  | some f => (w.Objects f).GripScripts
  | none => []

/-- The moment the loop of `HandleGripArray` reaches slot `i` with the loop
variables `acc`: the slot holds the live grip `Grip`, which this side moves and
whose replication needs no handling, its collision mode is neither
`EventsOnly` nor `CustomGrip`, its target resolves to the primitive `root` of
`actor`, and the transform query answers `(valid, force, T)`. -/
structure TransformQueried (env : Env) (ParentTransform : FTransform)
    (bReplicatedArray : Bool) (i : Nat) (acc : FTransform × World × State)
    (Grip : FBPActorGripInformation) (root actor : UObject) (valid force : Bool)
    (T : FTransform) : Prop where
  slot : (acc.2.2.GripArray bReplicatedArray)[i]? = some Grip
  movement : env.HasGripMovementAuthority Grip = true
  replicated : (!Grip.bWasInitiallyRepped && !env.HasGripAuthority Grip) = false
  notPaused : Grip.bIsPaused = false
  validID : Grip.GripID ≠ INVALID_VRGRIP_ID
  live : (match Grip.GrippedObject with
    | some o => !(acc.2.1.Objects o).bPendingKill
    | none => false) = true
  notEventsOnly : Grip.GripCollisionType ≠ .EventsOnly
  notCustomGrip : Grip.GripCollisionType ≠ .CustomGrip
  target : ResolveTarget acc.2.1 Grip = (some root, some actor)
  transform : GetGripWorldTransform env (TargetScripts acc.2.1 root actor) ParentTransform Grip
    false acc.1 = (valid, force, T)

namespace Sample

/-- A default grip script that places a grip at its relative transform from the
parent transform, reports it valid and asks for nothing. -/
def RelativeScript : UVRGripScriptBase :=
  { Script with GetWorldTransform := fun P g _ => (true, g.RelativeTransform.mul P) }

/-- The sample server with the relative default script. -/
def RelativeServer : Env := { Server with DefaultGripScript := some RelativeScript }

/-- A scene with two actors: `1` with the primitive root `2`, which implements
the grip interface and asks to be dropped on teleport, and `4` with the
primitive root `5`, which has no interface. -/
def TeleportScene : World :=
  { Objects := fun o =>
      if o = 1 then { Info with Kind := .Actor, RootComponent := some 2 }
      else if o = 2 then { Info with Kind := .PrimitiveComponent, Owner := some 1, bImplementsGripInterface := true, TeleportBehavior := .DropOnTeleport }
      else if o = 4 then { Info with Kind := .Actor, RootComponent := some 5 }
      else if o = 5 then { Info with Kind := .PrimitiveComponent, Owner := some 4 }
      else Info,
    OtherControllerGrip := fun _ _ => none,
    ControllerTransform := FTransform.Identity }

/-- The controller right after a teleport, holding the actor `1` (slot 0,
relative transform `(1, 0, 0)`) and the actor `4` (slot 1, relative transform
`(0, 2, 0)`) in the replicated array. -/
def HoldingTwoPostTeleport : State :=
  { State.Initial with
    GrippedObjects := [{ Grip 1 1 .ForceServerSideMovement with RelativeTransform := FTransform.ofTranslation 1 0 0 },
      { Grip 4 2 .ForceServerSideMovement with RelativeTransform := FTransform.ofTranslation 0 2 0 }],
    GripIDIncrementer := 2, bIsPostTeleport := true }

end Sample

namespace Sample

/-- An active script that overrides the world transform and reports it invalid,
without asking for a drop. -/
def InvalidScript : UVRGripScriptBase :=
  { Script with WorldTransformOverrideType := .OverridesWorldTransform, GetWorldTransform := fun _ _ T => (false, T) }

/-- An active script that overrides the world transform, reports it valid and
wants to force a drop. -/
def ForcingScript : UVRGripScriptBase :=
  { Script with WorldTransformOverrideType := .OverridesWorldTransform, Wants_ToForceDrop := true }

/-- The sample scene where the root `2` and the component `3` implement the grip
interface and carry the script `s`. -/
def ScriptedScene (s : UVRGripScriptBase) : World :=
  Scene (fun o => { o with bImplementsGripInterface := true, GripScripts := [some s] })

end Sample

namespace Sample

/-- The controller holding the actor `1` with grip ID 1 in the replicated array
in the collision mode `t`. -/
def HoldingAs (t : EGripCollisionType) : State :=
  { State.Initial with
    GrippedObjects := [{ Grip 1 1 .ForceServerSideMovement with GripCollisionType := t }], GripIDIncrementer := 1 }

/-- The sample server with `bAlwaysSendTickGrip` set. -/
def TickingServer : Env := { Server with bAlwaysSendTickGrip := true }

end Sample

namespace Sample

/-- The sample scene where the root `2` and the component `3` implement the grip
interface with break distance 50, sit at distance 60 from every transform and
carry an active script that denies the auto-drop. -/
def DenyingScene : World :=
  Scene (fun o => { o with bImplementsGripInterface := true, GripBreakDistance := 50, DistanceTo := fun _ => 60, GripScripts := [some { Script with Wants_DenyAutoDrop := true }] })

end Sample

/-- The scene `w2` has the classes and the root components of `w`, its
gravity flags when `gravity` is set and its movement replication flags when
`replication` is set. -/
def World.Agree (gravity replication : Bool) (w w2 : World) : Prop :=
  ∀ x, (w2.Objects x).Kind = (w.Objects x).Kind ∧
    (w2.Objects x).RootComponent = (w.Objects x).RootComponent ∧
    (gravity = true → (w2.Objects x).bGravityEnabled = (w.Objects x).bGravityEnabled) ∧
    (replication = true → (w2.Objects x).bReplicateMovement = (w.Objects x).bReplicateMovement)
/-! # Statements

## Auxiliary facts: grip -/

theorem SameRecords.refl (st : State) : SameRecords st st := ⟨rfl, rfl, rfl, rfl, rfl, rfl⟩

theorem SameRecords.trans {a b c : State} (h1 : SameRecords a b) (h2 : SameRecords b c) :
    SameRecords a c := by
  obtain ⟨h11, h12, h13, h14, h15, h16⟩ := h1
  obtain ⟨h21, h22, h23, h24, h25, h26⟩ := h2
  exact ⟨h21.trans h11, h22.trans h12, h23.trans h13, h24.trans h14, h25.trans h15, h26.trans h16⟩

theorem SameRecords_Emit (st : State) (e : Event) : SameRecords st (st.Emit e) :=
  ⟨rfl, rfl, rfl, rfl, rfl, rfl⟩

theorem SameRecords_setHandles (st : State) (l : List FBPActorPhysicsHandleInformation) :
    SameRecords st { st with PhysicsGrips := l } :=
  ⟨rfl, rfl, rfl, rfl, rfl, rfl⟩

theorem SameRecords_CreatePhysicsGrip (st : State) (g : FBPActorGripInformation) :
    SameRecords st (CreatePhysicsGrip st g).2 := by
  unfold CreatePhysicsGrip
  split <;> exact SameRecords_setHandles _ _

theorem SameRecords_SetUpPhysicsHandle (w : World) (st : State) (g : FBPActorGripInformation) :
    SameRecords st (SetUpPhysicsHandle w st g).2.2 := by
  unfold SetUpPhysicsHandle
  have hc : SameRecords st (match GetPhysicsGripIndex st g with
      | some i => (i, st)
      | none => CreatePhysicsGrip st g).2 := by
    split
    · exact SameRecords.refl _
    · exact SameRecords_CreatePhysicsGrip _ _
  split
  · exact SameRecords.refl _
  · simp only []
    split
    · exact hc
    · exact hc.trans (SameRecords_setHandles _ _)

theorem SameRecords_TeleportMoveGrip (env : Env) (w : World) (st : State)
    (g : FBPActorGripInformation) (b : Bool) (T : FTransform) :
    SameRecords st (TeleportMoveGrip_Impl env w st g b false T).2.2.2 := by
  unfold TeleportMoveGrip_Impl
  simp only [Bool.false_and, Bool.not_false, Bool.true_and]
  repeat' split
  all_goals exact SameRecords.refl _

theorem SameRecords_NotifyGripPlacement (env : Env) (w : World) (st : State)
    (g : FBPActorGripInformation) (root : Option UObject) :
    SameRecords st (NotifyGripPlacement env w st g root).2 := by
  unfold NotifyGripPlacement
  simp only []
  repeat' split
  all_goals first
    | exact SameRecords.refl _
    | exact SameRecords_SetUpPhysicsHandle _ _ _
    | exact SameRecords_TeleportMoveGrip _ _ _ _ _ _

theorem SameRecords_NotifyGrip (env : Env) (w : World) (st : State) (g : FBPActorGripInformation) :
    SameRecords st (NotifyGrip env w st g).2.2 := by
  unfold NotifyGrip
  simp only []
  split
  · exact SameRecords.refl _
  · refine SameRecords.trans ?_ (SameRecords_Emit _ _)
    refine SameRecords.trans ?_ (SameRecords_NotifyGripPlacement _ _ _ _ _)
    split
    · exact (SameRecords_Emit _ _).trans (SameRecords_Emit _ _)
    · exact SameRecords.refl _

theorem InsertGrip_fst (env : Env) (w : World) (st : State) (b : Bool) (g : FBPActorGripInformation) :
    (InsertGrip env w st b g).1 = true := by
  unfold InsertGrip; split <;> rfl

/-- What `InsertGrip` does to the two arrays and to the incrementer. -/
theorem InsertGrip_records (env : Env) (w : World) (st : State) (b : Bool)
    (g : FBPActorGripInformation) :
    (InsertGrip env w st b g).2.2.GrippedObjects =
        (if b then st.GrippedObjects else st.GrippedObjects ++ [g]) ∧
      (InsertGrip env w st b g).2.2.LocallyGrippedObjects =
        (if b then st.LocallyGrippedObjects ++ [g] else st.LocallyGrippedObjects) ∧
      (InsertGrip env w st b g).2.2.GripIDIncrementer = st.GripIDIncrementer := by
  cases b
  · have h := SameRecords_NotifyGrip env w { st with GrippedObjects := st.GrippedObjects ++ [g] } g
    simp only [InsertGrip, Bool.not_false, if_true, Bool.false_eq_true, if_false]
    exact ⟨h.1, h.2.1, h.2.2.1⟩
  · simp only [InsertGrip, Bool.not_true, Bool.false_eq_true, if_false, if_true]
    split
    · have h := SameRecords_NotifyGrip env w
        (State.Emit { st with LocallyGrippedObjects := st.LocallyGrippedObjects ++ [g] }
          (.Server_NotifyLocalGripAddedOrChanged g)) g
      exact ⟨h.1, h.2.1, h.2.2.1⟩
    · have h := SameRecords_NotifyGrip env w
        { st with LocallyGrippedObjects := st.LocallyGrippedObjects ++ [g] } g
      exact ⟨h.1, h.2.1, h.2.2.1⟩

theorem ConsultInterface_eq_none (env : Env) (w : World) (st : State) (i : UObject) :
    ConsultInterface env w st i = none ↔
      ((w.Objects i).DenyGripping = true ∨
        ((w.Objects i).IsHeld = true ∧ (w.Objects i).AllowsMultipleGrips = false)) := by
  unfold ConsultInterface
  cases hD : (w.Objects i).DenyGripping <;> cases hH : (w.Objects i).IsHeld <;>
    cases hA : (w.Objects i).AllowsMultipleGrips <;> simp

/-- A grip is refused with nothing changed, or it is an `InsertGrip` of a record
for the target that carries the ID the allocator returned. -/
theorem GripActor_eq (env : Env) (w : World) (st : State) (t : Option UObject) (a : GripArgs) :
    GripActor env w st t a = (false, w, st) ∨
    ∃ g : FBPActorGripInformation,
      g.GrippedObject = t ∧ t ≠ none ∧ GetIsObjectHeld st t = false ∧
      g.GripID = (env.GetNextGripID (IsLocalGripSetting a.GripMovementReplicationSetting)
        st.GripIDIncrementer).1 ∧
      g.bWasInitiallyRepped = true ∧
      GripActor env w st t a = InsertGrip env w
        { st with GripIDIncrementer := (env.GetNextGripID
            (IsLocalGripSetting a.GripMovementReplicationSetting) st.GripIDIncrementer).2 }
        (IsLocalGripSetting a.GripMovementReplicationSetting) g := by
  unfold GripActor
  simp only []
  split
  · left; rfl
  · split
    · left; rfl
    · rename_i Actor
      split
      · left; rfl
      · rename_i hheld
        split
        · left; rfl
        · split
          · left; rfl
          · split
            · left; rfl
            · right
              exact ⟨_, rfl, by simp, by simpa using hheld, rfl, rfl, rfl⟩

theorem GripComponent_eq (env : Env) (w : World) (st : State) (t : Option UObject) (a : GripArgs) :
    GripComponent env w st t a = (false, w, st) ∨
    ∃ g : FBPActorGripInformation,
      g.GrippedObject = t ∧ t ≠ none ∧ GetIsObjectHeld st t = false ∧
      g.GripID = (env.GetNextGripID (IsLocalGripSetting a.GripMovementReplicationSetting)
        st.GripIDIncrementer).1 ∧
      g.bWasInitiallyRepped = true ∧
      GripComponent env w st t a = InsertGrip env w
        { st with GripIDIncrementer := (env.GetNextGripID
            (IsLocalGripSetting a.GripMovementReplicationSetting) st.GripIDIncrementer).2 }
        (IsLocalGripSetting a.GripMovementReplicationSetting) g := by
  unfold GripComponent
  simp only []
  split
  · left; rfl
  · split
    · left; rfl
    · rename_i Component
      split
      · left; rfl
      · rename_i hheld
        split
        · left; rfl
        · split
          · left; rfl
          · right
            exact ⟨_, rfl, by simp, by simpa using hheld, rfl, rfl, rfl⟩

theorem GripActor_cases (env : Env) (w : World) (st : State) (t : Option UObject) (a : GripArgs) :
    GripActor env w st t a = (false, w, st) ∨ (GripActor env w st t a).1 = true := by
  rcases GripActor_eq env w st t a with h | ⟨g, _, _, _, _, _, h⟩
  · exact Or.inl h
  · exact Or.inr (by rw [h]; exact InsertGrip_fst _ _ _ _ _)

theorem GripComponent_cases (env : Env) (w : World) (st : State) (t : Option UObject)
    (a : GripArgs) :
    GripComponent env w st t a = (false, w, st) ∨ (GripComponent env w st t a).1 = true := by
  rcases GripComponent_eq env w st t a with h | ⟨g, _, _, _, _, _, h⟩
  · exact Or.inl h
  · exact Or.inr (by rw [h]; exact InsertGrip_fst _ _ _ _ _)

/-- The exact refusal condition of `GripActor`. -/
theorem GripActor_fails_iff (env : Env) (w : World) (st : State) (ActorToGrip : Option UObject)
    (a : GripArgs) :
    (GripActor env w st ActorToGrip a).1 = false ↔
      ((env.IsServer = false ∧ IsLocalGripSetting a.GripMovementReplicationSetting = false) ∨
       ActorToGrip = none ∨
       GetIsObjectHeld st ActorToGrip = true ∨
       (∃ Actor, ActorToGrip = some Actor ∧ w.RootOf Actor = none) ∨
       (∃ Actor root, ActorToGrip = some Actor ∧ w.RootOf Actor = some root ∧
          (w.Objects root).bMovable = false ∧ a.GripCollisionType ≠ .CustomGrip ∧
          a.GripCollisionType ≠ .EventsOnly) ∨
       (∃ Actor root i, ActorToGrip = some Actor ∧ w.RootOf Actor = some root ∧
          InterfaceOf w root Actor = some i ∧
          ((w.Objects i).DenyGripping = true ∨
            ((w.Objects i).IsHeld = true ∧ (w.Objects i).AllowsMultipleGrips = false)))) := by
  unfold GripActor
  simp only []
  cases hS : env.IsServer <;> cases hL : IsLocalGripSetting a.GripMovementReplicationSetting <;>
    cases ActorToGrip with
    | none => simp [hS, hL]
    | some Actor =>
      cases hHeld : GetIsObjectHeld st (some Actor) <;>
      cases hRoot : w.RootOf Actor with
      | none => simp [hS, hL, hHeld, hRoot]
      | some root =>
        cases hM : (w.Objects root).bMovable <;>
        cases hI : InterfaceOf w root Actor with
        | none =>
          simp [hS, hL, hHeld, hRoot, hM, hI, InsertGrip_fst]
          try (split <;> simp_all [InsertGrip_fst])
        | some i =>
          cases hC : ConsultInterface env w st i with
          | none =>
            have := (ConsultInterface_eq_none env w st i).mp hC
            simp [hS, hL, hHeld, hRoot, hM, hI, hC, this]
          | some c =>
            have : ¬ ((w.Objects i).DenyGripping = true ∨
                ((w.Objects i).IsHeld = true ∧ (w.Objects i).AllowsMultipleGrips = false)) := by
              rw [← ConsultInterface_eq_none env w st i, hC]; simp
            simp [hS, hL, hHeld, hRoot, hM, hI, hC, InsertGrip_fst, this]
            try (split <;> simp_all [InsertGrip_fst])

/-- The exact refusal condition of `GripComponent`. -/
theorem GripComponent_fails_iff (env : Env) (w : World) (st : State)
    (ComponentToGrip : Option UObject) (a : GripArgs) :
    (GripComponent env w st ComponentToGrip a).1 = false ↔
      ((env.IsServer = false ∧ IsLocalGripSetting a.GripMovementReplicationSetting = false) ∨
       ComponentToGrip = none ∨
       GetIsObjectHeld st ComponentToGrip = true ∨
       (∃ c, ComponentToGrip = some c ∧
          (w.Objects c).bMovable = false ∧ a.GripCollisionType ≠ .CustomGrip ∧
          a.GripCollisionType ≠ .EventsOnly) ∨
       (∃ c, ComponentToGrip = some c ∧ (w.Objects c).bImplementsGripInterface = true ∧
          ((w.Objects c).DenyGripping = true ∨
            ((w.Objects c).IsHeld = true ∧ (w.Objects c).AllowsMultipleGrips = false)))) := by
  unfold GripComponent
  simp only []
  cases hS : env.IsServer <;> cases hL : IsLocalGripSetting a.GripMovementReplicationSetting <;>
    cases ComponentToGrip with
    | none => simp [hS, hL]
    | some c =>
      cases hHeld : GetIsObjectHeld st (some c) <;>
      cases hM : (w.Objects c).bMovable <;>
      cases hI : (w.Objects c).bImplementsGripInterface with
      | false =>
        simp [hS, hL, hHeld, hM, hI, InsertGrip_fst]
        try (split <;> simp_all [InsertGrip_fst])
      | true =>
        cases hC : ConsultInterface env w st c with
        | none =>
          have := (ConsultInterface_eq_none env w st c).mp hC
          simp [hS, hL, hHeld, hM, hI, hC, this]
        | some s =>
          have : ¬ ((w.Objects c).DenyGripping = true ∨
              ((w.Objects c).IsHeld = true ∧ (w.Objects c).AllowsMultipleGrips = false)) := by
            rw [← ConsultInterface_eq_none env w st c, hC]; simp
          simp [hS, hL, hHeld, hM, hI, hC, InsertGrip_fst, this]
          try (split <;> simp_all [InsertGrip_fst])

/-! ## C1 to C4: the grip is refused, and a refused grip changes nothing -/

/-- C1. A target whose grip interface (the one the grip consults: for an actor
that of its primitive root when the root implements it, else that of the actor;
for a component its own) reports `IsHeld = true` and `AllowsMultipleGrips = false`
is refused by `GripActor` and by `GripComponent`: they return false and leave
the scene and the controller, and so both arrays, as they were, whatever the
side, the controller state and the other arguments. -/
theorem grip_refused_when_held_without_multigrip (env : Env) (w : World) (st : State)
    (Target : UObject) (a : GripArgs) :
    ((∀ root, w.RootOf Target = some root → ∃ i, InterfaceOf w root Target = some i ∧
        (w.Objects i).IsHeld = true ∧ (w.Objects i).AllowsMultipleGrips = false) →
      GripActor env w st (some Target) a = (false, w, st)) ∧
    ((w.Objects Target).bImplementsGripInterface = true → (w.Objects Target).IsHeld = true →
        (w.Objects Target).AllowsMultipleGrips = false →
      GripComponent env w st (some Target) a = (false, w, st)) := by
  constructor
  · intro h
    have hf : (GripActor env w st (some Target) a).1 = false := by
      rw [GripActor_fails_iff]
      cases hR : w.RootOf Target with
      | none => exact Or.inr (Or.inr (Or.inr (Or.inl ⟨Target, rfl, hR⟩)))
      | some root =>
        obtain ⟨i, hi, hH, hA⟩ := h root hR
        exact Or.inr (Or.inr (Or.inr (Or.inr (Or.inr ⟨Target, root, i, rfl, hR, hi, Or.inr ⟨hH, hA⟩⟩))))
    rcases GripActor_cases env w st (some Target) a with h1 | h1
    · exact h1
    · rw [hf] at h1; exact absurd h1 (by simp)
  · intro hI hH hA
    have hf : (GripComponent env w st (some Target) a).1 = false := by
      rw [GripComponent_fails_iff]
      exact Or.inr (Or.inr (Or.inr (Or.inr ⟨Target, rfl, hI, Or.inr ⟨hH, hA⟩⟩)))
    rcases GripComponent_cases env w st (some Target) a with h1 | h1
    · exact h1
    · rw [hf] at h1; exact absurd h1 (by simp)

/-- Witness of C1: on the sample server the actor `1` and the component `3`,
reported held without multi-grip, are refused. -/
theorem grip_refused_when_held_without_multigrip_witness :
    GripActor Sample.Server (Sample.HeldScene false) State.Initial (some 1)
        (Sample.Args .InteractiveCollisionWithPhysics .ForceServerSideMovement) =
      (false, Sample.HeldScene false, State.Initial) ∧
    GripComponent Sample.Server (Sample.HeldScene false) State.Initial (some 3)
        (Sample.Args .InteractiveCollisionWithPhysics .ForceServerSideMovement) =
      (false, Sample.HeldScene false, State.Initial) :=
  ⟨(grip_refused_when_held_without_multigrip Sample.Server (Sample.HeldScene false) State.Initial 1
      (Sample.Args .InteractiveCollisionWithPhysics .ForceServerSideMovement)).1
      (by
        intro root hR
        have h2 : root = 2 := by
          have : (Sample.HeldScene false).RootOf 1 = some 2 := rfl
          rw [this] at hR
          exact (Option.some.inj hR).symm
        subst h2
        exact ⟨2, rfl, rfl, rfl⟩),
   (grip_refused_when_held_without_multigrip Sample.Server (Sample.HeldScene false) State.Initial 3
      (Sample.Args .InteractiveCollisionWithPhysics .ForceServerSideMovement)).2 rfl rfl rfl⟩

/-- C2. On a side that is not the server, `GripActor` and `GripComponent` called
with `ForceServerSideMovement` return false and change nothing; called with
`ClientSide_Authoritive` or `ClientSide_Authoritive_NoRep` on a target that is
not held by this controller, is movable (for an actor: has a primitive root that
is movable) and whose consulted interface, if any, neither denies gripping nor
reports it held without multi-grip, they return true and append exactly one
record for the target to `LocallyGrippedObjects`, `GrippedObjects` staying as
it was. -/
theorem authority_gate (env : Env) (w : World) (st : State) (Target root : UObject)
    (a : GripArgs) (hSide : env.IsServer = false) :
    (a.GripMovementReplicationSetting = .ForceServerSideMovement →
      GripActor env w st (some Target) a = (false, w, st) ∧
      GripComponent env w st (some Target) a = (false, w, st)) ∧
    ((a.GripMovementReplicationSetting = .ClientSide_Authoritive ∨
        a.GripMovementReplicationSetting = .ClientSide_Authoritive_NoRep) →
      GetIsObjectHeld st (some Target) = false →
      (w.RootOf Target = some root → (w.Objects root).bMovable = true →
        (∀ i, InterfaceOf w root Target = some i → (w.Objects i).DenyGripping = false ∧
          ((w.Objects i).IsHeld = false ∨ (w.Objects i).AllowsMultipleGrips = true)) →
        ∃ r : FBPActorGripInformation, r.GrippedObject = some Target ∧
          (GripActor env w st (some Target) a).1 = true ∧
          (GripActor env w st (some Target) a).2.2.LocallyGrippedObjects =
            st.LocallyGrippedObjects ++ [r] ∧
          (GripActor env w st (some Target) a).2.2.GrippedObjects = st.GrippedObjects) ∧
      ((w.Objects Target).bMovable = true →
        ((w.Objects Target).bImplementsGripInterface = true →
          (w.Objects Target).DenyGripping = false ∧
          ((w.Objects Target).IsHeld = false ∨ (w.Objects Target).AllowsMultipleGrips = true)) →
        ∃ r : FBPActorGripInformation, r.GrippedObject = some Target ∧
          (GripComponent env w st (some Target) a).1 = true ∧
          (GripComponent env w st (some Target) a).2.2.LocallyGrippedObjects =
            st.LocallyGrippedObjects ++ [r] ∧
          (GripComponent env w st (some Target) a).2.2.GrippedObjects = st.GrippedObjects)) := by
  refine ⟨?_, ?_⟩
  · intro hMode
    have hL : IsLocalGripSetting a.GripMovementReplicationSetting = false := by
      rw [hMode]; rfl
    constructor
    · rcases GripActor_cases env w st (some Target) a with h1 | h1
      · exact h1
      · have hf : (GripActor env w st (some Target) a).1 = false :=
          (GripActor_fails_iff env w st (some Target) a).mpr (Or.inl ⟨hSide, hL⟩)
        rw [hf] at h1; exact absurd h1 (by simp)
    · rcases GripComponent_cases env w st (some Target) a with h1 | h1
      · exact h1
      · have hf : (GripComponent env w st (some Target) a).1 = false :=
          (GripComponent_fails_iff env w st (some Target) a).mpr (Or.inl ⟨hSide, hL⟩)
        rw [hf] at h1; exact absurd h1 (by simp)
  · intro hMode hHeld
    have hL : IsLocalGripSetting a.GripMovementReplicationSetting = true := by
      rcases hMode with h | h <;> rw [h] <;> rfl
    constructor
    · intro hR hM hI
      have hnf : ¬ (GripActor env w st (some Target) a).1 = false := by
        rw [GripActor_fails_iff]
        rintro (⟨_, h⟩ | h | h | ⟨A, hA, h⟩ | ⟨A, r, hA, hr, hm, _⟩ | ⟨A, r, i, hA, hr, hi, h⟩)
        · rw [hL] at h; exact absurd h (by simp)
        · exact absurd h (by simp)
        · rw [hHeld] at h; exact absurd h (by simp)
        · cases hA; rw [hR] at h; exact absurd h (by simp)
        · cases hA; rw [hR] at hr; cases hr; rw [hM] at hm; exact absurd hm (by simp)
        · cases hA; rw [hR] at hr; cases hr
          obtain ⟨hD, hH⟩ := hI i hi
          rcases h with h | ⟨h1, h2⟩
          · rw [hD] at h; exact absurd h (by simp)
          · rcases hH with hH | hH
            · rw [hH] at h1; exact absurd h1 (by simp)
            · rw [hH] at h2; exact absurd h2 (by simp)
      rcases GripActor_eq env w st (some Target) a with h1 | ⟨g, hg, _, _, _, _, h1⟩
      · exact absurd (by rw [h1]) hnf
      · have hrec := InsertGrip_records env w
          { st with GripIDIncrementer := (env.GetNextGripID
            (IsLocalGripSetting a.GripMovementReplicationSetting) st.GripIDIncrementer).2 }
          (IsLocalGripSetting a.GripMovementReplicationSetting) g
        rw [← h1, hL] at hrec
        refine ⟨g, hg, ?_, by simpa using hrec.2.1, by simpa using hrec.1⟩
        rw [h1]; exact InsertGrip_fst _ _ _ _ _
    · intro hM hI
      have hnf : ¬ (GripComponent env w st (some Target) a).1 = false := by
        rw [GripComponent_fails_iff]
        rintro (⟨_, h⟩ | h | h | ⟨c, hc, hm, _⟩ | ⟨c, hc, hi, h⟩)
        · rw [hL] at h; exact absurd h (by simp)
        · exact absurd h (by simp)
        · rw [hHeld] at h; exact absurd h (by simp)
        · cases hc; rw [hM] at hm; exact absurd hm (by simp)
        · cases hc
          obtain ⟨hD, hH⟩ := hI hi
          rcases h with h | ⟨h1, h2⟩
          · rw [hD] at h; exact absurd h (by simp)
          · rcases hH with hH | hH
            · rw [hH] at h1; exact absurd h1 (by simp)
            · rw [hH] at h2; exact absurd h2 (by simp)
      rcases GripComponent_eq env w st (some Target) a with h1 | ⟨g, hg, _, _, _, _, h1⟩
      · exact absurd (by rw [h1]) hnf
      · have hrec := InsertGrip_records env w
          { st with GripIDIncrementer := (env.GetNextGripID
            (IsLocalGripSetting a.GripMovementReplicationSetting) st.GripIDIncrementer).2 }
          (IsLocalGripSetting a.GripMovementReplicationSetting) g
        rw [← h1, hL] at hrec
        refine ⟨g, hg, ?_, by simpa using hrec.2.1, by simpa using hrec.1⟩
        rw [h1]; exact InsertGrip_fst _ _ _ _ _

/-- Witness of C2: the sample client is refused a server-forced grip of the
actor `1`, and its client-authoritative grips of the actor `1` (root `2`) and of
the component `3` each append one record to `LocallyGrippedObjects`. -/
theorem authority_gate_witness :
    (GripActor Sample.Client (Sample.Scene id) State.Initial (some 1)
        (Sample.Args .InteractiveCollisionWithPhysics .ForceServerSideMovement) =
      (false, Sample.Scene id, State.Initial) ∧
     GripComponent Sample.Client (Sample.Scene id) State.Initial (some 1)
        (Sample.Args .InteractiveCollisionWithPhysics .ForceServerSideMovement) =
      (false, Sample.Scene id, State.Initial)) ∧
    (∃ r : FBPActorGripInformation, r.GrippedObject = some 1 ∧
      (GripActor Sample.Client (Sample.Scene id) State.Initial (some 1)
        (Sample.Args .InteractiveCollisionWithPhysics .ClientSide_Authoritive)).1 = true ∧
      (GripActor Sample.Client (Sample.Scene id) State.Initial (some 1)
        (Sample.Args .InteractiveCollisionWithPhysics .ClientSide_Authoritive)).2.2.LocallyGrippedObjects =
        State.Initial.LocallyGrippedObjects ++ [r] ∧
      (GripActor Sample.Client (Sample.Scene id) State.Initial (some 1)
        (Sample.Args .InteractiveCollisionWithPhysics .ClientSide_Authoritive)).2.2.GrippedObjects =
        State.Initial.GrippedObjects) ∧
    (∃ r : FBPActorGripInformation, r.GrippedObject = some 3 ∧
      (GripComponent Sample.Client (Sample.Scene id) State.Initial (some 3)
        (Sample.Args .InteractiveCollisionWithPhysics .ClientSide_Authoritive)).1 = true ∧
      (GripComponent Sample.Client (Sample.Scene id) State.Initial (some 3)
        (Sample.Args .InteractiveCollisionWithPhysics .ClientSide_Authoritive)).2.2.LocallyGrippedObjects =
        State.Initial.LocallyGrippedObjects ++ [r] ∧
      (GripComponent Sample.Client (Sample.Scene id) State.Initial (some 3)
        (Sample.Args .InteractiveCollisionWithPhysics .ClientSide_Authoritive)).2.2.GrippedObjects =
        State.Initial.GrippedObjects) :=
  ⟨(authority_gate Sample.Client (Sample.Scene id) State.Initial 1 2
      (Sample.Args .InteractiveCollisionWithPhysics .ForceServerSideMovement) rfl).1 rfl,
   ((authority_gate Sample.Client (Sample.Scene id) State.Initial 1 2
      (Sample.Args .InteractiveCollisionWithPhysics .ClientSide_Authoritive) rfl).2
        (Or.inl rfl) rfl).1 rfl rfl
      (by
        intro i h
        have hn : InterfaceOf (Sample.Scene id) 2 1 = none := rfl
        rw [hn] at h
        cases h),
   ((authority_gate Sample.Client (Sample.Scene id) State.Initial 3 3
      (Sample.Args .InteractiveCollisionWithPhysics .ClientSide_Authoritive) rfl).2
        (Or.inl rfl) rfl).2 rfl
      (by
        intro h
        have hn : ((Sample.Scene id).Objects 3).bImplementsGripInterface = false := rfl
        rw [hn] at h
        cases h)⟩

/-- Counterexample to C3 as stated: on the sample server the actor `1`, whose
interface allows multiple grips, is already held by this controller; no reason
of the spec's list applies, and `GripActor` returns false all the same, so the
target cannot be gripped again by the controller that holds it. -/
theorem gripactor_refuses_target_held_by_self :
    ((Sample.HeldScene true).Objects 2).AllowsMultipleGrips = true ∧
    GetIsObjectHeld Sample.Holding (some 1) = true ∧
    SpecGripActorFails Sample.Server (Sample.HeldScene true) Sample.Holding (some 1)
      (Sample.Args .InteractiveCollisionWithPhysics .ForceServerSideMovement) = false ∧
    (GripActor Sample.Server (Sample.HeldScene true) Sample.Holding (some 1)
      (Sample.Args .InteractiveCollisionWithPhysics .ForceServerSideMovement)).1 = false := by
  refine ⟨rfl, by decide, by decide, by decide⟩

/-- C3 as amended. `GripActor` returns false if and only if the side is not
authorized for the requested replication mode, or the target is null, or the
target is already held by this controller (whether or not it allows multiple
grips), or the target has no primitive root, or the root is not movable while the
collision mode is neither `CustomGrip` nor `EventsOnly`, or the consulted
interface denies gripping, or it reports the target held while disallowing
multiple grips. -/
theorem gripactor_fails_exactly (env : Env) (w : World) (st : State)
    (ActorToGrip : Option UObject) (a : GripArgs) :
    (GripActor env w st ActorToGrip a).1 = false ↔
      ((env.IsServer = false ∧ IsLocalGripSetting a.GripMovementReplicationSetting = false) ∨
       ActorToGrip = none ∨
       GetIsObjectHeld st ActorToGrip = true ∨
       (∃ Actor, ActorToGrip = some Actor ∧ w.RootOf Actor = none) ∨
       (∃ Actor root, ActorToGrip = some Actor ∧ w.RootOf Actor = some root ∧
          (w.Objects root).bMovable = false ∧ a.GripCollisionType ≠ .CustomGrip ∧
          a.GripCollisionType ≠ .EventsOnly) ∨
       (∃ Actor root i, ActorToGrip = some Actor ∧ w.RootOf Actor = some root ∧
          InterfaceOf w root Actor = some i ∧
          ((w.Objects i).DenyGripping = true ∨
            ((w.Objects i).IsHeld = true ∧ (w.Objects i).AllowsMultipleGrips = false)))) :=
  GripActor_fails_iff env w st ActorToGrip a

/-- C4. A rejected grip is a no-op: whenever `GripActor` or `GripComponent`
returns false, the scene and the controller (`GrippedObjects`,
`LocallyGrippedObjects`, `PhysicsGrips` and the grip ID incrementer included)
are exactly as before the call. -/
theorem rejected_grip_is_noop (env : Env) (w : World) (st : State) (Target : Option UObject)
    (a : GripArgs) :
    ((GripActor env w st Target a).1 = false →
      (GripActor env w st Target a).2.2 = st ∧ (GripActor env w st Target a).2.1 = w) ∧
    ((GripComponent env w st Target a).1 = false →
      (GripComponent env w st Target a).2.2 = st ∧ (GripComponent env w st Target a).2.1 = w) := by
  constructor
  · intro h
    rcases GripActor_cases env w st Target a with h1 | h1
    · rw [h1]; exact ⟨rfl, rfl⟩
    · rw [h] at h1; exact absurd h1 (by simp)
  · intro h
    rcases GripComponent_cases env w st Target a with h1 | h1
    · rw [h1]; exact ⟨rfl, rfl⟩
    · rw [h] at h1; exact absurd h1 (by simp)

/-- Witness of C4: the grip of a null actor on the sample server is rejected and
leaves the controller that holds the actor `1` as it was. -/
theorem rejected_grip_is_noop_witness :
    (GripActor Sample.Server (Sample.Scene id) Sample.Holding none
        (Sample.Args .InteractiveCollisionWithPhysics .ForceServerSideMovement)).1 = false ∧
    (GripActor Sample.Server (Sample.Scene id) Sample.Holding none
        (Sample.Args .InteractiveCollisionWithPhysics .ForceServerSideMovement)).2.2 =
      Sample.Holding :=
  ⟨rfl, ((rejected_grip_is_noop Sample.Server (Sample.Scene id) Sample.Holding none
      (Sample.Args .InteractiveCollisionWithPhysics .ForceServerSideMovement)).1 rfl).1⟩

/-! ## Auxiliary facts: drop -/

theorem FindGripRecord_eq_none {l : List FBPActorGripInformation} {g : FBPActorGripInformation} :
    FindGripRecord l g = none ↔ ∀ r ∈ l, r.Equals g = false := by
  unfold FindGripRecord
  rw [List.find?_eq_none]
  simp

theorem FindGripRecord_some {l : List FBPActorGripInformation} {g r : FBPActorGripInformation}
    (h : FindGripRecord l g = some r) : r ∈ l ∧ r.Equals g = true := by
  unfold FindGripRecord at h
  exact ⟨List.mem_of_find?_eq_some h, by simpa using List.find?_some h⟩

theorem FindByObject_eq_none {l : List FBPActorGripInformation} {k : Option UObject} :
    FindByObject l k = none ↔ ∀ r ∈ l, r.EqualsObject k = false := by
  unfold FindByObject
  rw [List.find?_eq_none]
  simp

theorem FindByID_eq_none {l : List FBPActorGripInformation} {k : Nat} :
    FindByID l k = none ↔ ∀ r ∈ l, r.EqualsID k = false := by
  unfold FindByID
  rw [List.find?_eq_none]
  simp

theorem FindGrip_eq_none {l : List FBPActorGripInformation} {g : FBPActorGripInformation} :
    FindGrip l g = none ↔ ∀ r ∈ l, r.Equals g = false := by
  unfold FindGrip
  rw [List.findIdx?_eq_none_iff]

/-- `DropGrip` is refused with nothing changed, or it returns true. -/
theorem DropGrip_cases (env : Env) (w : World) (st : State) (g : FBPActorGripInformation)
    (b : Bool) :
    DropGrip env w st g b = (false, w, st) ∨ (DropGrip env w st g b).1 = true := by
  unfold DropGrip
  repeat' split
  all_goals first
    | (left; rfl)
    | (right; rfl)

/-- The exact refusal condition of `DropGrip`. -/
theorem DropGrip_fails_iff (env : Env) (w : World) (st : State) (g : FBPActorGripInformation)
    (b : Bool) :
    (DropGrip env w st g b).1 = false ↔
      (FindGripRecord st.LocallyGrippedObjects g = none ∧
        (env.IsServer = false ∨ FindGripRecord st.GrippedObjects g = none)) := by
  unfold DropGrip
  cases hL : FindGripRecord st.LocallyGrippedObjects g with
  | some r => simp only []; split <;> simp
  | none =>
    cases hS : env.IsServer with
    | false => simp
    | true =>
      cases hG : FindGripRecord st.GrippedObjects g with
      | none => simp
      | some r => simp

/-! ## C6 and C7: when a drop is refused -/

/-- Counterexample to C6 as stated: on the sample client the record of the actor
`1` is found in the authoritative collection `GrippedObjects` (and not in
`LocallyGrippedObjects`); the failure condition of the spec does not hold, yet
`DropGrip` refuses the drop, for lack of authority. -/
theorem dropgrip_refuses_authoritative_record_on_client :
    FindGripRecord Sample.Holding.GrippedObjects (Sample.Grip 1 1 .ForceServerSideMovement) =
      some (Sample.Grip 1 1 .ForceServerSideMovement) ∧
    SpecDropGripFails Sample.Client Sample.Holding (Sample.Grip 1 1 .ForceServerSideMovement) = false ∧
    (DropGrip Sample.Client (Sample.Scene id) Sample.Holding
      (Sample.Grip 1 1 .ForceServerSideMovement) true).1 = false := by
  refine ⟨by decide, by decide, by decide⟩

/-- C6 as amended. `DropGrip` fails exactly when the record is not found in the
predicted collection `LocallyGrippedObjects` and either this side is not the
server or the record is not found in the authoritative collection
`GrippedObjects` either; a record found in `LocallyGrippedObjects` is never
refused for lack of authority. -/
theorem dropgrip_fails_exactly (env : Env) (w : World) (st : State)
    (Grip : FBPActorGripInformation) (bSimulate : Bool) :
    ((DropGrip env w st Grip bSimulate).1 = false ↔
      (FindGripRecord st.LocallyGrippedObjects Grip = none ∧
        (env.IsServer = false ∨ FindGripRecord st.GrippedObjects Grip = none))) ∧
    ((FindGripRecord st.LocallyGrippedObjects Grip).isSome = true →
      (DropGrip env w st Grip bSimulate).1 = true) := by
  refine ⟨DropGrip_fails_iff env w st Grip bSimulate, ?_⟩
  intro h
  cases hd : (DropGrip env w st Grip bSimulate).1 with
  | true => rfl
  | false =>
    have h1 := ((DropGrip_fails_iff env w st Grip bSimulate).mp hd).1
    rw [h1] at h
    exact absurd h (by simp)

/-- Witness of C6 as amended: on the sample client a record of
`LocallyGrippedObjects` is dropped. -/
theorem dropgrip_fails_exactly_witness :
    (DropGrip Sample.Client (Sample.Scene id)
      { State.Initial with LocallyGrippedObjects := [Sample.Grip 1 129 .ClientSide_Authoritive] }
      (Sample.Grip 1 129 .ClientSide_Authoritive) true).1 = true :=
  (dropgrip_fails_exactly Sample.Client (Sample.Scene id)
    { State.Initial with LocallyGrippedObjects := [Sample.Grip 1 129 .ClientSide_Authoritive] }
    (Sample.Grip 1 129 .ClientSide_Authoritive) true).2 (by decide)

/-- C7. Dropping what is not held changes nothing: `DropGrip` for a record
whose object and ID match no record of the two collections, `DropActor`,
`DropComponent` and `DropObject` for a target no record of the two collections
refers to, and `DropObject` for a grip ID no record carries, return false and
leave the scene and the controller (both collections and `PhysicsGrips`
included) as they were. As this holds in every state, a drop repeated after the
record is gone changes nothing either. -/
theorem drop_of_absent_is_noop (env : Env) (w : World) (st : State) (bSimulate : Bool) :
    (∀ Grip : FBPActorGripInformation,
      (∀ r ∈ st.GrippedObjects ++ st.LocallyGrippedObjects,
        ¬ (r.GrippedObject = Grip.GrippedObject ∧ r.GripID = Grip.GripID)) →
      DropGrip env w st Grip bSimulate = (false, w, st)) ∧
    (∀ Target : Option UObject,
      (∀ r ∈ st.GrippedObjects ++ st.LocallyGrippedObjects, r.GrippedObject ≠ Target) →
      DropActor env w st Target bSimulate = (false, w, st) ∧
      DropComponent env w st Target bSimulate = (false, w, st) ∧
      (Target ≠ none → ∀ GripID, DropObject env w st Target GripID bSimulate = (false, w, st))) ∧
    (∀ GripID : Nat,
      (∀ r ∈ st.GrippedObjects ++ st.LocallyGrippedObjects, r.GripID ≠ GripID) →
      DropObject env w st none GripID bSimulate = (false, w, st)) := by
  refine ⟨?_, ?_, ?_⟩
  · intro Grip h
    have hN : ∀ l : List FBPActorGripInformation,
        (∀ r ∈ l, r ∈ st.GrippedObjects ++ st.LocallyGrippedObjects) →
        FindGripRecord l Grip = none := by
      intro l hl
      rw [FindGripRecord_eq_none]
      intro r hr
      have := h r (hl r hr)
      cases hE : r.Equals Grip with
      | false => rfl
      | true =>
        exfalso
        apply this
        unfold FBPActorGripInformation.Equals at hE
        simp only [Bool.and_eq_true, beq_iff_eq] at hE
        exact ⟨hE.1.2, hE.2⟩
    have hf : (DropGrip env w st Grip bSimulate).1 = false := by
      rw [DropGrip_fails_iff]
      exact ⟨hN _ (fun r hr => List.mem_append_right _ hr),
        Or.inr (hN _ (fun r hr => List.mem_append_left _ hr))⟩
    rcases DropGrip_cases env w st Grip bSimulate with h1 | h1
    · exact h1
    · rw [hf] at h1; exact absurd h1 (by simp)
  · intro Target h
    have hN : ∀ l : List FBPActorGripInformation,
        (∀ r ∈ l, r ∈ st.GrippedObjects ++ st.LocallyGrippedObjects) →
        FindByObject l Target = none := by
      intro l hl
      rw [FindByObject_eq_none]
      intro r hr
      have := h r (hl r hr)
      cases hE : r.EqualsObject Target with
      | false => rfl
      | true =>
        exfalso
        apply this
        unfold FBPActorGripInformation.EqualsObject at hE
        simp only [Bool.and_eq_true, beq_iff_eq] at hE
        exact hE.2
    have hL := hN st.LocallyGrippedObjects (fun r hr => List.mem_append_right _ hr)
    have hG := hN st.GrippedObjects (fun r hr => List.mem_append_left _ hr)
    refine ⟨?_, ?_, ?_⟩
    · unfold DropActor
      rw [hL, hG]
      simp only []
      split
      · rfl
      · split <;> rfl
    · unfold DropComponent
      rw [hL, hG]
      simp only []
      split <;> rfl
    · intro hT GripID
      unfold DropObject FindGripToDrop
      have : Target.isSome = true := by
        cases Target with
        | none => exact absurd rfl hT
        | some _ => rfl
      simp [this, hL, hG]
  · intro GripID h
    have hN : ∀ l : List FBPActorGripInformation,
        (∀ r ∈ l, r ∈ st.GrippedObjects ++ st.LocallyGrippedObjects) →
        FindByID l GripID = none := by
      intro l hl
      rw [FindByID_eq_none]
      intro r hr
      have := h r (hl r hr)
      unfold FBPActorGripInformation.EqualsID
      simpa using this
    have hL := hN st.LocallyGrippedObjects (fun r hr => List.mem_append_right _ hr)
    have hG := hN st.GrippedObjects (fun r hr => List.mem_append_left _ hr)
    have hF : FindGripToDrop st none GripID = none := by
      unfold FindGripToDrop
      simp only [Option.isSome_none, Bool.false_eq_true, if_false, hL, hG]
      split <;> rfl
    unfold DropObject
    rw [hF]

/-- Witness of C7: with nothing held, the sample server drops neither the record
of the actor `1`, nor the actor `1`, nor the grip ID 1. -/
theorem drop_of_absent_is_noop_witness :
    DropGrip Sample.Server (Sample.Scene id) State.Initial
        (Sample.Grip 1 1 .ForceServerSideMovement) true =
      (false, Sample.Scene id, State.Initial) ∧
    DropActor Sample.Server (Sample.Scene id) State.Initial (some 1) true =
      (false, Sample.Scene id, State.Initial) ∧
    DropObject Sample.Server (Sample.Scene id) State.Initial none 1 true =
      (false, Sample.Scene id, State.Initial) :=
  ⟨(drop_of_absent_is_noop Sample.Server (Sample.Scene id) State.Initial true).1
      (Sample.Grip 1 1 .ForceServerSideMovement) (by intro r hr; cases hr),
   ((drop_of_absent_is_noop Sample.Server (Sample.Scene id) State.Initial true).2.1
      (some 1) (by intro r hr; cases hr)).1,
   (drop_of_absent_is_noop Sample.Server (Sample.Scene id) State.Initial true).2.2
      1 (by intro r hr; cases hr)⟩

/-! ## Auxiliary facts: arrays, keys and the handle invariant -/

theorem ModifyAt_length {α : Type} (l : List α) (i : Nat) (f : α → α) :
    (ModifyAt l i f).length = l.length := by
  unfold ModifyAt
  split <;> simp

theorem ModifyAt_map {α β : Type} (l : List α) (i : Nat) (f : α → α) (k : α → β)
    (hf : ∀ a, k (f a) = k a) : (ModifyAt l i f).map k = l.map k := by
  unfold ModifyAt
  split
  · rename_i a ha
    apply List.ext_getElem
    · simp
    · intro n h1 h2
      simp only [List.getElem_map, List.getElem_set]
      split
      · rename_i hin
        subst hin
        have hlt : i < l.length := by simpa using h2
        have h3 : l[i] = a := by
          have h4 := List.getElem?_eq_getElem hlt
          rw [h4] at ha
          exact Option.some.inj ha
        rw [hf, ← h3]
      · rfl
  · rfl

theorem ModifyAt_getElem? {α : Type} (l : List α) (i j : Nat) (f : α → α) :
    (ModifyAt l i f)[j]? = if i = j then l[j]?.map f else l[j]? := by
  unfold ModifyAt
  split
  · rename_i a ha
    rw [List.getElem?_set]
    split
    · rename_i h; subst h
      split
      · rename_i hlt
        rw [ha]; rfl
      · rename_i hlt
        have : l[i]? = none := by
          rw [List.getElem?_eq_none]; omega
        rw [this] at ha; cases ha
    · rfl
  · rename_i hn
    split
    · rename_i h; subst h
      rw [hn]; rfl
    · rfl

theorem ModifyAt_mem {α : Type} {l : List α} {i : Nat} {f : α → α} {x : α}
    (h : x ∈ ModifyAt l i f) : x ∈ l ∨ ∃ a ∈ l, x = f a := by
  rw [List.mem_iff_getElem?] at h
  obtain ⟨j, hj⟩ := h
  rw [ModifyAt_getElem?] at hj
  split at hj
  · cases hl : l[j]? with
    | none => rw [hl] at hj; cases hj
    | some a =>
      rw [hl] at hj
      right
      exact ⟨a, List.mem_iff_getElem?.mpr ⟨j, hl⟩, (Option.some.inj hj).symm⟩
  · left
    exact List.mem_iff_getElem?.mpr ⟨j, hj⟩

theorem EqualsGrip_iff (h : FBPActorPhysicsHandleInformation) (g : FBPActorGripInformation) :
    h.EqualsGrip g = true ↔ h.Key = g.Key := by
  unfold FBPActorPhysicsHandleInformation.EqualsGrip FBPActorPhysicsHandleInformation.Key
    FBPActorGripInformation.Key
  simp [Prod.ext_iff]

theorem Equals_iff (r g : FBPActorGripInformation) :
    r.Equals g = true ↔ (r.GrippedObject.isSome = true ∧ r.Key = g.Key) := by
  unfold FBPActorGripInformation.Equals FBPActorGripInformation.Key
  simp [Prod.ext_iff, and_assoc]

theorem GetPhysicsGripIndex_eq_none {st : State} {g : FBPActorGripInformation} :
    GetPhysicsGripIndex st g = none ↔ g.Key ∉ st.HandleKeys := by
  unfold GetPhysicsGripIndex State.HandleKeys
  rw [List.findIdx?_eq_none_iff]
  simp only [List.mem_map, not_exists, not_and]
  constructor
  · intro h x hx hk
    have := h x hx
    rw [← Bool.not_eq_true, EqualsGrip_iff] at this
    exact this hk
  · intro h x hx
    rw [← Bool.not_eq_true, EqualsGrip_iff]
    exact h x hx

theorem GetPhysicsGrip_eq_none {st : State} {g : FBPActorGripInformation} :
    GetPhysicsGrip st g = none ↔ g.Key ∉ st.HandleKeys := by
  unfold GetPhysicsGrip State.HandleKeys
  rw [List.find?_eq_none]
  simp only [List.mem_map, not_exists, not_and]
  constructor
  · intro h x hx hk
    exact h x hx ((EqualsGrip_iff x g).mpr hk)
  · intro h x hx hk
    exact h x hx ((EqualsGrip_iff x g).mp hk)

theorem GetPhysicsGripIndex_some {st : State} {g : FBPActorGripInformation} {i : Nat}
    (h : GetPhysicsGripIndex st g = some i) :
    ∃ x, st.PhysicsGrips[i]? = some x ∧ x.Key = g.Key := by
  unfold GetPhysicsGripIndex at h
  rw [List.findIdx?_eq_some_iff_getElem] at h
  obtain ⟨hlt, hp, _⟩ := h
  exact ⟨st.PhysicsGrips[i], List.getElem?_eq_getElem hlt, (EqualsGrip_iff _ _).mp hp⟩

theorem map_eraseIdx {α β : Type} (f : α → β) (l : List α) (i : Nat) :
    (l.eraseIdx i).map f = (l.map f).eraseIdx i := by
  induction l generalizing i with
  | nil => rfl
  | cons a t ih =>
    cases i with
    | zero => rfl
    | succ n => simp [ih]

theorem not_mem_eraseIdx_of_nodup {α : Type} {l : List α} {i : Nat} {a : α} (hn : l.Nodup)
    (ha : l[i]? = some a) : a ∉ l.eraseIdx i := by
  induction l generalizing i with
  | nil => simp
  | cons b t ih =>
    rw [List.nodup_cons] at hn
    cases i with
    | zero =>
      simp only [List.getElem?_cons_zero, Option.some.injEq] at ha
      subst ha
      simpa using hn.1
    | succ n =>
      simp only [List.getElem?_cons_succ] at ha
      simp only [List.eraseIdx_cons_succ, List.mem_cons, not_or]
      refine ⟨?_, ih hn.2 ha⟩
      rintro rfl
      exact hn.1 (List.mem_iff_getElem?.mpr ⟨n, ha⟩)

theorem mem_eraseIdx_of_ne {α : Type} {l : List α} {i : Nat} {a x : α} (hx : x ∈ l)
    (ha : l[i]? = some a) (hne : x ≠ a) : x ∈ l.eraseIdx i := by
  induction l generalizing i with
  | nil => cases hx
  | cons b t ih =>
    cases i with
    | zero =>
      simp only [List.getElem?_cons_zero, Option.some.injEq] at ha
      subst ha
      simp only [List.eraseIdx_cons_zero]
      rcases List.mem_cons.mp hx with h | h
      · exact absurd h hne
      · exact h
    | succ n =>
      simp only [List.getElem?_cons_succ] at ha
      simp only [List.eraseIdx_cons_succ, List.mem_cons]
      rcases List.mem_cons.mp hx with h | h
      · exact Or.inl h
      · exact Or.inr (ih h ha)

theorem findIdx?_some_getElem? {α : Type} {p : α → Bool} {l : List α} {i : Nat}
    (h : l.findIdx? p = some i) : ∃ a, l[i]? = some a ∧ p a = true := by
  rw [List.findIdx?_eq_some_iff_getElem] at h
  obtain ⟨hlt, hp, _⟩ := h
  exact ⟨l[i], List.getElem?_eq_getElem hlt, hp⟩

theorem FindGrip_some {l : List FBPActorGripInformation} {g : FBPActorGripInformation} {i : Nat}
    (h : FindGrip l g = some i) : ∃ r, l[i]? = some r ∧ r.Equals g = true :=
  findIdx?_some_getElem? h

/-- A state whose handle keys are a sublist of those of a sound state, whose
record keys still cover them and whose new records are replicated, is sound. -/
theorem HandleInvariant.transfer {st st' : State} (h : HandleInvariant st)
    (hH : st'.HandleKeys.Sublist st.HandleKeys)
    (hC : ∀ k ∈ st'.HandleKeys, k ∈ st.RecordKeys → k ∈ st'.RecordKeys)
    (hR : ∀ r ∈ st'.Records, r ∈ st.Records ∨ r.bWasInitiallyRepped = true) :
    HandleInvariant st' := by
  refine ⟨hH.nodup h.nodup, ?_, ?_⟩
  · intro k hk
    exact hC k hk (h.covered (hH.subset hk))
  · intro r hr
    rcases hR r hr with h1 | h1
    · exact h.repped r h1
    · exact h1

theorem HandleInvariant.emit {st : State} (h : HandleInvariant st) (e : Event) :
    HandleInvariant (st.Emit e) :=
  ⟨h.nodup, h.covered, h.repped⟩

/-- The count the tick checks follows from the invariant. -/
theorem HandleInvariant.count {st : State} (h : HandleInvariant st) :
    st.PhysicsGrips.length ≤ st.GrippedObjects.length + st.LocallyGrippedObjects.length := by
  have h1 : st.HandleKeys.length ≤ st.RecordKeys.length :=
    (List.subperm_of_subset h.nodup h.covered).length_le
  simpa [State.HandleKeys, State.RecordKeys, State.Records] using h1

theorem HandleInvariant.initial : HandleInvariant State.Initial :=
  ⟨List.nodup_nil, (by intro k hk; cases hk), (by intro r hr; cases hr)⟩

/-- Changing handles in place, keys kept, keeps the invariant. -/
theorem HandleInvariant.modifyHandle {st : State} (h : HandleInvariant st) (i : Nat)
    (f : FBPActorPhysicsHandleInformation → FBPActorPhysicsHandleInformation)
    (hf : ∀ x, (f x).Key = x.Key) :
    HandleInvariant { st with PhysicsGrips := ModifyAt st.PhysicsGrips i f } := by
  have hk : ({ st with PhysicsGrips := ModifyAt st.PhysicsGrips i f } : State).HandleKeys =
      st.HandleKeys := ModifyAt_map _ _ _ _ hf
  refine h.transfer (by rw [hk]) (fun k _ hk2 => hk2) (fun r hr => Or.inl hr)

/-- Changing a record in place, key and replication flag kept, keeps the
invariant. -/
theorem HandleInvariant.modifySlot {st : State} (h : HandleInvariant st) (b : Bool) (i : Nat)
    (f : FBPActorGripInformation → FBPActorGripInformation)
    (hf : ∀ x, (f x).Key = x.Key) (hr : ∀ x, (f x).bWasInitiallyRepped = x.bWasInitiallyRepped) :
    HandleInvariant (st.ModifySlot b i f) := by
  have hkeys : (st.ModifySlot b i f).RecordKeys = st.RecordKeys := by
    unfold State.ModifySlot State.RecordKeys State.Records
    cases b <;> simp [ModifyAt_map _ _ _ _ hf]
  have hH : (st.ModifySlot b i f).HandleKeys = st.HandleKeys := by
    unfold State.ModifySlot; cases b <;> rfl
  refine ⟨by rw [hH]; exact h.nodup, by rw [hH, hkeys]; exact h.covered, ?_⟩
  intro r hr0
  have hmem : r ∈ st.Records ∨ ∃ a ∈ st.Records, r = f a := by
    unfold State.ModifySlot State.Records at hr0
    unfold State.Records
    cases b
    · simp only [Bool.false_eq_true, if_false, List.mem_append] at hr0 ⊢
      rcases hr0 with h1 | h1
      · exact Or.inl (Or.inl h1)
      · rcases ModifyAt_mem h1 with h2 | ⟨a, ha, h2⟩
        · exact Or.inl (Or.inr h2)
        · exact Or.inr ⟨a, Or.inr ha, h2⟩
    · simp only [if_true, List.mem_append] at hr0 ⊢
      rcases hr0 with h1 | h1
      · rcases ModifyAt_mem h1 with h2 | ⟨a, ha, h2⟩
        · exact Or.inl (Or.inl h2)
        · exact Or.inr ⟨a, Or.inl ha, h2⟩
      · exact Or.inl (Or.inr h1)
  rcases hmem with h1 | ⟨a, ha, h1⟩
  · exact h.repped r h1
  · rw [h1, hr]; exact h.repped a ha

/-- Removing the handle of a grip keeps the invariant and leaves no handle with
the key of the grip. -/
theorem HandleInvariant.destroy {st : State} (h : HandleInvariant st)
    (g : FBPActorGripInformation) :
    HandleInvariant (DestroyPhysicsHandle st g).2 ∧
      g.Key ∉ (DestroyPhysicsHandle st g).2.HandleKeys ∧
      (DestroyPhysicsHandle st g).2.GrippedObjects = st.GrippedObjects ∧
      (DestroyPhysicsHandle st g).2.LocallyGrippedObjects = st.LocallyGrippedObjects := by
  unfold DestroyPhysicsHandle
  cases hg : GetPhysicsGrip st g with
  | none => exact ⟨h, GetPhysicsGrip_eq_none.mp hg, rfl, rfl⟩
  | some x =>
    cases hi : GetPhysicsGripIndex st g with
    | none => exact ⟨h, GetPhysicsGripIndex_eq_none.mp hi, rfl, rfl⟩
    | some i =>
      obtain ⟨y, hy, hyk⟩ := GetPhysicsGripIndex_some hi
      have hk : ({ st with PhysicsGrips := st.PhysicsGrips.eraseIdx i } : State).HandleKeys =
          st.HandleKeys.eraseIdx i := map_eraseIdx _ _ _
      refine ⟨h.transfer (by rw [hk]; exact List.eraseIdx_sublist _ _) (fun k _ hk2 => hk2)
        (fun r hr => Or.inl hr), ?_, rfl, rfl⟩
      show g.Key ∉ ({ st with PhysicsGrips := st.PhysicsGrips.eraseIdx i } : State).HandleKeys
      rw [hk]
      apply not_mem_eraseIdx_of_nodup h.nodup
      unfold State.HandleKeys
      rw [List.getElem?_map, hy, ← hyk]
      rfl

/-! ## Auxiliary facts: the handle invariant along a drop -/

theorem TraceOnly.trace_refl (st : State) : TraceOnly st st := rfl

theorem TraceOnly.trace_emit {st st' : State} (h : TraceOnly st st') (e : Event) :
    TraceOnly st (st'.Emit e) := by
  unfold TraceOnly at h ⊢
  rw [h]
  rfl

theorem TraceOnly.trace_invariant {st st' : State} (h : TraceOnly st st') (hi : HandleInvariant st) :
    HandleInvariant st' := by
  unfold TraceOnly at h
  rw [h]
  exact ⟨hi.nodup, hi.covered, hi.repped⟩

theorem TraceOnly.handleKeys {st st' : State} (h : TraceOnly st st') :
    st'.HandleKeys = st.HandleKeys := by
  unfold TraceOnly at h
  rw [h]; rfl

theorem TraceOnly.gripped {st st' : State} (h : TraceOnly st st') :
    st'.GrippedObjects = st.GrippedObjects := by
  unfold TraceOnly at h
  rw [h]

theorem TraceOnly.locally {st st' : State} (h : TraceOnly st st') :
    st'.LocallyGrippedObjects = st.LocallyGrippedObjects := by
  unfold TraceOnly at h
  rw [h]

theorem TraceOnly_DropTargetEffects (env : Env) (w : World) (st : State)
    (g : FBPActorGripInformation) (b s : Bool) :
    TraceOnly st (DropTargetEffects env w st g b s).2 := by
  unfold DropTargetEffects
  simp only []
  repeat' split
  all_goals exact TraceOnly.trace_refl _

/-- Removing (or pausing) the record of a grip that has no handle keeps the
invariant. -/
theorem HandleInvariant.removeRecord {st : State} (h : HandleInvariant st) (env : Env)
    (g : FBPActorGripInformation) (hg : g.Key ∉ st.HandleKeys) :
    HandleInvariant (DropRemoveRecord env st g) := by
  have hpause : ∀ x : FBPActorGripInformation,
      ({ x with bIsPaused := true } : FBPActorGripInformation).Key = x.Key := fun _ => rfl
  have hErase : ∀ (l : List FBPActorGripInformation) (i : Nat) (r : FBPActorGripInformation),
      l[i]? = some r → r.Equals g = true →
      ∀ k ∈ st.HandleKeys, k ∈ l.map FBPActorGripInformation.Key →
        k ∈ (l.eraseIdx i).map FBPActorGripInformation.Key := by
    intro l i r hr hE k hk hkl
    rw [map_eraseIdx]
    refine mem_eraseIdx_of_ne hkl (a := r.Key) (by rw [List.getElem?_map, hr]; rfl) ?_
    rintro rfl
    exact hg (by rw [← ((Equals_iff r g).mp hE).2]; exact hk)
  unfold DropRemoveRecord
  cases hL : FindGrip st.LocallyGrippedObjects g with
  | some i =>
    obtain ⟨r, hr, hE⟩ := FindGrip_some hL
    simp only []
    split
    · refine h.transfer (List.Sublist.refl _) ?_ ?_
      · intro k hk hkr
        unfold State.RecordKeys State.Records at hkr ⊢
        simp only [List.map_append, List.mem_append] at hkr ⊢
        rcases hkr with h1 | h1
        · exact Or.inl h1
        · exact Or.inr (hErase _ i r hr hE k hk h1)
      · intro x hx
        left
        unfold State.Records at hx ⊢
        simp only [List.mem_append] at hx ⊢
        rcases hx with h1 | h1
        · exact Or.inl h1
        · exact Or.inr (List.mem_of_mem_eraseIdx h1)
    · exact h.modifySlot false i _ hpause (fun _ => rfl)
  | none =>
    simp only []
    cases hG : FindGrip st.GrippedObjects g with
    | none => exact h
    | some i =>
      obtain ⟨r, hr, hE⟩ := FindGrip_some hG
      simp only []
      split
      · refine h.transfer (List.Sublist.refl _) ?_ ?_
        · intro k hk hkr
          unfold State.RecordKeys State.Records at hkr ⊢
          simp only [List.map_append, List.mem_append] at hkr ⊢
          rcases hkr with h1 | h1
          · exact Or.inl (hErase _ i r hr hE k hk h1)
          · exact Or.inr h1
        · intro x hx
          left
          unfold State.Records at hx ⊢
          simp only [List.mem_append] at hx ⊢
          rcases hx with h1 | h1
          · exact Or.inl (List.mem_of_mem_eraseIdx h1)
          · exact Or.inr h1
      · exact h.modifySlot true i _ hpause (fun _ => rfl)

theorem HandleInvariant.drop_Implementation {st : State} (h : HandleInvariant st) (env : Env)
    (w : World) (g : FBPActorGripInformation) (b : Bool) :
    HandleInvariant (Drop_Implementation env w st g b).2 := by
  unfold Drop_Implementation
  simp only []
  obtain ⟨h1, h2, _, _⟩ := h.destroy g
  have ht := TraceOnly_DropTargetEffects env w (DestroyPhysicsHandle st g).2 g b
    (DropSkipFullDrop env w st g)
  have h3 := ht.trace_invariant h1
  have h4 : g.Key ∉ (DropTargetEffects env w (DestroyPhysicsHandle st g).2 g b
      (DropSkipFullDrop env w st g)).2.HandleKeys := by
    rw [ht.handleKeys]; exact h2
  exact (h3.removeRecord env g h4).emit _

theorem HandleInvariant.notifyDrop {st : State} (h : HandleInvariant st) (env : Env)
    (w : World) (g : FBPActorGripInformation) (b : Bool) :
    HandleInvariant (NotifyDrop_Implementation env w st g b).2 := by
  unfold NotifyDrop_Implementation
  split
  · exact h
  · exact h.drop_Implementation env w g b

theorem HandleInvariant.dropGrip {st : State} (h : HandleInvariant st) (env : Env)
    (w : World) (g : FBPActorGripInformation) (b : Bool) :
    HandleInvariant (DropGrip env w st g b).2.2 := by
  unfold DropGrip
  repeat' split
  all_goals first
    | exact h
    | exact h.notifyDrop env w _ b
    | exact h.drop_Implementation env w _ b
    | exact (h.emit _).drop_Implementation env w _ b

theorem HandleInvariant.dropObject {st : State} (h : HandleInvariant st) (env : Env)
    (w : World) (o : Option UObject) (n : Nat) (b : Bool) :
    HandleInvariant (DropObject env w st o n b).2.2 := by
  unfold DropObject
  split
  · exact h.dropGrip env w _ b
  · exact h

theorem HandleInvariant.dropObjectByInterface {st : State} (h : HandleInvariant st) (env : Env)
    (w : World) (o : Option UObject) (n : Nat) :
    HandleInvariant (DropObjectByInterface env w st o n).2.2 := by
  unfold DropObjectByInterface
  repeat' split
  all_goals first
    | exact h
    | exact h.dropGrip env w _ _

theorem HandleInvariant.dropActor {st : State} (h : HandleInvariant st) (env : Env)
    (w : World) (o : Option UObject) (b : Bool) :
    HandleInvariant (DropActor env w st o b).2.2 := by
  unfold DropActor
  repeat' split
  all_goals first
    | exact h
    | exact h.dropGrip env w _ _

theorem HandleInvariant.dropComponent {st : State} (h : HandleInvariant st) (env : Env)
    (w : World) (o : Option UObject) (b : Bool) :
    HandleInvariant (DropComponent env w st o b).2.2 := by
  unfold DropComponent
  repeat' split
  all_goals first
    | exact h
    | exact h.dropGrip env w _ _

/-! ## Auxiliary facts: the handle invariant along a grip -/

theorem SetUpDrives_Key (g : FBPActorGripInformation) (b : Bool)
    (h : FBPActorPhysicsHandleInformation) : (SetUpDrives g b h).Key = h.Key := by
  unfold SetUpDrives
  repeat' split
  all_goals rfl

theorem SetUpHandleEntry_Key (info : UObjectInfo) (g : FBPActorGripInformation)
    (h : FBPActorPhysicsHandleInformation) : (SetUpHandleEntry info g h).Key = h.Key := by
  unfold SetUpHandleEntry
  simp only []
  repeat' split
  all_goals first
    | rfl
    | (rw [SetUpDrives_Key]; done)
    | (rw [SetUpDrives_Key]; rfl)

/-- Adding the handle of a grip that has a record and no handle yet keeps the
invariant. -/
theorem HandleInvariant.createPhysicsGrip {st : State} (h : HandleInvariant st)
    (g : FBPActorGripInformation) (hg : g.Key ∈ st.RecordKeys) :
    HandleInvariant (CreatePhysicsGrip st g).2 ∧
      (CreatePhysicsGrip st g).2.RecordKeys = st.RecordKeys := by
  unfold CreatePhysicsGrip
  cases hi : GetPhysicsGripIndex st g with
  | some i => exact ⟨h.modifyHandle i _ (fun _ => rfl), rfl⟩
  | none =>
    have hn := GetPhysicsGripIndex_eq_none.mp hi
    refine ⟨⟨?_, ?_, h.repped⟩, rfl⟩
    · show (List.map FBPActorPhysicsHandleInformation.Key (st.PhysicsGrips ++ _)).Nodup
      rw [List.map_append, List.nodup_append]
      refine ⟨h.nodup, by simp, ?_⟩
      intro k hk1 hk2
      simp only [List.map_cons, List.map_nil, List.mem_singleton] at hk2
      subst hk2
      exact hn hk1
    · intro k hk
      have hk' : k ∈ List.map FBPActorPhysicsHandleInformation.Key (st.PhysicsGrips ++
          [FBPActorPhysicsHandleInformation.New g.GrippedObject g.GripID]) := hk
      rw [List.map_append, List.mem_append] at hk'
      rcases hk' with h1 | h1
      · exact h.covered h1
      · simp only [List.map_cons, List.map_nil, List.mem_singleton] at h1
        subst h1
        exact hg

theorem HandleInvariant.setUpPhysicsHandle {st : State} (h : HandleInvariant st) (w : World)
    (g : FBPActorGripInformation) (hg : g.Key ∈ st.RecordKeys) :
    HandleInvariant (SetUpPhysicsHandle w st g).2.2 := by
  unfold SetUpPhysicsHandle
  have hc : HandleInvariant (match GetPhysicsGripIndex st g with
      | some i => (i, st)
      | none => CreatePhysicsGrip st g).2 := by
    split
    · exact h
    · exact (h.createPhysicsGrip g hg).1
  split
  · exact h
  · simp only []
    split
    · exact hc
    · exact hc.modifyHandle _ _ (SetUpHandleEntry_Key _ _)

theorem HandleInvariant.retune {st : State} (h : HandleInvariant st)
    (g : FBPActorGripInformation) (b : Bool) :
    HandleInvariant (SetGripConstraintStiffnessAndDamping st g b).2 := by
  unfold SetGripConstraintStiffnessAndDamping
  split
  · exact h
  · simp only []
    apply h.modifyHandle
    intro x
    repeat' split
    all_goals rfl

theorem HandleInvariant.updateTransform {st : State} (h : HandleInvariant st)
    (g : FBPActorGripInformation) (T : FTransform) :
    HandleInvariant (UpdatePhysicsHandleTransform st g T) := by
  unfold UpdatePhysicsHandleTransform
  repeat' split
  all_goals first
    | exact h
    | exact HandleInvariant.emit
        (h.modifyHandle _ (fun x => { x with LastPhysicsTransform := T }) (fun _ => rfl)) _

set_option maxHeartbeats 1000000 in
/-- The controller after `TeleportMoveGrip_Impl` is the one before with up to
two events appended, or the one `DropObjectByInterface` leaves: what holds of
these holds of it. -/
theorem TeleportMoveGrip_Impl_cases (env : Env) (w : World) (st : State)
    (g : FBPActorGripInformation) (b p : Bool) (T : FTransform) (C : State → Prop)
    (h0 : C st) (h1 : ∀ e, C (st.Emit e)) (h2 : ∀ e e2, C ((st.Emit e).Emit e2))
    (h3 : C (DropObjectByInterface env w st g.GrippedObject INVALID_VRGRIP_ID).2.2) :
    C (TeleportMoveGrip_Impl env w st g b p T).2.2.2 := by
  unfold TeleportMoveGrip_Impl
  cases p
  · simp only [Bool.false_and, Bool.not_false, Bool.true_and]
    repeat' split
    all_goals first
      | exact h0
      | exact h1 _
      | exact h2 _ _
  · simp only [Bool.true_and, Bool.not_true, Bool.false_and]
    repeat' split
    all_goals first
      | exact h0
      | exact h1 _
      | exact h2 _ _
      | exact h3

theorem HandleInvariant.teleport {st : State} (h : HandleInvariant st) (env : Env) (w : World)
    (g : FBPActorGripInformation) (b p : Bool) (T : FTransform) :
    HandleInvariant (TeleportMoveGrip_Impl env w st g b p T).2.2.2 :=
  TeleportMoveGrip_Impl_cases env w st g b p T HandleInvariant h (fun e => h.emit e)
    (fun e e2 => (h.emit e).emit e2) (h.dropObjectByInterface env w _ _)

theorem HandleInvariant.notifyGripPlacement {st : State} (h : HandleInvariant st) (env : Env)
    (w : World) (g : FBPActorGripInformation) (root : Option UObject)
    (hg : g.Key ∈ st.RecordKeys) :
    HandleInvariant (NotifyGripPlacement env w st g root).2 := by
  unfold NotifyGripPlacement
  simp only []
  repeat' split
  all_goals first
    | exact h
    | exact h.setUpPhysicsHandle _ g hg
    | exact h.teleport env _ g _ _ _

theorem HandleInvariant.notifyGrip {st : State} (h : HandleInvariant st) (env : Env)
    (w : World) (g : FBPActorGripInformation) (hg : g.Key ∈ st.RecordKeys) :
    HandleInvariant (NotifyGrip env w st g).2.2 := by
  unfold NotifyGrip
  simp only []
  split
  · exact h
  · refine HandleInvariant.emit ?_ _
    apply HandleInvariant.notifyGripPlacement
    · split
      · exact (h.emit _).emit _
      · exact h
    · split
      · exact hg
      · exact hg

/-- Appending a replicated record to one of the arrays keeps the invariant. -/
theorem HandleInvariant.addRecord {st : State} (h : HandleInvariant st)
    (g : FBPActorGripInformation) (hr : g.bWasInitiallyRepped = true) :
    HandleInvariant { st with GrippedObjects := st.GrippedObjects ++ [g] } ∧
    HandleInvariant { st with LocallyGrippedObjects := st.LocallyGrippedObjects ++ [g] } := by
  constructor
  · refine h.transfer (List.Sublist.refl _) ?_ ?_
    · intro k _ hk
      unfold State.RecordKeys State.Records at hk ⊢
      simp only [List.map_append, List.mem_append] at hk ⊢
      rcases hk with h1 | h1
      · exact Or.inl (Or.inl h1)
      · exact Or.inr h1
    · intro r hr0
      unfold State.Records at hr0 ⊢
      simp only [List.mem_append, List.mem_singleton] at hr0 ⊢
      rcases hr0 with (h1 | h1) | h1
      · exact Or.inl (Or.inl h1)
      · right; rw [h1]; exact hr
      · exact Or.inl (Or.inr h1)
  · refine h.transfer (List.Sublist.refl _) ?_ ?_
    · intro k _ hk
      unfold State.RecordKeys State.Records at hk ⊢
      simp only [List.map_append, List.mem_append] at hk ⊢
      rcases hk with h1 | h1
      · exact Or.inl h1
      · exact Or.inr (Or.inl h1)
    · intro r hr0
      unfold State.Records at hr0 ⊢
      simp only [List.mem_append, List.mem_singleton] at hr0 ⊢
      rcases hr0 with h1 | h1 | h1
      · exact Or.inl (Or.inl h1)
      · exact Or.inl (Or.inr h1)
      · right; rw [h1]; exact hr

theorem HandleInvariant.insertGrip {st : State} (h : HandleInvariant st) (env : Env) (w : World)
    (b : Bool) (g : FBPActorGripInformation) (hr : g.bWasInitiallyRepped = true) :
    HandleInvariant (InsertGrip env w st b g).2.2 := by
  unfold InsertGrip
  split
  · apply (h.addRecord g hr).1.notifyGrip
    unfold State.RecordKeys State.Records
    simp
  · simp only []
    split
    · apply ((h.addRecord g hr).2.emit _).notifyGrip
      unfold State.RecordKeys State.Records State.Emit
      simp
    · apply (h.addRecord g hr).2.notifyGrip
      unfold State.RecordKeys State.Records
      simp

theorem HandleInvariant.setIncrementer {st : State} (h : HandleInvariant st) (n : Nat) :
    HandleInvariant { st with GripIDIncrementer := n } :=
  ⟨h.nodup, h.covered, h.repped⟩

theorem HandleInvariant.gripActor {st : State} (h : HandleInvariant st) (env : Env) (w : World)
    (t : Option UObject) (a : GripArgs) :
    HandleInvariant (GripActor env w st t a).2.2 := by
  rcases GripActor_eq env w st t a with h1 | ⟨g, _, _, _, _, hr, h1⟩
  · rw [h1]; exact h
  · rw [h1]; exact (h.setIncrementer _).insertGrip env w _ g hr

theorem HandleInvariant.gripComponent {st : State} (h : HandleInvariant st) (env : Env)
    (w : World) (t : Option UObject) (a : GripArgs) :
    HandleInvariant (GripComponent env w st t a).2.2 := by
  rcases GripComponent_eq env w st t a with h1 | ⟨g, _, _, _, _, hr, h1⟩
  · rw [h1]; exact h
  · rw [h1]; exact (h.setIncrementer _).insertGrip env w _ g hr

/-! ## Auxiliary facts: the handle invariant along a tick -/

theorem ModifySlot_RecordKeys (st : State) (b : Bool) (i : Nat)
    (f : FBPActorGripInformation → FBPActorGripInformation) (hf : ∀ x, (f x).Key = x.Key) :
    (st.ModifySlot b i f).RecordKeys = st.RecordKeys := by
  unfold State.ModifySlot State.RecordKeys State.Records
  cases b <;> simp [ModifyAt_map _ _ _ _ hf]

theorem slot_mem_Records {st : State} {b : Bool} {i : Nat} {g : FBPActorGripInformation}
    (h : (st.GripArray b)[i]? = some g) : g ∈ st.Records := by
  have hm : g ∈ st.GripArray b := List.mem_iff_getElem?.mpr ⟨i, h⟩
  unfold State.GripArray at hm
  unfold State.Records
  cases b
  · simp only [Bool.false_eq_true, if_false] at hm
    exact List.mem_append_right _ hm
  · simp only [if_true] at hm
    exact List.mem_append_left _ hm

theorem slot_Key_mem {st : State} {b : Bool} {i : Nat} {g : FBPActorGripInformation}
    (h : (st.GripArray b)[i]? = some g) : g.Key ∈ st.RecordKeys :=
  List.mem_map_of_mem _ (slot_mem_Records h)

theorem HandleInvariant.filterHandles {st : State} (h : HandleInvariant st)
    (p : FBPActorPhysicsHandleInformation → Bool) :
    HandleInvariant { st with PhysicsGrips := st.PhysicsGrips.filter p } :=
  h.transfer ((List.filter_sublist _).map _) (fun _ _ hk => hk) (fun _ hr => Or.inl hr)

theorem HandleInvariant.setPostTeleport {st : State} (h : HandleInvariant st) (b : Bool) :
    HandleInvariant { st with bIsPostTeleport := b } :=
  ⟨h.nodup, h.covered, h.repped⟩

theorem HandleInvariant.breakDistanceCheck {st : State} (h : HandleInvariant st) (env : Env)
    (w : World) (b : Bool) (i : Nat) (g : FBPActorGripInformation) (root actor : UObject)
    (T : FTransform) :
    HandleInvariant (BreakDistanceCheck env w st b i g root actor T).2.2 := by
  unfold BreakDistanceCheck
  simp only []
  have hm : ∀ d : Int, HandleInvariant (st.ModifySlot b i (fun g => { g with GripDistance := d })) :=
    fun d => h.modifySlot b i _ (fun _ => rfl) (fun _ => rfl)
  split
  · exact h
  · split
    · exact h.modifySlot b i _ (fun _ => rfl) (fun _ => rfl)
    · split
      · split
        · exact hm _
        · split
          · simp only []
            split
            · exact ((hm _).emit _).dropGrip env w _ _
            · exact (hm _).emit _
          · split
            · exact (hm _).dropGrip env w _ _
            · exact hm _
      · exact hm _

theorem HandleInvariant.placeRoot {st : State} (h : HandleInvariant st) (w : World)
    (g : FBPActorGripInformation) (root : UObject) (T : FTransform) :
    HandleInvariant (PlaceRoot w st g root T).2 :=
  h.emit _

theorem HandleInvariant.placeGrip {st : State} (h : HandleInvariant st) (env : Env)
    (w : World) (b : Bool) (i : Nat) (g : FBPActorGripInformation) (root : UObject)
    (T P : FTransform) (hg : g.Key ∈ st.RecordKeys) :
    HandleInvariant (PlaceGrip env w st b i g root T P).2 := by
  have hu : HandleInvariant (UpdatePhysicsHandleTransform st g T) := h.updateTransform g T
  unfold PlaceGrip
  simp only []
  split
  · split
    · refine HandleInvariant.modifySlot hu b i _ ?_ ?_ <;> (intro _; rfl)
    · exact hu
  · refine HandleInvariant.modifySlot (h.placeRoot _ _ _ _) b i _ ?_ ?_ <;> (intro _; rfl)
  · split
    · refine HandleInvariant.modifySlot ?_ b i _ ?_ ?_
      · split
        · exact hu.retune _ _
        · exact hu
      · intro _; rfl
      · intro _; rfl
    · refine HandleInvariant.modifySlot ?_ b i _ ?_ ?_
      · split
        · exact hu.retune _ _
        · exact hu
      · intro _; rfl
      · intro _; rfl
  · have h1 : ∀ c : Bool, HandleInvariant (st.ModifySlot b i (fun g => { g with bColliding := c })) :=
      fun c => h.modifySlot b i _ (fun _ => rfl) (fun _ => rfl)
    have hk : ∀ c : Bool, ({ g with bColliding := c } : FBPActorGripInformation).Key ∈
        (st.ModifySlot b i (fun g => { g with bColliding := c })).RecordKeys := by
      intro c
      have hk0 := ModifySlot_RecordKeys st b i
        (fun g : FBPActorGripInformation => { g with bColliding := c }) (fun _ => rfl)
      rw [hk0]
      exact hg
    split
    · split
      · exact ((h1 _).destroy _).1.placeRoot _ _ _ _
      · exact (h1 _).placeRoot _ _ _ _
    · split
      · exact ((h1 _).setUpPhysicsHandle _ _ (hk _)).updateTransform _ _
      · exact (h1 _).updateTransform _ _
  · apply HandleInvariant.placeRoot
    split
    · refine HandleInvariant.modifySlot h b i _ ?_ ?_ <;> (intro _; rfl)
    · exact h
  · exact h.placeRoot _ _ _ _
  · split
    · exact h.emit _
    · exact h
  · exact hu
  · exact hu
  · exact h
  · exact h

theorem HandleInvariant.sendTickGrip {st : State} (h : HandleInvariant st) (env : Env)
    (w : World) (g : FBPActorGripInformation) (root actor : UObject) :
    HandleInvariant (SendTickGrip env w st g root actor) := by
  unfold SendTickGrip
  repeat' split
  all_goals first
    | exact h
    | exact h.emit _
    | exact (h.emit _).emit _

theorem HandleInvariant.cleanUpBadGrip {st : State} (h : HandleInvariant st) (env : Env)
    (w : World) (b : Bool) (i : Nat) :
    HandleInvariant (CleanUpBadGrip env w st b i).2 := by
  unfold CleanUpBadGrip
  split
  · exact h
  · rename_i g _
    simp only []
    have h1 : HandleInvariant (if (!(DestroyPhysicsHandle st g).1) = true then
        { (DestroyPhysicsHandle st g).2 with PhysicsGrips :=
          (DestroyPhysicsHandle st g).2.PhysicsGrips.filter (fun h =>
            !(match h.HandledObject with
              | none => true
              | some o => (h.HandledObject == g.GrippedObject) || (w.Objects o).bPendingKill)) }
        else (DestroyPhysicsHandle st g).2) := by
      split
      · exact (h.destroy g).1.filterHandles _
      · exact (h.destroy g).1
    split
    · exact h1.dropGrip env w _ _
    · exact h1.modifySlot b i _ (fun _ => rfl) (fun _ => rfl)

theorem HandleInvariant.handleValidGrip (env : Env) (b : Bool) (i : Nat) (P : FTransform)
    (g : FBPActorGripInformation) (acc : FTransform × World × State)
    (h : HandleInvariant acc.2.2) :
    HandleInvariant (HandleValidGrip env b i P g acc).2.2 := by
  unfold HandleValidGrip
  simp only []
  split
  · exact h
  · split
    · split
      · split
        · exact h.emit _
        · exact h
      · split
        · split
          · exact h.dropGrip env _ _ _
          · exact h
        · split
          · exact h
          · split
            · refine HandleInvariant.modifySlot (h.teleport env _ _ _ _ _) b i _ ?_ ?_ <;>
                (intro _; rfl)
            · have h1 : ∀ T : FTransform, HandleInvariant (acc.2.2.ModifySlot b i
                  (fun x => { x with LastWorldTransform := T })) :=
                fun T => h.modifySlot b i _ (fun _ => rfl) (fun _ => rfl)
              have h2 := fun (T0 : FTransform) (c : FBPActorGripInformation) (r a : UObject)
                  (T : FTransform) => (h1 T0).breakDistanceCheck env acc.2.1 b i c r a T
              split
              · exact h2 _ _ _ _ _
              · split
                · exact h2 _ _ _ _ _
                · rename_i Now hNow
                  apply HandleInvariant.sendTickGrip
                  exact (h2 _ _ _ _ _).placeGrip env _ b i Now _ _ _ (slot_Key_mem hNow)
    · exact h

theorem HandleInvariant.handleGrip (env : Env) (b : Bool) (P : FTransform) (i : Nat)
    (acc : FTransform × World × State) (h : HandleInvariant acc.2.2) :
    HandleInvariant (HandleGrip env b P i acc).2.2 := by
  unfold HandleGrip
  split
  · exact h
  · rename_i First hFirst
    have hrep : First.bWasInitiallyRepped = true := h.repped _ (slot_mem_Records hFirst)
    split
    · exact h
    · simp only [hrep, Bool.not_true, Bool.false_and, Bool.false_eq_true, if_false]
      split
      · exact h
      · split
        · exact h
        · split
          · exact HandleInvariant.handleValidGrip env b i P _ (acc.1, acc.2.1, acc.2.2) h
          · exact h.cleanUpBadGrip env _ b i

theorem HandleInvariant.handleGripLoop (env : Env) (b : Bool) (P : FTransform) (n : Nat) :
    ∀ acc : FTransform × World × State, HandleInvariant acc.2.2 →
      HandleInvariant (HandleGripLoop env b P n acc).2.2 := by
  induction n with
  | zero => intro acc h; exact h
  | succ n ih =>
    intro acc h
    unfold HandleGripLoop
    exact ih _ (HandleInvariant.handleGrip env b P n acc h)

theorem HandleInvariant.handleGripArray {st : State} (h : HandleInvariant st) (env : Env)
    (w : World) (b : Bool) (P : FTransform) :
    HandleInvariant (HandleGripArray env w st b P).2 :=
  HandleInvariant.handleGripLoop env b P _ (FTransform.Identity, w, st) h

theorem HandleInvariant.cleanUpBadPhysicsHandles {st : State} (h : HandleInvariant st) :
    HandleInvariant (CleanUpBadPhysicsHandles st) :=
  h.filterHandles _

theorem HandleInvariant.tickGrip {st : State} (h : HandleInvariant st) (env : Env) (w : World) :
    HandleInvariant (TickGrip env w st).2 := by
  unfold TickGrip
  simp only []
  apply HandleInvariant.setPostTeleport
  apply HandleInvariant.handleGripArray
  apply HandleInvariant.handleGripArray
  split
  · exact h.cleanUpBadPhysicsHandles
  · exact h

/-! ## Handle/record count -/

/-- Every reachable state keeps the handle table sound. -/
theorem Reachable.invariant {st : State} (h : Reachable st) : HandleInvariant st := by
  induction h with
  | initial => exact HandleInvariant.initial
  | gripActor env w st t a _ ih => exact ih.gripActor env w t a
  | gripComponent env w st t a _ ih => exact ih.gripComponent env w t a
  | dropGrip env w st g b _ ih => exact ih.dropGrip env w g b
  | tickGrip env w st _ ih => exact ih.tickGrip env w

/-- C8: after any sequence of `GripActor` / `GripComponent` / `DropGrip` calls (and
ticks) on one controller, starting from its construction, one more `TickGrip`
leaves at most as many entries in `PhysicsGrips` as there are records in
`GrippedObjects` and `LocallyGrippedObjects` together. -/
theorem handle_count_after_tick (env : Env) (w : World) (st : State) (h : Reachable st) :
    (TickGrip env w st).2.PhysicsGrips.length ≤
      (TickGrip env w st).2.GrippedObjects.length +
        (TickGrip env w st).2.LocallyGrippedObjects.length :=
  (h.invariant.tickGrip env w).count

theorem handle_count_after_tick_witness :
    Reachable (GripActor Sample.Server (Sample.Scene id) State.Initial (some 1)
        (Sample.Args .InteractiveCollisionWithPhysics .ForceServerSideMovement)).2.2 ∧
      (TickGrip Sample.Server (Sample.Scene id)
          (GripActor Sample.Server (Sample.Scene id) State.Initial (some 1)
            (Sample.Args .InteractiveCollisionWithPhysics .ForceServerSideMovement)).2.2).2.PhysicsGrips.length ≤
        (TickGrip Sample.Server (Sample.Scene id)
          (GripActor Sample.Server (Sample.Scene id) State.Initial (some 1)
            (Sample.Args .InteractiveCollisionWithPhysics .ForceServerSideMovement)).2.2).2.GrippedObjects.length +
        (TickGrip Sample.Server (Sample.Scene id)
          (GripActor Sample.Server (Sample.Scene id) State.Initial (some 1)
            (Sample.Args .InteractiveCollisionWithPhysics .ForceServerSideMovement)).2.2).2.LocallyGrippedObjects.length :=
  ⟨Reachable.gripActor _ _ _ _ _ Reachable.initial,
    handle_count_after_tick _ _ _ (Reachable.gripActor _ _ _ _ _ Reachable.initial)⟩

/-! ## Auxiliary facts: what a drop writes -/

theorem find?_findIdx? {α : Type} (p : α → Bool) (l : List α) (a : α)
    (h : l.find? p = some a) : ∃ i, l.findIdx? p = some i ∧ l[i]? = some a := by
  induction l with
  | nil => simp at h
  | cons b t ih =>
    rw [List.find?_cons] at h
    rw [List.findIdx?_cons]
    cases hb : p b with
    | true =>
      rw [hb] at h
      simp only [Option.some.injEq] at h
      exact ⟨0, by simp, by simp [h]⟩
    | false =>
      rw [hb] at h
      obtain ⟨i, hi, hia⟩ := ih h
      refine ⟨i + 1, ?_, by simpa using hia⟩
      simp [hi]

theorem unique_of_countP {α : Type} (p : α → Bool) (l : List α) (hc : l.countP p ≤ 1) :
    ∀ (j k : Nat) (a b : α), l[j]? = some a → l[k]? = some b → p a = true → p b = true →
      j = k := by
  induction l with
  | nil => intro j k a b hj; simp at hj
  | cons x t ih =>
    intro j k a b hj hk ha hb
    have hzero : p x = true → ∀ (m : Nat) (c : α), t[m]? = some c → p c = true → False := by
      intro hx m c hm hpc
      rw [List.countP_cons_of_pos _ _ hx] at hc
      have h0 : t.countP p = 0 := by omega
      rw [List.countP_eq_zero] at h0
      exact h0 c (List.mem_iff_getElem?.mpr ⟨m, hm⟩) hpc
    cases j with
    | zero =>
      cases k with
      | zero => rfl
      | succ k =>
        simp only [List.getElem?_cons_zero, Option.some.injEq] at hj
        simp only [List.getElem?_cons_succ] at hk
        subst hj
        exact (hzero ha k b hk hb).elim
    | succ j =>
      cases k with
      | zero =>
        simp only [List.getElem?_cons_zero, Option.some.injEq] at hk
        simp only [List.getElem?_cons_succ] at hj
        subst hk
        exact (hzero hb j a hj ha).elim
      | succ k =>
        simp only [List.getElem?_cons_succ] at hj hk
        have hc2 : t.countP p ≤ 1 := by
          cases hx : p x with
          | true => rw [List.countP_cons_of_pos _ _ hx] at hc; omega
          | false =>
            rw [List.countP_cons_of_neg _ _ (by simp [hx])] at hc
            exact hc
        rw [ih hc2 j k a b hj hk ha hb]

/-- The predicate "equal to the grip" depends on the key of the grip only. -/
theorem Equals_congr {g g2 : FBPActorGripInformation} (h : g.Key = g2.Key) :
    (fun r : FBPActorGripInformation => r.Equals g) = (fun r => r.Equals g2) := by
  funext r
  unfold FBPActorGripInformation.Key at h
  unfold FBPActorGripInformation.Equals
  simp only [Prod.mk.injEq] at h
  rw [h.1, h.2]

theorem EqualsGrip_congr {g g2 : FBPActorGripInformation} (h : g.Key = g2.Key) :
    (fun x : FBPActorPhysicsHandleInformation => x.EqualsGrip g) = (fun x => x.EqualsGrip g2) := by
  funext r
  unfold FBPActorGripInformation.Key at h
  unfold FBPActorPhysicsHandleInformation.EqualsGrip
  simp only [Prod.mk.injEq] at h
  rw [h.1, h.2]

/-- The record `Find` returns sits at the index `Find` reports, and the lookup
of the found record gives the same index. -/
theorem FindGripRecord_index {l : List FBPActorGripInformation}
    {g Found : FBPActorGripInformation} (h : FindGripRecord l g = some Found) :
    Found.Equals g = true ∧ ∃ i, FindGrip l Found = some i ∧ l[i]? = some Found := by
  have hE := (FindGripRecord_some h).2
  refine ⟨hE, ?_⟩
  obtain ⟨i, hi, hia⟩ := find?_findIdx? _ _ _ h
  refine ⟨i, ?_, hia⟩
  unfold FindGrip
  rw [Equals_congr ((Equals_iff _ _).mp hE).2]
  exact hi

theorem DestroyPhysicsHandle_handles (st : State) (g : FBPActorGripInformation) :
    (DestroyPhysicsHandle st g).2.PhysicsGrips =
      match GetPhysicsGripIndex st g with
      | some i => st.PhysicsGrips.eraseIdx i
      | none => st.PhysicsGrips := by
  unfold DestroyPhysicsHandle
  cases hg : GetPhysicsGrip st g with
  | none =>
    have h1 := GetPhysicsGripIndex_eq_none.mpr (GetPhysicsGrip_eq_none.mp hg)
    rw [h1]
  | some x =>
    cases hi : GetPhysicsGripIndex st g with
    | none => rfl
    | some i => rfl

/-- After `DestroyPhysicsHandle` on a table without duplicate keys no entry is
left for the grip. -/
theorem DestroyPhysicsHandle_none_left (st : State) (g : FBPActorGripInformation)
    (hn : st.HandleKeys.Nodup) :
    ∀ x ∈ (DestroyPhysicsHandle st g).2.PhysicsGrips, x.EqualsGrip g = false := by
  intro x hx
  rw [DestroyPhysicsHandle_handles] at hx
  cases hi : GetPhysicsGripIndex st g with
  | none =>
    rw [hi] at hx
    have h1 := GetPhysicsGripIndex_eq_none.mp hi
    cases hE : x.EqualsGrip g with
    | false => rfl
    | true =>
      exact (h1 (List.mem_map.mpr ⟨x, hx, (EqualsGrip_iff x g).mp hE⟩)).elim
  | some i =>
    rw [hi] at hx
    simp only [] at hx
    obtain ⟨y, hy, hyk⟩ := GetPhysicsGripIndex_some hi
    have hky : st.HandleKeys[i]? = some g.Key := by
      unfold State.HandleKeys
      rw [List.getElem?_map, hy]
      simp [hyk]
    have h1 := not_mem_eraseIdx_of_nodup hn hky
    cases hE : x.EqualsGrip g with
    | false => rfl
    | true =>
      refine (h1 ?_).elim
      rw [← (EqualsGrip_iff x g).mp hE]
      unfold State.HandleKeys
      rw [← map_eraseIdx]
      exact List.mem_map_of_mem _ hx

theorem toNat_lt_client (m : ENetMode) :
    decide (m.toNat < ENetMode.NM_Client.toNat) = (m != .NM_Client) := by
  cases m <;> rfl

/-- The arrays after the tail of `Drop_Implementation`, for a record found in
the predicted array. -/
theorem DropRemoveRecord_local (env : Env) (st : State) (g : FBPActorGripInformation) (i : Nat)
    (hF : FindGrip st.LocallyGrippedObjects g = some i)
    (hi : st.LocallyGrippedObjects[i]? = some g) :
    (DropRemoveRecord env st g).LocallyGrippedObjects =
        RemoveOrPause env st.LocallyGrippedObjects i g ∧
      (DropRemoveRecord env st g).GrippedObjects = st.GrippedObjects ∧
      (DropRemoveRecord env st g).PhysicsGrips = st.PhysicsGrips ∧
      (DropRemoveRecord env st g).GripIDIncrementer = st.GripIDIncrementer := by
  unfold DropRemoveRecord RemoveOrPause
  rw [hF, toNat_lt_client]
  simp only []
  split
  · exact ⟨rfl, rfl, rfl, rfl⟩
  · refine ⟨?_, rfl, rfl, rfl⟩
    show ModifyAt _ _ _ = _
    unfold ModifyAt
    rw [hi]

/-- The arrays after the tail of `Drop_Implementation`, for a record found in
the replicated array and not in the predicted one. -/
theorem DropRemoveRecord_replicated (env : Env) (st : State) (g : FBPActorGripInformation)
    (i : Nat) (hL : FindGrip st.LocallyGrippedObjects g = none)
    (hF : FindGrip st.GrippedObjects g = some i) (hi : st.GrippedObjects[i]? = some g) :
    (DropRemoveRecord env st g).GrippedObjects = RemoveOrPause env st.GrippedObjects i g ∧
      (DropRemoveRecord env st g).LocallyGrippedObjects = st.LocallyGrippedObjects ∧
      (DropRemoveRecord env st g).PhysicsGrips = st.PhysicsGrips ∧
      (DropRemoveRecord env st g).GripIDIncrementer = st.GripIDIncrementer := by
  unfold DropRemoveRecord RemoveOrPause
  rw [hL, hF, toNat_lt_client]
  simp only []
  split
  · exact ⟨rfl, rfl, rfl, rfl⟩
  · refine ⟨?_, rfl, rfl, rfl⟩
    show ModifyAt _ _ _ = _
    unfold ModifyAt
    rw [hi]

/-- The tail of `Drop_Implementation` reads the two arrays only. -/
theorem DropRemoveRecord_congr (env : Env) (st st0 : State) (g : FBPActorGripInformation)
    (h1 : st.GrippedObjects = st0.GrippedObjects)
    (h2 : st.LocallyGrippedObjects = st0.LocallyGrippedObjects) :
    (DropRemoveRecord env st g).GrippedObjects = (DropRemoveRecord env st0 g).GrippedObjects ∧
      (DropRemoveRecord env st g).LocallyGrippedObjects =
        (DropRemoveRecord env st0 g).LocallyGrippedObjects ∧
      (DropRemoveRecord env st g).PhysicsGrips = st.PhysicsGrips ∧
      (DropRemoveRecord env st g).GripIDIncrementer = st.GripIDIncrementer := by
  unfold DropRemoveRecord
  rw [h1, h2]
  repeat' split
  all_goals simp [h1, h2]

/-- The arrays, the handle table and the ID counter after `Drop_Implementation`. -/
theorem Drop_Implementation_fields (env : Env) (w : World) (st : State)
    (g : FBPActorGripInformation) (b : Bool) :
    (Drop_Implementation env w st g b).2.PhysicsGrips = (DestroyPhysicsHandle st g).2.PhysicsGrips ∧
      (Drop_Implementation env w st g b).2.GrippedObjects =
        (DropRemoveRecord env st g).GrippedObjects ∧
      (Drop_Implementation env w st g b).2.LocallyGrippedObjects =
        (DropRemoveRecord env st g).LocallyGrippedObjects ∧
      (Drop_Implementation env w st g b).2.GripIDIncrementer = st.GripIDIncrementer := by
  unfold Drop_Implementation
  simp only []
  have hd1 : (DestroyPhysicsHandle st g).2.GrippedObjects = st.GrippedObjects := by
    unfold DestroyPhysicsHandle; repeat' split
    all_goals rfl
  have hd2 : (DestroyPhysicsHandle st g).2.LocallyGrippedObjects = st.LocallyGrippedObjects := by
    unfold DestroyPhysicsHandle; repeat' split
    all_goals rfl
  have hd3 : (DestroyPhysicsHandle st g).2.GripIDIncrementer = st.GripIDIncrementer := by
    unfold DestroyPhysicsHandle; repeat' split
    all_goals rfl
  have hT := TraceOnly_DropTargetEffects env w (DestroyPhysicsHandle st g).2 g b
    (DropSkipFullDrop env w st g)
  have ht1 := hT.gripped
  have ht2 := hT.locally
  have ht3 : (DropTargetEffects env w (DestroyPhysicsHandle st g).2 g b
      (DropSkipFullDrop env w st g)).2.PhysicsGrips = (DestroyPhysicsHandle st g).2.PhysicsGrips := by
    unfold TraceOnly at hT; rw [hT]
  have ht4 : (DropTargetEffects env w (DestroyPhysicsHandle st g).2 g b
      (DropSkipFullDrop env w st g)).2.GripIDIncrementer =
      (DestroyPhysicsHandle st g).2.GripIDIncrementer := by
    unfold TraceOnly at hT; rw [hT]
  have hC := DropRemoveRecord_congr env (DropTargetEffects env w (DestroyPhysicsHandle st g).2 g b
    (DropSkipFullDrop env w st g)).2 st g (ht1.trans hd1) (ht2.trans hd2)
  refine ⟨?_, ?_, ?_, ?_⟩
  · show (DropRemoveRecord env _ g).PhysicsGrips = _
    rw [hC.2.2.1, ht3]
  · show (DropRemoveRecord env _ g).GrippedObjects = _
    exact hC.1
  · show (DropRemoveRecord env _ g).LocallyGrippedObjects = _
    exact hC.2.1
  · show (DropRemoveRecord env _ g).GripIDIncrementer = _
    rw [hC.2.2.2, ht4, hd3]

theorem DestroyPhysicsHandle_Emit (st : State) (e : Event) (g : FBPActorGripInformation) :
    (DestroyPhysicsHandle (st.Emit e) g).2.PhysicsGrips = (DestroyPhysicsHandle st g).2.PhysicsGrips := by
  rw [DestroyPhysicsHandle_handles, DestroyPhysicsHandle_handles]
  rfl

/-- A successful `DropGrip` located a record equal to the grip and ran
`Drop_Implementation` on it: the handle table is that after
`DestroyPhysicsHandle`, the arrays are those after the tail of the drop. -/
theorem DropGrip_true (env : Env) (w : World) (st : State) (g : FBPActorGripInformation)
    (b : Bool) (hNet : env.IsServer = true → env.NetMode ≠ .NM_Client)
    (h : (DropGrip env w st g b).1 = true) :
    ∃ Found, (FindGripRecord st.LocallyGrippedObjects g = some Found ∨
        (FindGripRecord st.LocallyGrippedObjects g = none ∧
          FindGripRecord st.GrippedObjects g = some Found)) ∧
      (DropGrip env w st g b).2.2.PhysicsGrips = (DestroyPhysicsHandle st Found).2.PhysicsGrips ∧
      (DropGrip env w st g b).2.2.GrippedObjects = (DropRemoveRecord env st Found).GrippedObjects ∧
      (DropGrip env w st g b).2.2.LocallyGrippedObjects =
        (DropRemoveRecord env st Found).LocallyGrippedObjects ∧
      (DropGrip env w st g b).2.2.GripIDIncrementer = st.GripIDIncrementer := by
  unfold DropGrip at h ⊢
  cases hL : FindGripRecord st.LocallyGrippedObjects g with
  | some Found =>
    refine ⟨Found, Or.inl rfl, ?_⟩
    simp only []
    cases hC : env.NetMode == ENetMode.NM_Client with
    | true =>
      simp only [if_true]
      have hF := fun s => Drop_Implementation_fields env w s Found b
      split
      · refine ⟨(hF _).1.trans (DestroyPhysicsHandle_Emit _ _ _), ?_, ?_, (hF _).2.2.2⟩
        · exact (hF _).2.1.trans (DropRemoveRecord_congr env (st.Emit _) st Found rfl rfl).1
        · exact (hF _).2.2.1.trans (DropRemoveRecord_congr env (st.Emit _) st Found rfl rfl).2.1
      · exact hF st
    | false =>
      simp only [Bool.false_eq_true, if_false]
      unfold NotifyDrop_Implementation
      simp only [hC, Bool.and_false, Bool.false_eq_true, if_false]
      exact Drop_Implementation_fields env w st Found b
  | none =>
    rw [hL] at h
    simp only [] at h
    cases hS : env.IsServer with
    | false => simp [hS] at h
    | true =>
      have hC : (env.NetMode == ENetMode.NM_Client) = false := by
        have := hNet hS
        cases hm : env.NetMode <;> simp_all
      cases hG : FindGripRecord st.GrippedObjects g with
      | none => simp [hS, hG] at h
      | some Found =>
        refine ⟨Found, Or.inr ⟨rfl, rfl⟩, ?_⟩
        simp only [Bool.not_true, Bool.false_eq_true, if_false]
        unfold NotifyDrop_Implementation
        simp only [hC, Bool.and_false, Bool.false_eq_true, if_false]
        exact Drop_Implementation_fields env w st Found b

theorem absent_after_erase_right {α : Type} (p : α → Bool) (G L : List α)
    (hc : (G ++ L).countP p ≤ 1) (i : Nat) (a : α) (hi : L[i]? = some a) (hp : p a = true) :
    ∀ r ∈ G ++ L.eraseIdx i, p r = false := by
  intro r hr
  have hU := unique_of_countP p (G ++ L) hc
  have ha : (G ++ L)[G.length + i]? = some a := by
    rw [List.getElem?_append_right (Nat.le_add_right _ _)]
    simpa using hi
  cases hpr : p r with
  | false => rfl
  | true =>
    exfalso
    rcases List.mem_append.mp hr with h1 | h1
    · obtain ⟨j, hj⟩ := List.mem_iff_getElem?.mp h1
      have hjl : j < G.length := by
        rcases Nat.lt_or_ge j G.length with h2 | h2
        · exact h2
        · rw [List.getElem?_eq_none h2] at hj; cases hj
      have hr2 : (G ++ L)[j]? = some r := by
        rw [List.getElem?_append_left hjl]; exact hj
      have := hU j (G.length + i) r a hr2 ha hpr hp
      omega
    · obtain ⟨j, hne, hj⟩ := List.mem_eraseIdx_iff_getElem?.mp h1
      have hr2 : (G ++ L)[G.length + j]? = some r := by
        rw [List.getElem?_append_right (Nat.le_add_right _ _)]
        simpa using hj
      have := hU (G.length + j) (G.length + i) r a hr2 ha hpr hp
      omega

theorem absent_after_erase_left {α : Type} (p : α → Bool) (G L : List α)
    (hc : (G ++ L).countP p ≤ 1) (i : Nat) (a : α) (hi : G[i]? = some a) (hp : p a = true) :
    ∀ r ∈ G.eraseIdx i ++ L, p r = false := by
  intro r hr
  have hU := unique_of_countP p (G ++ L) hc
  have hil : i < G.length := by
    rcases Nat.lt_or_ge i G.length with h2 | h2
    · exact h2
    · rw [List.getElem?_eq_none h2] at hi; cases hi
  have ha : (G ++ L)[i]? = some a := by
    rw [List.getElem?_append_left hil]; exact hi
  cases hpr : p r with
  | false => rfl
  | true =>
    exfalso
    rcases List.mem_append.mp hr with h1 | h1
    · obtain ⟨j, hne, hj⟩ := List.mem_eraseIdx_iff_getElem?.mp h1
      have hjl : j < G.length := by
        rcases Nat.lt_or_ge j G.length with h2 | h2
        · exact h2
        · rw [List.getElem?_eq_none h2] at hj; cases hj
      have hr2 : (G ++ L)[j]? = some r := by
        rw [List.getElem?_append_left hjl]; exact hj
      exact hne (hU j i r a hr2 ha hpr hp)
    · obtain ⟨j, hj⟩ := List.mem_iff_getElem?.mp h1
      have hr2 : (G ++ L)[G.length + j]? = some r := by
        rw [List.getElem?_append_right (Nat.le_add_right _ _)]
        simpa using hj
      have := hU (G.length + j) i r a hr2 ha hpr hp
      omega

/-- A successful `DropGrip` located a record equal to the grip in one of the
arrays and removed or paused it there, leaving the other array alone; after a
removal, when no other record is equal to the grip, no record is. -/
theorem DropGrip_located (env : Env) (w : World) (st : State) (Grip : FBPActorGripInformation)
    (bSimulate : Bool) (hNet : env.IsServer = true → env.NetMode ≠ .NM_Client)
    (hUnique : st.Records.countP (fun r => r.Equals Grip) ≤ 1)
    (ht : (DropGrip env w st Grip bSimulate).1 = true) :
    ∃ i Found, Found.Equals Grip = true ∧
      ((st.LocallyGrippedObjects[i]? = some Found ∧
          (DropGrip env w st Grip bSimulate).2.2.LocallyGrippedObjects =
            RemoveOrPause env st.LocallyGrippedObjects i Found ∧
          (DropGrip env w st Grip bSimulate).2.2.GrippedObjects = st.GrippedObjects) ∨
        (st.GrippedObjects[i]? = some Found ∧
          (DropGrip env w st Grip bSimulate).2.2.GrippedObjects =
            RemoveOrPause env st.GrippedObjects i Found ∧
          (DropGrip env w st Grip bSimulate).2.2.LocallyGrippedObjects =
            st.LocallyGrippedObjects)) ∧
      ((env.HasGripAuthority Found || (env.NetMode != .NM_Client)) = true →
        ∀ r ∈ (DropGrip env w st Grip bSimulate).2.2.Records, r.Equals Grip = false) := by
  obtain ⟨Found, hLoc, hP, hG, hL, _⟩ := DropGrip_true env w st Grip bSimulate hNet ht
  have hFoundEq : Found.Equals Grip = true := by
    rcases hLoc with h1 | ⟨_, h1⟩
    · exact (FindGripRecord_some h1).2
    · exact (FindGripRecord_some h1).2
  have hKey : Found.Key = Grip.Key := ((Equals_iff _ _).mp hFoundEq).2
  rcases hLoc with h1 | ⟨h0, h1⟩
  · obtain ⟨_, i, hFi, hi⟩ := FindGripRecord_index h1
    have hD := DropRemoveRecord_local env st Found i hFi hi
    refine ⟨i, Found, hFoundEq, Or.inl ⟨hi, hL.trans hD.1, hG.trans hD.2.1⟩, ?_⟩
    intro hc r hr
    unfold State.Records at hr hUnique
    rw [hG, hL, hD.1, hD.2.1] at hr
    unfold RemoveOrPause at hr
    rw [if_pos hc] at hr
    exact absent_after_erase_right _ _ _ hUnique i Found hi hFoundEq r hr
  · obtain ⟨_, i, hFi, hi⟩ := FindGripRecord_index h1
    have hNone : FindGrip st.LocallyGrippedObjects Found = none := by
      unfold FindGrip
      rw [Equals_congr hKey]
      exact FindGrip_eq_none.mpr (FindGripRecord_eq_none.mp h0)
    have hD := DropRemoveRecord_replicated env st Found i hNone hFi hi
    refine ⟨i, Found, hFoundEq, Or.inr ⟨hi, hG.trans hD.1, hL.trans hD.2.1⟩, ?_⟩
    intro hc r hr
    unfold State.Records at hr hUnique
    rw [hG, hL, hD.1, hD.2.1] at hr
    unfold RemoveOrPause at hr
    rw [if_pos hc] at hr
    exact absent_after_erase_left _ _ _ hUnique i Found hi hFoundEq r hr

/-! ## Drop is all-or-nothing -/

/-- C5: drop is all-or-nothing. On a side whose `IsServer` agrees with its net
mode, with a handle table that has no two entries for one grip and at most one
record equal to the grip: when `DropGrip` returns false nothing has changed;
when it returns true no handle for the grip is left, the located record has
been removed from its collection (when this side has grip authority or is not a
network client) or is still in its slot with `bIsPaused` set (otherwise), every
other record is as it was and in the same order, and after a removal no record
of either collection equals the grip. -/
theorem drop_all_or_nothing (env : Env) (w : World) (st : State)
    (Grip : FBPActorGripInformation) (bSimulate : Bool)
    (hNet : env.IsServer = true → env.NetMode ≠ .NM_Client)
    (hHandles : st.HandleKeys.Nodup)
    (hUnique : st.Records.countP (fun r => r.Equals Grip) ≤ 1) :
    ((DropGrip env w st Grip bSimulate).1 = false →
        DropGrip env w st Grip bSimulate = (false, w, st)) ∧
    ((DropGrip env w st Grip bSimulate).1 = true →
      (∀ h ∈ (DropGrip env w st Grip bSimulate).2.2.PhysicsGrips, h.EqualsGrip Grip = false) ∧
      ∃ i Found, Found.Equals Grip = true ∧
        ((st.LocallyGrippedObjects[i]? = some Found ∧
            (DropGrip env w st Grip bSimulate).2.2.LocallyGrippedObjects =
              RemoveOrPause env st.LocallyGrippedObjects i Found ∧
            (DropGrip env w st Grip bSimulate).2.2.GrippedObjects = st.GrippedObjects) ∨
          (st.GrippedObjects[i]? = some Found ∧
            (DropGrip env w st Grip bSimulate).2.2.GrippedObjects =
              RemoveOrPause env st.GrippedObjects i Found ∧
            (DropGrip env w st Grip bSimulate).2.2.LocallyGrippedObjects =
              st.LocallyGrippedObjects)) ∧
        ((env.HasGripAuthority Found || (env.NetMode != .NM_Client)) = true →
          ∀ r ∈ (DropGrip env w st Grip bSimulate).2.2.Records, r.Equals Grip = false)) := by
  constructor
  · intro hf
    rcases DropGrip_cases env w st Grip bSimulate with h1 | h1
    · exact h1
    · rw [h1] at hf; cases hf
  · intro ht
    obtain ⟨Found, hLoc, hP, hG, hL, _⟩ := DropGrip_true env w st Grip bSimulate hNet ht
    have hFoundEq : Found.Equals Grip = true := by
      rcases hLoc with h1 | ⟨_, h1⟩
      · exact (FindGripRecord_some h1).2
      · exact (FindGripRecord_some h1).2
    have hKey : Found.Key = Grip.Key := ((Equals_iff _ _).mp hFoundEq).2
    constructor
    · intro x hx
      rw [hP] at hx
      have := DestroyPhysicsHandle_none_left st Found hHandles x hx
      rw [← congrFun (EqualsGrip_congr hKey) x]
      exact this
    · exact DropGrip_located env w st Grip bSimulate hNet hUnique ht

/-- Witness of C5: the sample server holds the actor `1` with a handle; the
drop succeeds and leaves no handle for the grip. -/
theorem drop_all_or_nothing_witness :
    (DropGrip Sample.Server (Sample.Scene id)
        { Sample.Holding with PhysicsGrips := [FBPActorPhysicsHandleInformation.New (some 1) 1] }
        (Sample.Grip 1 1 .ForceServerSideMovement) true).1 = true ∧
    ∀ h ∈ (DropGrip Sample.Server (Sample.Scene id)
        { Sample.Holding with PhysicsGrips := [FBPActorPhysicsHandleInformation.New (some 1) 1] }
        (Sample.Grip 1 1 .ForceServerSideMovement) true).2.2.PhysicsGrips,
      h.EqualsGrip (Sample.Grip 1 1 .ForceServerSideMovement) = false :=
  ⟨by decide,
    ((drop_all_or_nothing Sample.Server (Sample.Scene id)
      { Sample.Holding with PhysicsGrips := [FBPActorPhysicsHandleInformation.New (some 1) 1] }
      (Sample.Grip 1 1 .ForceServerSideMovement) true (by decide) (by decide) (by decide)).2
        (by decide)).1⟩

/-! ## Grip IDs -/

theorem DropRemoveRecord_ids (env : Env) (st : State) (g : FBPActorGripInformation) :
    ((DropRemoveRecord env st g).GrippedObjects.map (fun r => r.GripID)).Sublist
        (st.GrippedObjects.map (fun r => r.GripID)) ∧
      ((DropRemoveRecord env st g).LocallyGrippedObjects.map (fun r => r.GripID)).Sublist
        (st.LocallyGrippedObjects.map (fun r => r.GripID)) := by
  have hp : ∀ (l : List FBPActorGripInformation) (i : Nat),
      (ModifyAt l i (fun r => { r with bIsPaused := true })).map (fun r => r.GripID) =
        l.map (fun r => r.GripID) :=
    fun l i => ModifyAt_map l i _ _ (fun _ => rfl)
  unfold DropRemoveRecord
  split
  · split
    · exact ⟨List.Sublist.refl _, (List.eraseIdx_sublist _ _).map _⟩
    · refine ⟨List.Sublist.refl _, ?_⟩
      show (List.map _ (ModifyAt _ _ _)).Sublist _
      rw [hp]
  · split
    · split
      · exact ⟨(List.eraseIdx_sublist _ _).map _, List.Sublist.refl _⟩
      · refine ⟨?_, List.Sublist.refl _⟩
        show (List.map _ (ModifyAt _ _ _)).Sublist _
        rw [hp]
    · exact ⟨List.Sublist.refl _, List.Sublist.refl _⟩

/-- A drop adds no ID to either collection and leaves the counter alone. -/
theorem DropGrip_ids (env : Env) (w : World) (st : State) (g : FBPActorGripInformation)
    (b : Bool) :
    ((DropGrip env w st g b).2.2.GrippedObjects.map (fun r => r.GripID)).Sublist
        (st.GrippedObjects.map (fun r => r.GripID)) ∧
      ((DropGrip env w st g b).2.2.LocallyGrippedObjects.map (fun r => r.GripID)).Sublist
        (st.LocallyGrippedObjects.map (fun r => r.GripID)) ∧
      (DropGrip env w st g b).2.2.GripIDIncrementer = st.GripIDIncrementer := by
  have hD : ∀ (s : State) (x : FBPActorGripInformation), s.GrippedObjects = st.GrippedObjects →
      s.LocallyGrippedObjects = st.LocallyGrippedObjects →
      s.GripIDIncrementer = st.GripIDIncrementer →
      ((Drop_Implementation env w s x b).2.GrippedObjects.map (fun r => r.GripID)).Sublist
        (st.GrippedObjects.map (fun r => r.GripID)) ∧
      ((Drop_Implementation env w s x b).2.LocallyGrippedObjects.map (fun r => r.GripID)).Sublist
        (st.LocallyGrippedObjects.map (fun r => r.GripID)) ∧
      (Drop_Implementation env w s x b).2.GripIDIncrementer = st.GripIDIncrementer := by
    intro s x h1 h2 h3
    have hF := Drop_Implementation_fields env w s x b
    have hI := DropRemoveRecord_ids env s x
    rw [hF.2.1, hF.2.2.1, hF.2.2.2, ← h1, ← h2]
    exact ⟨hI.1, hI.2, h3⟩
  have hN2 : ∀ x : FBPActorGripInformation,
      ((NotifyDrop_Implementation env w st x b).2.GrippedObjects.map (fun r => r.GripID)).Sublist
        (st.GrippedObjects.map (fun r => r.GripID)) ∧
      ((NotifyDrop_Implementation env w st x b).2.LocallyGrippedObjects.map
          (fun r => r.GripID)).Sublist (st.LocallyGrippedObjects.map (fun r => r.GripID)) ∧
      (NotifyDrop_Implementation env w st x b).2.GripIDIncrementer = st.GripIDIncrementer := by
    intro x
    unfold NotifyDrop_Implementation
    split
    · exact ⟨List.Sublist.refl _, List.Sublist.refl _, rfl⟩
    · exact hD st x rfl rfl rfl
  unfold DropGrip
  split
  · split
    · split
      · exact hD _ _ rfl rfl rfl
      · exact hD _ _ rfl rfl rfl
    · exact hN2 _
  · split
    · exact ⟨List.Sublist.refl _, List.Sublist.refl _, rfl⟩
    · split
      · exact ⟨List.Sublist.refl _, List.Sublist.refl _, rfl⟩
      · exact hN2 _

theorem IDInvariant.id_initial (alloc : Bool → Nat → Nat × Nat) : IDInvariant alloc State.Initial :=
  ⟨List.nodup_nil, (by intro r hr; cases hr), (by intro r hr; cases hr)⟩

/-- A state whose ID lists are sublists of those of a sound state, with the same
counter, is sound. -/
theorem IDInvariant.id_shrink {alloc : Bool → Nat → Nat × Nat} {st st' : State}
    (h : IDInvariant alloc st)
    (hG : (st'.GrippedObjects.map (fun r => r.GripID)).Sublist
      (st.GrippedObjects.map (fun r => r.GripID)))
    (hL : (st'.LocallyGrippedObjects.map (fun r => r.GripID)).Sublist
      (st.LocallyGrippedObjects.map (fun r => r.GripID)))
    (hc : st'.GripIDIncrementer = st.GripIDIncrementer) : IDInvariant alloc st' := by
  refine ⟨?_, ?_, ?_⟩
  · have h1 := h.nodup
    unfold State.Records at h1 ⊢
    rw [List.map_append] at h1 ⊢
    exact h1.sublist (hG.append hL)
  · intro r hr
    have hm : r.GripID ∈ st.GrippedObjects.map (fun r => r.GripID) :=
      hG.subset (List.mem_map_of_mem _ hr)
    obtain ⟨r0, hr0, he⟩ := List.mem_map.mp hm
    obtain ⟨n, hn, hid⟩ := h.replicated r0 hr0
    exact ⟨n, by rw [hc]; exact hn, by rw [← he]; exact hid⟩
  · intro r hr
    have hm : r.GripID ∈ st.LocallyGrippedObjects.map (fun r => r.GripID) :=
      hL.subset (List.mem_map_of_mem _ hr)
    obtain ⟨r0, hr0, he⟩ := List.mem_map.mp hm
    obtain ⟨n, hn, hid⟩ := h.predicted r0 hr0
    exact ⟨n, by rw [hc]; exact hn, by rw [← he]; exact hid⟩

/-- The ID the allocator returns at the current counter value is carried by no
record. -/
theorem IDInvariant.id_fresh {alloc : Bool → Nat → Nat × Nat} {last : Nat} {st : State}
    (hA : SpecGetNextGripID alloc last) (h : IDInvariant alloc st)
    (hL : st.GripIDIncrementer ≤ last) (b : Bool) :
    (alloc b st.GripIDIncrementer).1 ∉ st.Records.map (fun r => r.GripID) := by
  intro hm
  obtain ⟨r, hr, he⟩ := List.mem_map.mp hm
  unfold State.Records at hr
  rcases List.mem_append.mp hr with h1 | h1
  · obtain ⟨n, hn, hid⟩ := h.replicated r h1
    cases b
    · have := hA.increasing false n _ hn hL
      omega
    · exact hA.disjoint n _ (by rw [← hid, he])
  · obtain ⟨n, hn, hid⟩ := h.predicted r h1
    cases b
    · exact hA.disjoint _ n (by rw [← hid, he])
    · have := hA.increasing true n _ hn hL
      omega

/-- Inserting a record that carries the ID the allocator returns for its
collection, with the counter advanced, keeps the IDs sound. -/
theorem IDInvariant.id_insertGrip {alloc : Bool → Nat → Nat × Nat} {last : Nat} {st : State}
    (hA : SpecGetNextGripID alloc last) (h : IDInvariant alloc st)
    (hL : st.GripIDIncrementer ≤ last) (env : Env) (w : World) (b : Bool)
    (g : FBPActorGripInformation) (hg : g.GripID = (alloc b st.GripIDIncrementer).1) :
    IDInvariant alloc (InsertGrip env w
      { st with GripIDIncrementer := (alloc b st.GripIDIncrementer).2 } b g).2.2 := by
  have hR := InsertGrip_records env w
    { st with GripIDIncrementer := (alloc b st.GripIDIncrementer).2 } b g
  have hfresh := h.id_fresh hA hL b
  rw [← hg] at hfresh
  have hlt := hA.counter b st.GripIDIncrementer hL
  have hold1 : ∀ r ∈ st.GrippedObjects,
      ∃ n, n < (alloc b st.GripIDIncrementer).2 ∧ r.GripID = (alloc false n).1 := by
    intro r hr
    obtain ⟨n, hn, hid⟩ := h.replicated r hr
    exact ⟨n, by omega, hid⟩
  have hold2 : ∀ r ∈ st.LocallyGrippedObjects,
      ∃ n, n < (alloc b st.GripIDIncrementer).2 ∧ r.GripID = (alloc true n).1 := by
    intro r hr
    obtain ⟨n, hn, hid⟩ := h.predicted r hr
    exact ⟨n, by omega, hid⟩
  have hnd : (g.GripID :: st.Records.map (fun r => r.GripID)).Nodup :=
    List.nodup_cons.mpr ⟨hfresh, h.nodup⟩
  cases b
  · simp only [Bool.false_eq_true, if_false] at hR
    refine ⟨?_, ?_, ?_⟩
    · unfold State.Records at hnd ⊢
      rw [hR.1, hR.2.1]
      refine (List.Perm.nodup_iff ?_).mpr hnd
      simp only [List.map_append, List.map_cons, List.map_nil, List.append_assoc,
        List.singleton_append]
      exact List.perm_middle
    · intro r hr
      rw [hR.1] at hr
      rw [hR.2.2]
      rcases List.mem_append.mp hr with h1 | h1
      · exact hold1 r h1
      · simp only [List.mem_singleton] at h1
        exact ⟨st.GripIDIncrementer, hlt, by rw [h1]; exact hg⟩
    · intro r hr
      rw [hR.2.1] at hr
      rw [hR.2.2]
      exact hold2 r hr
  · simp only [if_true] at hR
    refine ⟨?_, ?_, ?_⟩
    · unfold State.Records at hnd ⊢
      rw [hR.1, hR.2.1]
      refine (List.Perm.nodup_iff ?_).mpr hnd
      simp only [List.map_append, List.map_cons, List.map_nil, ← List.append_assoc]
      exact List.perm_append_singleton _ _
    · intro r hr
      rw [hR.1] at hr
      rw [hR.2.2]
      exact hold1 r hr
    · intro r hr
      rw [hR.2.1] at hr
      rw [hR.2.2]
      rcases List.mem_append.mp hr with h1 | h1
      · exact hold2 r h1
      · simp only [List.mem_singleton] at h1
        exact ⟨st.GripIDIncrementer, hlt, by rw [h1]; exact hg⟩

theorem IDInvariant.id_gripActor {alloc : Bool → Nat → Nat × Nat} {last : Nat} {st : State}
    (hA : SpecGetNextGripID alloc last) (h : IDInvariant alloc st)
    (hL : st.GripIDIncrementer ≤ last) (env : Env)
    (hE : env.GetNextGripID = alloc) (w : World) (t : Option UObject) (a : GripArgs) :
    IDInvariant alloc (GripActor env w st t a).2.2 := by
  rcases GripActor_eq env w st t a with h1 | ⟨g, _, _, _, hid, _, h1⟩
  · rw [h1]; exact h
  · rw [h1, hE]
    rw [hE] at hid
    exact h.id_insertGrip hA hL env w _ g hid

theorem IDInvariant.id_gripComponent {alloc : Bool → Nat → Nat × Nat} {last : Nat} {st : State}
    (hA : SpecGetNextGripID alloc last) (h : IDInvariant alloc st)
    (hL : st.GripIDIncrementer ≤ last) (env : Env)
    (hE : env.GetNextGripID = alloc) (w : World) (t : Option UObject) (a : GripArgs) :
    IDInvariant alloc (GripComponent env w st t a).2.2 := by
  rcases GripComponent_eq env w st t a with h1 | ⟨g, _, _, _, hid, _, h1⟩
  · rw [h1]; exact h
  · rw [h1, hE]
    rw [hE] at hid
    exact h.id_insertGrip hA hL env w _ g hid

theorem IDInvariant.id_dropGrip {alloc : Bool → Nat → Nat × Nat} {st : State}
    (h : IDInvariant alloc st) (env : Env) (w : World) (g : FBPActorGripInformation) (b : Bool) :
    IDInvariant alloc (DropGrip env w st g b).2.2 :=
  h.id_shrink (DropGrip_ids env w st g b).1 (DropGrip_ids env w st g b).2.1
    (DropGrip_ids env w st g b).2.2

theorem GripDropReachable.id_invariant {alloc : Bool → Nat → Nat × Nat} {last : Nat}
    {st : State} (hA : SpecGetNextGripID alloc last) (h : GripDropReachable alloc last st) :
    IDInvariant alloc st := by
  induction h with
  | initial => exact IDInvariant.id_initial alloc
  | gripActor env w st t a hE hL _ ih => exact ih.id_gripActor hA hL env hE w t a
  | gripComponent env w st t a hE hL _ ih => exact ih.id_gripComponent hA hL env hE w t a
  | dropGrip env w st g b _ _ ih => exact ih.id_dropGrip env w g b

theorem Sample.NextID_spec : SpecGetNextGripID Sample.NextID 126 := by
  refine ⟨?_, ?_, ?_, ?_, ?_⟩
  · intro b n
    unfold Sample.NextID
    constructor
    · cases b <;> simp only [Bool.false_eq_true, if_false, if_true] <;> split <;> omega
    · simp only []
      split <;> omega
  · intro b n
    unfold Sample.NextID INVALID_VRGRIP_ID
    cases b <;> simp only [Bool.false_eq_true, if_false, if_true] <;> split <;> omega
  · intro b n h
    unfold Sample.NextID
    simp only []
    rw [if_pos (by omega)]
    omega
  · intro b n m h hm
    unfold Sample.NextID
    simp only []
    rw [if_pos (by omega : n < 127), if_pos (by omega : m < 127)]
    cases b <;> simp only [Bool.false_eq_true, if_false, if_true] <;> omega
  · intro n m
    unfold Sample.NextID
    simp only [Bool.false_eq_true, if_false, if_true]
    split <;> split <;> omega

/-! ## Grip IDs: the claim -/

/-- The counter of an allocator the contract describes wraps around before
255: with 8 bits it cannot go up for ever. -/
theorem SpecGetNextGripID.last_lt {alloc : Bool → Nat → Nat × Nat} {last : Nat}
    (hA : SpecGetNextGripID alloc last) : last < 255 := by
  have h1 := hA.counter false last (Nat.le_refl _)
  have h2 := (hA.bounded false last).2
  omega

/-- Counterexample to C9 as stated, in states reached through a server
notification and in states reached after the ID counter has wrapped around.
The sample server, whose allocator is as the spec describes it, grips the
actor `1` as a client-authoritative grip and gives it the first predicted ID,
129; the client then reports its own first predicted grip, of the component
`3`, which carries the same ID from the client's own counter.
`Server_NotifyLocalGripAddedOrChanged_Implementation` stores the reported
record as it is: two distinct records of `LocallyGrippedObjects` share the ID
129. In the same way a report that carries `INVALID_VRGRIP_ID` is stored with
that ID. And through grips and drops alone: the sample server grips the actor
`1`, which gets the ID 1, and, holding it, grips and drops the component `3`
126 times; the counter is then at its last value, 127, and the next grip of the
component `3` gets the ID 1 again, while the actor `1` is still held with it. -/
theorem grip_ids_collide_after_notification_or_wrap :
    ((Server_NotifyLocalGripAddedOrChanged_Implementation Sample.SpecServer (fun _ New => New)
        (Sample.Scene id)
        (GripActor Sample.SpecServer (Sample.Scene id) State.Initial (some 1)
          (Sample.Args .InteractiveCollisionWithPhysics .ClientSide_Authoritive)).2.2
        (Sample.Grip 3 129 .ClientSide_Authoritive)).2.LocallyGrippedObjects.map
      (fun r => (r.GrippedObject, r.GripID))) = [(some 1, 129), (some 3, 129)] ∧
    ((Server_NotifyLocalGripAddedOrChanged_Implementation Sample.SpecServer (fun _ New => New)
        (Sample.Scene id) State.Initial
        (Sample.Grip 3 INVALID_VRGRIP_ID .ClientSide_Authoritive)).2.LocallyGrippedObjects.map
      (fun r => r.GripID)) = [INVALID_VRGRIP_ID] ∧
    (Sample.GripAndDropRounds 126).2.Records.map (fun r => (r.GrippedObject, r.GripID)) =
      [(some 1, 1)] ∧
    (Sample.GripAndDropRounds 126).2.GripIDIncrementer = 127 ∧
    (GripComponent Sample.SpecServer (Sample.GripAndDropRounds 126).1
        (Sample.GripAndDropRounds 126).2 (some 3)
        (Sample.Args .InteractiveCollisionWithPhysics .ForceServerSideMovement)).2.2.Records.map
      (fun r => (r.GrippedObject, r.GripID)) = [(some 1, 1), (some 3, 1)] := by
  refine ⟨by decide, by decide, by decide!, by decide!, by decide!⟩

/-- C9 as amended. With an 8-bit ID allocator as the spec describes it (never
the invalid ID, two disjoint ranges, counting up and increasing until its
counter wraps around after `last`), in every state one controller reaches
through grip and drop operations made before the counter has wrapped around:
any two distinct records of `GrippedObjects` and `LocallyGrippedObjects`
together have different `GripID`s, no record carries `INVALID_VRGRIP_ID`, every
ID in `GrippedObjects` was allocated for a server-authoritative grip and every
ID in `LocallyGrippedObjects` for a locally-predicted grip, and no ID of the
one collection is an ID of the other. States reached through a server
notification are left out. -/
theorem grip_ids_unique (alloc : Bool → Nat → Nat × Nat) (last : Nat)
    (hA : SpecGetNextGripID alloc last) (st : State) (h : GripDropReachable alloc last st) :
    (st.Records.map (fun r => r.GripID)).Nodup ∧
    (∀ r ∈ st.Records, r.GripID ≠ INVALID_VRGRIP_ID ∧ r.GripID < 2 ^ 8) ∧
    (∀ r ∈ st.GrippedObjects, ∃ n, r.GripID = (alloc false n).1) ∧
    (∀ r ∈ st.LocallyGrippedObjects, ∃ n, r.GripID = (alloc true n).1) ∧
    (∀ r ∈ st.GrippedObjects, ∀ r2 ∈ st.LocallyGrippedObjects, r.GripID ≠ r2.GripID) := by
  have hI := h.id_invariant hA
  refine ⟨hI.nodup, ?_, ?_, ?_, ?_⟩
  · intro r hr
    unfold State.Records at hr
    rcases List.mem_append.mp hr with h1 | h1
    · obtain ⟨n, _, hid⟩ := hI.replicated r h1
      rw [hid]; exact ⟨hA.valid false n, (hA.bounded false n).1⟩
    · obtain ⟨n, _, hid⟩ := hI.predicted r h1
      rw [hid]; exact ⟨hA.valid true n, (hA.bounded true n).1⟩
  · intro r hr
    obtain ⟨n, _, hid⟩ := hI.replicated r hr
    exact ⟨n, hid⟩
  · intro r hr
    obtain ⟨n, _, hid⟩ := hI.predicted r hr
    exact ⟨n, hid⟩
  · intro r hr r2 hr2
    obtain ⟨n, _, hid⟩ := hI.replicated r hr
    obtain ⟨m, _, hid2⟩ := hI.predicted r2 hr2
    rw [hid, hid2]
    exact hA.disjoint n m

/-- Witness of C9 as amended: the sample allocator is an 8-bit allocator as the
spec describes it, whose counter wraps around after 126, and the state after the
sample server has gripped the actor `1` as a server-authoritative grip and the
component `3` as a predicted grip has pairwise distinct IDs. -/
theorem grip_ids_unique_witness :
    SpecGetNextGripID Sample.NextID 126 ∧
    GripDropReachable Sample.NextID 126
      (GripComponent Sample.SpecServer (Sample.Scene id)
        (GripActor Sample.SpecServer (Sample.Scene id) State.Initial (some 1)
          (Sample.Args .InteractiveCollisionWithPhysics .ForceServerSideMovement)).2.2 (some 3)
        (Sample.Args .InteractiveCollisionWithPhysics .ClientSide_Authoritive)).2.2 ∧
    ((GripComponent Sample.SpecServer (Sample.Scene id)
        (GripActor Sample.SpecServer (Sample.Scene id) State.Initial (some 1)
          (Sample.Args .InteractiveCollisionWithPhysics .ForceServerSideMovement)).2.2 (some 3)
        (Sample.Args .InteractiveCollisionWithPhysics .ClientSide_Authoritive)).2.2.Records.map
      (fun r => r.GripID)).Nodup :=
  ⟨Sample.NextID_spec,
    GripDropReachable.gripComponent _ _ _ _ _ rfl (by decide)
      (GripDropReachable.gripActor _ _ _ _ _ rfl (by decide) GripDropReachable.initial),
    (grip_ids_unique Sample.NextID 126 Sample.NextID_spec _
      (GripDropReachable.gripComponent Sample.SpecServer _ _ _ _ rfl (by decide)
        (GripDropReachable.gripActor Sample.SpecServer _ _ _ _ rfl (by decide)
          GripDropReachable.initial))).1⟩

/-! ## Auxiliary facts: the iteration of a grip past its break distance -/

theorem GetPhysicsJointLength_congr (w : World) (s s2 : State) (g g2 : FBPActorGripInformation)
    (root : UObject) (hP : s2.PhysicsGrips = s.PhysicsGrips) (hK : g2.Key = g.Key) :
    GetPhysicsJointLength w s2 g2 root = GetPhysicsJointLength w s g root := by
  have h1 : g2.GrippedObject = g.GrippedObject := congrArg Prod.fst hK
  unfold GetPhysicsJointLength GetPhysicsGrip
  rw [hP, EqualsGrip_congr hK, h1]

theorem ModifySlot_PhysicsGrips (st : State) (b : Bool) (i : Nat)
    (f : FBPActorGripInformation → FBPActorGripInformation) :
    (st.ModifySlot b i f).PhysicsGrips = st.PhysicsGrips ∧
      (st.ModifySlot b i f).Trace = st.Trace ∧
      (st.ModifySlot b i f).bIsPostTeleport = st.bIsPostTeleport := by
  unfold State.ModifySlot
  cases b <;> exact ⟨rfl, rfl, rfl⟩

theorem ModifySlot_slot (st : State) (b : Bool) (i : Nat)
    (f : FBPActorGripInformation → FBPActorGripInformation) :
    ((st.ModifySlot b i f).GripArray b)[i]? = ((st.GripArray b)[i]?).map f := by
  unfold State.ModifySlot State.GripArray
  cases b
  · simp only [Bool.false_eq_true, if_false]
    rw [ModifyAt_getElem?]; simp
  · simp only [if_true]
    rw [ModifyAt_getElem?]; simp

/-- Past the break distance, with authority and neither a denying script nor a
listener, the break-distance block writes the distance to the slot, drops the
grip and ends the iteration. -/
theorem BreakDistanceCheck_drop (env : Env) (w : World) (st : State) (b : Bool) (i : Nat)
    (Cur : FBPActorGripInformation) (root actor f : UObject) (D : Int) (T : FTransform)
    (happ : BreakDistanceApplies w Cur root actor = true)
    (hskip : Cur.bSkipNextConstraintLengthCheck = false)
    (hI : InterfaceOf w root actor = some f)
    (hbd : (w.Objects f).GripBreakDistance = D) (hpos : 0 < D)
    (hdist : D < MeasuredGripDistance w st Cur root T)
    (hdeny : (w.Objects f).GripScripts.any (fun s =>
      match s with
      | some Script => Script.IsScriptActive && Script.Wants_DenyAutoDrop
      | none => false) = false)
    (hlistener : env.OnGripOutOfRange = none)
    (hauth : env.GripAuthority Cur.GripMovementReplicationSetting = true) :
    BreakDistanceCheck env w st b i Cur root actor T =
      (true,
        (DropGrip env w
          (st.ModifySlot b i (fun g =>
            { g with GripDistance := MeasuredGripDistance w st Cur root T }))
          { Cur with GripDistance := MeasuredGripDistance w st Cur root T }
          (SimulateOnDropOf w root actor)).2.1,
        (DropGrip env w
          (st.ModifySlot b i (fun g =>
            { g with GripDistance := MeasuredGripDistance w st Cur root T }))
          { Cur with GripDistance := MeasuredGripDistance w st Cur root T }
          (SimulateOnDropOf w root actor)).2.2) := by
  unfold BreakDistanceCheck
  rw [hI, hlistener]
  simp only []
  split
  · rename_i hc
    simp [happ] at hc
  · split
    · rename_i hc
      simp [hskip] at hc
    · split
      · split
        · rename_i hc
          exact Bool.noConfusion (hc.symm.trans hdeny)
        · split
          · rfl
          · rename_i hc
            exact absurd hauth hc
      · rename_i hc
        refine absurd ?_ hc
        simp only [Bool.and_eq_true, decide_eq_true_eq]
        exact ⟨by rw [hbd]; exact hpos, by rw [hbd]; exact le_of_lt hdist⟩

/-- The iteration of a grip past its break distance is a `DropGrip` of the
record in its slot, after the transform and the distance have been written to
the slot. -/
theorem HandleGrip_break {env : Env} {P : FTransform} {b : Bool} {i : Nat}
    {acc : FTransform × World × State} {Grip : FBPActorGripInformation} {root actor f : UObject}
    {D : Int} {T : FTransform} (h : BreakDistanceExceeded env P b i acc Grip root actor f D T) :
    ∃ (s1 : State) (Cur : FBPActorGripInformation) (bSimulate : Bool),
      HandleGrip env b P i acc =
        (T, (DropGrip env acc.2.1 s1 Cur bSimulate).2.1, (DropGrip env acc.2.1 s1 Cur bSimulate).2.2) ∧
      s1.RecordKeys = acc.2.2.RecordKeys ∧ s1.Trace = acc.2.2.Trace ∧
      s1.PhysicsGrips = acc.2.2.PhysicsGrips ∧
      (s1.GripArray b)[i]? = some Cur ∧ Cur.Key = Grip.Key ∧
      Cur.GripMovementReplicationSetting = Grip.GripMovementReplicationSetting := by
  have hI := h.interface
  have hP1 := ModifySlot_PhysicsGrips acc.2.2 b i
    (fun g : FBPActorGripInformation => { g with LastWorldTransform := T })
  have hM : MeasuredGripDistance acc.2.1
      (acc.2.2.ModifySlot b i (fun g => { g with LastWorldTransform := T }))
      { Grip with LastWorldTransform := T } root T =
      MeasuredGripDistance acc.2.1 acc.2.2 Grip root T := by
    unfold MeasuredGripDistance
    rw [GetPhysicsJointLength_congr acc.2.1 acc.2.2 _ Grip
      ({ Grip with LastWorldTransform := T } : FBPActorGripInformation) root hP1.1 rfl]
  have e1 := ModifySlot_RecordKeys acc.2.2 b i
    (fun g : FBPActorGripInformation => { g with LastWorldTransform := T }) (fun _ => rfl)
  have e2 := fun M : Int => ModifySlot_RecordKeys
    (acc.2.2.ModifySlot b i (fun g => { g with LastWorldTransform := T })) b i
    (fun g : FBPActorGripInformation => { g with GripDistance := M }) (fun _ => rfl)
  have hB := BreakDistanceCheck_drop env acc.2.1
    (acc.2.2.ModifySlot b i (fun g => { g with LastWorldTransform := T })) b i
    { Grip with LastWorldTransform := T } root actor f D T h.applies h.skipClear hI
    h.breakDistance h.positive (by rw [hM]; exact h.distance) h.noDeny h.noListener h.authority
  rw [hM] at hB
  refine ⟨(acc.2.2.ModifySlot b i (fun g => { g with LastWorldTransform := T })).ModifySlot b i
      (fun g => { g with GripDistance := MeasuredGripDistance acc.2.1 acc.2.2 Grip root T }),
    { ({ Grip with LastWorldTransform := T } : FBPActorGripInformation) with
      GripDistance := MeasuredGripDistance acc.2.1 acc.2.2 Grip root T },
    SimulateOnDropOf acc.2.1 root actor, ?_, (e2 _).trans e1, ?_, ?_, ?_, rfl, rfl⟩
  · unfold HandleGrip
    rw [h.slot]
    simp only []
    split
    · rename_i hc
      simp [h.movement] at hc
    · have hrep : (!Grip.bWasInitiallyRepped && !env.HasGripAuthority Grip) = false := by
        rw [h.authority]; simp
      rw [hrep]
      simp only [Bool.false_eq_true, if_false, Bool.not_true, h.slot]
      split
      · rename_i hc
        rw [h.notPaused] at hc
        cases hc
      · split
        · unfold HandleValidGrip
          simp only []
          rw [h.target]
          simp only []
          rw [hI]
          simp only []
          rw [h.transform]
          simp only []
          rw [hB]
          simp only []
          split
          · rename_i hc
            simp [h.notEventsOnly] at hc
          · split
            · rename_i hc
              simp [h.notCustomGrip] at hc
            · split
              · rename_i hc
                cases hc
              · split
                · rename_i hc
                  simp at hc
                · split
                  · rename_i hc
                    rw [h.notPostTeleport] at hc
                    cases hc
                  · rfl
        · rename_i hc
          refine absurd ?_ hc
          rw [h.live]
          simpa using h.validID
  · rw [(ModifySlot_PhysicsGrips _ _ _ _).2.1]
    exact (ModifySlot_PhysicsGrips _ _ _ _).2.1
  · rw [(ModifySlot_PhysicsGrips _ _ _ _).1]
    exact (ModifySlot_PhysicsGrips _ _ _ _).1
  · rw [ModifySlot_slot, ModifySlot_slot, h.slot]
    rfl

/-! ## Auxiliary facts: a tick adds no record -/

theorem NoNewRecords.nn_refl (st : State) : NoNewRecords st st := fun _ h => h

theorem NoNewRecords.nn_trans {a b c : State} (h1 : NoNewRecords a b) (h2 : NoNewRecords b c) :
    NoNewRecords a c := fun _ h => h1 (h2 h)

theorem NoNewRecords.nn_of_arrays {st st2 : State} (hG : st2.GrippedObjects = st.GrippedObjects)
    (hL : st2.LocallyGrippedObjects = st.LocallyGrippedObjects) : NoNewRecords st st2 := by
  unfold NoNewRecords State.RecordKeys State.Records
  rw [hG, hL]
  exact fun _ h => h

theorem NoNewRecords.nn_of_same {st st2 : State} (h : SameRecords st st2) : NoNewRecords st st2 :=
  NoNewRecords.nn_of_arrays h.1 h.2.1

theorem NoNewRecords.nn_emit (st : State) (e : Event) : NoNewRecords st (st.Emit e) :=
  NoNewRecords.nn_of_arrays rfl rfl

theorem NoNewRecords.nn_emits (st : State) (evs : List Event) :
    NoNewRecords st (evs.foldl State.Emit st) := by
  induction evs generalizing st with
  | nil => exact NoNewRecords.nn_refl _
  | cons e t ih => exact (NoNewRecords.nn_emit st e).nn_trans (ih _)

theorem NoNewRecords.nn_modifySlot (st : State) (b : Bool) (i : Nat)
    (f : FBPActorGripInformation → FBPActorGripInformation) (hf : ∀ x, (f x).Key = x.Key) :
    NoNewRecords st (st.ModifySlot b i f) := by
  unfold NoNewRecords
  rw [ModifySlot_RecordKeys st b i f hf]
  exact fun _ h => h

theorem SameRecords_DestroyPhysicsHandle (st : State) (g : FBPActorGripInformation) :
    SameRecords st (DestroyPhysicsHandle st g).2 := by
  unfold DestroyPhysicsHandle
  repeat' split
  all_goals exact ⟨rfl, rfl, rfl, rfl, rfl, rfl⟩

theorem SameRecords_retune (st : State) (g : FBPActorGripInformation) (b : Bool) :
    SameRecords st (SetGripConstraintStiffnessAndDamping st g b).2 := by
  unfold SetGripConstraintStiffnessAndDamping
  repeat' split
  all_goals exact ⟨rfl, rfl, rfl, rfl, rfl, rfl⟩

theorem SameRecords_UpdatePhysicsHandleTransform (st : State) (g : FBPActorGripInformation)
    (T : FTransform) : SameRecords st (UpdatePhysicsHandleTransform st g T) := by
  unfold UpdatePhysicsHandleTransform
  repeat' split
  all_goals exact ⟨rfl, rfl, rfl, rfl, rfl, rfl⟩

theorem SameRecords_SendTickGrip (env : Env) (w : World) (st : State)
    (g : FBPActorGripInformation) (root actor : UObject) :
    SameRecords st (SendTickGrip env w st g root actor) := by
  unfold SendTickGrip
  repeat' split
  all_goals exact ⟨rfl, rfl, rfl, rfl, rfl, rfl⟩

/-- The keys of the records after `DropRemoveRecord` are among those before. -/
theorem DropRemoveRecord_keys (env : Env) (st : State) (g : FBPActorGripInformation) :
    ((DropRemoveRecord env st g).GrippedObjects.map FBPActorGripInformation.Key).Sublist
        (st.GrippedObjects.map FBPActorGripInformation.Key) ∧
      ((DropRemoveRecord env st g).LocallyGrippedObjects.map FBPActorGripInformation.Key).Sublist
        (st.LocallyGrippedObjects.map FBPActorGripInformation.Key) := by
  have hp : ∀ (l : List FBPActorGripInformation) (i : Nat),
      (ModifyAt l i (fun r => { r with bIsPaused := true })).map FBPActorGripInformation.Key =
        l.map FBPActorGripInformation.Key :=
    fun l i => ModifyAt_map l i _ _ (fun _ => rfl)
  unfold DropRemoveRecord
  split
  · split
    · exact ⟨List.Sublist.refl _, (List.eraseIdx_sublist _ _).map _⟩
    · refine ⟨List.Sublist.refl _, ?_⟩
      show (List.map _ (ModifyAt _ _ _)).Sublist _
      rw [hp]
  · split
    · split
      · exact ⟨(List.eraseIdx_sublist _ _).map _, List.Sublist.refl _⟩
      · refine ⟨?_, List.Sublist.refl _⟩
        show (List.map _ (ModifyAt _ _ _)).Sublist _
        rw [hp]
    · exact ⟨List.Sublist.refl _, List.Sublist.refl _⟩

theorem NoNewRecords.nn_drop_Implementation (env : Env) (w : World) (st : State)
    (g : FBPActorGripInformation) (b : Bool) :
    NoNewRecords st (Drop_Implementation env w st g b).2 := by
  have hF := Drop_Implementation_fields env w st g b
  have hK := DropRemoveRecord_keys env st g
  unfold NoNewRecords State.RecordKeys State.Records
  rw [hF.2.1, hF.2.2.1, List.map_append, List.map_append]
  exact (hK.1.append hK.2).subset

theorem NoNewRecords.nn_notifyDrop (env : Env) (w : World) (st : State)
    (g : FBPActorGripInformation) (b : Bool) :
    NoNewRecords st (NotifyDrop_Implementation env w st g b).2 := by
  unfold NotifyDrop_Implementation
  split
  · exact NoNewRecords.nn_refl _
  · exact NoNewRecords.nn_drop_Implementation env w st g b

theorem NoNewRecords.nn_dropGrip (env : Env) (w : World) (st : State)
    (g : FBPActorGripInformation) (b : Bool) :
    NoNewRecords st (DropGrip env w st g b).2.2 := by
  unfold DropGrip
  split
  · split
    · split
      · exact (NoNewRecords.nn_emit st _).nn_trans (NoNewRecords.nn_drop_Implementation env w _ _ b)
      · exact NoNewRecords.nn_drop_Implementation env w st _ b
    · exact NoNewRecords.nn_notifyDrop env w st _ b
  · split
    · exact NoNewRecords.nn_refl _
    · split
      · exact NoNewRecords.nn_refl _
      · exact NoNewRecords.nn_notifyDrop env w st _ b

theorem DropObjectByInterface_cases (env : Env) (w : World) (st : State) (o : Option UObject)
    (n : Nat) :
    DropObjectByInterface env w st o n = (false, w, st) ∨
      ∃ g b, DropObjectByInterface env w st o n = DropGrip env w st g b := by
  unfold DropObjectByInterface
  repeat' split
  all_goals first
    | (left; rfl)
    | exact Or.inr ⟨_, _, rfl⟩

theorem NoNewRecords.nn_dropObjectByInterface (env : Env) (w : World) (st : State)
    (o : Option UObject) (n : Nat) :
    NoNewRecords st (DropObjectByInterface env w st o n).2.2 := by
  rcases DropObjectByInterface_cases env w st o n with h | ⟨g, b, h⟩
  · rw [h]; exact NoNewRecords.nn_refl _
  · rw [h]; exact NoNewRecords.nn_dropGrip env w st g b

theorem NoNewRecords.nn_teleport (env : Env) (w : World) (st : State)
    (g : FBPActorGripInformation) (b p : Bool) (T : FTransform) :
    NoNewRecords st (TeleportMoveGrip_Impl env w st g b p T).2.2.2 :=
  TeleportMoveGrip_Impl_cases env w st g b p T (NoNewRecords st) (NoNewRecords.nn_refl _)
    (fun e => NoNewRecords.nn_emit st e)
    (fun e e2 => (NoNewRecords.nn_emit st e).nn_trans (NoNewRecords.nn_emit _ e2))
    (NoNewRecords.nn_dropObjectByInterface env w st _ _)

theorem NoNewRecords.nn_breakDistanceCheck (env : Env) (w : World) (st : State) (b : Bool)
    (i : Nat) (g : FBPActorGripInformation) (root actor : UObject) (T : FTransform) :
    NoNewRecords st (BreakDistanceCheck env w st b i g root actor T).2.2 := by
  unfold BreakDistanceCheck
  simp only []
  have hm : ∀ d : Int, NoNewRecords st (st.ModifySlot b i (fun g => { g with GripDistance := d })) :=
    fun d => NoNewRecords.nn_modifySlot st b i _ (fun _ => rfl)
  split
  · exact NoNewRecords.nn_refl _
  · split
    · exact NoNewRecords.nn_modifySlot st b i _ (fun _ => rfl)
    · split
      · split
        · exact hm _
        · split
          · simp only []
            split
            · exact ((hm _).nn_trans (NoNewRecords.nn_emit _ _)).nn_trans
                (NoNewRecords.nn_dropGrip env w _ _ _)
            · exact (hm _).nn_trans (NoNewRecords.nn_emit _ _)
          · split
            · exact (hm _).nn_trans (NoNewRecords.nn_dropGrip env w _ _ _)
            · exact hm _
      · exact hm _

theorem NoNewRecords.nn_placeGrip (env : Env) (w : World) (st : State) (b : Bool) (i : Nat)
    (g : FBPActorGripInformation) (root : UObject) (T P : FTransform) :
    NoNewRecords st (PlaceGrip env w st b i g root T P).2 := by
  have hu : NoNewRecords st (UpdatePhysicsHandleTransform st g T) :=
    NoNewRecords.nn_of_same (SameRecords_UpdatePhysicsHandleTransform st g T)
  have hpr : ∀ (s : State) (x : FBPActorGripInformation) (w0 : World),
      NoNewRecords s (PlaceRoot w0 s x root T).2 := fun s _ _ => NoNewRecords.nn_emit s _
  unfold PlaceGrip
  simp only []
  split
  · split
    · exact hu.nn_trans (NoNewRecords.nn_modifySlot _ b i _ (fun _ => rfl))
    · exact hu
  · exact (hpr st g w).nn_trans (NoNewRecords.nn_modifySlot _ b i _ (fun _ => rfl))
  · split
    · refine NoNewRecords.nn_trans ?_ (NoNewRecords.nn_modifySlot _ b i _ (fun _ => rfl))
      split
      · exact hu.nn_trans (NoNewRecords.nn_of_same (SameRecords_retune _ _ _))
      · exact hu
    · refine NoNewRecords.nn_trans ?_ (NoNewRecords.nn_modifySlot _ b i _ (fun _ => rfl))
      split
      · exact hu.nn_trans (NoNewRecords.nn_of_same (SameRecords_retune _ _ _))
      · exact hu
  · have h1 : ∀ c : Bool, NoNewRecords st
        (st.ModifySlot b i (fun g => { g with bColliding := c })) :=
      fun c => NoNewRecords.nn_modifySlot st b i _ (fun _ => rfl)
    split
    · split
      · exact ((h1 _).nn_trans (NoNewRecords.nn_of_same (SameRecords_DestroyPhysicsHandle _ _))).nn_trans
          (hpr _ _ _)
      · exact (h1 _).nn_trans (hpr _ _ _)
    · split
      · exact ((h1 _).nn_trans (NoNewRecords.nn_of_same (SameRecords_SetUpPhysicsHandle _ _ _))).nn_trans
          (NoNewRecords.nn_of_same (SameRecords_UpdatePhysicsHandleTransform _ _ _))
      · exact (h1 _).nn_trans (NoNewRecords.nn_of_same (SameRecords_UpdatePhysicsHandleTransform _ _ _))
  · refine NoNewRecords.nn_trans ?_ (hpr _ _ _)
    split
    · exact NoNewRecords.nn_modifySlot st b i _ (fun _ => rfl)
    · exact NoNewRecords.nn_refl _
  · exact hpr _ _ _
  · split
    · exact NoNewRecords.nn_emit _ _
    · exact NoNewRecords.nn_refl _
  · exact hu
  · exact hu
  · exact NoNewRecords.nn_refl _
  · exact NoNewRecords.nn_refl _

theorem NoNewRecords.nn_cleanUpBadGrip (env : Env) (w : World) (st : State) (b : Bool) (i : Nat) :
    NoNewRecords st (CleanUpBadGrip env w st b i).2 := by
  unfold CleanUpBadGrip
  split
  · exact NoNewRecords.nn_refl _
  · rename_i g _
    simp only []
    have h1 : NoNewRecords st (if (!(DestroyPhysicsHandle st g).1) = true then
        { (DestroyPhysicsHandle st g).2 with PhysicsGrips :=
          (DestroyPhysicsHandle st g).2.PhysicsGrips.filter (fun h =>
            !(match h.HandledObject with
              | none => true
              | some o => (h.HandledObject == g.GrippedObject) || (w.Objects o).bPendingKill)) }
        else (DestroyPhysicsHandle st g).2) := by
      split
      · exact (NoNewRecords.nn_of_same (SameRecords_DestroyPhysicsHandle st g)).nn_trans
          (NoNewRecords.nn_of_arrays rfl rfl)
      · exact NoNewRecords.nn_of_same (SameRecords_DestroyPhysicsHandle st g)
    split
    · exact h1.nn_trans (NoNewRecords.nn_dropGrip env w _ _ _)
    · exact h1.nn_trans (NoNewRecords.nn_modifySlot _ b i _ (fun _ => rfl))

theorem NoNewRecords.nn_handleValidGrip (env : Env) (b : Bool) (i : Nat) (P : FTransform)
    (g : FBPActorGripInformation) (acc : FTransform × World × State) :
    NoNewRecords acc.2.2 (HandleValidGrip env b i P g acc).2.2 := by
  unfold HandleValidGrip
  simp only []
  split
  · exact NoNewRecords.nn_refl _
  · split
    · split
      · split
        · exact NoNewRecords.nn_emit _ _
        · exact NoNewRecords.nn_refl _
      · split
        · split
          · exact NoNewRecords.nn_dropGrip env _ _ _ _
          · exact NoNewRecords.nn_refl _
        · split
          · exact NoNewRecords.nn_refl _
          · split
            · exact (NoNewRecords.nn_teleport env _ _ _ _ _ _).nn_trans
                (NoNewRecords.nn_modifySlot _ b i _ (fun _ => rfl))
            · have h1 : ∀ T : FTransform, NoNewRecords acc.2.2 (acc.2.2.ModifySlot b i
                  (fun x => { x with LastWorldTransform := T })) :=
                fun T => NoNewRecords.nn_modifySlot _ b i _ (fun _ => rfl)
              have h2 := fun (T0 : FTransform) (c : FBPActorGripInformation) (r a : UObject)
                  (T : FTransform) => (h1 T0).nn_trans
                    (NoNewRecords.nn_breakDistanceCheck env acc.2.1 _ b i c r a T)
              split
              · exact h2 _ _ _ _ _
              · split
                · exact h2 _ _ _ _ _
                · exact ((h2 _ _ _ _ _).nn_trans (NoNewRecords.nn_placeGrip env _ _ b i _ _ _ _)).nn_trans
                    (NoNewRecords.nn_of_same (SameRecords_SendTickGrip _ _ _ _ _ _))
    · exact NoNewRecords.nn_refl _

theorem NoNewRecords.nn_handleGrip (env : Env) (b : Bool) (P : FTransform) (i : Nat)
    (acc : FTransform × World × State) (h : HandleInvariant acc.2.2) :
    NoNewRecords acc.2.2 (HandleGrip env b P i acc).2.2 := by
  unfold HandleGrip
  split
  · exact NoNewRecords.nn_refl _
  · rename_i First hFirst
    have hrep : First.bWasInitiallyRepped = true := h.repped _ (slot_mem_Records hFirst)
    split
    · exact NoNewRecords.nn_refl _
    · simp only [hrep, Bool.not_true, Bool.false_and, Bool.false_eq_true, if_false]
      split
      · exact NoNewRecords.nn_refl _
      · split
        · exact NoNewRecords.nn_refl _
        · split
          · exact NoNewRecords.nn_handleValidGrip env b i P _ (acc.1, acc.2.1, acc.2.2)
          · exact NoNewRecords.nn_cleanUpBadGrip env _ _ b i

/-- The iterations from any index down to index 0 keep the handle table sound
and add no record. -/
theorem HandleGripLoop_rest (env : Env) (b : Bool) (P : FTransform) (n : Nat) :
    ∀ acc : FTransform × World × State, HandleInvariant acc.2.2 →
      HandleInvariant (HandleGripLoop env b P n acc).2.2 ∧
        NoNewRecords acc.2.2 (HandleGripLoop env b P n acc).2.2 := by
  induction n with
  | zero => intro acc h; exact ⟨h, NoNewRecords.nn_refl _⟩
  | succ n ih =>
    intro acc h
    unfold HandleGripLoop
    have h1 := HandleInvariant.handleGrip env b P n acc h
    have h2 := NoNewRecords.nn_handleGrip env b P n acc h
    exact ⟨(ih _ h1).1, h2.nn_trans (ih _ h1).2⟩

/-- The iterations of the indices above `lo` keep the handle table sound. -/
theorem HandleInvariant.handleGripLoopDownTo (env : Env) (b : Bool) (P : FTransform) (lo n : Nat) :
    ∀ acc : FTransform × World × State, HandleInvariant acc.2.2 →
      HandleInvariant (HandleGripLoopDownTo env b P lo n acc).2.2 := by
  induction n with
  | zero => intro acc h; exact h
  | succ n ih =>
    intro acc h
    unfold HandleGripLoopDownTo
    split
    · exact h
    · exact ih _ (HandleInvariant.handleGrip env b P n acc h)

/-- The loop from `n` is the loop down to `lo` followed by the loop from `lo`. -/
theorem HandleGripLoop_split (env : Env) (b : Bool) (P : FTransform) (lo n : Nat) (hle : lo ≤ n) :
    ∀ acc : FTransform × World × State,
      HandleGripLoop env b P n acc =
        HandleGripLoop env b P lo (HandleGripLoopDownTo env b P lo n acc) := by
  induction n with
  | zero =>
    intro acc
    have : lo = 0 := by omega
    subst this
    rfl
  | succ n ih =>
    intro acc
    rcases Nat.lt_or_ge n lo with h1 | h1
    · have : lo = n + 1 := by omega
      subst this
      unfold HandleGripLoopDownTo
      rw [if_pos (Nat.lt_succ_self n)]
    · conv => rhs; unfold HandleGripLoopDownTo
      rw [if_neg (by omega)]
      conv => lhs; unfold HandleGripLoop
      exact ih h1 _

/-! ## Auxiliary facts: a drop places nothing -/

theorem NoPlacement.np_of_trace {st st2 : State} (h : st2.Trace = st.Trace) : NoPlacement st st2 :=
  ⟨[], by rw [h, List.append_nil], fun _ he => by cases he⟩

theorem NoPlacement.np_refl (st : State) : NoPlacement st st := NoPlacement.np_of_trace rfl

theorem NoPlacement.np_trans {a b c : State} (h1 : NoPlacement a b) (h2 : NoPlacement b c) :
    NoPlacement a c := by
  obtain ⟨e1, ht1, hp1⟩ := h1
  obtain ⟨e2, ht2, hp2⟩ := h2
  refine ⟨e1 ++ e2, by rw [ht2, ht1, List.append_assoc], ?_⟩
  intro e he
  rcases List.mem_append.mp he with h | h
  · exact hp1 e h
  · exact hp2 e h

theorem NoPlacement.np_emit (st : State) (e : Event) (he : e.IsPlacement = false) :
    NoPlacement st (st.Emit e) :=
  ⟨[e], rfl, fun x hx => by rw [List.mem_singleton.mp hx]; exact he⟩

theorem NoPlacement.np_emit2 (st : State) (e e2 : Event) (he : e.IsPlacement = false)
    (he2 : e2.IsPlacement = false) : NoPlacement st ((st.Emit e).Emit e2) :=
  (NoPlacement.np_emit st e he).np_trans (NoPlacement.np_emit _ e2 he2)

theorem DestroyPhysicsHandle_Trace (st : State) (g : FBPActorGripInformation) :
    (DestroyPhysicsHandle st g).2.Trace = st.Trace := by
  unfold DestroyPhysicsHandle
  repeat' split
  all_goals rfl

theorem DropRemoveRecord_Trace (env : Env) (st : State) (g : FBPActorGripInformation) :
    (DropRemoveRecord env st g).Trace = st.Trace := by
  unfold DropRemoveRecord
  repeat' split
  all_goals rfl

theorem NoPlacement.np_dropTargetEffects (env : Env) (w : World) (st : State)
    (g : FBPActorGripInformation) (b s : Bool) :
    NoPlacement st (DropTargetEffects env w st g b s).2 := by
  unfold DropTargetEffects
  simp only []
  repeat' split
  all_goals first
    | exact NoPlacement.np_refl _
    | (apply NoPlacement.np_emit2 <;> rfl)

theorem NoPlacement.np_drop_Implementation (env : Env) (w : World) (st : State)
    (g : FBPActorGripInformation) (b : Bool) :
    NoPlacement st (Drop_Implementation env w st g b).2 := by
  unfold Drop_Implementation
  simp only []
  refine NoPlacement.np_trans ?_ (by apply NoPlacement.np_emit; rfl)
  refine NoPlacement.np_trans ?_ (NoPlacement.np_of_trace (DropRemoveRecord_Trace env _ g))
  exact (NoPlacement.np_of_trace (DestroyPhysicsHandle_Trace st g)).np_trans
    (NoPlacement.np_dropTargetEffects env w _ g b _)

theorem NoPlacement.np_notifyDrop (env : Env) (w : World) (st : State)
    (g : FBPActorGripInformation) (b : Bool) :
    NoPlacement st (NotifyDrop_Implementation env w st g b).2 := by
  unfold NotifyDrop_Implementation
  split
  · exact NoPlacement.np_refl _
  · exact NoPlacement.np_drop_Implementation env w st g b

/-- The events of a `DropGrip` are notifications: none is a placement. -/
theorem NoPlacement.np_dropGrip (env : Env) (w : World) (st : State)
    (g : FBPActorGripInformation) (b : Bool) :
    NoPlacement st (DropGrip env w st g b).2.2 := by
  unfold DropGrip
  split
  · split
    · split
      · refine NoPlacement.np_trans ?_ (NoPlacement.np_drop_Implementation env w _ _ b)
        apply NoPlacement.np_emit
        rfl
      · exact NoPlacement.np_drop_Implementation env w st _ b
    · exact NoPlacement.np_notifyDrop env w st _ b
  · split
    · exact NoPlacement.np_refl _
    · split
      · exact NoPlacement.np_refl _
      · exact NoPlacement.np_notifyDrop env w st _ b

theorem unique_mem {α : Type} (p : α → Bool) (l : List α) (hc : l.countP p ≤ 1) (a b : α)
    (ha : a ∈ l) (hb : b ∈ l) (hpa : p a = true) (hpb : p b = true) : a = b := by
  obtain ⟨j, hj⟩ := List.mem_iff_getElem?.mp ha
  obtain ⟨k, hk⟩ := List.mem_iff_getElem?.mp hb
  have := unique_of_countP p l hc j k a b hj hk hpa hpb
  subst this
  rw [hj] at hk
  exact Option.some.inj hk

/-- The number of records equal to a grip is read off the record keys. -/
theorem countP_Equals_keys (st : State) (g : FBPActorGripInformation) :
    st.Records.countP (fun r => r.Equals g) =
      st.RecordKeys.countP
        (fun k => k.1.isSome && (k.1 == g.GrippedObject) && (k.2 == g.GripID)) := by
  unfold State.RecordKeys
  rw [List.countP_map]
  rfl

theorem countP_Equals_congr {st st2 : State} {g g2 : FBPActorGripInformation}
    (hK : st2.RecordKeys = st.RecordKeys) (hg : g2.Key = g.Key) :
    st2.Records.countP (fun r => r.Equals g2) = st.Records.countP (fun r => r.Equals g) := by
  rw [countP_Equals_keys, countP_Equals_keys, hK]
  have h1 : g2.GrippedObject = g.GrippedObject := congrArg Prod.fst hg
  have h2 : g2.GripID = g.GripID := congrArg Prod.snd hg
  rw [h1, h2]

/-- When no record of the first state is equal to the grip and the second state
has no new record, no record of the second state is equal to the grip. -/
theorem NoNewRecords.nn_absent {st st2 : State} (h : NoNewRecords st st2)
    (g : FBPActorGripInformation) (ha : ∀ r ∈ st.Records, r.Equals g = false) :
    ∀ r ∈ st2.Records, r.Equals g = false := by
  intro r hr
  cases hE : r.Equals g with
  | false => rfl
  | true =>
    exfalso
    have hk : r.Key ∈ st.RecordKeys := h (List.mem_map_of_mem _ hr)
    obtain ⟨r0, hr0, he⟩ := List.mem_map.mp hk
    have h0 := ha r0 hr0
    have hE2 := (Equals_iff r g).mp hE
    have : r0.Equals g = true := by
      rw [Equals_iff]
      refine ⟨?_, he.trans hE2.2⟩
      have : r0.GrippedObject = r.GrippedObject := congrArg Prod.fst he
      rw [this]; exact hE2.1
    rw [this] at h0
    cases h0

/-! ## Auxiliary facts: the tick around one iteration -/

theorem HandleGripLoopDownTo_of_le (env : Env) (b : Bool) (P : FTransform) (lo n : Nat)
    (h : n ≤ lo) (acc : FTransform × World × State) :
    HandleGripLoopDownTo env b P lo n acc = acc := by
  cases n with
  | zero => rfl
  | succ m =>
    unfold HandleGripLoopDownTo
    rw [if_pos (by omega)]

theorem HandleInvariant.tickGripStart {st : State} (h : HandleInvariant st) :
    HandleInvariant (TickGripStart st) := by
  unfold TickGripStart
  split
  · exact h.cleanUpBadPhysicsHandles
  · exact h

theorem TickGrip_eq (env : Env) (w : World) (st : State) :
    TickGrip env w st =
      ((HandleGripArray env
          (HandleGripArray env w (TickGripStart st) true (TickGripParent w st)).1
          (HandleGripArray env w (TickGripStart st) true (TickGripParent w st)).2 false
          (TickGripParent w st)).1,
        { (HandleGripArray env
          (HandleGripArray env w (TickGripStart st) true (TickGripParent w st)).1
          (HandleGripArray env w (TickGripStart st) true (TickGripParent w st)).2 false
          (TickGripParent w st)).2 with bIsPostTeleport := false }) := rfl

/-- A loop that reaches a slot holding a record runs the iteration of the slot
and then the iterations of the lower indices. -/
theorem HandleGripLoop_through (env : Env) (b : Bool) (P : FTransform) (i : Nat)
    (acc0 : FTransform × World × State)
    (hslot : ((HandleGripLoopDownTo env b P (i + 1) (acc0.2.2.GripArray b).length
      acc0).2.2.GripArray b)[i]? ≠ none) :
    HandleGripLoop env b P (acc0.2.2.GripArray b).length acc0 =
      HandleGripLoop env b P i (HandleGrip env b P i
        (HandleGripLoopDownTo env b P (i + 1) (acc0.2.2.GripArray b).length acc0)) := by
  have hlt : i + 1 ≤ (acc0.2.2.GripArray b).length := by
    rcases Nat.lt_or_ge i (acc0.2.2.GripArray b).length with h1 | h1
    · exact h1
    · exfalso
      apply hslot
      rw [HandleGripLoopDownTo_of_le env b P _ _ (by omega)]
      exact List.getElem?_eq_none h1
  rw [HandleGripLoop_split env b P (i + 1) _ hlt acc0]
  rfl

/-- From the moment the loop of a tick reaches a slot that holds a record: the
handle table is sound then, and the rest of the tick, after the iteration of
the slot, adds no record. -/
theorem TickGrip_after (env : Env) (w : World) (st : State) (b : Bool) (i : Nat)
    (hS : HandleInvariant st)
    (hslot : ((TickGripBefore env w st b i).2.2.GripArray b)[i]? ≠ none) :
    HandleInvariant (TickGripBefore env w st b i).2.2 ∧
      NoNewRecords (HandleGrip env b (TickGripParent w st) i (TickGripBefore env w st b i)).2.2
        (TickGrip env w st).2 := by
  have h1 := hS.tickGripStart
  have hfinal : ∀ s : State, NoNewRecords s { s with bIsPostTeleport := false } :=
    fun s => NoNewRecords.nn_of_arrays rfl rfl
  rw [TickGrip_eq]
  cases b
  · have hr1 := HandleGripLoop_rest env true (TickGripParent w st)
      (TickGripStart st).GrippedObjects.length (FTransform.Identity, w, TickGripStart st) h1
    have hB : TickGripBefore env w st false i =
        HandleGripLoopDownTo env false (TickGripParent w st) (i + 1)
          (HandleGripArray env w (TickGripStart st) true
            (TickGripParent w st)).2.LocallyGrippedObjects.length
          (FTransform.Identity,
            (HandleGripArray env w (TickGripStart st) true (TickGripParent w st)).1,
            (HandleGripArray env w (TickGripStart st) true (TickGripParent w st)).2) := rfl
    rw [hB] at hslot ⊢
    have hI1 : HandleInvariant
        (HandleGripArray env w (TickGripStart st) true (TickGripParent w st)).2 := hr1.1
    have hacc := HandleInvariant.handleGripLoopDownTo env false (TickGripParent w st) (i + 1)
      (HandleGripArray env w (TickGripStart st) true
        (TickGripParent w st)).2.LocallyGrippedObjects.length
      (FTransform.Identity,
        (HandleGripArray env w (TickGripStart st) true (TickGripParent w st)).1,
        (HandleGripArray env w (TickGripStart st) true (TickGripParent w st)).2) hI1
    refine ⟨hacc, ?_⟩
    have hthr := HandleGripLoop_through env false (TickGripParent w st) i
      (FTransform.Identity,
        (HandleGripArray env w (TickGripStart st) true (TickGripParent w st)).1,
        (HandleGripArray env w (TickGripStart st) true (TickGripParent w st)).2) hslot
    have hout := HandleInvariant.handleGrip env false (TickGripParent w st) i _ hacc
    have hrest := (HandleGripLoop_rest env false (TickGripParent w st) i _ hout).2
    refine NoNewRecords.nn_trans ?_ (hfinal _)
    show NoNewRecords _ (HandleGripLoop env false (TickGripParent w st) _ _).2.2
    rw [show (HandleGripArray env w (TickGripStart st) true
        (TickGripParent w st)).2.LocallyGrippedObjects.length =
      ((FTransform.Identity,
        (HandleGripArray env w (TickGripStart st) true (TickGripParent w st)).1,
        (HandleGripArray env w (TickGripStart st) true
          (TickGripParent w st)).2).2.2.GripArray false).length from rfl, hthr]
    exact hrest
  · have hB : TickGripBefore env w st true i =
        HandleGripLoopDownTo env true (TickGripParent w st) (i + 1)
          (TickGripStart st).GrippedObjects.length (FTransform.Identity, w, TickGripStart st) :=
      rfl
    rw [hB] at hslot ⊢
    have hacc := HandleInvariant.handleGripLoopDownTo env true (TickGripParent w st) (i + 1)
      (TickGripStart st).GrippedObjects.length (FTransform.Identity, w, TickGripStart st) h1
    refine ⟨hacc, ?_⟩
    have hthr := HandleGripLoop_through env true (TickGripParent w st) i
      (FTransform.Identity, w, TickGripStart st) hslot
    have hout := HandleInvariant.handleGrip env true (TickGripParent w st) i _ hacc
    have hrest := HandleGripLoop_rest env true (TickGripParent w st) i _ hout
    have hA1 : HandleGripArray env w (TickGripStart st) true (TickGripParent w st) =
        (HandleGripLoop env true (TickGripParent w st) i (HandleGrip env true (TickGripParent w st) i
          (HandleGripLoopDownTo env true (TickGripParent w st) (i + 1)
            (TickGripStart st).GrippedObjects.length
            (FTransform.Identity, w, TickGripStart st)))).2 := by
      exact congrArg Prod.snd hthr
    rw [hA1]
    refine NoNewRecords.nn_trans ?_ (hfinal _)
    refine NoNewRecords.nn_trans hrest.2 ?_
    exact (HandleGripLoop_rest env false (TickGripParent w st) _ (FTransform.Identity, _, _)
      hrest.1).2

/-! ## Break-distance auto-drop -/

/-- C10: break-distance auto-drop. In a tick on a controller with a sound handle
table, take the moment the loop reaches the slot of a grip: this side moves the
grip and has authority over it, the grip is live and the only record equal to
itself, its target resolves and its interface answers a break distance `D > 0`,
its collision mode is subject to the check, the transform query gives a valid
transform without forcing a drop, the tick does not follow a teleport, the
skip-next-check flag is clear, no active script denies the auto-drop, no
`OnGripOutOfRange` listener is bound and the drop is one this side may make.
If the distance the tick measures exceeds `D`, then after the tick no record of
`GrippedObjects` or `LocallyGrippedObjects` is equal to the grip, and the
iteration of the grip appended no placement to the trace: no world or relative
transform was written and no kinematic target was set. -/
theorem break_distance_auto_drop (env : Env) (w : World) (st : State) (b : Bool) (i : Nat)
    (Grip : FBPActorGripInformation) (root actor f : UObject) (D : Int) (T : FTransform)
    (hS : HandleInvariant st)
    (h : BreakDistanceExceeded env (TickGripParent w st) b i (TickGripBefore env w st b i)
      Grip root actor f D T) :
    (∀ r ∈ (TickGrip env w st).2.Records, r.Equals Grip = false) ∧
    NoPlacement (TickGripBefore env w st b i).2.2
      (HandleGrip env b (TickGripParent w st) i (TickGripBefore env w st b i)).2.2 := by
  have hne : ((TickGripBefore env w st b i).2.2.GripArray b)[i]? ≠ none := by
    rw [h.slot]; simp
  obtain ⟨_, hRest⟩ := TickGrip_after env w st b i hS hne
  obtain ⟨s1, Cur, sim, hEq, hK, hT, _, hslot, hCK, hCS⟩ := HandleGrip_break h
  have hobj : Grip.GrippedObject.isSome = true := by
    have hl := h.live
    cases hg : Grip.GrippedObject with
    | none => rw [hg] at hl; cases hl
    | some o => rfl
  have hCobj : Cur.GrippedObject = Grip.GrippedObject := congrArg Prod.fst hCK
  have hCurEq : Cur.Equals Cur = true :=
    (Equals_iff _ _).mpr ⟨by rw [hCobj]; exact hobj, rfl⟩
  have hCurMem : Cur ∈ s1.Records := slot_mem_Records hslot
  have hCurArr : Cur ∈ s1.GripArray b := List.mem_iff_getElem?.mpr ⟨i, hslot⟩
  have ht : (DropGrip env (TickGripBefore env w st b i).2.1 s1 Cur sim).1 = true := by
    cases hd : (DropGrip env (TickGripBefore env w st b i).2.1 s1 Cur sim).1 with
    | true => rfl
    | false =>
      exfalso
      have hf := (DropGrip_fails_iff _ _ _ _ _).mp hd
      cases b with
      | false =>
        have := FindGripRecord_eq_none.mp hf.1 Cur hCurArr
        rw [hCurEq] at this
        cases this
      | true =>
        rcases hf.2 with h2 | h2
        · rw [h.gate rfl] at h2
          cases h2
        · have := FindGripRecord_eq_none.mp h2 Cur hCurArr
          rw [hCurEq] at this
          cases this
  have hU1 : s1.Records.countP (fun r => r.Equals Cur) ≤ 1 := by
    rw [countP_Equals_congr hK hCK]
    exact h.unique
  obtain ⟨j, Found, hFE, hloc, habs⟩ :=
    DropGrip_located env (TickGripBefore env w st b i).2.1 s1 Cur sim h.net hU1 ht
  have hFmem : Found ∈ s1.Records := by
    unfold State.Records
    rcases hloc with ⟨h1, _, _⟩ | ⟨h1, _, _⟩
    · exact List.mem_append_right _ (List.mem_iff_getElem?.mpr ⟨j, h1⟩)
    · exact List.mem_append_left _ (List.mem_iff_getElem?.mpr ⟨j, h1⟩)
  have hFC : Found = Cur := unique_mem _ _ hU1 Found Cur hFmem hCurMem hFE hCurEq
  have hauth : env.HasGripAuthority Found = true := by
    rw [hFC]
    unfold Env.HasGripAuthority
    rw [hCS]
    exact h.authority
  have habs1 := habs (by rw [hauth]; rfl)
  have hout : (HandleGrip env b (TickGripParent w st) i (TickGripBefore env w st b i)).2.2 =
      (DropGrip env (TickGripBefore env w st b i).2.1 s1 Cur sim).2.2 := by
    rw [hEq]
  constructor
  · apply NoNewRecords.nn_absent hRest Grip
    rw [hout]
    intro r hr
    rw [← congrFun (Equals_congr hCK) r]
    exact habs1 r hr
  · rw [hout]
    exact (NoPlacement.np_of_trace hT).np_trans (NoPlacement.np_dropGrip _ _ _ _ _)

/-- The sample state `Holding` has a sound handle table. -/
theorem Sample.Holding_invariant : HandleInvariant Sample.Holding := by
  refine ⟨List.nodup_nil, (by intro k hk; cases hk), ?_⟩
  intro r hr
  have : r = Sample.Grip 1 1 .ForceServerSideMovement := by
    simpa [State.Records, Sample.Holding, State.Initial] using hr
  rw [this]
  rfl

/-- The sample server holds the actor `1`, whose root sits 60 away with break
distance 50: the situation of the auto-drop, at slot 0 of the replicated array. -/
theorem Sample.Holding_exceeded :
    BreakDistanceExceeded Sample.Server (TickGripParent Sample.FarScene Sample.Holding) true 0
      (TickGripBefore Sample.Server Sample.FarScene Sample.Holding true 0)
      (Sample.Grip 1 1 .ForceServerSideMovement) 2 1 2 50 FTransform.Identity where
  slot := by decide
  movement := by decide
  authority := by decide
  notPaused := by decide
  validID := by decide
  live := by decide
  notEventsOnly := by decide
  notCustomGrip := by decide
  applies := by decide
  target := by decide
  interface := by decide
  breakDistance := by decide
  positive := by decide
  transform := by decide
  notPostTeleport := by decide
  skipClear := by decide
  noDeny := by decide
  noListener := rfl
  distance := by decide
  gate := by decide
  net := by decide
  unique := by decide

/-- Witness of C10: on the sample server the tick drops the grip of the actor
`1`, which is past its break distance. -/
theorem break_distance_auto_drop_witness :
    HandleInvariant Sample.Holding ∧
    BreakDistanceExceeded Sample.Server (TickGripParent Sample.FarScene Sample.Holding) true 0
      (TickGripBefore Sample.Server Sample.FarScene Sample.Holding true 0)
      (Sample.Grip 1 1 .ForceServerSideMovement) 2 1 2 50 FTransform.Identity ∧
    (∀ r ∈ (TickGrip Sample.Server Sample.FarScene Sample.Holding).2.Records,
      r.Equals (Sample.Grip 1 1 .ForceServerSideMovement) = false) :=
  ⟨Sample.Holding_invariant, Sample.Holding_exceeded,
    (break_distance_auto_drop Sample.Server Sample.FarScene Sample.Holding true 0
      (Sample.Grip 1 1 .ForceServerSideMovement) 2 1 2 50 FTransform.Identity
      Sample.Holding_invariant Sample.Holding_exceeded).1⟩

/-! ## The handle clean-up -/

/-- C18, evaluated at the failing input: the controller holds the actor `1` with
grip ID 1 in `GrippedObjects`, and `PhysicsGrips` has the handle of that grip and
a stale one. The count makes `TickGrip` call `CleanUpBadPhysicsHandles`, which
removes both entries: the handle of the held grip does not survive, because only
the lookup in `LocallyGrippedObjects` is kept. -/
theorem cleanup_removes_handle_of_replicated_grip :
    (FindByID Sample.HoldingWithStale.GrippedObjects 1).isSome = true ∧
    (GetPhysicsGrip Sample.HoldingWithStale (Sample.Grip 1 1 .ForceServerSideMovement)).isSome =
      true ∧
    (CleanUpBadPhysicsHandles Sample.HoldingWithStale).PhysicsGrips = [] ∧
    (TickGripStart Sample.HoldingWithStale).PhysicsGrips = [] := by
  refine ⟨by decide, by decide, by decide, by decide⟩

/-! ## Auxiliary facts: the record a grip stores -/

/-- A successful `GripActor` is the `InsertGrip` of the record `BuildGrip`
makes from the root of the actor, the ID of the allocator and what the
interface was consulted for. -/
theorem GripActor_built (env : Env) (w : World) (st : State) (t : Option UObject) (a : GripArgs) :
    GripActor env w st t a = (false, w, st) ∨
    ∃ (Actor root : UObject) (Settings : FBPAdvGripSettings × Option (Bool × Bool)),
      t = some Actor ∧ w.RootOf Actor = some root ∧ GetIsObjectHeld st t = false ∧
      (match InterfaceOf w root Actor with
        | some i => ConsultInterface env w st i
        | none => some (FBPAdvGripSettings.Default, none)) = some Settings ∧
      GripActor env w st t a = InsertGrip env w
        { st with GripIDIncrementer := (env.GetNextGripID
            (IsLocalGripSetting a.GripMovementReplicationSetting) st.GripIDIncrementer).2 }
        (IsLocalGripSetting a.GripMovementReplicationSetting)
        (BuildGrip w st Actor root .ActorGrip a
          (env.GetNextGripID (IsLocalGripSetting a.GripMovementReplicationSetting)
            st.GripIDIncrementer).1 Settings.1
          (match Settings.2 with
            | some o => o
            | none => ((w.Objects root).bGravityEnabled, (w.Objects Actor).bReplicateMovement)).2
          (match Settings.2 with
            | some o => o
            | none => ((w.Objects root).bGravityEnabled, (w.Objects Actor).bReplicateMovement)).1
          (some Actor)) := by
  unfold GripActor
  simp only []
  split
  · left; rfl
  · split
    · left; rfl
    · rename_i Actor
      split
      · left; rfl
      · rename_i hheld
        split
        · left; rfl
        · rename_i root hroot
          split
          · left; rfl
          · split
            · left; rfl
            · rename_i Settings hS
              right
              exact ⟨Actor, root, Settings, rfl, hroot, by simpa using hheld, hS, rfl⟩

/-- A successful `GripComponent` is the `InsertGrip` of the record `BuildGrip`
makes from the component, the ID of the allocator and what the interface was
consulted for. -/
theorem GripComponent_built (env : Env) (w : World) (st : State) (t : Option UObject)
    (a : GripArgs) :
    GripComponent env w st t a = (false, w, st) ∨
    ∃ (Component : UObject) (Settings : FBPAdvGripSettings × Option (Bool × Bool)),
      t = some Component ∧ GetIsObjectHeld st t = false ∧
      GripComponent env w st t a = InsertGrip env w
        { st with GripIDIncrementer := (env.GetNextGripID
            (IsLocalGripSetting a.GripMovementReplicationSetting) st.GripIDIncrementer).2 }
        (IsLocalGripSetting a.GripMovementReplicationSetting)
        (BuildGrip w st Component Component .ComponentGrip a
          (env.GetNextGripID (IsLocalGripSetting a.GripMovementReplicationSetting)
            st.GripIDIncrementer).1 Settings.1
          (match Settings.2 with
            | some o => o
            | none =>
              ((w.Objects Component).bGravityEnabled,
                match (w.Objects Component).Owner with
                | some o => (w.Objects o).bReplicateMovement
                | none => FBPActorGripInformation.Default.bOriginalReplicatesMovement)).2
          (match Settings.2 with
            | some o => o
            | none =>
              ((w.Objects Component).bGravityEnabled,
                match (w.Objects Component).Owner with
                | some o => (w.Objects o).bReplicateMovement
                | none => FBPActorGripInformation.Default.bOriginalReplicatesMovement)).1
          (w.Objects Component).Owner) := by
  unfold GripComponent
  simp only []
  split
  · left; rfl
  · split
    · left; rfl
    · rename_i Component
      split
      · left; rfl
      · rename_i hheld
        split
        · left; rfl
        · split
          · left; rfl
          · rename_i Settings hS
            right
            exact ⟨Component, Settings, rfl, by simpa using hheld, rfl⟩

/-- The arrays after `InsertGrip`: the record is appended to the replicated
array, or to the predicted one for a local grip. -/
theorem InsertGrip_appends (env : Env) (w : World) (st : State) (b : Bool)
    (g : FBPActorGripInformation) :
    (InsertGrip env w st b g).1 = true ∧
      (InsertGrip env w st b g).2.2.GripArray (!b) = st.GripArray (!b) ++ [g] ∧
      (InsertGrip env w st b g).2.2.GripArray b = st.GripArray b := by
  have h := InsertGrip_records env w st b g
  refine ⟨InsertGrip_fst _ _ _ _ _, ?_, ?_⟩
  · unfold State.GripArray
    cases b
    · simp only [Bool.not_false, if_true]
      rw [h.1]; rfl
    · simp only [Bool.not_true, Bool.false_eq_true, if_false]
      rw [h.2.1]; rfl
  · unfold State.GripArray
    cases b
    · simp only [Bool.false_eq_true, if_false]
      rw [h.2.1]; rfl
    · simp only [if_true]
      rw [h.1]; rfl

/-! ## What a grip stores: replication mode and relative transform -/

/-- C16: after a successful grip the record appended to the collection of the
grip carries the replication mode the spec states: never `KeepOriginalMovement`;
for that request `ForceServerSideMovement` when the gripped actor (for a
component, its owner) has `bReplicateMovement` set and `ForceClientSideMovement`
otherwise, a component without owner getting `ForceClientSideMovement`; every
other requested mode unchanged. -/
theorem keep_original_movement_is_normalised (env : Env) (w : World) (st : State)
    (t : Option UObject) (a : GripArgs) :
    ((GripActor env w st t a).1 = true →
      ∃ (Actor : UObject) (g : FBPActorGripInformation), t = some Actor ∧
        (GripActor env w st t a).2.2.GripArray
            (!IsLocalGripSetting a.GripMovementReplicationSetting) =
          st.GripArray (!IsLocalGripSetting a.GripMovementReplicationSetting) ++ [g] ∧
        g.GripMovementReplicationSetting ≠ .KeepOriginalMovement ∧
        g.GripMovementReplicationSetting =
          SpecStoredReplicationSetting a.GripMovementReplicationSetting
            (some (w.Objects Actor).bReplicateMovement)) ∧
    ((GripComponent env w st t a).1 = true →
      ∃ (Component : UObject) (g : FBPActorGripInformation), t = some Component ∧
        (GripComponent env w st t a).2.2.GripArray
            (!IsLocalGripSetting a.GripMovementReplicationSetting) =
          st.GripArray (!IsLocalGripSetting a.GripMovementReplicationSetting) ++ [g] ∧
        g.GripMovementReplicationSetting ≠ .KeepOriginalMovement ∧
        g.GripMovementReplicationSetting =
          SpecStoredReplicationSetting a.GripMovementReplicationSetting
            ((w.Objects Component).Owner.map (fun o => (w.Objects o).bReplicateMovement))) := by
  have hB : ∀ (Target root : UObject) (T : EGripTargetType) (id : Nat) (Adv : FBPAdvGripSettings)
      (o1 o2 : Bool) (Owner : Option UObject),
      (BuildGrip w st Target root T a id Adv o1 o2 Owner).GripMovementReplicationSetting ≠
          .KeepOriginalMovement ∧
        (BuildGrip w st Target root T a id Adv o1 o2 Owner).GripMovementReplicationSetting =
          SpecStoredReplicationSetting a.GripMovementReplicationSetting
            (Owner.map (fun o => (w.Objects o).bReplicateMovement)) := by
    intro Target root T id Adv o1 o2 Owner
    unfold BuildGrip SpecStoredReplicationSetting
    simp only []
    by_cases hk : a.GripMovementReplicationSetting = .KeepOriginalMovement
    · cases Owner with
      | none => simp [hk]
      | some o =>
        cases hr : (w.Objects o).bReplicateMovement with
        | false => simp [hk, hr]
        | true => simp [hk, hr]
    · simp [hk]
  constructor
  · intro h
    rcases GripActor_built env w st t a with h1 | ⟨Actor, root, Settings, ht, _, _, _, h1⟩
    · rw [h1] at h; cases h
    · rw [h1]
      refine ⟨Actor, _, ht, (InsertGrip_appends env w _ _ _).2.1, ?_, ?_⟩
      · exact (hB Actor root .ActorGrip _ _ _ _ (some Actor)).1
      · exact (hB Actor root .ActorGrip _ _ _ _ (some Actor)).2
  · intro h
    rcases GripComponent_built env w st t a with h1 | ⟨Component, Settings, ht, _, h1⟩
    · rw [h1] at h; cases h
    · rw [h1]
      refine ⟨Component, _, ht, (InsertGrip_appends env w _ _ _).2.1, ?_, ?_⟩
      · exact (hB Component Component .ComponentGrip _ _ _ _ _).1
      · exact (hB Component Component .ComponentGrip _ _ _ _ _).2

/-- Witness of C16: the sample server grips the actor `1`, which does not
replicate its movement, with `KeepOriginalMovement`. -/
theorem keep_original_movement_is_normalised_witness :
    (GripActor Sample.Server (Sample.Scene id) State.Initial (some 1)
      (Sample.Args .InteractiveCollisionWithPhysics .KeepOriginalMovement)).1 = true ∧
    ∃ (Actor : UObject) (g : FBPActorGripInformation), some 1 = some Actor ∧
      (GripActor Sample.Server (Sample.Scene id) State.Initial (some 1)
          (Sample.Args .InteractiveCollisionWithPhysics .KeepOriginalMovement)).2.2.GripArray
          (!IsLocalGripSetting (Sample.Args .InteractiveCollisionWithPhysics
            .KeepOriginalMovement).GripMovementReplicationSetting) =
        State.Initial.GripArray (!IsLocalGripSetting (Sample.Args .InteractiveCollisionWithPhysics
            .KeepOriginalMovement).GripMovementReplicationSetting) ++ [g] ∧
      g.GripMovementReplicationSetting ≠ .KeepOriginalMovement ∧
      g.GripMovementReplicationSetting =
        SpecStoredReplicationSetting (Sample.Args .InteractiveCollisionWithPhysics
            .KeepOriginalMovement).GripMovementReplicationSetting
          (some ((Sample.Scene id).Objects Actor).bReplicateMovement) :=
  ⟨by decide,
    (keep_original_movement_is_normalised Sample.Server (Sample.Scene id) State.Initial (some 1)
      (Sample.Args .InteractiveCollisionWithPhysics .KeepOriginalMovement)).1 (by decide)⟩

/-- The composition of transforms depends on the order: a half turn round the
Z axis followed by the translation by `(5, 0, 0)` is not the translation
followed by the half turn. -/
theorem FTransform.mul_order :
    (FTransform.mk ⟨0, 0, 1, 0⟩ ⟨0, 0, 0⟩).mul (FTransform.ofTranslation 5 0 0) ≠
      (FTransform.ofTranslation 5 0 0).mul (FTransform.mk ⟨0, 0, 1, 0⟩ ⟨0, 0, 0⟩) := by
  decide

/-- What `SetGripConstraintStiffnessAndDamping` does to the handle table: every
entry stays in its slot with its key, kinematic actor and constraint; the
first entry of the grip, when its constraint is valid, gets the linear drive of
the grip, the stiffness times the hybrid multiplier for a hybrid physics grip;
the other entries are untouched. -/
theorem SetGripConstraintStiffnessAndDamping_handles (st : State) (g : FBPActorGripInformation)
    (b : Bool) :
    (SetGripConstraintStiffnessAndDamping st g b).2.PhysicsGrips.length = st.PhysicsGrips.length ∧
    ∀ (j : Nat) (h : FBPActorPhysicsHandleInformation), st.PhysicsGrips[j]? = some h →
      ∃ h2, (SetGripConstraintStiffnessAndDamping st g b).2.PhysicsGrips[j]? = some h2 ∧
        h2.HandledObject = h.HandledObject ∧ h2.GripID = h.GripID ∧
        h2.bKinActorValid = h.bKinActorValid ∧ h2.bHandleDataValid = h.bHandleDataValid ∧
        (GetPhysicsGripIndex st g = some j → h.bHandleDataValid = true →
          h2.LinStiffness = g.Stiffness *
              (if g.GripCollisionType = .InteractiveHybridCollisionWithPhysics
                then HYBRID_PHYSICS_GRIP_MULTIPLIER else 1) ∧
            h2.LinDamping = g.Damping) ∧
        (GetPhysicsGripIndex st g ≠ some j → h2 = h) := by
  unfold SetGripConstraintStiffnessAndDamping
  cases hi : GetPhysicsGripIndex st g with
  | none =>
    refine ⟨rfl, ?_⟩
    intro j h hj
    exact ⟨h, hj, rfl, rfl, rfl, rfl, (fun hc => by cases hc), fun _ => rfl⟩
  | some i =>
    simp only []
    refine ⟨ModifyAt_length _ _ _, ?_⟩
    intro j h hj
    rw [ModifyAt_getElem?, hj]
    by_cases hij : i = j
    · subst hij
      rw [if_pos rfl]
      refine ⟨_, rfl, ?_⟩
      dsimp only
      have hne : IsManipulationGrip g.GripCollisionType = true →
          g.GripCollisionType ≠ .InteractiveHybridCollisionWithPhysics := by
        intro hm hc
        rw [hc] at hm
        exact absurd hm (by decide)
      split
      · rename_i hv
        refine ⟨rfl, rfl, rfl, rfl, ?_, fun hc => absurd rfl hc⟩
        intro _ hv2
        rw [hv2] at hv
        cases hv
      · split
        · rename_i hm
          split
          · refine ⟨rfl, rfl, rfl, rfl, ?_, fun hc => absurd rfl hc⟩
            intro _ _
            rw [if_neg (hne hm), mul_one]
            exact ⟨rfl, rfl⟩
          · refine ⟨rfl, rfl, rfl, rfl, ?_, fun hc => absurd rfl hc⟩
            intro _ _
            rw [if_neg (hne hm), mul_one]
            exact ⟨rfl, rfl⟩
        · refine ⟨rfl, rfl, rfl, rfl, ?_, fun hc => absurd rfl hc⟩
          intro _ _
          exact ⟨rfl, rfl⟩
    · rw [if_neg hij]
      refine ⟨h, rfl, rfl, rfl, rfl, rfl, ?_, fun _ => rfl⟩
      intro hc
      exact absurd (Option.some.inj hc) hij

theorem WriteStiffnessAndDamping_fields (S D : ℚ) (bA : Bool) (AS AD : ℚ)
    (r : FBPActorGripInformation) :
    (WriteStiffnessAndDamping S D bA AS AD r).Stiffness = S ∧
    (WriteStiffnessAndDamping S D bA AS AD r).Damping = D ∧
    (WriteStiffnessAndDamping S D bA AS AD r).Key = r.Key ∧
    (WriteStiffnessAndDamping S D bA AS AD r).GripCollisionType = r.GripCollisionType ∧
    (WriteStiffnessAndDamping S D bA AS AD r).GripMovementReplicationSetting =
      r.GripMovementReplicationSetting := by
  unfold WriteStiffnessAndDamping
  cases bA <;> exact ⟨rfl, rfl, rfl, rfl, rfl⟩

/-- The handle lookup reads the handle table and the key of the grip only. -/
theorem GetPhysicsGripIndex_congr {st st2 : State} {g g2 : FBPActorGripInformation}
    (hP : st2.PhysicsGrips = st.PhysicsGrips) (hK : g2.Key = g.Key) :
    GetPhysicsGripIndex st2 g2 = GetPhysicsGripIndex st g := by
  unfold GetPhysicsGripIndex
  rw [hP, EqualsGrip_congr hK]

/-- The retuning after the record was rewritten: the shape of the handle table
in terms of the state before, for a state with the same handle table and a
written record with the key and collision type of the requested grip. -/
theorem retune_written (st st1 : State) (Grip old : FBPActorGripInformation) (S D : ℚ) (bA : Bool)
    (AS AD : ℚ) (hP : st1.PhysicsGrips = st.PhysicsGrips) (hE : old.Equals Grip = true) :
    (SetGripConstraintStiffnessAndDamping st1 (WriteStiffnessAndDamping S D bA AS AD old)
        false).2.PhysicsGrips.length = st.PhysicsGrips.length ∧
    ∀ (j : Nat) (h : FBPActorPhysicsHandleInformation), st.PhysicsGrips[j]? = some h →
      ∃ h2, (SetGripConstraintStiffnessAndDamping st1 (WriteStiffnessAndDamping S D bA AS AD old)
          false).2.PhysicsGrips[j]? = some h2 ∧
        h2.HandledObject = h.HandledObject ∧ h2.GripID = h.GripID ∧
        h2.bKinActorValid = h.bKinActorValid ∧ h2.bHandleDataValid = h.bHandleDataValid ∧
        (GetPhysicsGripIndex st Grip = some j → h.bHandleDataValid = true →
          h2.LinStiffness = S *
              (if old.GripCollisionType = .InteractiveHybridCollisionWithPhysics
                then HYBRID_PHYSICS_GRIP_MULTIPLIER else 1) ∧
            h2.LinDamping = D) ∧
        (GetPhysicsGripIndex st Grip ≠ some j → h2 = h) := by
  have hW := WriteStiffnessAndDamping_fields S D bA AS AD old
  have hK : (WriteStiffnessAndDamping S D bA AS AD old).Key = Grip.Key :=
    hW.2.2.1.trans ((Equals_iff _ _).mp hE).2
  have hI : GetPhysicsGripIndex st1 (WriteStiffnessAndDamping S D bA AS AD old) =
      GetPhysicsGripIndex st Grip := GetPhysicsGripIndex_congr hP hK
  have hH := SetGripConstraintStiffnessAndDamping_handles st1
    (WriteStiffnessAndDamping S D bA AS AD old) false
  rw [hP, hI, hW.1, hW.2.1, hW.2.2.2.1] at hH
  exact hH

theorem ModifyAt_of_some {α : Type} {l : List α} {i : Nat} {a : α} (f : α → α)
    (h : l[i]? = some a) :
    ModifyAt l i f = l.set i (f a) ∧ (ModifyAt l i f)[i]? = some (f a) := by
  have hE : ModifyAt l i f = l.set i (f a) := by
    unfold ModifyAt
    rw [h]
  refine ⟨hE, ?_⟩
  rw [ModifyAt_getElem?, if_pos rfl, h]
  rfl

/-- The result of `SetGripStiffnessAndDamping` for a grip found in the
replicated array. -/
theorem SetGripStiffnessAndDamping_replicated (env : Env) (st : State)
    (Grip old : FBPActorGripInformation) (S D : ℚ) (bA : Bool) (AS AD : ℚ) (i : Nat)
    (hF : FindGrip st.GrippedObjects Grip = some i) (hO : st.GrippedObjects[i]? = some old) :
    SetGripStiffnessAndDamping env st Grip S D bA AS AD =
      (true, (SetGripConstraintStiffnessAndDamping
        { st with GrippedObjects := st.GrippedObjects.set i (WriteStiffnessAndDamping S D bA AS AD old) }
        (WriteStiffnessAndDamping S D bA AS AD old) false).2) := by
  have hM := ModifyAt_of_some (WriteStiffnessAndDamping S D bA AS AD) hO
  unfold SetGripStiffnessAndDamping
  simp only [hF]
  rw [hM.2]
  simp only []
  rw [hM.1]

/-- The result of `SetGripStiffnessAndDamping` for a grip found in the
predicted array only: the state the retuning starts from differs from the
written one by the trace at most. -/
theorem SetGripStiffnessAndDamping_local (env : Env) (st : State)
    (Grip old : FBPActorGripInformation) (S D : ℚ) (bA : Bool) (AS AD : ℚ) (i : Nat)
    (hN : FindGrip st.GrippedObjects Grip = none)
    (hF : FindGrip st.LocallyGrippedObjects Grip = some i)
    (hO : st.LocallyGrippedObjects[i]? = some old) :
    ∃ st2 : State, st2.PhysicsGrips = st.PhysicsGrips ∧ st2.GrippedObjects = st.GrippedObjects ∧
      st2.LocallyGrippedObjects =
        st.LocallyGrippedObjects.set i (WriteStiffnessAndDamping S D bA AS AD old) ∧
      SetGripStiffnessAndDamping env st Grip S D bA AS AD =
        (true, (SetGripConstraintStiffnessAndDamping st2
          (WriteStiffnessAndDamping S D bA AS AD old) false).2) := by
  have hM := ModifyAt_of_some (WriteStiffnessAndDamping S D bA AS AD) hO
  unfold SetGripStiffnessAndDamping
  simp only [hN, hF]
  rw [hM.2]
  simp only []
  rw [hM.1]
  split
  · exact ⟨State.Emit { st with LocallyGrippedObjects :=
        st.LocallyGrippedObjects.set i (WriteStiffnessAndDamping S D bA AS AD old) }
      (.Server_NotifyLocalGripAddedOrChanged (WriteStiffnessAndDamping S D bA AS AD old)),
      rfl, rfl, rfl, rfl⟩
  · exact ⟨{ st with LocallyGrippedObjects :=
        st.LocallyGrippedObjects.set i (WriteStiffnessAndDamping S D bA AS AD old) },
      rfl, rfl, rfl, rfl⟩

/-! ## Retuning a held grip -/

/-- Counterexample to C12 as stated: the sample controller holds a hybrid
physics grip with a valid handle; `SetGripStiffnessAndDamping` with the new
stiffness 3000 and the new damping 200 succeeds and leaves the linear drive of
the handle at stiffness 30000, the new value times the hybrid multiplier, not
at 3000. -/
theorem hybrid_grip_retunes_to_multiplied_stiffness :
    (SetGripStiffnessAndDamping Sample.Server Sample.HybridHolding Sample.HybridGrip
      3000 200 false 0 0).1 = true ∧
    (SetGripStiffnessAndDamping Sample.Server Sample.HybridHolding Sample.HybridGrip
      3000 200 false 0 0).2.PhysicsGrips.map (fun h => (h.LinStiffness, h.LinDamping)) =
      [(30000, 200)] ∧
    (30000 : ℚ) ≠ 3000 := by
  refine ⟨by decide, ?_, by norm_num⟩
  have hE : (SetGripStiffnessAndDamping Sample.Server Sample.HybridHolding Sample.HybridGrip
      3000 200 false 0 0).2.PhysicsGrips.map (fun h => (h.LinStiffness, h.LinDamping)) =
      [(3000 * HYBRID_PHYSICS_GRIP_MULTIPLIER, 200)] := rfl
  rw [hE]
  norm_num [HYBRID_PHYSICS_GRIP_MULTIPLIER]

/-- C12 (amended): `SetGripStiffnessAndDamping` for a grip found in neither
array reports failure and changes nothing. For a grip found in the replicated
array, or else in the predicted one, it succeeds, stores the new stiffness and
damping in the found record in its slot and leaves the other array alone;
`PhysicsGrips` keeps its number of entries and every handle keeps its key,
kinematic actor and constraint; the first handle of the grip, when its
constraint is valid, gets the new damping and, for a record that is not a
hybrid physics grip, the new stiffness; every other handle is unchanged. -/
theorem set_stiffness_and_damping_retunes_in_place (env : Env) (st : State)
    (Grip : FBPActorGripInformation) (S D : ℚ) (bA : Bool) (AS AD : ℚ) :
    (FindGrip st.GrippedObjects Grip = none → FindGrip st.LocallyGrippedObjects Grip = none →
      SetGripStiffnessAndDamping env st Grip S D bA AS AD = (false, st)) ∧
    ∀ (b : Bool) (i : Nat),
      ((b = true ∧ FindGrip st.GrippedObjects Grip = some i) ∨
        (b = false ∧ FindGrip st.GrippedObjects Grip = none ∧
          FindGrip st.LocallyGrippedObjects Grip = some i)) →
      ∃ old, (st.GripArray b)[i]? = some old ∧ old.Equals Grip = true ∧
        (SetGripStiffnessAndDamping env st Grip S D bA AS AD).1 = true ∧
        (SetGripStiffnessAndDamping env st Grip S D bA AS AD).2.GripArray b =
          (st.GripArray b).set i (WriteStiffnessAndDamping S D bA AS AD old) ∧
        (WriteStiffnessAndDamping S D bA AS AD old).Stiffness = S ∧
        (WriteStiffnessAndDamping S D bA AS AD old).Damping = D ∧
        (SetGripStiffnessAndDamping env st Grip S D bA AS AD).2.GripArray (!b) =
          st.GripArray (!b) ∧
        (SetGripStiffnessAndDamping env st Grip S D bA AS AD).2.PhysicsGrips.length =
          st.PhysicsGrips.length ∧
        ∀ (j : Nat) (h : FBPActorPhysicsHandleInformation), st.PhysicsGrips[j]? = some h →
          ∃ h2, (SetGripStiffnessAndDamping env st Grip S D bA AS AD).2.PhysicsGrips[j]? =
              some h2 ∧
            h2.HandledObject = h.HandledObject ∧ h2.GripID = h.GripID ∧
            h2.bKinActorValid = h.bKinActorValid ∧ h2.bHandleDataValid = h.bHandleDataValid ∧
            (GetPhysicsGripIndex st Grip = some j → h.bHandleDataValid = true →
              h2.LinDamping = D ∧
                (old.GripCollisionType ≠ .InteractiveHybridCollisionWithPhysics →
                  h2.LinStiffness = S)) ∧
            (GetPhysicsGripIndex st Grip ≠ some j → h2 = h) := by
  refine ⟨?_, ?_⟩
  · intro h1 h2
    unfold SetGripStiffnessAndDamping
    simp only [h1, h2]
  · intro b i hFound
    have hW := fun old => WriteStiffnessAndDamping_fields S D bA AS AD old
    have hPlain : ∀ (old : FBPActorGripInformation) (P : ℕ → FBPActorPhysicsHandleInformation →
        FBPActorPhysicsHandleInformation → Prop),
        (∀ (j : Nat) (h : FBPActorPhysicsHandleInformation), st.PhysicsGrips[j]? = some h →
          ∃ h2, P j h h2 ∧
            h2.HandledObject = h.HandledObject ∧ h2.GripID = h.GripID ∧
            h2.bKinActorValid = h.bKinActorValid ∧ h2.bHandleDataValid = h.bHandleDataValid ∧
            (GetPhysicsGripIndex st Grip = some j → h.bHandleDataValid = true →
              h2.LinStiffness = S *
                  (if old.GripCollisionType = .InteractiveHybridCollisionWithPhysics
                    then HYBRID_PHYSICS_GRIP_MULTIPLIER else 1) ∧
                h2.LinDamping = D) ∧
            (GetPhysicsGripIndex st Grip ≠ some j → h2 = h)) →
        ∀ (j : Nat) (h : FBPActorPhysicsHandleInformation), st.PhysicsGrips[j]? = some h →
          ∃ h2, P j h h2 ∧
            h2.HandledObject = h.HandledObject ∧ h2.GripID = h.GripID ∧
            h2.bKinActorValid = h.bKinActorValid ∧ h2.bHandleDataValid = h.bHandleDataValid ∧
            (GetPhysicsGripIndex st Grip = some j → h.bHandleDataValid = true →
              h2.LinDamping = D ∧
                (old.GripCollisionType ≠ .InteractiveHybridCollisionWithPhysics →
                  h2.LinStiffness = S)) ∧
            (GetPhysicsGripIndex st Grip ≠ some j → h2 = h) := by
      intro old P hAll j h hj
      obtain ⟨h2, a1, a2, a3, a4, a5, a6, a7⟩ := hAll j h hj
      refine ⟨h2, a1, a2, a3, a4, a5, ?_, a7⟩
      intro hI hV
      refine ⟨(a6 hI hV).2, fun hne => ?_⟩
      rw [(a6 hI hV).1, if_neg hne, mul_one]
    rcases hFound with ⟨hb, hF⟩ | ⟨hb, hN, hF⟩
    · subst hb
      obtain ⟨old, hO, hE⟩ := FindGrip_some hF
      have hR := SetGripStiffnessAndDamping_replicated env st Grip old S D bA AS AD i hF hO
      have hS := SameRecords_retune
        { st with GrippedObjects := st.GrippedObjects.set i (WriteStiffnessAndDamping S D bA AS AD old) }
        (WriteStiffnessAndDamping S D bA AS AD old) false
      have hH := retune_written st
        { st with GrippedObjects := st.GrippedObjects.set i (WriteStiffnessAndDamping S D bA AS AD old) }
        Grip old S D bA AS AD rfl hE
      rw [hR]
      exact ⟨old, hO, hE, rfl, hS.1, (hW old).1, (hW old).2.1, hS.2.1, hH.1,
        hPlain old (fun j _ h2 => (SetGripConstraintStiffnessAndDamping _ _ false).2.PhysicsGrips[j]? =
          some h2) hH.2⟩
    · subst hb
      obtain ⟨old, hO, hE⟩ := FindGrip_some hF
      obtain ⟨st2, hP, hG, hL, hR⟩ :=
        SetGripStiffnessAndDamping_local env st Grip old S D bA AS AD i hN hF hO
      have hS := SameRecords_retune st2 (WriteStiffnessAndDamping S D bA AS AD old) false
      have hH := retune_written st st2 Grip old S D bA AS AD hP hE
      rw [hR]
      exact ⟨old, hO, hE, rfl, hS.2.1.trans hL, (hW old).1, (hW old).2.1, hS.1.trans hG,
        hH.1, hPlain old (fun j _ h2 =>
          (SetGripConstraintStiffnessAndDamping _ _ false).2.PhysicsGrips[j]? = some h2) hH.2⟩

/-- Witness for C12: the hybrid physics grip of the sample controller, found in
the replicated array at slot 0. -/
theorem set_stiffness_and_damping_retunes_in_place_witness :
    ∃ old, (Sample.HybridHolding.GripArray true)[0]? = some old ∧
      (SetGripStiffnessAndDamping Sample.Server Sample.HybridHolding Sample.HybridGrip
        3000 200 false 0 0).1 = true ∧
      (SetGripStiffnessAndDamping Sample.Server Sample.HybridHolding Sample.HybridGrip
        3000 200 false 0 0).2.PhysicsGrips.length = Sample.HybridHolding.PhysicsGrips.length := by
  obtain ⟨old, hO, _, h1, _, _, _, _, hlen, _⟩ :=
    (set_stiffness_and_damping_retunes_in_place Sample.Server Sample.HybridHolding
      Sample.HybridGrip 3000 200 false 0 0).2 true 0 (Or.inl ⟨rfl, by decide⟩)
  exact ⟨old, hO, h1, hlen⟩

/-! ## Auxiliary facts: secondary attachments -/

/-- The two grip arrays and the handle table of a state. -/
theorem GripArray_congr {st st2 : State} (hG : st2.GrippedObjects = st.GrippedObjects)
    (hL : st2.LocallyGrippedObjects = st.LocallyGrippedObjects) (b : Bool) :
    st2.GripArray b = st.GripArray b := by
  unfold State.GripArray
  rw [hG, hL]

theorem EmitPerScript_arrays (Scripts : List (Option UVRGripScriptBase)) (e : Event) (st : State) :
    (EmitPerScript st Scripts e).GrippedObjects = st.GrippedObjects ∧
    (EmitPerScript st Scripts e).LocallyGrippedObjects = st.LocallyGrippedObjects ∧
    (EmitPerScript st Scripts e).PhysicsGrips = st.PhysicsGrips := by
  unfold EmitPerScript
  induction Scripts generalizing st with
  | nil => exact ⟨rfl, rfl, rfl⟩
  | cons s t ih =>
    rw [List.foldl_cons]
    by_cases hs : s.isSome = true
    · rw [if_pos hs]
      exact ih (st.Emit e)
    · rw [if_neg hs]
      exact ih st

theorem ModifySlot_arrays (st : State) (b : Bool) (i : Nat)
    (f : FBPActorGripInformation → FBPActorGripInformation) :
    (st.ModifySlot b i f).GripArray b = ModifyAt (st.GripArray b) i f ∧
    (st.ModifySlot b i f).GripArray (!b) = st.GripArray (!b) ∧
    (st.ModifySlot b i f).PhysicsGrips = st.PhysicsGrips := by
  unfold State.ModifySlot State.GripArray
  cases b <;> exact ⟨rfl, rfl, rfl⟩

/-- A found slot means the arrays are not both empty. -/
theorem not_both_empty {st : State} {b : Bool} {i : Nat} {g : FBPActorGripInformation}
    (h : (st.GripArray b)[i]? = some g) :
    (st.GrippedObjects.isEmpty && st.LocallyGrippedObjects.isEmpty) = false := by
  unfold State.GripArray at h
  cases b
  · simp only [Bool.false_eq_true, if_false] at h
    cases hl : st.LocallyGrippedObjects with
    | nil => rw [hl] at h; simp at h
    | cons a t => simp
  · simp only [if_true] at h
    cases hl : st.GrippedObjects with
    | nil => rw [hl] at h; simp at h
    | cons a t => simp

/-- The result of `RemoveSecondaryAttachmentFromGrip` for a valid request whose
ID is found: it reports success, the found slot holds the record after the
release writes with the attachment cleared, and the other array and the handle
table are as before. -/
theorem RemoveSecondaryAttachmentFromGrip_found (env : Env) (w : World) (st : State)
    (Grip GripToUse : FBPActorGripInformation) (LerpToTime : ℚ) (Slot : Bool × Nat)
    (Object : UObject) (hObj : Grip.GrippedObject.isSome = true)
    (hID : Grip.GripID ≠ INVALID_VRGRIP_ID)
    (hLoc : LocateGripByID env st Grip.GripID = some Slot)
    (hRec : (st.GripArray Slot.1)[Slot.2]? = some GripToUse)
    (hO : GripToUse.GrippedObject = some Object) :
    (RemoveSecondaryAttachmentFromGrip env w st Grip LerpToTime).1 = true ∧
    (RemoveSecondaryAttachmentFromGrip env w st Grip LerpToTime).2.GripArray Slot.1 =
      (st.GripArray Slot.1).set Slot.2 (ClearSecondaryAttachment
        (WriteSecondaryRelease w st (GripTargetPrimitive w GripToUse)
          (if (w.Objects Object).bImplementsGripInterface then (w.Objects Object).SecondaryGripType
            else .SG_None) LerpToTime GripToUse)) ∧
    (RemoveSecondaryAttachmentFromGrip env w st Grip LerpToTime).2.GripArray (!Slot.1) =
      st.GripArray (!Slot.1) ∧
    (RemoveSecondaryAttachmentFromGrip env w st Grip LerpToTime).2.PhysicsGrips =
      st.PhysicsGrips := by
  have hN : Grip.GrippedObject.isNone = false := by
    cases hg : Grip.GrippedObject with
    | none => rw [hg] at hObj; cases hObj
    | some o => rfl
  have hI : (Grip.GripID == INVALID_VRGRIP_ID) = false := by
    simpa using hID
  have hE := not_both_empty hRec
  obtain ⟨b, i⟩ := Slot
  -- the state after the two slot writes, whatever was emitted in between
  have key : ∀ (st2 st4 : State)
      (h2G : st2.GrippedObjects = (st.ModifySlot b i (WriteSecondaryRelease w st
        (GripTargetPrimitive w GripToUse)
        (if (w.Objects Object).bImplementsGripInterface
          then (w.Objects Object).SecondaryGripType else .SG_None) LerpToTime)).GrippedObjects)
      (h2L : st2.LocallyGrippedObjects = (st.ModifySlot b i (WriteSecondaryRelease w st
        (GripTargetPrimitive w GripToUse)
        (if (w.Objects Object).bImplementsGripInterface
          then (w.Objects Object).SecondaryGripType else .SG_None) LerpToTime)).LocallyGrippedObjects)
      (h2P : st2.PhysicsGrips = st.PhysicsGrips)
      (h4 : st4 = st2.ModifySlot b i ClearSecondaryAttachment ∨
        ∃ e, st4 = State.Emit (st2.ModifySlot b i ClearSecondaryAttachment) e),
      st4.GripArray b = (st.GripArray b).set i (ClearSecondaryAttachment
        (WriteSecondaryRelease w st (GripTargetPrimitive w GripToUse)
          (if (w.Objects Object).bImplementsGripInterface then (w.Objects Object).SecondaryGripType
            else .SG_None) LerpToTime GripToUse)) ∧
      st4.GripArray (!b) = st.GripArray (!b) ∧ st4.PhysicsGrips = st.PhysicsGrips := by
    intro st2 st4 h2G h2L h2P h4
    have h4G : st4.GrippedObjects = (st2.ModifySlot b i ClearSecondaryAttachment).GrippedObjects := by
      rcases h4 with h | ⟨e, h⟩
      · rw [h]
      · rw [h]; rfl
    have h4L : st4.LocallyGrippedObjects =
        (st2.ModifySlot b i ClearSecondaryAttachment).LocallyGrippedObjects := by
      rcases h4 with h | ⟨e, h⟩
      · rw [h]
      · rw [h]; rfl
    have h4P : st4.PhysicsGrips = st2.PhysicsGrips := by
      rcases h4 with h | ⟨e, h⟩ <;> rw [h]
      · exact (ModifySlot_arrays _ _ _ _).2.2
      · exact (ModifySlot_arrays st2 b i ClearSecondaryAttachment).2.2
    have hA1 := ModifySlot_arrays st b i (WriteSecondaryRelease w st
      (GripTargetPrimitive w GripToUse)
      (if (w.Objects Object).bImplementsGripInterface
        then (w.Objects Object).SecondaryGripType else .SG_None) LerpToTime)
    have hA2 := ModifySlot_arrays st2 b i ClearSecondaryAttachment
    have h21 := GripArray_congr h2G h2L
    have h43 := GripArray_congr h4G h4L
    have hM1 := ModifyAt_of_some (WriteSecondaryRelease w st (GripTargetPrimitive w GripToUse)
      (if (w.Objects Object).bImplementsGripInterface
        then (w.Objects Object).SecondaryGripType else .SG_None) LerpToTime) hRec
    refine ⟨?_, ?_, h4P.trans h2P⟩
    · rw [h43 b, hA2.1, h21 b, hA1.1]
      rw [(ModifyAt_of_some ClearSecondaryAttachment hM1.2).1, hM1.1, List.set_set]
    · rw [h43 (!b), hA2.2.1, h21 (!b), hA1.2.1]
  unfold RemoveSecondaryAttachmentFromGrip
  rw [hN, hI, hE]
  simp only [Bool.or_self, Bool.false_eq_true, if_false, hLoc, hRec, hO]
  refine ⟨trivial, ?_⟩
  by_cases hInt : (w.Objects Object).bImplementsGripInterface = true
  · simp only [hInt, if_true]
    simp only [hInt, if_true] at key
    apply key
    rotate_left 3
    · repeat' split
      all_goals first | exact Or.inl rfl | exact Or.inr ⟨_, rfl⟩
    · exact (EmitPerScript_arrays _ _ _).1
    · exact (EmitPerScript_arrays _ _ _).2.1
    · exact (EmitPerScript_arrays _ _ _).2.2.trans (ModifySlot_arrays _ _ _ _).2.2
  · simp only [hInt, Bool.false_eq_true, if_false]
    simp only [hInt, Bool.false_eq_true, if_false] at key
    apply key
    rotate_left 3
    · repeat' split
      all_goals first | exact Or.inl rfl | exact Or.inr ⟨_, rfl⟩
    · rfl
    · rfl
    · exact (ModifySlot_arrays _ _ _ _).2.2

/-- The slot a successful `RemoveSecondaryAttachmentFromGrip` wrote holds the
released record with the attachment cleared. -/
theorem RemoveSecondaryAttachmentFromGrip_slot (env : Env) (w : World) (st : State)
    (Grip GripToUse : FBPActorGripInformation) (LerpToTime : ℚ) (Slot : Bool × Nat)
    (Object : UObject) (hObj : Grip.GrippedObject.isSome = true)
    (hID : Grip.GripID ≠ INVALID_VRGRIP_ID)
    (hLoc : LocateGripByID env st Grip.GripID = some Slot)
    (hRec : (st.GripArray Slot.1)[Slot.2]? = some GripToUse)
    (hO : GripToUse.GrippedObject = some Object) :
    ((RemoveSecondaryAttachmentFromGrip env w st Grip LerpToTime).2.GripArray Slot.1)[Slot.2]? =
      some (ClearSecondaryAttachment
        (WriteSecondaryRelease w st (GripTargetPrimitive w GripToUse)
          (if (w.Objects Object).bImplementsGripInterface then (w.Objects Object).SecondaryGripType
            else .SG_None) LerpToTime GripToUse)) := by
  rw [(RemoveSecondaryAttachmentFromGrip_found env w st Grip GripToUse LerpToTime Slot Object
    hObj hID hLoc hRec hO).2.1]
  have hlt : Slot.2 < (st.GripArray Slot.1).length := by
    by_contra hge
    rw [List.getElem?_eq_none (Nat.le_of_not_lt hge)] at hRec
    cases hRec
  rw [List.getElem?_set_self hlt]

/-- The release writes for a style that does not retain leave the relative
transform of the record alone. -/
theorem WriteSecondaryRelease_not_retained (w : World) (st : State) (primComp : Option UObject)
    (t : ESecondaryGripType) (LerpToTime : ℚ) (r : FBPActorGripInformation)
    (ht : t.RetainsOnRelease = false) :
    (WriteSecondaryRelease w st primComp t LerpToTime r).RelativeTransform = r.RelativeTransform := by
  unfold WriteSecondaryRelease
  simp only [ht]
  cases primComp with
  | none => rfl
  | some p =>
    simp only [Bool.false_eq_true, if_false]
    repeat' split
    all_goals rfl

/-- The refusal of `AddSecondaryAttachmentToGrip` for an interfaced target of
style `SG_None`. -/
theorem AddSecondaryAttachmentToGrip_none (env : Env) (w : World) (st : State)
    (Grip GripToUse : FBPActorGripInformation) (Slot : Bool × Nat) (Object : UObject)
    (hLoc : LocateGripByID env st Grip.GripID = some Slot)
    (hRec : (st.GripArray Slot.1)[Slot.2]? = some GripToUse)
    (hO : GripToUse.GrippedObject = some Object)
    (hInt : (w.Objects Object).bImplementsGripInterface = true)
    (hNone : (w.Objects Object).SecondaryGripType = .SG_None)
    (SecondaryPointComponent : Option UObject) (T : FTransform) (bRel : Bool) (LerpToTime : ℚ)
    (bSlot : Bool) :
    AddSecondaryAttachmentToGrip env w st Grip SecondaryPointComponent T bRel LerpToTime bSlot =
      (false, st) := by
  unfold AddSecondaryAttachmentToGrip
  cases SecondaryPointComponent with
  | none => rfl
  | some c =>
    simp only []
    split
    · rfl
    · simp only [hLoc, hRec, hO, hInt, hNone]
      rfl

/-! ## The secondary grip style `SG_None` -/

/-- Counterexample to C14 as stated: the sample controller holds the component
`3`, whose interface declares `SG_None`, with a secondary attachment;
`RemoveSecondaryAttachmentFromGrip` returns true and the record loses its
attachment. -/
theorem remove_secondary_succeeds_on_style_none :
    ((Sample.SecondaryScene .SG_None).Objects 3).bImplementsGripInterface = true ∧
    ((Sample.SecondaryScene .SG_None).Objects 3).SecondaryGripType = .SG_None ∧
    (RemoveSecondaryAttachmentFromGrip Sample.Server (Sample.SecondaryScene .SG_None)
      (Sample.HoldingComponent .NotLerping) (Sample.ComponentGrip .NotLerping) 0).1 = true ∧
    (Sample.HoldingComponent .NotLerping).GrippedObjects.map
      (fun r => r.SecondaryGripInfo.bHasSecondaryAttachment) = [true] ∧
    (RemoveSecondaryAttachmentFromGrip Sample.Server (Sample.SecondaryScene .SG_None)
      (Sample.HoldingComponent .NotLerping) (Sample.ComponentGrip .NotLerping) 0).2.GrippedObjects.map
      (fun r => r.SecondaryGripInfo.bHasSecondaryAttachment) = [false] := by
  refine ⟨by decide, by decide, by decide, by decide, by decide⟩

/-- C14 (amended): for a held grip whose gripped object implements the grip
interface and declares the secondary grip type `SG_None`,
`AddSecondaryAttachmentToGrip` returns false and leaves the state unchanged;
`RemoveSecondaryAttachmentFromGrip` makes no such check: for a valid request
it returns true and the record keeps its relative transform and has its
secondary attachment cleared. -/
theorem secondary_attachment_on_style_none (env : Env) (w : World) (st : State)
    (Grip GripToUse : FBPActorGripInformation) (LerpToTime : ℚ) (Slot : Bool × Nat)
    (Object : UObject) (hObj : Grip.GrippedObject.isSome = true)
    (hID : Grip.GripID ≠ INVALID_VRGRIP_ID)
    (hLoc : LocateGripByID env st Grip.GripID = some Slot)
    (hRec : (st.GripArray Slot.1)[Slot.2]? = some GripToUse)
    (hO : GripToUse.GrippedObject = some Object)
    (hInt : (w.Objects Object).bImplementsGripInterface = true)
    (hNone : (w.Objects Object).SecondaryGripType = .SG_None) :
    (∀ (SecondaryPointComponent : Option UObject) (T : FTransform) (bRel bSlot : Bool),
      AddSecondaryAttachmentToGrip env w st Grip SecondaryPointComponent T bRel LerpToTime bSlot =
        (false, st)) ∧
    (RemoveSecondaryAttachmentFromGrip env w st Grip LerpToTime).1 = true ∧
    ∃ r, ((RemoveSecondaryAttachmentFromGrip env w st Grip LerpToTime).2.GripArray Slot.1)[Slot.2]? =
        some r ∧
      r.SecondaryGripInfo.bHasSecondaryAttachment = false ∧
      r.SecondaryGripInfo.SecondaryAttachment = none ∧
      r.RelativeTransform = GripToUse.RelativeTransform := by
  refine ⟨fun c T bRel bSlot => AddSecondaryAttachmentToGrip_none env w st Grip GripToUse Slot
      Object hLoc hRec hO hInt hNone c T bRel LerpToTime bSlot,
    (RemoveSecondaryAttachmentFromGrip_found env w st Grip GripToUse LerpToTime Slot Object
      hObj hID hLoc hRec hO).1, _,
    RemoveSecondaryAttachmentFromGrip_slot env w st Grip GripToUse LerpToTime Slot Object
      hObj hID hLoc hRec hO, rfl, rfl, ?_⟩
  rw [hInt, if_pos rfl, hNone]
  exact WriteSecondaryRelease_not_retained w st _ .SG_None LerpToTime GripToUse rfl

/-- Witness for C14: the sample controller holding the component `3`, whose
interface declares `SG_None`. -/
theorem secondary_attachment_on_style_none_witness :
    (∀ (SecondaryPointComponent : Option UObject) (T : FTransform) (bRel bSlot : Bool),
      AddSecondaryAttachmentToGrip Sample.Server (Sample.SecondaryScene .SG_None)
        (Sample.HoldingComponent .NotLerping) (Sample.ComponentGrip .NotLerping)
        SecondaryPointComponent T bRel 0 bSlot = (false, Sample.HoldingComponent .NotLerping)) ∧
    (RemoveSecondaryAttachmentFromGrip Sample.Server (Sample.SecondaryScene .SG_None)
      (Sample.HoldingComponent .NotLerping) (Sample.ComponentGrip .NotLerping) 0).1 = true :=
  have h := secondary_attachment_on_style_none Sample.Server (Sample.SecondaryScene .SG_None)
    (Sample.HoldingComponent .NotLerping) (Sample.ComponentGrip .NotLerping)
    (Sample.ComponentGrip .NotLerping) 0 (true, 0) 3 rfl (by decide) (by decide) rfl rfl
    (by decide) (by decide)
  ⟨h.1, h.2.1⟩

/-! ## The secondary retention policy -/

/-- Counterexample to C13 as stated: the sample controller holds the component
`3`, whose interface declares a style that does not retain, and the record is
still blending in (`StartLerp`); `RemoveSecondaryAttachmentFromGrip` with
`LerpToTime = 1` succeeds and begins no blend back: the record is left in
`StartLerp`, not `EndLerp`. -/
theorem remove_secondary_while_blending_in_starts_no_blend_back :
    (ESecondaryGripType.Other 0).RetainsOnRelease = false ∧
    (RemoveSecondaryAttachmentFromGrip Sample.Server (Sample.SecondaryScene (.Other 0))
      (Sample.HoldingComponent .StartLerp) (Sample.ComponentGrip .StartLerp) 1).1 = true ∧
    (RemoveSecondaryAttachmentFromGrip Sample.Server (Sample.SecondaryScene (.Other 0))
      (Sample.HoldingComponent .StartLerp) (Sample.ComponentGrip .StartLerp) 1).2.GrippedObjects.map
      (fun r => r.SecondaryGripInfo.GripLerpState) = [.StartLerp] := by
  refine ⟨by decide, by decide, by decide⟩

/-- C13 (amended): `RemoveSecondaryAttachmentFromGrip` for a valid request on a
held grip whose target implements the grip interface and resolves to a
primitive: for the styles the code retains (`SG_FreeWithScaling_Retain`,
`SG_SlotOnlyWithScaling_Retain`, `SG_Free_Retain`, `SG_SlotOnly_Retain`,
`SG_ScalingOnly`) the record gets the component transform of the primitive
relative to the pivot transform as its `RelativeTransform` and ends any blend
(`NotLerping`); for every other style the `RelativeTransform` is unchanged
and, given `LerpToTime > 0` and a record that is not in `StartLerp`, a timed
blend back begins (`EndLerp` with `curLerp = LerpToRate = LerpToTime`). -/
theorem remove_secondary_retention_policy (env : Env) (w : World) (st : State)
    (Grip GripToUse : FBPActorGripInformation) (LerpToTime : ℚ) (Slot : Bool × Nat)
    (Object p : UObject) (hObj : Grip.GrippedObject.isSome = true)
    (hID : Grip.GripID ≠ INVALID_VRGRIP_ID)
    (hLoc : LocateGripByID env st Grip.GripID = some Slot)
    (hRec : (st.GripArray Slot.1)[Slot.2]? = some GripToUse)
    (hO : GripToUse.GrippedObject = some Object)
    (hInt : (w.Objects Object).bImplementsGripInterface = true)
    (hp : GripTargetPrimitive w GripToUse = some p) :
    (RemoveSecondaryAttachmentFromGrip env w st Grip LerpToTime).1 = true ∧
    ∃ r, ((RemoveSecondaryAttachmentFromGrip env w st Grip LerpToTime).2.GripArray Slot.1)[Slot.2]? =
        some r ∧
      ((w.Objects Object).SecondaryGripType.RetainsOnRelease = true →
        r.RelativeTransform =
          (w.Objects p).ComponentTransform.GetRelativeTransform (GetPivotTransform w st) ∧
        r.SecondaryGripInfo.GripLerpState = .NotLerping) ∧
      ((w.Objects Object).SecondaryGripType.RetainsOnRelease = false →
        r.RelativeTransform = GripToUse.RelativeTransform ∧
        (LerpToTime > 0 → GripToUse.SecondaryGripInfo.GripLerpState ≠ .StartLerp →
          r.SecondaryGripInfo.GripLerpState = .EndLerp ∧
          r.SecondaryGripInfo.curLerp = LerpToTime ∧
          r.SecondaryGripInfo.LerpToRate = LerpToTime)) := by
  refine ⟨(RemoveSecondaryAttachmentFromGrip_found env w st Grip GripToUse LerpToTime Slot Object
      hObj hID hLoc hRec hO).1, _,
    RemoveSecondaryAttachmentFromGrip_slot env w st Grip GripToUse LerpToTime Slot Object
      hObj hID hLoc hRec hO, ?_, ?_⟩
  · intro hR
    rw [hInt, if_pos rfl, hp]
    simp [WriteSecondaryRelease, ClearSecondaryAttachment, hR]
  · intro hR
    rw [hInt, if_pos rfl, hp]
    refine ⟨WriteSecondaryRelease_not_retained w st _ _ LerpToTime GripToUse hR, ?_⟩
    intro hL hS
    simp [WriteSecondaryRelease, ClearSecondaryAttachment, hR, hS, hL]

/-- Witness for C13: the sample controller holding the component `3`, whose
interface declares `SG_Free_Retain`. -/
theorem remove_secondary_retention_policy_witness :
    (RemoveSecondaryAttachmentFromGrip Sample.Server (Sample.SecondaryScene .SG_Free_Retain)
      (Sample.HoldingComponent .NotLerping) (Sample.ComponentGrip .NotLerping) 1).1 = true :=
  (remove_secondary_retention_policy Sample.Server (Sample.SecondaryScene .SG_Free_Retain)
    (Sample.HoldingComponent .NotLerping) (Sample.ComponentGrip .NotLerping)
    (Sample.ComponentGrip .NotLerping) 1 (true, 0) 3 3 rfl (by decide) (by decide) rfl rfl
    (by decide) (by decide)).1

/-- C30, evaluated on the code: the sample controller holds the component `3`,
whose interface declares a style that does not retain, with the record still
blending in; `RemoveSecondaryAttachmentFromGrip` with `LerpToTime = 0`
succeeds, clears the attachment and leaves the record in `StartLerp`. -/
theorem blend_in_state_outlives_the_attachment :
    (RemoveSecondaryAttachmentFromGrip Sample.Server (Sample.SecondaryScene (.Other 1))
      (Sample.HoldingComponent .StartLerp) (Sample.ComponentGrip .StartLerp) 0).1 = true ∧
    (RemoveSecondaryAttachmentFromGrip Sample.Server (Sample.SecondaryScene (.Other 1))
      (Sample.HoldingComponent .StartLerp) (Sample.ComponentGrip .StartLerp) 0).2.GrippedObjects.map
      (fun r => (r.SecondaryGripInfo.bHasSecondaryAttachment, r.SecondaryGripInfo.SecondaryAttachment,
        r.SecondaryGripInfo.GripLerpState)) = [(false, none, .StartLerp)] := by
  refine ⟨by decide, by decide⟩

/-! ## The invalid-grip notice -/

/-- C15, evaluated on the code: the sample client holds the component `3`,
which has no owner, as a client-authoritative grip, and receives the
invalid-grip notice for it. `DropObjectByInterface` refuses the drop
(`if (!Owner) return false;`) and the handler ignores its answer: the state is
unchanged and the record is still in `LocallyGrippedObjects`, where the claim
has the client drop the object unconditionally. `DropGrip` of the record found,
the fallback `Server_NotifyLocalGripRemoved_Implementation` takes when
`DropObjectByInterface` fails, succeeds here and removes the record. -/
theorem invalid_grip_notice_keeps_ownerless_component :
    GetGripByObject (Sample.HoldingLocally 3) (some 3) =
      some (Sample.Grip 3 129 .ClientSide_Authoritive) ∧
    (DropObjectByInterface Sample.Client (Sample.Scene id) (Sample.HoldingLocally 3) (some 3)
      INVALID_VRGRIP_ID).1 = false ∧
    (Client_NotifyInvalidLocalGrip_Implementation Sample.Client (Sample.Scene id)
      (Sample.HoldingLocally 3) (some 3)).2 = Sample.HoldingLocally 3 ∧
    (Client_NotifyInvalidLocalGrip_Implementation Sample.Client (Sample.Scene id)
      (Sample.HoldingLocally 3) (some 3)).2.LocallyGrippedObjects.map
        (fun r => r.GrippedObject) = [some 3] ∧
    (DropGrip Sample.Client (Sample.Scene id) (Sample.HoldingLocally 3)
      (Sample.Grip 3 129 .ClientSide_Authoritive) false).1 = true ∧
    (DropGrip Sample.Client (Sample.Scene id) (Sample.HoldingLocally 3)
      (Sample.Grip 3 129 .ClientSide_Authoritive) false).2.2.Records = [] := by
  refine ⟨by decide, by decide, rfl, by decide, by decide, by decide⟩

/-- What a successful `GetGripByObject` found: a record of one of the arrays
whose gripped object is the non-null key; it comes from the predicted array
when the replicated one has no record for the key. -/
theorem GetGripByObject_some {st : State} {o : Option UObject} {g : FBPActorGripInformation}
    (h : GetGripByObject st o = some g) :
    o.isSome = true ∧ g.GrippedObject = o ∧ g ∈ st.Records ∧ g.EqualsObject o = true ∧
      FindGripToDrop st o INVALID_VRGRIP_ID = some g ∧
      (FindByObject st.GrippedObjects o = none → g ∈ st.LocallyGrippedObjects) ∧
      (g ∈ st.GrippedObjects ∨ g ∈ st.LocallyGrippedObjects) := by
  unfold GetGripByObject at h
  cases ho : o with
  | none => rw [ho] at h; simp at h
  | some x =>
    rw [ho] at h
    simp only [Option.isNone_some, Bool.false_eq_true, if_false] at h
    have hF : FindGripToDrop st (some x) INVALID_VRGRIP_ID = some g := by
      unfold FindGripToDrop
      simp only [Option.isSome_some, if_true]
      exact h
    have hmem : (g ∈ st.GrippedObjects ∨ g ∈ st.LocallyGrippedObjects) ∧
        g.EqualsObject (some x) = true ∧
        (FindByObject st.GrippedObjects (some x) = none → g ∈ st.LocallyGrippedObjects) := by
      cases hG : FindByObject st.GrippedObjects (some x) with
      | some a =>
        rw [hG] at h
        simp only [Option.orElse] at h
        cases h
        unfold FindByObject at hG
        exact ⟨Or.inl (List.mem_of_find?_eq_some hG), by simpa using List.find?_some hG,
          fun hc => by cases hc⟩
      | none =>
        rw [hG] at h
        simp only [Option.orElse] at h
        unfold FindByObject at h
        exact ⟨Or.inr (List.mem_of_find?_eq_some h), by simpa using List.find?_some h,
          fun _ => List.mem_of_find?_eq_some h⟩
    have hobj : g.GrippedObject = some x := by
      have := hmem.2.1
      unfold FBPActorGripInformation.EqualsObject at this
      simpa using this
    refine ⟨rfl, hobj, ?_, hmem.2.1, hF, hmem.2.2, hmem.1⟩
    unfold State.Records
    rcases hmem.1 with h1 | h1
    · exact List.mem_append_left _ h1
    · exact List.mem_append_right _ h1

/-- A record of a list that is equal to itself is found by `Find`. -/
theorem FindGripRecord_of_mem {l : List FBPActorGripInformation} {g : FBPActorGripInformation}
    (hm : g ∈ l) (hs : g.GrippedObject.isSome = true) : FindGripRecord l g ≠ none := by
  intro hc
  have := (FindGripRecord_eq_none.mp hc) g hm
  have hE : g.Equals g = true := (Equals_iff g g).mpr ⟨hs, rfl⟩
  rw [hE] at this
  cases this

/-- Dropping a record this side holds once by object, with authority over it:
the drop succeeds and no record for the object is left. -/
theorem DropGrip_by_object (env : Env) (w : World) (st : State) (o : Option UObject)
    (g : FBPActorGripInformation) (b : Bool)
    (hNet : env.IsServer = true → env.NetMode ≠ .NM_Client)
    (hHeld : GetGripByObject st o = some g)
    (hOne : st.Records.countP (fun r => r.EqualsObject o) ≤ 1)
    (hSide : FindByObject st.GrippedObjects o = none ∨ env.IsServer = true)
    (hAuth : (env.HasGripAuthority g || (env.NetMode != .NM_Client)) = true) :
    (DropGrip env w st g b).1 = true ∧
      ∀ r ∈ (DropGrip env w st g b).2.2.Records, r.EqualsObject o = false := by
  obtain ⟨hoS, hobj, hmem, hEO, _, hLoc, hWhere⟩ := GetGripByObject_some hHeld
  have hs : g.GrippedObject.isSome = true := by rw [hobj]; exact hoS
  have ht : (DropGrip env w st g b).1 = true := by
    cases hd : (DropGrip env w st g b).1 with
    | true => rfl
    | false =>
      exfalso
      obtain ⟨hL, hG⟩ := (DropGrip_fails_iff env w st g b).mp hd
      have hnL : g ∉ st.LocallyGrippedObjects := fun hm => FindGripRecord_of_mem hm hs hL
      rcases hSide with h1 | h1
      · exact hnL (hLoc h1)
      · rcases hG with h2 | h2
        · rw [h1] at h2; cases h2
        · rcases hWhere with h3 | h3
          · exact FindGripRecord_of_mem h3 hs h2
          · exact hnL h3
  refine ⟨ht, ?_⟩
  have hImp : ∀ r : FBPActorGripInformation, r.Equals g = true → r.EqualsObject o = true := by
    intro r hr
    have := (Equals_iff r g).mp hr
    unfold FBPActorGripInformation.EqualsObject
    have hk : r.GrippedObject = g.GrippedObject := congrArg Prod.fst this.2
    rw [hk, hobj, hoS]
    simp
  have hUnique : st.Records.countP (fun r => r.Equals g) ≤ 1 :=
    le_trans (List.countP_mono_left (fun r _ hr => hImp r hr)) hOne
  obtain ⟨i, Found, hFE, hArr, hAbs⟩ := DropGrip_located env w st g b hNet hUnique ht
  have hFmem : Found ∈ st.Records := by
    unfold State.Records
    rcases hArr with ⟨h1, _⟩ | ⟨h1, _⟩
    · exact List.mem_append_right _ (List.mem_iff_getElem?.mpr ⟨i, h1⟩)
    · exact List.mem_append_left _ (List.mem_iff_getElem?.mpr ⟨i, h1⟩)
  have hFg : Found = g :=
    unique_mem (fun r => r.Equals g) st.Records hUnique Found g hFmem hmem hFE
      ((Equals_iff g g).mpr ⟨hs, rfl⟩)
  subst hFg
  unfold State.Records at hOne ⊢
  rcases hArr with ⟨h1, h2, h3⟩ | ⟨h1, h2, h3⟩
  · rw [h2, h3]
    unfold RemoveOrPause
    rw [if_pos hAuth]
    exact absent_after_erase_right _ _ _ hOne i Found h1 hEO
  · rw [h2, h3]
    unfold RemoveOrPause
    rw [if_pos hAuth]
    exact absent_after_erase_left _ _ _ hOne i Found h1 hEO

/-- The invalid-grip exchange where `DropObjectByInterface` does not refuse:
`Server_NotifyLocalGripAddedOrChanged`, given a reported grip whose object is
null or whose replication mode is not `ClientSide_Authoritive`, changes nothing
but the trace, to which it adds the `Client_NotifyInvalidLocalGrip` answer; and
the client, on receiving that notice for an object it holds once, drops it
through `DropObjectByInterface` so that no record for the object remains in its
collections, when the object is a primitive component with an owner or an actor
with a primitive root, the record is in the predicted collection (or this side
is the server), and this side has grip authority over it or is not a network
client. -/
theorem invalid_local_grip_is_answered_and_dropped (envS env : Env)
    (RepCopy : FBPActorGripInformation → FBPActorGripInformation → FBPActorGripInformation)
    (wS w : World) (stS st : State) (newGrip g : FBPActorGripInformation) (o : Option UObject)
    (hBad : newGrip.GrippedObject = none ∨
      newGrip.GripMovementReplicationSetting ≠ .ClientSide_Authoritive)
    (hNet : env.IsServer = true → env.NetMode ≠ .NM_Client)
    (hHeld : GetGripByObject st o = some g)
    (hOne : st.Records.countP (fun r => r.EqualsObject o) ≤ 1)
    (hTarget : (∃ p, w.CastPrimitive o = some p ∧ (w.Objects p).Owner.isSome = true) ∨
      (w.CastPrimitive o = none ∧ ∃ a, w.CastActor o = some a ∧ (w.RootOf a).isSome = true))
    (hSide : FindByObject st.GrippedObjects o = none ∨ env.IsServer = true)
    (hAuth : (env.HasGripAuthority g || (env.NetMode != .NM_Client)) = true) :
    Server_NotifyLocalGripAddedOrChanged_Implementation envS RepCopy wS stS newGrip =
      (wS, stS.Emit (.Client_NotifyInvalidLocalGrip newGrip.GrippedObject)) ∧
    (Server_NotifyLocalGripAddedOrChanged_Implementation envS RepCopy wS stS
      newGrip).2.LocallyGrippedObjects = stS.LocallyGrippedObjects ∧
    ∀ r ∈ (Client_NotifyInvalidLocalGrip_Implementation env w st o).2.Records,
      r.EqualsObject o = false := by
  have hS : Server_NotifyLocalGripAddedOrChanged_Implementation envS RepCopy wS stS newGrip =
      (wS, stS.Emit (.Client_NotifyInvalidLocalGrip newGrip.GrippedObject)) := by
    unfold Server_NotifyLocalGripAddedOrChanged_Implementation
    rw [if_pos]
    rcases hBad with h | h
    · rw [h]; rfl
    · simp [h]
  refine ⟨hS, by rw [hS]; rfl, ?_⟩
  obtain ⟨_, hobj, _, _, hF, _, _⟩ := GetGripByObject_some hHeld
  have hD := fun b => DropGrip_by_object env w st o g b hNet hHeld hOne hSide hAuth
  unfold Client_NotifyInvalidLocalGrip_Implementation
  rw [hHeld]
  simp only []
  unfold DropObjectByInterface
  rw [hobj, hF]
  simp only []
  rw [hobj]
  rcases hTarget with ⟨p, hp, hOwn⟩ | ⟨hnp, a, ha, hroot⟩
  · rw [hp]
    simp only []
    cases hO : (w.Objects p).Owner with
    | none => rw [hO] at hOwn; cases hOwn
    | some Owner =>
      simp only []
      repeat' split
      all_goals exact (hD _).2
  · rw [hnp, ha]
    simp only []
    cases hR : w.RootOf a with
    | none => rw [hR] at hroot; cases hroot
    | some root =>
      simp only []
      repeat' split
      all_goals exact (hD _).2

/-- The invalid-grip exchange on the sample client holding the component `2`,
owned by the actor `1`, as a client-authoritative grip: the record is dropped. -/
theorem invalid_local_grip_is_answered_and_dropped_witness :
    (Client_NotifyInvalidLocalGrip_Implementation Sample.Client (Sample.Scene id)
      (Sample.HoldingLocally 2) (some 2)).2.Records.all
      (fun r => !r.EqualsObject (some 2)) = true :=
  List.all_eq_true.mpr (fun r hr => by
    rw [(invalid_local_grip_is_answered_and_dropped Sample.Server Sample.Client
      (fun _ n => n) (Sample.Scene id) (Sample.Scene id) State.Initial (Sample.HoldingLocally 2)
      { Sample.Grip 2 129 .ClientSide_Authoritive with GrippedObject := none }
      (Sample.Grip 2 129 .ClientSide_Authoritive) (some 2) (Or.inl rfl) (by decide) (by decide)
      (by decide) (Or.inl ⟨2, by decide, by decide⟩) (Or.inl (by decide)) (by decide)).2.2 r hr]
    rfl)

/-! ## Retuning of the drives -/

/-- C25, evaluated on the code: for the hybrid physics grip of the sample
controller, with stiffness 1500, `SetGripConstraintStiffnessAndDamping` leaves
the linear drive at 1500 times the hybrid multiplier whether its
`bUseHybridMultiplier` argument is false or true: the retune at the start of a
collision yields the same stiffness as the one at its end. -/
theorem retune_ignores_the_hybrid_multiplier_argument :
    (SetGripConstraintStiffnessAndDamping Sample.HybridHolding Sample.HybridGrip
      false).2.PhysicsGrips.map (fun h => h.LinStiffness) =
      [1500 * HYBRID_PHYSICS_GRIP_MULTIPLIER] ∧
    (SetGripConstraintStiffnessAndDamping Sample.HybridHolding Sample.HybridGrip
      true).2.PhysicsGrips.map (fun h => h.LinStiffness) =
      [1500 * HYBRID_PHYSICS_GRIP_MULTIPLIER] ∧
    (1500 * HYBRID_PHYSICS_GRIP_MULTIPLIER : ℚ) ≠ 1500 := by
  refine ⟨rfl, rfl, ?_⟩
  norm_num [HYBRID_PHYSICS_GRIP_MULTIPLIER]

/-- C29, evaluated on the code: for the physics grip of the sample controller,
whose stiffness is now 3000, `SetGripConstraintStiffnessAndDamping` writes the
angular stiffness to the twist drive and leaves the SLERP drive at 2250, while
`SetUpPhysicsHandle` configures a fresh handle from the same record with the
angular stiffness on the SLERP drive and nothing on the twist drive. -/
theorem retune_writes_the_twist_drive_creation_the_slerp_drive :
    (SetGripConstraintStiffnessAndDamping Sample.PhysicsHolding Sample.PhysicsGrip
      false).2.PhysicsGrips.map (fun h => (h.SlerpStiffness, h.TwistStiffness)) =
      [(2250, 3000 * ANGULAR_STIFFNESS_MULTIPLIER * 1)] ∧
    (SetUpDrives Sample.PhysicsGrip false
      (FBPActorPhysicsHandleInformation.New (some 1) 1)).SlerpStiffness =
      3000 * ANGULAR_STIFFNESS_MULTIPLIER * 1 ∧
    (SetUpDrives Sample.PhysicsGrip false
      (FBPActorPhysicsHandleInformation.New (some 1) 1)).TwistStiffness = 0 ∧
    (3000 * ANGULAR_STIFFNESS_MULTIPLIER * 1 : ℚ) ≠ 2250 := by
  refine ⟨rfl, rfl, rfl, ?_⟩
  norm_num [ANGULAR_STIFFNESS_MULTIPLIER]

/-! ## The transform query -/

/-- C21, evaluated on the code: the default grip script wants to force a drop
and the target has one active script that modifies the transform and asks for
nothing; no script overrides the transform, so `GetGripWorldTransform` consults
the default script and then the modifying one, and reports a valid transform
and no forced drop. -/
theorem forced_drop_of_the_default_script_is_cancelled :
    Sample.DroppingScript.Wants_ToForceDrop = true ∧
    Sample.DroppingServer.DefaultGripScript = some Sample.DroppingScript ∧
    (GetGripWorldTransform Sample.DroppingServer [some Sample.ModifyingScript]
      FTransform.Identity (Sample.Grip 1 1 .ForceServerSideMovement) false
      FTransform.Identity).1 = true ∧
    (GetGripWorldTransform Sample.DroppingServer [some Sample.ModifyingScript]
      FTransform.Identity (Sample.Grip 1 1 .ForceServerSideMovement) false
      FTransform.Identity).2.1 = false := by
  refine ⟨rfl, rfl, by decide, by decide⟩

/-! ## Auxiliary facts: the paths of an iteration of the tick -/

/-- The iteration of a slot holding a live grip this side moves, whose
replication needs no handling, is the part that follows the validity test. -/
theorem HandleGrip_valid {env : Env} {P : FTransform} {b : Bool} {i : Nat}
    {acc : FTransform × World × State} {Grip : FBPActorGripInformation}
    (hslot : (acc.2.2.GripArray b)[i]? = some Grip)
    (hmove : env.HasGripMovementAuthority Grip = true)
    (hrep : (!Grip.bWasInitiallyRepped && !env.HasGripAuthority Grip) = false)
    (hpaused : Grip.bIsPaused = false) (hid : Grip.GripID ≠ INVALID_VRGRIP_ID)
    (hlive : (match Grip.GrippedObject with
      | some o => !(acc.2.1.Objects o).bPendingKill
      | none => false) = true) :
    HandleGrip env b P i acc = HandleValidGrip env b i P Grip acc := by
  unfold HandleGrip
  rw [hslot]
  simp only []
  split
  · rename_i hc
    simp [hmove] at hc
  · rw [hrep]
    simp only [Bool.false_eq_true, if_false, Bool.not_true, hslot]
    split
    · rename_i hc
      rw [hpaused] at hc
      cases hc
    · split
      · rfl
      · rename_i hc
        refine absurd ?_ hc
        rw [Bool.and_eq_true]
        exact ⟨by simpa using hid, hlive⟩

/-- A grip in `EventsOnly` mode: the part after the validity test does nothing. -/
theorem HandleValidGrip_eventsOnly (env : Env) (b : Bool) (i : Nat) (P : FTransform)
    (Grip : FBPActorGripInformation) (acc : FTransform × World × State)
    (h : Grip.GripCollisionType = .EventsOnly) :
    HandleValidGrip env b i P Grip acc = acc := by
  unfold HandleValidGrip
  simp [h]

/-- A forced drop: the grip is dropped when this side has authority over it,
and the iteration ends. -/
theorem HandleGrip_forced {env : Env} {P : FTransform} {b : Bool} {i : Nat}
    {acc : FTransform × World × State} {Grip : FBPActorGripInformation} {root actor : UObject}
    {valid : Bool} {T : FTransform}
    (h : TransformQueried env P b i acc Grip root actor valid true T) :
    (env.HasGripAuthority Grip = true →
      HandleGrip env b P i acc =
        (T, (DropGrip env acc.2.1 acc.2.2 Grip (SimulateOnDropOf acc.2.1 root actor)).2.1,
          (DropGrip env acc.2.1 acc.2.2 Grip (SimulateOnDropOf acc.2.1 root actor)).2.2)) ∧
    (env.HasGripAuthority Grip = false → HandleGrip env b P i acc = (T, acc.2.1, acc.2.2)) := by
  rw [HandleGrip_valid h.slot h.movement h.replicated h.notPaused h.validID h.live]
  have hq := h.transform
  unfold TargetScripts at hq
  unfold HandleValidGrip
  simp only []
  rw [h.target]
  simp only []
  rw [hq]
  simp only []
  constructor
  · intro ha
    rw [if_neg (by simp [h.notEventsOnly]), if_neg (by simp [h.notCustomGrip]), if_pos trivial,
      if_pos ha]
  · intro ha
    rw [if_neg (by simp [h.notEventsOnly]), if_neg (by simp [h.notCustomGrip]), if_pos trivial,
      if_neg (by simp [ha])]

/-- An invalid transform without a forced drop: the iteration ends with the
scene and the state as they were. -/
theorem HandleGrip_invalid {env : Env} {P : FTransform} {b : Bool} {i : Nat}
    {acc : FTransform × World × State} {Grip : FBPActorGripInformation} {root actor : UObject}
    {T : FTransform}
    (h : TransformQueried env P b i acc Grip root actor false false T) :
    HandleGrip env b P i acc = (T, acc.2.1, acc.2.2) := by
  rw [HandleGrip_valid h.slot h.movement h.replicated h.notPaused h.validID h.live]
  have hq := h.transform
  unfold TargetScripts at hq
  unfold HandleValidGrip
  simp only []
  rw [h.target]
  simp only []
  rw [hq]
  simp only []
  rw [if_neg (by simp [h.notEventsOnly]), if_neg (by simp [h.notCustomGrip]),
    if_neg Bool.false_ne_true]
  rfl

/-- An iteration of the tick that is a `DropGrip` of the record in its slot, on
a side that has authority over the grip and may make the drop: after the tick
no record is equal to the grip, and the iteration appended no placement to the
trace. -/
theorem TickGrip_dropped (env : Env) (w : World) (st : State) (b : Bool) (i : Nat)
    (Grip Cur : FBPActorGripInformation) (T : FTransform) (s1 : State) (sim : Bool)
    (hS : HandleInvariant st)
    (hEq : HandleGrip env b (TickGripParent w st) i (TickGripBefore env w st b i) =
      (T, (DropGrip env (TickGripBefore env w st b i).2.1 s1 Cur sim).2.1,
        (DropGrip env (TickGripBefore env w st b i).2.1 s1 Cur sim).2.2))
    (hK : s1.RecordKeys = (TickGripBefore env w st b i).2.2.RecordKeys)
    (hT : s1.Trace = (TickGripBefore env w st b i).2.2.Trace)
    (hslot0 : ((TickGripBefore env w st b i).2.2.GripArray b)[i]? ≠ none)
    (hslot : (s1.GripArray b)[i]? = some Cur) (hCK : Cur.Key = Grip.Key)
    (hCS : Cur.GripMovementReplicationSetting = Grip.GripMovementReplicationSetting)
    (hobj : Grip.GrippedObject.isSome = true)
    (hauth : env.HasGripAuthority Grip = true)
    (hgate : b = true → env.IsServer = true)
    (hnet : env.IsServer = true → env.NetMode ≠ .NM_Client)
    (hunique : (TickGripBefore env w st b i).2.2.Records.countP (fun r => r.Equals Grip) ≤ 1) :
    (∀ r ∈ (TickGrip env w st).2.Records, r.Equals Grip = false) ∧
    NoPlacement (TickGripBefore env w st b i).2.2
      (HandleGrip env b (TickGripParent w st) i (TickGripBefore env w st b i)).2.2 := by
  obtain ⟨_, hRest⟩ := TickGrip_after env w st b i hS hslot0
  have hCobj : Cur.GrippedObject = Grip.GrippedObject := congrArg Prod.fst hCK
  have hCurEq : Cur.Equals Cur = true :=
    (Equals_iff _ _).mpr ⟨by rw [hCobj]; exact hobj, rfl⟩
  have hCurMem : Cur ∈ s1.Records := slot_mem_Records hslot
  have hCurArr : Cur ∈ s1.GripArray b := List.mem_iff_getElem?.mpr ⟨i, hslot⟩
  have ht : (DropGrip env (TickGripBefore env w st b i).2.1 s1 Cur sim).1 = true := by
    cases hd : (DropGrip env (TickGripBefore env w st b i).2.1 s1 Cur sim).1 with
    | true => rfl
    | false =>
      exfalso
      have hf := (DropGrip_fails_iff _ _ _ _ _).mp hd
      cases b with
      | false =>
        have := FindGripRecord_eq_none.mp hf.1 Cur hCurArr
        rw [hCurEq] at this
        cases this
      | true =>
        rcases hf.2 with h2 | h2
        · rw [hgate rfl] at h2
          cases h2
        · have := FindGripRecord_eq_none.mp h2 Cur hCurArr
          rw [hCurEq] at this
          cases this
  have hU1 : s1.Records.countP (fun r => r.Equals Cur) ≤ 1 := by
    rw [countP_Equals_congr hK hCK]
    exact hunique
  obtain ⟨j, Found, hFE, hloc, habs⟩ :=
    DropGrip_located env (TickGripBefore env w st b i).2.1 s1 Cur sim hnet hU1 ht
  have hFmem : Found ∈ s1.Records := by
    unfold State.Records
    rcases hloc with ⟨h1, _, _⟩ | ⟨h1, _, _⟩
    · exact List.mem_append_right _ (List.mem_iff_getElem?.mpr ⟨j, h1⟩)
    · exact List.mem_append_left _ (List.mem_iff_getElem?.mpr ⟨j, h1⟩)
  have hFC : Found = Cur := unique_mem _ _ hU1 Found Cur hFmem hCurMem hFE hCurEq
  have hauthF : env.HasGripAuthority Found = true := by
    rw [hFC]
    unfold Env.HasGripAuthority
    rw [hCS]
    exact hauth
  have habs1 := habs (by rw [hauthF]; rfl)
  have hout : (HandleGrip env b (TickGripParent w st) i (TickGripBefore env w st b i)).2.2 =
      (DropGrip env (TickGripBefore env w st b i).2.1 s1 Cur sim).2.2 := by
    rw [hEq]
  constructor
  · apply NoNewRecords.nn_absent hRest Grip
    rw [hout]
    intro r hr
    rw [← congrFun (Equals_congr hCK) r]
    exact habs1 r hr
  · rw [hout]
    exact (NoPlacement.np_of_trace hT).np_trans (NoPlacement.np_dropGrip _ _ _ _ _)

/-- A valid transform without a forced drop, not after a teleport, with a
break-distance block that does not end the iteration: the record in the slot
is placed and the tick notification is sent. -/
theorem HandleGrip_placed {env : Env} {P : FTransform} {b : Bool} {i : Nat}
    {acc : FTransform × World × State} {Grip Now : FBPActorGripInformation} {root actor : UObject}
    {T : FTransform}
    (h : TransformQueried env P b i acc Grip root actor true false T)
    (hpt : acc.2.2.bIsPostTeleport = false)
    (hc : (BreakDistanceCheck env acc.2.1
      (acc.2.2.ModifySlot b i (fun g => { g with LastWorldTransform := T })) b i
      { Grip with LastWorldTransform := T } root actor T).1 = false)
    (hNow : ((BreakDistanceCheck env acc.2.1
      (acc.2.2.ModifySlot b i (fun g => { g with LastWorldTransform := T })) b i
      { Grip with LastWorldTransform := T } root actor T).2.2.GripArray b)[i]? = some Now) :
    HandleGrip env b P i acc =
      (T,
        (PlaceGrip env
          (BreakDistanceCheck env acc.2.1
            (acc.2.2.ModifySlot b i (fun g => { g with LastWorldTransform := T })) b i
            { Grip with LastWorldTransform := T } root actor T).2.1
          (BreakDistanceCheck env acc.2.1
            (acc.2.2.ModifySlot b i (fun g => { g with LastWorldTransform := T })) b i
            { Grip with LastWorldTransform := T } root actor T).2.2 b i Now root T P).1,
        SendTickGrip env
          (PlaceGrip env
            (BreakDistanceCheck env acc.2.1
              (acc.2.2.ModifySlot b i (fun g => { g with LastWorldTransform := T })) b i
              { Grip with LastWorldTransform := T } root actor T).2.1
            (BreakDistanceCheck env acc.2.1
              (acc.2.2.ModifySlot b i (fun g => { g with LastWorldTransform := T })) b i
              { Grip with LastWorldTransform := T } root actor T).2.2 b i Now root T P).1
          (PlaceGrip env
            (BreakDistanceCheck env acc.2.1
              (acc.2.2.ModifySlot b i (fun g => { g with LastWorldTransform := T })) b i
              { Grip with LastWorldTransform := T } root actor T).2.1
            (BreakDistanceCheck env acc.2.1
              (acc.2.2.ModifySlot b i (fun g => { g with LastWorldTransform := T })) b i
              { Grip with LastWorldTransform := T } root actor T).2.2 b i Now root T P).2
          Now root actor) := by
  rw [HandleGrip_valid h.slot h.movement h.replicated h.notPaused h.validID h.live]
  have hq := h.transform
  unfold TargetScripts at hq
  unfold HandleValidGrip
  simp only []
  rw [h.target]
  simp only []
  rw [hq]
  simp only []
  rw [if_neg (by simp [h.notEventsOnly]), if_neg (by simp [h.notCustomGrip]),
    if_neg Bool.false_ne_true, if_neg (by simp), if_neg (by simp [hpt]),
    if_neg (by simp [hc]), hNow]

/-- The break-distance block once the measured distance has reached the break
distance: a denying script keeps the grip; else a bound handler is notified and
the block drops nothing itself; else the grip is dropped when this side has
authority over it. -/
theorem BreakDistanceCheck_reached (env : Env) (w : World) (st : State) (b : Bool) (i : Nat)
    (Cur : FBPActorGripInformation) (root actor f : UObject) (D : Int) (T : FTransform)
    (happ : BreakDistanceApplies w Cur root actor = true)
    (hskip : Cur.bSkipNextConstraintLengthCheck = false)
    (hI : InterfaceOf w root actor = some f)
    (hbd : (w.Objects f).GripBreakDistance = D) (hpos : 0 < D)
    (hdist : D ≤ MeasuredGripDistance w st Cur root T) :
    ((w.Objects f).GripScripts.any (fun s =>
        match s with
        | some Script => Script.IsScriptActive && Script.Wants_DenyAutoDrop
        | none => false) = true →
      BreakDistanceCheck env w st b i Cur root actor T =
        (false, w, st.ModifySlot b i (fun g =>
          { g with GripDistance := MeasuredGripDistance w st Cur root T }))) ∧
    ((w.Objects f).GripScripts.any (fun s =>
        match s with
        | some Script => Script.IsScriptActive && Script.Wants_DenyAutoDrop
        | none => false) = false →
      (∀ Handler, env.OnGripOutOfRange = some Handler →
        (Handler { Cur with GripDistance := MeasuredGripDistance w st Cur root T }
            (MeasuredGripDistance w st Cur root T) = none →
          (BreakDistanceCheck env w st b i Cur root actor T).2 =
            (w, State.Emit (st.ModifySlot b i (fun g =>
                { g with GripDistance := MeasuredGripDistance w st Cur root T }))
              (.OnGripOutOfRange Cur.GripID (MeasuredGripDistance w st Cur root T)))) ∧
        (∀ bSimulate, Handler { Cur with GripDistance := MeasuredGripDistance w st Cur root T }
            (MeasuredGripDistance w st Cur root T) = some bSimulate →
          (BreakDistanceCheck env w st b i Cur root actor T).2 =
            (DropGrip env w (State.Emit (st.ModifySlot b i (fun g =>
                { g with GripDistance := MeasuredGripDistance w st Cur root T }))
              (.OnGripOutOfRange Cur.GripID (MeasuredGripDistance w st Cur root T)))
              { Cur with GripDistance := MeasuredGripDistance w st Cur root T } bSimulate).2)) ∧
      (env.OnGripOutOfRange = none →
        (env.GripAuthority Cur.GripMovementReplicationSetting = true →
          BreakDistanceCheck env w st b i Cur root actor T =
            (true, (DropGrip env w (st.ModifySlot b i (fun g =>
                { g with GripDistance := MeasuredGripDistance w st Cur root T }))
              { Cur with GripDistance := MeasuredGripDistance w st Cur root T }
              (SimulateOnDropOf w root actor)).2)) ∧
        (env.GripAuthority Cur.GripMovementReplicationSetting = false →
          BreakDistanceCheck env w st b i Cur root actor T =
            (false, w, st.ModifySlot b i (fun g =>
              { g with GripDistance := MeasuredGripDistance w st Cur root T }))))) := by
  have hreach : (decide ((w.Objects f).GripBreakDistance > 0) &&
      decide (MeasuredGripDistance w st Cur root T ≥ (w.Objects f).GripBreakDistance)) = true := by
    simp only [Bool.and_eq_true, decide_eq_true_eq]
    exact ⟨by rw [hbd]; exact hpos, by rw [hbd]; exact hdist⟩
  have hA : ¬((!BreakDistanceApplies w Cur root actor) = true) := by simp [happ]
  have hK : ¬(Cur.bSkipNextConstraintLengthCheck = true) := by simp [hskip]
  refine ⟨?_, ?_⟩
  · intro hdeny
    unfold BreakDistanceCheck
    rw [hI]
    simp only []
    refine (if_neg hA).trans ?_
    refine (if_neg hK).trans ?_
    refine (if_pos hreach).trans ?_
    exact if_pos hdeny
  · intro hdeny
    have hD : ¬((w.Objects f).GripScripts.any (fun s =>
        match s with
        | some Script => Script.IsScriptActive && Script.Wants_DenyAutoDrop
        | none => false) = true) := by
      rw [hdeny]
      exact Bool.false_ne_true
    refine ⟨?_, ?_⟩
    · intro Handler hH
      refine ⟨?_, ?_⟩
      · intro hnone
        unfold BreakDistanceCheck
        rw [hI, hH]
        simp only []
        refine (congrArg Prod.snd ((if_neg hA).trans ((if_neg hK).trans
          ((if_pos hreach).trans (if_neg hD))))).trans ?_
        exact congrArg (fun o : Option Bool =>
          (match o with
            | some bSimulate => (DropGrip env w (State.Emit (st.ModifySlot b i (fun g =>
                { g with GripDistance := MeasuredGripDistance w st Cur root T }))
                (.OnGripOutOfRange Cur.GripID (MeasuredGripDistance w st Cur root T)))
                { Cur with GripDistance := MeasuredGripDistance w st Cur root T } bSimulate).2
            | none => (w, State.Emit (st.ModifySlot b i (fun g =>
                { g with GripDistance := MeasuredGripDistance w st Cur root T }))
                (.OnGripOutOfRange Cur.GripID (MeasuredGripDistance w st Cur root T))))) hnone
      · intro bSimulate hsome
        unfold BreakDistanceCheck
        rw [hI, hH]
        simp only []
        refine (congrArg Prod.snd ((if_neg hA).trans ((if_neg hK).trans
          ((if_pos hreach).trans (if_neg hD))))).trans ?_
        exact congrArg (fun o : Option Bool =>
          (match o with
            | some bSimulate => (DropGrip env w (State.Emit (st.ModifySlot b i (fun g =>
                { g with GripDistance := MeasuredGripDistance w st Cur root T }))
                (.OnGripOutOfRange Cur.GripID (MeasuredGripDistance w st Cur root T)))
                { Cur with GripDistance := MeasuredGripDistance w st Cur root T } bSimulate).2
            | none => (w, State.Emit (st.ModifySlot b i (fun g =>
                { g with GripDistance := MeasuredGripDistance w st Cur root T }))
                (.OnGripOutOfRange Cur.GripID (MeasuredGripDistance w st Cur root T))))) hsome
    · intro hL
      refine ⟨?_, ?_⟩
      · intro hauth
        unfold BreakDistanceCheck
        rw [hI, hL]
        simp only []
        refine (if_neg hA).trans ?_
        refine (if_neg hK).trans ?_
        refine (if_pos hreach).trans ?_
        refine (if_neg hD).trans ?_
        exact if_pos hauth
      · intro hauth
        have hNA : ¬(env.GripAuthority Cur.GripMovementReplicationSetting = true) := by
          rw [hauth]
          exact Bool.false_ne_true
        unfold BreakDistanceCheck
        rw [hI, hL]
        simp only []
        refine (if_neg hA).trans ?_
        refine (if_neg hK).trans ?_
        refine (if_pos hreach).trans ?_
        refine (if_neg hD).trans ?_
        exact if_neg hNA

/-! ## Removal during the tick -/

/-- C19, evaluated on the code: right after a teleport the sample server holds
the actor `1`, which asks to be dropped on teleport, in slot 0 and the actor
`4` in slot 1 of the replicated array. The iteration of slot 1 leaves the
record of `4` with its own world transform `(0, 2, 0)` as `LastWorldTransform`;
the iteration of slot 0 drops the record of `1` and then writes the world
transform `(1, 0, 0)` of the dropped grip through its slot, which now holds the
record of `4`. -/
theorem post_teleport_drop_writes_through_the_stale_slot :
    (HandleGrip Sample.RelativeServer true FTransform.Identity 1
      (FTransform.Identity, Sample.TeleportScene, Sample.HoldingTwoPostTeleport)).2.2.GrippedObjects.map
      (fun r => (r.GrippedObject, r.LastWorldTransform)) =
      [(some 1, FTransform.Identity), (some 4, FTransform.ofTranslation 0 2 0)] ∧
    (TickGrip Sample.RelativeServer Sample.TeleportScene
      Sample.HoldingTwoPostTeleport).2.GrippedObjects.map
      (fun r => (r.GrippedObject, r.LastWorldTransform)) = [(some 4, FTransform.ofTranslation 1 0 0)] := by
  refine ⟨by decide, by decide⟩

/-! ## Invalid transform and forced drop -/

/-- Counterexample to C20 as stated: the sample server holds the actor `1`,
over which it has authority, and the script of the target reports an invalid
transform without asking for a drop; after the tick the record is still in
`GrippedObjects`. -/
theorem invalid_transform_keeps_the_record :
    (GetGripWorldTransform Sample.Server [some Sample.InvalidScript] FTransform.Identity
      (Sample.Grip 1 1 .ForceServerSideMovement) false FTransform.Identity).1 = false ∧
    (GetGripWorldTransform Sample.Server [some Sample.InvalidScript] FTransform.Identity
      (Sample.Grip 1 1 .ForceServerSideMovement) false FTransform.Identity).2.1 = false ∧
    Sample.Server.HasGripAuthority (Sample.Grip 1 1 .ForceServerSideMovement) = true ∧
    (TickGrip Sample.Server (Sample.ScriptedScene Sample.InvalidScript)
      Sample.Holding).2.GrippedObjects.map (fun r => r.Key) = [(some 1, 1)] := by
  refine ⟨by decide, by decide, by decide, by decide⟩

/-- C20 (amended): in a tick on a controller with a sound handle table, take
the moment the loop reaches the slot of a live grip this side moves and has
authority over, the only record equal to itself, whose target resolves, in a
collision mode other than `EventsOnly` and `CustomGrip`. If the transform
query forces a drop, then after the tick no record of either collection is
equal to the grip and the iteration appended no placement to the trace. If it
forces no drop and reports no valid transform, the iteration leaves the scene
and the state as they are: the record stays and nothing is placed. -/
theorem forced_drop_or_invalid_transform (env : Env) (w : World) (st : State) (b : Bool)
    (i : Nat) (Grip : FBPActorGripInformation) (root actor : UObject) (valid force : Bool)
    (T : FTransform) (hS : HandleInvariant st)
    (h : TransformQueried env (TickGripParent w st) b i (TickGripBefore env w st b i)
      Grip root actor valid force T)
    (hauth : env.HasGripAuthority Grip = true)
    (hgate : b = true → env.IsServer = true)
    (hnet : env.IsServer = true → env.NetMode ≠ .NM_Client)
    (hunique : (TickGripBefore env w st b i).2.2.Records.countP (fun r => r.Equals Grip) ≤ 1) :
    (force = true →
      (∀ r ∈ (TickGrip env w st).2.Records, r.Equals Grip = false) ∧
      NoPlacement (TickGripBefore env w st b i).2.2
        (HandleGrip env b (TickGripParent w st) i (TickGripBefore env w st b i)).2.2) ∧
    (force = false → valid = false →
      (HandleGrip env b (TickGripParent w st) i (TickGripBefore env w st b i)).2 =
        (TickGripBefore env w st b i).2) := by
  constructor
  · intro hf
    subst hf
    have hobj : Grip.GrippedObject.isSome = true := by
      have hl := h.live
      cases hg : Grip.GrippedObject with
      | none => rw [hg] at hl; cases hl
      | some o => rfl
    exact TickGrip_dropped env w st b i Grip Grip T (TickGripBefore env w st b i).2.2
      (SimulateOnDropOf (TickGripBefore env w st b i).2.1 root actor) hS
      ((HandleGrip_forced h).1 hauth) rfl rfl (by rw [h.slot]; simp) h.slot rfl rfl hobj hauth
      hgate hnet hunique
  · intro hf hv
    subst hf
    subst hv
    rw [HandleGrip_invalid h]

/-- The sample server holds the actor `1`, whose script forces a drop: the
moment the loop reaches slot 0 of the replicated array. -/
theorem Sample.Holding_forced :
    TransformQueried Sample.Server (TickGripParent (Sample.ScriptedScene Sample.ForcingScript)
        Sample.Holding) true 0
      (TickGripBefore Sample.Server (Sample.ScriptedScene Sample.ForcingScript) Sample.Holding true 0)
      (Sample.Grip 1 1 .ForceServerSideMovement) 2 1 true true FTransform.Identity where
  slot := by decide
  movement := by decide
  replicated := by decide
  notPaused := by decide
  validID := by decide
  live := by decide
  notEventsOnly := by decide
  notCustomGrip := by decide
  target := by decide
  transform := by decide

/-- Witness for C20: on the sample server the tick drops the grip of the actor
`1`, whose script forces a drop. -/
theorem forced_drop_or_invalid_transform_witness :
    (TickGrip Sample.Server (Sample.ScriptedScene Sample.ForcingScript)
      Sample.Holding).2.Records.all
      (fun r => !r.Equals (Sample.Grip 1 1 .ForceServerSideMovement)) = true :=
  List.all_eq_true.mpr (fun r hr => by
    rw [((forced_drop_or_invalid_transform Sample.Server (Sample.ScriptedScene Sample.ForcingScript)
      Sample.Holding true 0 (Sample.Grip 1 1 .ForceServerSideMovement) 2 1 true true
      FTransform.Identity Sample.Holding_invariant Sample.Holding_forced (by decide) (by decide)
      (by decide) (by decide)).1 rfl).1 r hr]
    rfl)

/-! ## The break-distance policy -/

/-- C22: in the iteration of a live grip with a valid transform and no forced
drop, not after a teleport, whose break-distance check applies with the
skip-next-check flag clear and whose measured distance has reached the break
distance `D > 0` of its interface: when an active script denies auto-drop, the
iteration writes the transform and the distance to the record, broadcasts
nothing, and goes on to place the record and send the tick notification;
otherwise, when an `OnGripOutOfRange` handler is bound, the check broadcasts
the notification and drops nothing itself (the state is that after the
broadcast, or after the `DropGrip` the handler made); when neither applies the
check invokes `DropGrip` if this side has grip authority, and leaves the grip
otherwise. -/
theorem break_distance_policy (env : Env) (P : FTransform) (b : Bool) (i : Nat)
    (acc : FTransform × World × State) (Grip : FBPActorGripInformation) (root actor f : UObject)
    (D : Int) (T : FTransform)
    (h : TransformQueried env P b i acc Grip root actor true false T)
    (hpt : acc.2.2.bIsPostTeleport = false)
    (happ : BreakDistanceApplies acc.2.1 Grip root actor = true)
    (hskip : Grip.bSkipNextConstraintLengthCheck = false)
    (hI : InterfaceOf acc.2.1 root actor = some f)
    (hbd : (acc.2.1.Objects f).GripBreakDistance = D) (hpos : 0 < D)
    (hdist : D ≤ MeasuredGripDistance acc.2.1 acc.2.2 Grip root T) :
    ((acc.2.1.Objects f).GripScripts.any (fun s =>
        match s with
        | some Script => Script.IsScriptActive && Script.Wants_DenyAutoDrop
        | none => false) = true →
      ((acc.2.2.ModifySlot b i (fun g => { g with LastWorldTransform := T })).ModifySlot b i
        (fun g => { g with GripDistance := MeasuredGripDistance acc.2.1 acc.2.2 Grip root T })).Trace =
        acc.2.2.Trace ∧
      HandleGrip env b P i acc =
        (T,
          (PlaceGrip env acc.2.1
            ((acc.2.2.ModifySlot b i (fun g => { g with LastWorldTransform := T })).ModifySlot b i
              (fun g => { g with GripDistance := MeasuredGripDistance acc.2.1 acc.2.2 Grip root T }))
            b i { Grip with LastWorldTransform := T, GripDistance := MeasuredGripDistance acc.2.1 acc.2.2 Grip root T }
            root T P).1,
          SendTickGrip env
            (PlaceGrip env acc.2.1
              ((acc.2.2.ModifySlot b i (fun g => { g with LastWorldTransform := T })).ModifySlot b i
                (fun g => { g with GripDistance := MeasuredGripDistance acc.2.1 acc.2.2 Grip root T }))
              b i { Grip with LastWorldTransform := T, GripDistance := MeasuredGripDistance acc.2.1 acc.2.2 Grip root T }
              root T P).1
            (PlaceGrip env acc.2.1
              ((acc.2.2.ModifySlot b i (fun g => { g with LastWorldTransform := T })).ModifySlot b i
                (fun g => { g with GripDistance := MeasuredGripDistance acc.2.1 acc.2.2 Grip root T }))
              b i { Grip with LastWorldTransform := T, GripDistance := MeasuredGripDistance acc.2.1 acc.2.2 Grip root T }
              root T P).2
            { Grip with LastWorldTransform := T, GripDistance := MeasuredGripDistance acc.2.1 acc.2.2 Grip root T }
            root actor)) ∧
    ((acc.2.1.Objects f).GripScripts.any (fun s =>
        match s with
        | some Script => Script.IsScriptActive && Script.Wants_DenyAutoDrop
        | none => false) = false →
      (∀ Handler, env.OnGripOutOfRange = some Handler →
        (Handler { Grip with LastWorldTransform := T, GripDistance := MeasuredGripDistance acc.2.1 acc.2.2 Grip root T }
            (MeasuredGripDistance acc.2.1 acc.2.2 Grip root T) = none →
          (BreakDistanceCheck env acc.2.1
            (acc.2.2.ModifySlot b i (fun g => { g with LastWorldTransform := T })) b i
            { Grip with LastWorldTransform := T } root actor T).2 =
            (acc.2.1, State.Emit
              ((acc.2.2.ModifySlot b i (fun g => { g with LastWorldTransform := T })).ModifySlot b i
                (fun g => { g with GripDistance := MeasuredGripDistance acc.2.1 acc.2.2 Grip root T }))
              (.OnGripOutOfRange Grip.GripID (MeasuredGripDistance acc.2.1 acc.2.2 Grip root T)))) ∧
        (∀ bSimulate,
          Handler { Grip with LastWorldTransform := T, GripDistance := MeasuredGripDistance acc.2.1 acc.2.2 Grip root T }
            (MeasuredGripDistance acc.2.1 acc.2.2 Grip root T) = some bSimulate →
          (BreakDistanceCheck env acc.2.1
            (acc.2.2.ModifySlot b i (fun g => { g with LastWorldTransform := T })) b i
            { Grip with LastWorldTransform := T } root actor T).2 =
            (DropGrip env acc.2.1 (State.Emit
              ((acc.2.2.ModifySlot b i (fun g => { g with LastWorldTransform := T })).ModifySlot b i
                (fun g => { g with GripDistance := MeasuredGripDistance acc.2.1 acc.2.2 Grip root T }))
              (.OnGripOutOfRange Grip.GripID (MeasuredGripDistance acc.2.1 acc.2.2 Grip root T)))
              { Grip with LastWorldTransform := T, GripDistance := MeasuredGripDistance acc.2.1 acc.2.2 Grip root T }
              bSimulate).2)) ∧
      (env.OnGripOutOfRange = none →
        (env.HasGripAuthority Grip = true →
          BreakDistanceCheck env acc.2.1
            (acc.2.2.ModifySlot b i (fun g => { g with LastWorldTransform := T })) b i
            { Grip with LastWorldTransform := T } root actor T =
            (true, (DropGrip env acc.2.1
              ((acc.2.2.ModifySlot b i (fun g => { g with LastWorldTransform := T })).ModifySlot b i
                (fun g => { g with GripDistance := MeasuredGripDistance acc.2.1 acc.2.2 Grip root T }))
              { Grip with LastWorldTransform := T, GripDistance := MeasuredGripDistance acc.2.1 acc.2.2 Grip root T }
              (SimulateOnDropOf acc.2.1 root actor)).2)) ∧
        (env.HasGripAuthority Grip = false →
          BreakDistanceCheck env acc.2.1
            (acc.2.2.ModifySlot b i (fun g => { g with LastWorldTransform := T })) b i
            { Grip with LastWorldTransform := T } root actor T =
            (false, acc.2.1,
              (acc.2.2.ModifySlot b i (fun g => { g with LastWorldTransform := T })).ModifySlot b i
                (fun g =>
                  { g with GripDistance := MeasuredGripDistance acc.2.1 acc.2.2 Grip root T }))))) := by
  have hP1 := ModifySlot_PhysicsGrips acc.2.2 b i
    (fun g : FBPActorGripInformation => { g with LastWorldTransform := T })
  have hM : MeasuredGripDistance acc.2.1
      (acc.2.2.ModifySlot b i (fun g => { g with LastWorldTransform := T }))
      { Grip with LastWorldTransform := T } root T =
      MeasuredGripDistance acc.2.1 acc.2.2 Grip root T := by
    unfold MeasuredGripDistance
    rw [GetPhysicsJointLength_congr acc.2.1 acc.2.2 _ Grip
      ({ Grip with LastWorldTransform := T } : FBPActorGripInformation) root hP1.1 rfl]
  have hB := BreakDistanceCheck_reached env acc.2.1
    (acc.2.2.ModifySlot b i (fun g => { g with LastWorldTransform := T })) b i
    { Grip with LastWorldTransform := T } root actor f D T happ hskip hI hbd hpos
    (by rw [hM]; exact hdist)
  rw [hM] at hB
  refine ⟨?_, ?_⟩
  · intro hdeny
    have hc := hB.1 hdeny
    refine ⟨?_, ?_⟩
    · rw [(ModifySlot_PhysicsGrips _ _ _ _).2.1]
      exact (ModifySlot_PhysicsGrips _ _ _ _).2.1
    · have hpl := @HandleGrip_placed env P b i acc Grip
        { Grip with LastWorldTransform := T, GripDistance := MeasuredGripDistance acc.2.1 acc.2.2 Grip root T }
        root actor T h hpt (by rw [hc]) (by rw [hc, ModifySlot_slot, ModifySlot_slot, h.slot]; rfl)
      rw [hc] at hpl
      exact hpl
  · intro hdeny
    exact ⟨(hB.2 hdeny).1, (hB.2 hdeny).2⟩

/-- The sample server holds the actor `1`, whose root sits 60 away with break
distance 50 and carries a script that denies the auto-drop: the moment the loop
reaches slot 0 of the replicated array. -/
theorem Sample.Holding_denied :
    TransformQueried Sample.Server FTransform.Identity true 0
      (FTransform.Identity, Sample.DenyingScene, Sample.Holding)
      (Sample.Grip 1 1 .ForceServerSideMovement) 2 1 true false FTransform.Identity where
  slot := by decide
  movement := by decide
  replicated := by decide
  notPaused := by decide
  validID := by decide
  live := by decide
  notEventsOnly := by decide
  notCustomGrip := by decide
  target := by decide
  transform := by decide

/-- Witness for C22: on the sample server the grip of the actor `1`, past its
break distance, is kept by the denying script and nothing is broadcast. -/
theorem break_distance_policy_witness :
    ((Sample.Holding.ModifySlot true 0 (fun g => { g with LastWorldTransform := FTransform.Identity })).ModifySlot true 0
      (fun g => { g with GripDistance := MeasuredGripDistance Sample.DenyingScene Sample.Holding (Sample.Grip 1 1 .ForceServerSideMovement) 2 FTransform.Identity })).Trace =
      Sample.Holding.Trace :=
  ((break_distance_policy Sample.Server FTransform.Identity true 0
    (FTransform.Identity, Sample.DenyingScene, Sample.Holding)
    (Sample.Grip 1 1 .ForceServerSideMovement) 2 1 2 50 FTransform.Identity
    Sample.Holding_denied (by decide) (by decide) (by decide) (by decide) (by decide) (by decide)
    (by decide)).1 (by decide)).1

/-! ## Which grips the break-distance check and the tick notification cover -/

/-- Counterexample to C23 as stated: the sample server holds the actor `1` in
`InteractiveHybridCollisionWithSweep` mode, not colliding; its interface has
the break distance 50 and the root sits 60 away, but the check does not apply
and after the tick the record is still in `GrippedObjects`. -/
theorem hybrid_sweep_grip_is_checked_only_when_colliding :
    BreakDistanceApplies Sample.FarScene
      { Sample.Grip 1 1 .ForceServerSideMovement with GripCollisionType := .InteractiveHybridCollisionWithSweep }
      2 1 = false ∧
    (Sample.FarScene.Objects 2).GripBreakDistance = 50 ∧
    MeasuredGripDistance Sample.FarScene (Sample.HoldingAs .InteractiveHybridCollisionWithSweep)
      { Sample.Grip 1 1 .ForceServerSideMovement with GripCollisionType := .InteractiveHybridCollisionWithSweep }
      2 FTransform.Identity = 60 ∧
    (TickGrip Sample.Server Sample.FarScene
      (Sample.HoldingAs .InteractiveHybridCollisionWithSweep)).2.GrippedObjects.map
      (fun r => r.Key) = [(some 1, 1)] := by
  refine ⟨by decide, by decide, by decide, by decide⟩

/-- C23 (amended): the break-distance check of the tick applies to a grip
exactly when its target bears the grip interface, its collision mode is none
of `AttachmentGrip`, `PhysicsOnly` and `SweepWithPhysics`, and, in
`InteractiveHybridCollisionWithSweep` mode, the grip is colliding; in the
other modes it applies whatever the colliding state; where it does not apply
nothing is dropped: the block leaves the scene and the state as they are and
the iteration goes on. -/
theorem break_distance_check_applies_exactly (w : World) (Grip : FBPActorGripInformation)
    (root actor : UObject) :
    (BreakDistanceApplies w Grip root actor = true ↔
      ((InterfaceOf w root actor).isSome = true ∧
        Grip.GripCollisionType ≠ .AttachmentGrip ∧ Grip.GripCollisionType ≠ .PhysicsOnly ∧
        Grip.GripCollisionType ≠ .SweepWithPhysics ∧
        (Grip.GripCollisionType = .InteractiveHybridCollisionWithSweep → Grip.bColliding = true))) ∧
    (∀ (env : Env) (st : State) (b : Bool) (i : Nat) (T : FTransform),
      BreakDistanceApplies w Grip root actor = false →
        BreakDistanceCheck env w st b i Grip root actor T = (false, w, st)) := by
  constructor
  · unfold BreakDistanceApplies
    cases Grip.GripCollisionType <;> cases Grip.bColliding <;>
      cases (InterfaceOf w root actor).isSome <;> simp
  · intro env st b i T h
    unfold BreakDistanceCheck
    exact if_pos (by rw [h]; rfl)

/-- Counterexample to C24 as stated: with `bAlwaysSendTickGrip` set, the sample
server holds the actor `1`, whose root implements the grip interface, in
`EventsOnly` mode; the tick sends nothing: the trace stays empty. -/
theorem events_only_grip_gets_no_tick_notification :
    Sample.TickingServer.bAlwaysSendTickGrip = true ∧
    (Sample.FarScene.Objects 2).bImplementsGripInterface = true ∧
    (TickGrip Sample.TickingServer Sample.FarScene (Sample.HoldingAs .EventsOnly)).2.Trace = [] ∧
    (TickGrip Sample.TickingServer Sample.FarScene
      (Sample.HoldingAs .EventsOnly)).2.GrippedObjects.map (fun r => r.Key) = [(some 1, 1)] := by
  refine ⟨by decide, by decide, by decide, by decide⟩

/-- The trace of the `bAlwaysSendTickGrip` block when the flag is set. -/
theorem SendTickGrip_Trace (env : Env) (w : World) (st : State) (Grip : FBPActorGripInformation)
    (root actor : UObject) (hA : env.bAlwaysSendTickGrip = true) :
    (SendTickGrip env w st Grip root actor).Trace =
      st.Trace ++
        (if (w.Objects root).bImplementsGripInterface then [Event.TickGrip root Grip.GripID] else []) ++
        (if (w.Objects actor).bImplementsGripInterface then [Event.TickGrip actor Grip.GripID] else []) := by
  unfold SendTickGrip
  rw [if_pos hA]
  cases (w.Objects root).bImplementsGripInterface <;>
    cases (w.Objects actor).bImplementsGripInterface <;> simp [State.Emit]

/-- C24 (amended): a grip in `EventsOnly` mode gets nothing from its iteration
of the tick, whatever `bAlwaysSendTickGrip` says. When `bAlwaysSendTickGrip`
is enabled, the iteration of a live grip this side moves, in a mode other than
`EventsOnly` and `CustomGrip`, with a valid transform and no forced drop, not
after a teleport, and which the break-distance block does not end, places the
record and then sends a `TickGrip` notification to the root when it
implements the grip interface and to the actor when it does. -/
theorem tick_notification_after_placement (env : Env) (P : FTransform) (b : Bool) (i : Nat)
    (acc : FTransform × World × State) (Grip Now : FBPActorGripInformation) (root actor : UObject)
    (T : FTransform)
    (h : TransformQueried env P b i acc Grip root actor true false T)
    (hpt : acc.2.2.bIsPostTeleport = false)
    (hc : (BreakDistanceCheck env acc.2.1
      (acc.2.2.ModifySlot b i (fun g => { g with LastWorldTransform := T })) b i
      { Grip with LastWorldTransform := T } root actor T).1 = false)
    (hNow : ((BreakDistanceCheck env acc.2.1
      (acc.2.2.ModifySlot b i (fun g => { g with LastWorldTransform := T })) b i
      { Grip with LastWorldTransform := T } root actor T).2.2.GripArray b)[i]? = some Now)
    (hA : env.bAlwaysSendTickGrip = true) :
    (∀ (G : FBPActorGripInformation) (a : FTransform × World × State),
      G.GripCollisionType = .EventsOnly → HandleValidGrip env b i P G a = a) ∧
    (HandleGrip env b P i acc).2.2.Trace =
      (PlaceGrip env
        (BreakDistanceCheck env acc.2.1
          (acc.2.2.ModifySlot b i (fun g => { g with LastWorldTransform := T })) b i
          { Grip with LastWorldTransform := T } root actor T).2.1
        (BreakDistanceCheck env acc.2.1
          (acc.2.2.ModifySlot b i (fun g => { g with LastWorldTransform := T })) b i
          { Grip with LastWorldTransform := T } root actor T).2.2 b i Now root T P).2.Trace ++
        (if ((PlaceGrip env
          (BreakDistanceCheck env acc.2.1
            (acc.2.2.ModifySlot b i (fun g => { g with LastWorldTransform := T })) b i
            { Grip with LastWorldTransform := T } root actor T).2.1
          (BreakDistanceCheck env acc.2.1
            (acc.2.2.ModifySlot b i (fun g => { g with LastWorldTransform := T })) b i
            { Grip with LastWorldTransform := T } root actor T).2.2 b i Now root T
            P).1.Objects root).bImplementsGripInterface
          then [Event.TickGrip root Now.GripID] else []) ++
        (if ((PlaceGrip env
          (BreakDistanceCheck env acc.2.1
            (acc.2.2.ModifySlot b i (fun g => { g with LastWorldTransform := T })) b i
            { Grip with LastWorldTransform := T } root actor T).2.1
          (BreakDistanceCheck env acc.2.1
            (acc.2.2.ModifySlot b i (fun g => { g with LastWorldTransform := T })) b i
            { Grip with LastWorldTransform := T } root actor T).2.2 b i Now root T
            P).1.Objects actor).bImplementsGripInterface
          then [Event.TickGrip actor Now.GripID] else []) := by
  refine ⟨fun G a hG => HandleValidGrip_eventsOnly env b i P G a hG, ?_⟩
  rw [HandleGrip_placed h hpt hc hNow]
  exact SendTickGrip_Trace env _ _ Now root actor hA

/-- The sample server with `bAlwaysSendTickGrip` holds the actor `1`, whose
root implements the grip interface: the moment the loop reaches slot 0 of the
replicated array, with a valid transform and no forced drop. -/
theorem Sample.Holding_queried :
    TransformQueried Sample.TickingServer FTransform.Identity true 0
      (FTransform.Identity, Sample.SecondaryScene .SG_None, Sample.Holding)
      (Sample.Grip 1 1 .ForceServerSideMovement) 2 1 true false FTransform.Identity where
  slot := by decide
  movement := by decide
  replicated := by decide
  notPaused := by decide
  validID := by decide
  live := by decide
  notEventsOnly := by decide
  notCustomGrip := by decide
  target := by decide
  transform := by decide

/-- Witness for C24: the iteration of the grip of the actor `1` on the sample
server with `bAlwaysSendTickGrip` ends with the `TickGrip` notification to the
root `2`. -/
theorem tick_notification_after_placement_witness :
    (HandleGrip Sample.TickingServer true FTransform.Identity 0
      (FTransform.Identity, Sample.SecondaryScene .SG_None, Sample.Holding)).2.2.Trace.getLast? =
      some (Event.TickGrip 2 1) := by
  rw [(tick_notification_after_placement Sample.TickingServer FTransform.Identity true 0
    (FTransform.Identity, Sample.SecondaryScene .SG_None, Sample.Holding)
    (Sample.Grip 1 1 .ForceServerSideMovement) (Sample.Grip 1 1 .ForceServerSideMovement) 2 1
    FTransform.Identity Sample.Holding_queried (by decide) (by decide) (by decide)
    (by decide)).2]
  decide

/-! ## Aborted handle set-up, teleport entry points, paused transform -/

/-- C26, evaluated on the code: the sample server holds the actor `1` without a
handle, and the root of the actor has no valid body instance;
`SetUpPhysicsHandle` returns false, leaves the records as they are, and leaves
the handle entry it created for the grip in `PhysicsGrips`. -/
theorem aborted_handle_setup_leaves_an_entry :
    (SetUpPhysicsHandle (Sample.Scene (fun o => { o with bValidBodyInstance := false }))
      Sample.Holding (Sample.Grip 1 1 .ForceServerSideMovement)).1 = false ∧
    Sample.Holding.PhysicsGrips = [] ∧
    (SetUpPhysicsHandle (Sample.Scene (fun o => { o with bValidBodyInstance := false }))
      Sample.Holding (Sample.Grip 1 1 .ForceServerSideMovement)).2.2.PhysicsGrips.map
      (fun h => h.Key) = [(some 1, 1)] ∧
    (SetUpPhysicsHandle (Sample.Scene (fun o => { o with bValidBodyInstance := false }))
      Sample.Holding (Sample.Grip 1 1 .ForceServerSideMovement)).2.2.GrippedObjects =
      Sample.Holding.GrippedObjects := by
  refine ⟨by decide, by decide, by decide, by decide⟩

/-- C27, evaluated on the code: the sample server holds the actor `1` in
`GrippedObjects` only; `TeleportMoveGrip` on the record returns true, but
`TeleportMoveGrippedActor` and `TeleportMoveGrippedComponent` return false and
change nothing, while for the same target held in `LocallyGrippedObjects`
`TeleportMoveGrippedActor` returns true. -/
theorem teleport_by_object_misses_replicated_grips :
    (TeleportMoveGrip Sample.Server (Sample.Scene id) Sample.Holding
      (Sample.Grip 1 1 .ForceServerSideMovement) true false).1 = true ∧
    TeleportMoveGrippedActor Sample.Server (Sample.Scene id) Sample.Holding (some 1) true false =
      (false, Sample.Scene id, Sample.Holding) ∧
    TeleportMoveGrippedComponent Sample.Server (Sample.Scene id) Sample.Holding (some 1) true false =
      (false, Sample.Scene id, Sample.Holding) ∧
    (TeleportMoveGrippedActor Sample.Server (Sample.Scene id) (Sample.HoldingLocally 1) (some 1)
      true false).1 = true := by
  refine ⟨by decide, rfl, rfl, by decide⟩

/-- C28, evaluated on the code: the sample client holds the actor `1` in
`LocallyGrippedObjects` at index 0 and nothing in `GrippedObjects`;
`SetPausedTransform` without teleport finds the grip at index 0 of
`LocallyGrippedObjects` and then reads `GrippedObjects[0]`, past the end of the
empty array. -/
theorem paused_transform_indexes_the_replicated_array :
    FindGrip (Sample.HoldingLocally 1).GrippedObjects (Sample.Grip 1 129 .ClientSide_Authoritive) =
      none ∧
    FindGrip (Sample.HoldingLocally 1).LocallyGrippedObjects
      (Sample.Grip 1 129 .ClientSide_Authoritive) = some 0 ∧
    (Sample.HoldingLocally 1).GrippedObjects.length = 0 ∧
    SetPausedTransform Sample.Client (Sample.Scene id) (Sample.HoldingLocally 1)
      (Sample.Grip 1 129 .ClientSide_Authoritive) (FTransform.ofTranslation 1 2 3) false = none := by
  refine ⟨by decide, by decide, by decide, rfl⟩

/-! ## Auxiliary facts: the flags of the target through a grip and a drop -/

theorem World.Agree.agree_refl (a b : Bool) (w : World) : World.Agree a b w w :=
  fun _ => ⟨rfl, rfl, fun _ => rfl, fun _ => rfl⟩

theorem World.Agree.agree_trans {a b : Bool} {w w2 w3 : World} (h1 : World.Agree a b w w2)
    (h2 : World.Agree a b w2 w3) : World.Agree a b w w3 :=
  fun x => ⟨(h2 x).1.trans (h1 x).1, (h2 x).2.1.trans (h1 x).2.1,
    fun ha => ((h2 x).2.2.1 ha).trans ((h1 x).2.2.1 ha),
    fun hb => ((h2 x).2.2.2 hb).trans ((h1 x).2.2.2 hb)⟩

theorem World.Agree.agree_weaken {a b a2 b2 : Bool} {w w2 : World} (h : World.Agree a b w w2)
    (ha : a2 = true → a = true) (hb : b2 = true → b = true) : World.Agree a2 b2 w w2 :=
  fun x => ⟨(h x).1, (h x).2.1, fun h1 => (h x).2.2.1 (ha h1), fun h1 => (h x).2.2.2 (hb h1)⟩

theorem World.Agree.agree_update (a b : Bool) (w : World) (o : UObject)
    (f : UObjectInfo → UObjectInfo)
    (hK : ∀ i, (f i).Kind = i.Kind) (hR : ∀ i, (f i).RootComponent = i.RootComponent)
    (hG : a = true → ∀ i, (f i).bGravityEnabled = i.bGravityEnabled)
    (hM : b = true → ∀ i, (f i).bReplicateMovement = i.bReplicateMovement) :
    World.Agree a b w (w.Update o f) := by
  intro x
  unfold World.Update
  simp only []
  by_cases hx : x = o
  · rw [if_pos hx]
    exact ⟨hK _, hR _, fun h => hG h _, fun h => hM h _⟩
  · rw [if_neg hx]
    exact ⟨rfl, rfl, fun _ => rfl, fun _ => rfl⟩

theorem World.Agree.agree_setSimulatePhysics (w : World) (r : UObject) (v : Bool) :
    World.Agree true true w (w.SetSimulatePhysics r v) :=
  World.Agree.agree_update true true w r _ (fun _ => rfl) (fun _ => rfl) (fun _ _ => rfl)
    (fun _ _ => rfl)

theorem World.Agree.agree_setAttached (w : World) (r : UObject) (v : Bool) :
    World.Agree true true w (w.SetAttached r v) :=
  World.Agree.agree_update true true w r _ (fun _ => rfl) (fun _ => rfl) (fun _ _ => rfl)
    (fun _ _ => rfl)

theorem World.Agree.agree_setEnableGravity (w : World) (r : UObject) (v : Bool) :
    World.Agree false true w (w.SetEnableGravity r v) :=
  World.Agree.agree_update false true w r _ (fun _ => rfl) (fun _ => rfl)
    (fun h => Bool.noConfusion h) (fun _ _ => rfl)

theorem World.Agree.agree_setReplicateMovement (w : World) (r : UObject) (v : Bool) :
    World.Agree true false w (w.SetReplicateMovement r v) :=
  World.Agree.agree_update true false w r _ (fun _ => rfl) (fun _ => rfl) (fun _ _ => rfl)
    (fun h => Bool.noConfusion h)

/-- The scene after `SetUpPhysicsHandle`: only the simulation flag of the root
may have changed. -/
theorem SetUpPhysicsHandle_world (w : World) (st : State) (g : FBPActorGripInformation) :
    World.Agree true true w (SetUpPhysicsHandle w st g).2.1 := by
  unfold SetUpPhysicsHandle
  split
  · exact World.Agree.agree_refl _ _ _
  · simp only []
    split
    · exact World.Agree.agree_setSimulatePhysics _ _ _
    · exact World.Agree.agree_setSimulatePhysics _ _ _

/-- The scene after the replication switch of `NotifyGrip`: only the movement
replication flag of the actor may have changed, and only on the server. -/
theorem NotifyGripReplication_world (env : Env) (w : World) (g : FBPActorGripInformation)
    (root pActor : Option UObject) :
    World.Agree true (!env.IsServer) w (NotifyGripReplication env w g root pActor) := by
  unfold NotifyGripReplication
  cases pActor with
  | none => exact World.Agree.agree_refl _ _ _
  | some a =>
    simp only []
    cases hS : env.IsServer with
    | false =>
      simp only [Bool.and_false, Bool.false_and, Bool.false_eq_true, if_false]
      exact World.Agree.agree_refl _ _ _
    | true =>
      simp only [Bool.not_true]
      split
      · cases g.GripMovementReplicationSetting
        all_goals first
          | exact World.Agree.agree_setReplicateMovement _ _ _
          | exact World.Agree.agree_refl _ _ _
      · exact World.Agree.agree_refl _ _ _

/-- The scene after the placement of `NotifyGrip` for a grip in
`InteractiveCollisionWithPhysics` mode: only the simulation flag of the root
may have changed. -/
theorem NotifyGripPlacement_world (env : Env) (w : World) (st : State)
    (g : FBPActorGripInformation) (root : Option UObject)
    (hC : g.GripCollisionType = .InteractiveCollisionWithPhysics) :
    World.Agree true true w (NotifyGripPlacement env w st g root).1 := by
  unfold NotifyGripPlacement
  rw [hC]
  simp only []
  by_cases hm : env.HasGripMovementAuthority g = true
  · rw [if_pos hm]
    exact SetUpPhysicsHandle_world w st g
  · rw [if_neg hm]
    exact World.Agree.agree_refl _ _ _

/-- The gravity switch of `NotifyGrip`. -/
theorem NotifyGripGravity_world (env : Env) (w : World) (g : FBPActorGripInformation)
    (t : Option UObject) :
    World.Agree (!TouchesGravity env g) true w
      (match t with
        | some r =>
          if (g.GripCollisionType != .EventsOnly) && TouchesGravity env g
          then w.SetEnableGravity r false else w
        | none => w) := by
  cases t with
  | none => exact World.Agree.agree_refl _ _ _
  | some r =>
    simp only []
    by_cases hc : ((g.GripCollisionType != .EventsOnly) && TouchesGravity env g) = true
    · rw [if_pos hc]
      have ht : TouchesGravity env g = true := by
        rw [Bool.and_eq_true] at hc
        exact hc.2
      rw [ht]
      exact World.Agree.agree_setEnableGravity _ _ _
    · rw [if_neg hc]
      exact World.Agree.agree_refl _ _ _

/-- The scene after `NotifyGrip` for a grip in `InteractiveCollisionWithPhysics`
mode: classes and roots are as before, the gravity flags too unless the grip
touches gravity, the movement replication flags too unless this is the server. -/
theorem NotifyGrip_world (env : Env) (w : World) (st : State) (g : FBPActorGripInformation)
    (hC : g.GripCollisionType = .InteractiveCollisionWithPhysics) :
    World.Agree (!TouchesGravity env g) (!env.IsServer) w (NotifyGrip env w st g).2.1 := by
  have chain : ∀ s : State, World.Agree (!TouchesGravity env g) (!env.IsServer) w
      (NotifyGripPlacement env
        (NotifyGripReplication env
          (match (ResolveTarget w g).1 with
            | some r =>
              if (g.GripCollisionType != .EventsOnly) && TouchesGravity env g
              then w.SetEnableGravity r false else w
            | none => w)
          g (ResolveTarget w g).1 (ResolveTarget w g).2) s g (ResolveTarget w g).1).1 := by
    intro s
    refine World.Agree.agree_trans
      ((NotifyGripGravity_world env w g (ResolveTarget w g).1).agree_weaken (fun h => h)
        (fun _ => rfl)) ?_
    refine World.Agree.agree_trans
      ((NotifyGripReplication_world env _ g (ResolveTarget w g).1
        (ResolveTarget w g).2).agree_weaken (fun _ => rfl) (fun h => h)) ?_
    exact (NotifyGripPlacement_world env _ s g _ hC).agree_weaken (fun _ => rfl) (fun _ => rfl)
  have key : ∀ (o : Option UObject) (F : UObject → World × State),
      (∀ x, World.Agree (!TouchesGravity env g) (!env.IsServer) w (F x).1) →
      World.Agree (!TouchesGravity env g) (!env.IsServer) w
        (match o with
          | none => (false, w, st)
          | some Object => (true, (F Object).1,
              State.Emit (F Object).2 (.OnGrippedObject g.GripID))).2.1 := by
    intro o F hF
    cases o with
    | none => exact World.Agree.agree_refl _ _ _
    | some Object => exact hF Object
  exact key
    (match g.GripTargetType with
      | .ActorGrip => w.GetGrippedActor g
      | .ComponentGrip => w.GetGrippedComponent g)
    (fun Object => NotifyGripPlacement env
      (NotifyGripReplication env
        (match (ResolveTarget w g).1 with
          | some r =>
            if (g.GripCollisionType != .EventsOnly) && TouchesGravity env g
            then w.SetEnableGravity r false else w
          | none => w)
        g (ResolveTarget w g).1 (ResolveTarget w g).2)
      (if (w.Objects Object).bImplementsGripInterface
        then State.Emit (State.Emit st (.SetHeld Object g.GripID true)) (.OnGrip Object g.GripID)
        else st) g (ResolveTarget w g).1)
    (fun _ => chain _)

theorem InsertGrip_world (env : Env) (w : World) (st : State) (b : Bool)
    (g : FBPActorGripInformation)
    (hC : g.GripCollisionType = .InteractiveCollisionWithPhysics) :
    World.Agree (!TouchesGravity env g) (!env.IsServer) w (InsertGrip env w st b g).2.1 := by
  unfold InsertGrip
  by_cases hb : (!b) = true
  · rw [if_pos hb]
    exact NotifyGrip_world env w _ g hC
  · rw [if_neg hb]
    exact NotifyGrip_world env w _ g hC

theorem World.gravity_setEnableGravity (w : World) (r : UObject) (v : Bool) :
    ((w.SetEnableGravity r v).Objects r).bGravityEnabled = v := by
  unfold World.SetEnableGravity World.Update
  simp

theorem World.replicate_setReplicateMovement (w : World) (r : UObject) (v : Bool) :
    ((w.SetReplicateMovement r v).Objects r).bReplicateMovement = v := by
  unfold World.SetReplicateMovement World.Update
  simp

/-- The flags after the nest of writes of a full drop: simulation, gravity,
movement replication. -/
theorem World.flags_after_drop_writes (w W : World) (root A : UObject) (c1 c2 c3 : Bool)
    (orig origR bSim : Bool) (hW : World.Agree true true w W) :
    (((if c3 then
        (if c2 then (if c1 then W.SetSimulatePhysics root bSim else W).SetEnableGravity root orig
          else (if c1 then W.SetSimulatePhysics root bSim else W)).SetReplicateMovement A origR
      else
        (if c2 then (if c1 then W.SetSimulatePhysics root bSim else W).SetEnableGravity root orig
          else (if c1 then W.SetSimulatePhysics root bSim else W))).Objects root).bGravityEnabled =
      (if c2 then orig else (w.Objects root).bGravityEnabled)) ∧
    (((if c3 then
        (if c2 then (if c1 then W.SetSimulatePhysics root bSim else W).SetEnableGravity root orig
          else (if c1 then W.SetSimulatePhysics root bSim else W)).SetReplicateMovement A origR
      else
        (if c2 then (if c1 then W.SetSimulatePhysics root bSim else W).SetEnableGravity root orig
          else (if c1 then W.SetSimulatePhysics root bSim else W))).Objects A).bReplicateMovement =
      (if c3 then origR else (w.Objects A).bReplicateMovement)) := by
  have hb : World.Agree true true w (if c1 then W.SetSimulatePhysics root bSim else W) := by
    cases c1
    · exact hW
    · exact hW.agree_trans (World.Agree.agree_setSimulatePhysics _ _ _)
  generalize (if c1 = true then W.SetSimulatePhysics root bSim else W) = Wb at hb
  have hG : ((if c2 then Wb.SetEnableGravity root orig else Wb).Objects root).bGravityEnabled =
      (if c2 then orig else (w.Objects root).bGravityEnabled) := by
    cases c2
    · exact (hb root).2.2.1 rfl
    · exact World.gravity_setEnableGravity _ _ _
  have hM : ((if c2 then Wb.SetEnableGravity root orig else Wb).Objects A).bReplicateMovement =
      (w.Objects A).bReplicateMovement := by
    cases c2
    · exact (hb A).2.2.2 rfl
    · exact ((World.Agree.agree_setEnableGravity Wb root orig A).2.2.2 rfl).trans
        ((hb A).2.2.2 rfl)
  generalize (if c2 = true then Wb.SetEnableGravity root orig else Wb) = Wc at hG hM
  cases c3
  · exact ⟨hG, hM⟩
  · exact ⟨((World.Agree.agree_setReplicateMovement Wc A origR root).2.2.1 rfl).trans hG,
      World.replicate_setReplicateMovement _ _ _⟩

/-- The flags of the target after the target effects of a full drop of an actor
grip in `InteractiveCollisionWithPhysics` mode: the gravity flag of the root is
the original one when the grip touches gravity, the movement replication flag
of the actor is the original one on the server; else they are as before. -/
theorem DropTargetEffects_flags (env : Env) (w : World) (st : State)
    (g : FBPActorGripInformation) (A root : UObject) (bSimulate : Bool)
    (hT : g.GripTargetType = .ActorGrip) (hGA : w.GetGrippedActor g = some A)
    (hR : w.RootOf A = some root)
    (hC : g.GripCollisionType = .InteractiveCollisionWithPhysics) :
    ((DropTargetEffects env w st g bSimulate false).1.Objects root).bGravityEnabled =
      (if TouchesGravity env g then g.bOriginalGravity else (w.Objects root).bGravityEnabled) ∧
    ((DropTargetEffects env w st g bSimulate false).1.Objects A).bReplicateMovement =
      (if env.IsServer then g.bOriginalReplicatesMovement
        else (w.Objects A).bReplicateMovement) := by
  have hN := World.flags_after_drop_writes w w root A
    (env.IsServer || env.HasGripAuthority g || !g.bOriginalReplicatesMovement ||
      !(w.Objects A).bReplicates)
    (TouchesGravity env g) env.IsServer g.bOriginalGravity g.bOriginalReplicatesMovement
    bSimulate (World.Agree.agree_refl _ _ _)
  unfold DropTargetEffects
  rw [hT]
  simp only []
  rw [hGA]
  simp only []
  rw [hR]
  simp only [hC]
  simpa using hN

/-- The scene after the target effects of a drop does not depend on the state. -/
theorem DropTargetEffects_world_congr (env : Env) (w : World) (st st2 : State)
    (g : FBPActorGripInformation) (bSimulate bSkip : Bool) :
    (DropTargetEffects env w st g bSimulate bSkip).1 =
      (DropTargetEffects env w st2 g bSimulate bSkip).1 := by
  unfold DropTargetEffects
  cases g.GripTargetType with
  | ActorGrip =>
    simp only []
    cases w.GetGrippedActor g with
    | none => rfl
    | some a => rfl
  | ComponentGrip =>
    simp only []
    cases w.GetGrippedComponent g with
    | none => rfl
    | some a => rfl

/-- The full-drop test reads the arrays of the state only. -/
theorem DropSkipFullDrop_congr (env : Env) (w : World) (st st2 : State)
    (g : FBPActorGripInformation) (hG : st2.GrippedObjects = st.GrippedObjects)
    (hL : st2.LocallyGrippedObjects = st.LocallyGrippedObjects) :
    DropSkipFullDrop env w st2 g = DropSkipFullDrop env w st g := by
  unfold DropSkipFullDrop
  rw [hG, hL]

/-- The scene after a successful `DropGrip`: that of the target effects of the
drop of the located record. -/
theorem DropGrip_world (env : Env) (w : World) (st : State) (g : FBPActorGripInformation)
    (b : Bool) (hNet : env.IsServer = true → env.NetMode ≠ .NM_Client)
    (h : (DropGrip env w st g b).1 = true) :
    ∃ Found, (FindGripRecord st.LocallyGrippedObjects g = some Found ∨
        (FindGripRecord st.LocallyGrippedObjects g = none ∧
          FindGripRecord st.GrippedObjects g = some Found)) ∧
      (DropGrip env w st g b).2.1 =
        (DropTargetEffects env w st Found b (DropSkipFullDrop env w st Found)).1 := by
  have hD : ∀ (s : State) (F : FBPActorGripInformation), s.GrippedObjects = st.GrippedObjects →
      s.LocallyGrippedObjects = st.LocallyGrippedObjects →
      (Drop_Implementation env w s F b).1 =
        (DropTargetEffects env w st F b (DropSkipFullDrop env w st F)).1 := by
    intro s F hG hL
    unfold Drop_Implementation
    simp only []
    rw [DropSkipFullDrop_congr env w st s F hG hL]
    exact DropTargetEffects_world_congr env w _ st F b _
  unfold DropGrip at h ⊢
  cases hL : FindGripRecord st.LocallyGrippedObjects g with
  | some Found =>
    refine ⟨Found, Or.inl rfl, ?_⟩
    simp only []
    cases hC : env.NetMode == ENetMode.NM_Client with
    | true =>
      simp only [if_true]
      by_cases ht : (!env.IsTornOff) = true
      · rw [if_pos ht]
        exact hD _ Found rfl rfl
      · rw [if_neg ht]
        exact hD _ Found rfl rfl
    | false =>
      simp only [Bool.false_eq_true, if_false]
      unfold NotifyDrop_Implementation
      simp only [hC, Bool.and_false, Bool.false_eq_true, if_false]
      exact hD _ Found rfl rfl
  | none =>
    rw [hL] at h
    simp only [] at h
    cases hS : env.IsServer with
    | false =>
      rw [hS] at h
      simp at h
    | true =>
      rw [hS] at h
      simp only [Bool.not_true, Bool.false_eq_true, if_false] at h ⊢
      cases hG : FindGripRecord st.GrippedObjects g with
      | none =>
        rw [hG] at h
        simp at h
      | some Found =>
        refine ⟨Found, Or.inr (by simp), ?_⟩
        simp only []
        have hC : (env.NetMode == ENetMode.NM_Client) = false := by
          have := hNet hS
          simpa using this
        unfold NotifyDrop_Implementation
        simp only [hC, Bool.and_false, Bool.false_eq_true, if_false]
        exact hD _ Found rfl rfl

theorem FindByObject_append_new (l : List FBPActorGripInformation) (g : FBPActorGripInformation)
    (o : Option UObject) (hl : FindByObject l o = none) (hg : g.EqualsObject o = true) :
    FindByObject (l ++ [g]) o = some g := by
  unfold FindByObject at hl ⊢
  rw [List.find?_append, hl]
  simp [hg]

theorem countP_of_none (l : List FBPActorGripInformation) (o : Option UObject)
    (hl : FindByObject l o = none) : l.countP (fun r => r.EqualsObject o) = 0 := by
  rw [List.countP_eq_zero]
  intro r hr
  rw [FindByObject_eq_none.mp hl r hr]
  exact Bool.false_ne_true

/-- The record a successful `InsertGrip` leaves for an object that was not held:
it is the record `GetGripByObject` finds, the only one for the object, and it
sits in the predicted array unless the grip is a replicated one. -/
theorem InsertGrip_held (env : Env) (w : World) (st : State) (b : Bool)
    (g : FBPActorGripInformation) (A : UObject) (hO : g.GrippedObject = some A)
    (hHeld : GetIsObjectHeld st (some A) = false) :
    GetGripByObject (InsertGrip env w st b g).2.2 (some A) = some g ∧
    (InsertGrip env w st b g).2.2.Records.countP (fun r => r.EqualsObject (some A)) ≤ 1 ∧
    (b = true → FindByObject (InsertGrip env w st b g).2.2.GrippedObjects (some A) = none) := by
  have hE : g.EqualsObject (some A) = true := by
    unfold FBPActorGripInformation.EqualsObject
    rw [hO]
    simp
  have h1 : FindByObject st.GrippedObjects (some A) = none := by
    cases h : FindByObject st.GrippedObjects (some A) with
    | none => rfl
    | some x =>
      exfalso
      unfold GetIsObjectHeld at hHeld
      rw [h] at hHeld
      simp at hHeld
  have h2 : FindByObject st.LocallyGrippedObjects (some A) = none := by
    cases h : FindByObject st.LocallyGrippedObjects (some A) with
    | none => rfl
    | some x =>
      exfalso
      unfold GetIsObjectHeld at hHeld
      rw [h] at hHeld
      simp at hHeld
  have hA := InsertGrip_appends env w st b g
  unfold State.GripArray at hA
  unfold GetGripByObject State.Records
  cases b with
  | false =>
    simp only [Bool.not_false, if_true, Bool.false_eq_true, if_false] at hA
    rw [hA.2.1, hA.2.2]
    refine ⟨?_, ?_, fun hc => Bool.noConfusion hc⟩
    · simp only [Option.isNone_some, Bool.false_eq_true, if_false]
      rw [FindByObject_append_new _ g _ h1 hE]
      rfl
    · rw [List.countP_append, List.countP_append, countP_of_none _ _ h1,
        countP_of_none _ _ h2]
      simp [hE]
  | true =>
    simp only [Bool.not_true, if_true, Bool.false_eq_true, if_false] at hA
    rw [hA.2.1, hA.2.2]
    refine ⟨?_, ?_, fun _ => h1⟩
    · simp only [Option.isNone_some, Bool.false_eq_true, if_false]
      rw [h1, FindByObject_append_new _ g _ h2 hE]
      rfl
    · rw [List.countP_append, List.countP_append, countP_of_none _ _ h1,
        countP_of_none _ _ h2]
      simp [hE]

/-- The record a successful `GripActor` inserts for an actor nobody holds: an
actor grip of the actor in the requested collision mode that stores the
gravity flag of the root and the movement replication flag of the actor as
the original ones. -/
theorem GripActor_record (env : Env) (w : World) (st : State) (A root : UObject) (a : GripArgs)
    (hRoot : w.RootOf A = some root)
    (hFree : ∀ i, InterfaceOf w root A = some i → (w.Objects i).IsHeld = false)
    (hGrip : (GripActor env w st (some A) a).1 = true) :
    ∃ g : FBPActorGripInformation, g.GrippedObject = some A ∧ g.GripTargetType = .ActorGrip ∧
      g.GripCollisionType = a.GripCollisionType ∧
      g.bOriginalGravity = (w.Objects root).bGravityEnabled ∧
      g.bOriginalReplicatesMovement = (w.Objects A).bReplicateMovement ∧
      GetIsObjectHeld st (some A) = false ∧
      GripActor env w st (some A) a = InsertGrip env w
        { st with GripIDIncrementer := (env.GetNextGripID
            (IsLocalGripSetting a.GripMovementReplicationSetting) st.GripIDIncrementer).2 }
        (IsLocalGripSetting a.GripMovementReplicationSetting) g := by
  rcases GripActor_built env w st (some A) a with hf | ⟨Actor, root2, Settings, ht, hroot, hheld,
    hSet, hEq⟩
  · rw [hf] at hGrip
    cases hGrip
  · cases ht
    rw [hRoot] at hroot
    cases hroot
    have hS2 : Settings.2 = none := by
      cases hI : InterfaceOf w root A with
      | none =>
        rw [hI] at hSet
        cases hSet
        rfl
      | some i =>
        rw [hI] at hSet
        unfold ConsultInterface at hSet
        have hh := hFree i hI
        by_cases hd : (w.Objects i).DenyGripping = true
        · simp [hd] at hSet
        · simp [hd, hh] at hSet
          rw [← hSet]
    rw [hS2] at hEq
    exact ⟨_, rfl, rfl, rfl, rfl, rfl, hheld, hEq⟩

/-- A record of an actor nobody held, inserted by `InsertGrip` and then dropped
with simulation while this controller is its only holder: the drop succeeds,
no handle and no record of the actor is left, and the gravity flag of the root
and the movement replication flag of the actor are the ones the record stored
as original. -/
theorem InsertGrip_then_drop (env : Env) (w : World) (st0 : State) (b : Bool)
    (g : FBPActorGripInformation) (A root : UObject)
    (hHI : HandleInvariant (InsertGrip env w st0 b g).2.2)
    (hNet : env.IsServer = true → env.NetMode ≠ .NM_Client)
    (hgO : g.GrippedObject = some A) (hgT : g.GripTargetType = .ActorGrip)
    (hgC : g.GripCollisionType = .InteractiveCollisionWithPhysics)
    (hgG : g.bOriginalGravity = (w.Objects root).bGravityEnabled)
    (hgR : g.bOriginalReplicatesMovement = (w.Objects A).bReplicateMovement)
    (hKind : (w.Objects A).Kind = .Actor) (hRoot : w.RootOf A = some root)
    (hheld : GetIsObjectHeld st0 (some A) = false)
    (hSide : b = false → env.IsServer = true)
    (hSingle : ∀ g2, GetGripByObject (InsertGrip env w st0 b g).2.2 (some A) = some g2 →
      DropSkipFullDrop env (InsertGrip env w st0 b g).2.1 (InsertGrip env w st0 b g).2.2 g2 = false)
    (hAuth : ∀ g2, GetGripByObject (InsertGrip env w st0 b g).2.2 (some A) = some g2 →
      (env.HasGripAuthority g2 || (env.NetMode != .NM_Client)) = true) :
    GetGripByObject (InsertGrip env w st0 b g).2.2 (some A) = some g ∧
      (DropGrip env (InsertGrip env w st0 b g).2.1 (InsertGrip env w st0 b g).2.2 g true).1 = true ∧
      (∀ h ∈ (DropGrip env (InsertGrip env w st0 b g).2.1
          (InsertGrip env w st0 b g).2.2 g true).2.2.PhysicsGrips, h.HandledObject ≠ some A) ∧
      (∀ r ∈ (DropGrip env (InsertGrip env w st0 b g).2.1
          (InsertGrip env w st0 b g).2.2 g true).2.2.Records, r.GrippedObject ≠ some A) ∧
      ((DropGrip env (InsertGrip env w st0 b g).2.1
          (InsertGrip env w st0 b g).2.2 g true).2.1.Objects root).bGravityEnabled =
        (w.Objects root).bGravityEnabled ∧
      ((DropGrip env (InsertGrip env w st0 b g).2.1
          (InsertGrip env w st0 b g).2.2 g true).2.1.Objects A).bReplicateMovement =
        (w.Objects A).bReplicateMovement := by
  obtain ⟨hG, hOne, hLoc⟩ := InsertGrip_held env w st0 b g A hgO hheld
  have hW := InsertGrip_world env w st0 b g hgC
  generalize (InsertGrip env w st0 b g).2.1 = w1 at *
  generalize (InsertGrip env w st0 b g).2.2 = st1 at *
  have hSd : FindByObject st1.GrippedObjects (some A) = none ∨ env.IsServer = true := by
    rcases Bool.eq_false_or_eq_true b with hb | hb
    · exact Or.inl (hLoc hb)
    · exact Or.inr (hSide hb)
  obtain ⟨hDrop, hNoRec⟩ :=
    DropGrip_by_object env w1 st1 (some A) g true hNet hG hOne hSd (hAuth g hG)
  have hHI2 := hHI.dropGrip env w1 g true
  obtain ⟨_, _, hmem, hEO, _, _, _⟩ := GetGripByObject_some hG
  obtain ⟨Found, hF, hWd⟩ := DropGrip_world env w1 st1 g true hNet hDrop
  have hFound : Found = g := by
    have hfm : Found ∈ st1.Records ∧ Found.Equals g = true := by
      rcases hF with h | ⟨_, h⟩
      · have hE := List.find?_some h
        exact ⟨List.mem_append_right _ (List.mem_of_find?_eq_some h), hE⟩
      · have hE := List.find?_some h
        exact ⟨List.mem_append_left _ (List.mem_of_find?_eq_some h), hE⟩
    have hk := ((Equals_iff Found g).mp hfm.2).2
    have hFO : Found.EqualsObject (some A) = true := by
      unfold FBPActorGripInformation.EqualsObject
      have hfo : Found.GrippedObject = g.GrippedObject := congrArg Prod.fst hk
      rw [hfo, hgO]
      simp
    exact unique_mem (fun r => r.EqualsObject (some A)) st1.Records hOne Found g hfm.1 hmem
      hFO hEO
  rw [hFound, hSingle g hG] at hWd
  have hK1 : (w1.Objects A).Kind = .Actor := by
    rw [(hW A).1]
    exact hKind
  have hGA : w1.GetGrippedActor g = some A := by
    unfold World.GetGrippedActor World.CastActor
    rw [hgO]
    exact if_pos hK1
  have hR1 : w1.RootOf A = some root := by
    unfold World.RootOf
    rw [(hW A).2.1]
    exact hRoot
  obtain ⟨hgr, hrp⟩ := DropTargetEffects_flags env w1 st1 g A root true hgT hGA hR1 hgC
  rw [← hWd] at hgr hrp
  refine ⟨hG, hDrop, ?_, ?_, ?_, ?_⟩
  · intro h hh hO
    have hkey : h.Key ∈ (DropGrip env w1 st1 g true).2.2.HandleKeys := List.mem_map_of_mem _ hh
    obtain ⟨r, hr, hrk⟩ := List.mem_map.mp (hHI2.covered hkey)
    have hro : r.GrippedObject = some A := (congrArg Prod.fst hrk).trans hO
    have hne := hNoRec r hr
    unfold FBPActorGripInformation.EqualsObject at hne
    rw [hro] at hne
    simp at hne
  · intro r hr hro
    have hne := hNoRec r hr
    unfold FBPActorGripInformation.EqualsObject at hne
    rw [hro] at hne
    simp at hne
  · rw [hgr]
    by_cases hT : TouchesGravity env g = true
    · rw [if_pos hT]
      exact hgG
    · rw [if_neg hT]
      exact (hW root).2.2.1 (by simp [hT])
  · rw [hrp]
    by_cases hT : env.IsServer = true
    · rw [if_pos hT]
      exact hgR
    · rw [if_neg hT]
      exact (hW A).2.2.2 (by simp [hT])

/-- C11: grip then drop restores the target. For an actor `A` with primitive
root `root` that nobody holds, after `GripActor` of `A` in
`InteractiveCollisionWithPhysics` mode has succeeded, the record of `A` is
found, and while this controller is the single holder and has authority over
that grip, `DropGrip` of it with simulate = true succeeds and leaves no
physics handle for `A`, no record for `A` in either collection, and the
gravity flag of the root of `A` and the replicate-movement flag of `A` equal
to the values they had before the grip. -/
theorem grip_then_drop_restores_target (env : Env) (w : World) (st : State) (A root : UObject)
    (a : GripArgs) (hS : HandleInvariant st)
    (hNet : env.IsServer = true → env.NetMode ≠ .NM_Client)
    (hType : a.GripCollisionType = .InteractiveCollisionWithPhysics)
    (hKind : (w.Objects A).Kind = .Actor) (hRoot : w.RootOf A = some root)
    (hFree : ∀ i, InterfaceOf w root A = some i → (w.Objects i).IsHeld = false)
    (hGrip : (GripActor env w st (some A) a).1 = true)
    (hSingle : ∀ g, GetGripByObject (GripActor env w st (some A) a).2.2 (some A) = some g →
      DropSkipFullDrop env (GripActor env w st (some A) a).2.1
        (GripActor env w st (some A) a).2.2 g = false)
    (hAuth : ∀ g, GetGripByObject (GripActor env w st (some A) a).2.2 (some A) = some g →
      (env.HasGripAuthority g || (env.NetMode != .NM_Client)) = true) :
    ∃ g, GetGripByObject (GripActor env w st (some A) a).2.2 (some A) = some g ∧
      (DropGrip env (GripActor env w st (some A) a).2.1
        (GripActor env w st (some A) a).2.2 g true).1 = true ∧
      (∀ h ∈ (DropGrip env (GripActor env w st (some A) a).2.1
          (GripActor env w st (some A) a).2.2 g true).2.2.PhysicsGrips,
        h.HandledObject ≠ some A) ∧
      (∀ r ∈ (DropGrip env (GripActor env w st (some A) a).2.1
          (GripActor env w st (some A) a).2.2 g true).2.2.Records,
        r.GrippedObject ≠ some A) ∧
      ((DropGrip env (GripActor env w st (some A) a).2.1
          (GripActor env w st (some A) a).2.2 g true).2.1.Objects root).bGravityEnabled =
        (w.Objects root).bGravityEnabled ∧
      ((DropGrip env (GripActor env w st (some A) a).2.1
          (GripActor env w st (some A) a).2.2 g true).2.1.Objects A).bReplicateMovement =
        (w.Objects A).bReplicateMovement := by
  obtain ⟨g, hgO, hgT, hgC, hgG, hgR, hheld, hEq⟩ :=
    GripActor_record env w st A root a hRoot hFree hGrip
  have hHI := hS.gripActor env w (some A) a
  have hSide : IsLocalGripSetting a.GripMovementReplicationSetting = false →
      env.IsServer = true := by
    intro hl
    cases hs : env.IsServer with
    | true => rfl
    | false =>
      have hf := (GripActor_fails_iff env w st (some A) a).mpr (Or.inl ⟨hs, hl⟩)
      rw [hf] at hGrip
      cases hGrip
  rw [hEq] at hSingle hAuth hHI ⊢
  exact ⟨g, InsertGrip_then_drop env w _ _ g A root hHI hNet hgO hgT (hgC.trans hType) hgG hgR
    hKind hRoot hheld hSide hSingle hAuth⟩

/-- Witness of C11: on the sample server the actor `1` (root `2`), which nobody
holds, is gripped in `InteractiveCollisionWithPhysics` mode, which creates its
one physics handle, and then dropped. -/
theorem grip_then_drop_restores_target_witness :
    (GripActor Sample.Server (Sample.Scene id) State.Initial (some 1)
      (Sample.Args .InteractiveCollisionWithPhysics .ForceServerSideMovement)).1 = true ∧
    (GripActor Sample.Server (Sample.Scene id) State.Initial (some 1)
      (Sample.Args .InteractiveCollisionWithPhysics .ForceServerSideMovement)).2.2.PhysicsGrips.map
        (fun h => h.HandledObject) = [some 1] ∧
    ∃ g, GetGripByObject (GripActor Sample.Server (Sample.Scene id) State.Initial (some 1)
        (Sample.Args .InteractiveCollisionWithPhysics .ForceServerSideMovement)).2.2 (some 1) = some g ∧
      (DropGrip Sample.Server (GripActor Sample.Server (Sample.Scene id) State.Initial (some 1)
          (Sample.Args .InteractiveCollisionWithPhysics .ForceServerSideMovement)).2.1
        (GripActor Sample.Server (Sample.Scene id) State.Initial (some 1)
          (Sample.Args .InteractiveCollisionWithPhysics .ForceServerSideMovement)).2.2 g true).1 = true ∧
      (∀ h ∈ (DropGrip Sample.Server (GripActor Sample.Server (Sample.Scene id) State.Initial (some 1)
          (Sample.Args .InteractiveCollisionWithPhysics .ForceServerSideMovement)).2.1
        (GripActor Sample.Server (Sample.Scene id) State.Initial (some 1)
          (Sample.Args .InteractiveCollisionWithPhysics .ForceServerSideMovement)).2.2 g true).2.2.PhysicsGrips,
        h.HandledObject ≠ some 1) ∧
      (∀ r ∈ (DropGrip Sample.Server (GripActor Sample.Server (Sample.Scene id) State.Initial (some 1)
          (Sample.Args .InteractiveCollisionWithPhysics .ForceServerSideMovement)).2.1
        (GripActor Sample.Server (Sample.Scene id) State.Initial (some 1)
          (Sample.Args .InteractiveCollisionWithPhysics .ForceServerSideMovement)).2.2 g true).2.2.Records,
        r.GrippedObject ≠ some 1) ∧
      ((DropGrip Sample.Server (GripActor Sample.Server (Sample.Scene id) State.Initial (some 1)
          (Sample.Args .InteractiveCollisionWithPhysics .ForceServerSideMovement)).2.1
        (GripActor Sample.Server (Sample.Scene id) State.Initial (some 1)
          (Sample.Args .InteractiveCollisionWithPhysics .ForceServerSideMovement)).2.2 g true).2.1.Objects 2).bGravityEnabled =
        ((Sample.Scene id).Objects 2).bGravityEnabled ∧
      ((DropGrip Sample.Server (GripActor Sample.Server (Sample.Scene id) State.Initial (some 1)
          (Sample.Args .InteractiveCollisionWithPhysics .ForceServerSideMovement)).2.1
        (GripActor Sample.Server (Sample.Scene id) State.Initial (some 1)
          (Sample.Args .InteractiveCollisionWithPhysics .ForceServerSideMovement)).2.2 g true).2.1.Objects 1).bReplicateMovement =
        ((Sample.Scene id).Objects 1).bReplicateMovement :=
  ⟨by decide, by decide,
    grip_then_drop_restores_target Sample.Server (Sample.Scene id) State.Initial 1 2
      (Sample.Args .InteractiveCollisionWithPhysics .ForceServerSideMovement)
      ⟨List.nodup_nil, fun _ h => h, fun _ h => nomatch h⟩ (fun _ => by decide) rfl rfl rfl
      (fun i h => by cases h) (by decide)
      (fun g hg => by cases hg; decide) (fun g hg => by cases hg; decide)⟩

end VRGrip
